import Mathlib

/-!
Verification of the version-comparison and multi-installer optimization core of
the `winget-types` library (Rust), against its natural-language specification.

Shallow embedding conventions:
* Pure Rust functions become Lean functions; all definitions are executable.
* `u64` arithmetic is modelled on `Nat`: the only place overflow can occur is
  `str::parse::<u64>`, which in Rust fails on overflow and is then defaulted to
  `0`; the model reproduces exactly that check.
* Rust `&str` ordering is byte-lexicographic on UTF-8, which coincides with
  lexicographic order on Unicode scalar values; it is modelled by `strCompare`
  on `String.data`.  `str::trim` and `char::is_whitespace` are modelled with
  `Char.isWhitespace` (they agree on ASCII input, which is all the claims use).
* `Vec<T>` and `BTreeSet<T>` become `List`; `Option<T>` becomes `Option`;
  fallible constructors return `Except`.
* Validated leaf value types that the optimize / merge / ordering algorithms
  only ever touch through `PartialEq`/`Ord`/`Default` (the spec excludes them
  as opaque external collaborators) are modelled by their comparison carriers:
  plain validated strings by `String`, `i64` newtypes by `Int`, `u8`/`u32`
  bitflags by `Nat` (empty = `0`), `chrono::NaiveDate` by `Int`.  Small enums
  that appear in the repository's own tests are kept as real enums.
-/

namespace Winget

/-- Bitwise complement of a 64-bit `usize` index, as computed by `!index` in
`Version::closest` (`length_score`).  Indices are always far below `2^64`. -/
def usizeNot (i : Nat) : Nat := 18446744073709551615 - i

/-- Model of `u64::abs_diff`. -/
def absDiff (a b : Nat) : Nat := if a ≤ b then b - a else a - b

/-- Model of `Ord::cmp` on unsigned integers. -/
def natCompare (a b : Nat) : Ordering :=
  if a < b then .lt else if a = b then .eq else .gt

/-- Rust's `Ordering` derives `Ord` with `Less < Equal < Greater`; this rank
realises that enum-ordinal order (Lean 4.14 core has no `Ord Ordering`). -/
def ordRank : Ordering → Nat
  | .lt => 0
  | .eq => 1
  | .gt => 2

/-- Lexicographic comparison of character lists; `charCompare`-by-`strCompare`
models Rust's byte-lexicographic `str::cmp` (equal to scalar-value order). -/
def listCharCompare : List Char → List Char → Ordering
  | [], [] => .eq
  | [], _ :: _ => .lt
  | _ :: _, [] => .gt
  | a :: as_, b :: bs => (natCompare a.toNat b.toNat).then (listCharCompare as_ bs)

/-- Model of `str::cmp`. -/
def strCompare (a b : String) : Ordering := listCharCompare a.data b.data

/-- ASCII lowercasing of one character (`u8::to_ascii_lowercase`). -/
def asciiLowerChar (c : Char) : Char :=
  if 'A' ≤ c ∧ c ≤ 'Z' then Char.ofNat (c.toNat + 32) else c

/-- Model of `str::eq_ignore_ascii_case`. -/
def eqIgnoreAsciiCase (a b : String) : Bool :=
  a.data.map asciiLowerChar == b.data.map asciiLowerChar

/-- Trim Unicode whitespace from both ends (`str::trim`). -/
def trimChars (cs : List Char) : List Char :=
  ((cs.dropWhile Char.isWhitespace).reverse.dropWhile Char.isWhitespace).reverse

/-! ## `VersionPart` (src/shared/version/part.rs) -/

/-- One dot-separated segment of a version: a numeric prefix and the trailing
non-numeric supplement. -/
structure VersionPart where
  number : Nat
  supplement : String
deriving DecidableEq

namespace VersionPart

/-- `VersionPart::DEFAULT`: number `0`, empty supplement. -/
def DEFAULT : VersionPart := ⟨0, ""⟩

/-- A part representing just `.0` (`VersionPart::is_droppable`). -/
def is_droppable (p : VersionPart) : Bool := p.number == 0 && p.supplement == ""

/-- Model of `number_str.parse::<u64>().unwrap_or_default()`: the digit string
parses to its value, except that the empty string and values above `u64::MAX`
fail to parse and default to `0`. -/
def parseU64OrZero (digits : List Char) : Nat :=
  let n := digits.foldl (fun acc c => 10 * acc + (c.toNat - 48)) 0
  if n < 18446744073709551616 then n else 0

/-- Model of `From<&str> for VersionPart`: trim the segment, split it at the
first non-ASCII-digit character, parse the prefix leniently. -/
def ofSegment (value : List Char) : VersionPart :=
  let part := trimChars value
  let supplement_start_index := (part.findIdx? (fun c => !c.isDigit)).getD part.length
  ⟨parseU64OrZero (part.take supplement_start_index), ⟨part.drop supplement_start_index⟩⟩

/-- Comparison of supplements inside `Ord for VersionPart`: two empties are
equal, an empty supplement is greater than any non-empty one, two non-empty
supplements compare as strings. -/
def suppCompare (s t : String) : Ordering :=
  if s = "" then (if t = "" then .eq else .gt)
  else if t = "" then .lt
  else strCompare s t

/-- Model of `Ord::cmp for VersionPart`: by `number`, then by supplement. -/
def cmp (a b : VersionPart) : Ordering :=
  (natCompare a.number b.number).then (suppCompare a.supplement b.supplement)

end VersionPart

/-! ## `Version` (src/shared/version/mod.rs) -/

/-- A parsed version: the (trimmed, prefix-stripped) raw string and the list of
parts with the trailing droppable parts removed. -/
structure Version where
  raw : String
  parts : List VersionPart
deriving DecidableEq

namespace Version

/-- Model of `Version::new`.  Trims whitespace; if some ASCII digit occurs and
either no `.` occurs or the first digit precedes the first `.`, strips all
leading characters before that digit; splits on `.` into `VersionPart`s; and
drops the maximal suffix of droppable parts (the `rposition`/`truncate` pair of
the source, written as a reversed `dropWhile`). -/
def new (input : String) : Version :=
  let trimmed := trimChars input.data
  let trimmed :=
    match trimmed.findIdx? Char.isDigit with
    | some digit_pos =>
      match trimmed.findIdx? (fun c => c == '.') with
      | some separator_pos => if digit_pos < separator_pos then trimmed.drop digit_pos else trimmed
      | none => trimmed.drop digit_pos
    | none => trimmed
  let parts := (trimmed.splitOn '.').map VersionPart.ofSegment
  let parts := (parts.reverse.dropWhile VersionPart.is_droppable).reverse
  ⟨⟨trimmed⟩, parts⟩

/-- Model of `Version::is_latest`. -/
def is_latest (self : Version) : Bool := eqIgnoreAsciiCase self.raw "latest"

/-- Model of `Version::is_unknown`. -/
def is_unknown (self : Version) : Bool := eqIgnoreAsciiCase self.raw "unknown"

/-- Model of `PartialEq for Version`: two latest sentinels are equal, two
unknown sentinels are equal, otherwise versions are equal iff their parts are. -/
def beq (self other : Version) : Bool :=
  (self.is_latest && other.is_latest) || (self.is_unknown && other.is_unknown)
    || self.parts == other.parts

/-- Comparison tail once the right list is exhausted: each remaining left part
is compared against `VersionPart::DEFAULT` (the `EitherOrBoth::Left` arm). -/
def cmpLeftOnly : List VersionPart → Ordering
  | [] => .eq
  | p :: ps => (VersionPart.cmp p VersionPart.DEFAULT).then (cmpLeftOnly ps)

/-- Comparison tail once the left list is exhausted (`EitherOrBoth::Right`). -/
def cmpRightOnly : List VersionPart → Ordering
  | [] => .eq
  | q :: qs => (VersionPart.cmp VersionPart.DEFAULT q).then (cmpRightOnly qs)

/-- The part-list comparison of `Ord for Version`: the two lists are zipped to
the longer length with missing positions padded by `VersionPart::DEFAULT`, and
the first non-`Equal` pointwise comparison decides (the source's
`zip_longest` / `find(!= Equal).unwrap_or(Equal)` written as an `Ordering.then`
chain, which short-circuits identically). -/
def cmpPartsPadded : List VersionPart → List VersionPart → Ordering
  | [], qs => cmpRightOnly qs
  | ps, [] => cmpLeftOnly ps
  | p :: ps, q :: qs => (VersionPart.cmp p q).then (cmpPartsPadded ps qs)

/-- Model of `Ord::cmp for Version`: `latest` beats everything but `latest`,
then `unknown` loses to everything but `unknown`, then parts decide. -/
def cmp (self other : Version) : Ordering :=
  match self.is_latest, other.is_latest with
  | true, true => .eq
  | true, false => .gt
  | false, true => .lt
  | false, false =>
    match self.is_unknown, other.is_unknown with
    | true, true => .eq
    | true, false => .lt
    | false, true => .gt
    | false, false => cmpPartsPadded self.parts other.parts

/-- Model of `PartialOrd::partial_cmp for Version`, which is `Some(cmp)`. -/
def partialCmp (self other : Version) : Option Ordering := some (cmp self other)

end Version

/-- The distance key of `Version::closest`, compared lexicographically with the
supplement component reversed. -/
structure DistanceKey where
  length_score : Nat
  numerical_difference : Nat
  total_order : Ordering
  supplement_order : String
deriving DecidableEq

/-- Lexicographic comparison of `DistanceKey`s as derived in the source:
`length_score`, then `numerical_difference`, then `total_order`
(`Less < Equal < Greater`), then `Reverse(supplement)` (arguments flipped). -/
def DistanceKey.keyCompare (a b : DistanceKey) : Ordering :=
  (natCompare a.length_score b.length_score).then
    ((natCompare a.numerical_difference b.numerical_difference).then
      ((natCompare (ordRank a.total_order) (ordRank b.total_order)).then
        (strCompare b.supplement_order a.supplement_order)))

namespace Version

/-- Scan tail of `findFirstDiff` once the candidate's parts are exhausted:
each remaining `self` part is paired with `VersionPart::DEFAULT`. -/
def findDiffLeft (index : Nat) : List VersionPart → Option (Nat × VersionPart × VersionPart)
  | [] => none
  | p :: ps =>
    if p ≠ VersionPart.DEFAULT then some (index, p, VersionPart.DEFAULT)
    else findDiffLeft (index + 1) ps

/-- Scan tail of `findFirstDiff` once `self`'s parts are exhausted. -/
def findDiffRight (index : Nat) : List VersionPart → Option (Nat × VersionPart × VersionPart)
  | [] => none
  | q :: qs =>
    if VersionPart.DEFAULT ≠ q then some (index, VersionPart.DEFAULT, q)
    else findDiffRight (index + 1) qs

/-- First differing part pair of the two padded part lists, with its index
(the source's `zip_longest`/`enumerate`/`find_map` over `part != other_part`). -/
def findFirstDiff (index : Nat) :
    List VersionPart → List VersionPart → Option (Nat × VersionPart × VersionPart)
  | [], qs => findDiffRight index qs
  | ps, [] => findDiffLeft index ps
  | p :: ps, q :: qs =>
    if p ≠ q then some (index, p, q) else findFirstDiff (index + 1) ps qs

/-- The distance of a candidate from `self` in `Version::closest`: built from
the first differing part pair, or the all-neutral key when no pair differs. -/
def distanceKey (self other : Version) : DistanceKey :=
  match findFirstDiff 0 self.parts other.parts with
  | some (index, part, other_part) =>
    { length_score := usizeNot index
      numerical_difference := absDiff part.number other_part.number
      total_order := VersionPart.cmp part other_part
      supplement_order := other_part.supplement }
  | none =>
    { length_score := 0, numerical_difference := 0, total_order := .eq, supplement_order := "" }

/-- Model of `Iterator::min_by_key`: the first element whose key is minimal
(a later element replaces the current minimum only when strictly smaller). -/
def minByKey (key : Version → DistanceKey) (versions : List Version) : Option Version :=
  versions.foldl
    (fun acc other =>
      match acc with
      | none => some other
      | some best => if (DistanceKey.keyCompare (key other) (key best)) = .lt then some other else acc)
    none

/-- Model of `Version::closest`. -/
def closest (self : Version) (versions : List Version) : Option Version :=
  minByKey (fun other => distanceKey self other) versions

end Version

/-! ## `PackageVersion` (src/shared/package_version.rs) -/

/-- The nine disallowed characters of `shared/mod.rs` (`DISALLOWED_CHARACTERS`). -/
def DISALLOWED_CHARACTERS : List Char := ['\\', '/', ':', '*', '?', '\"', '<', '>', '|']

/-- Model of `char::is_control`: Unicode general category `Cc`, i.e.
`U+0000..U+001F` and `U+007F..U+009F`. -/
def isControlChar (c : Char) : Bool := c.toNat < 0x20 || (0x7F ≤ c.toNat && c.toNat ≤ 0x9F)

/-- Decidable equality for `Except` results (absent from core), so concrete
runs of fallible constructors can be checked by `decide`. -/
instance {ε α : Type} [DecidableEq ε] [DecidableEq α] : DecidableEq (Except ε α) := fun a b =>
  match a, b with
  | .error e, .error f =>
    if h : e = f then isTrue (by rw [h]) else isFalse (by intro hc; cases hc; exact h rfl)
  | .error _, .ok _ => isFalse (by intro hc; cases hc)
  | .ok _, .error _ => isFalse (by intro hc; cases hc)
  | .ok x, .ok y =>
    if h : x = y then isTrue (by rw [h]) else isFalse (by intro hc; cases hc; exact h rfl)

/-- The error type of `PackageVersion::new`. -/
inductive PackageVersionError where
  | invalidCharacter : Char → PackageVersionError
  | empty : PackageVersionError
  | tooLong : PackageVersionError
deriving DecidableEq

/-- A validated wrapper around `Version`. -/
structure PackageVersion where
  inner : Version
deriving DecidableEq

namespace PackageVersion

/-- `PackageVersion::MAX_CHAR_LENGTH`. -/
def MAX_CHAR_LENGTH : Nat := 128

/-- The `try_fold` of `PackageVersion::new`: counts characters, short-circuiting
with `InvalidCharacter` at the first disallowed or control character. -/
def countValidChars (count : Nat) (chars : List Char) : Except PackageVersionError Nat :=
  chars.foldlM
    (fun char_count c =>
      if DISALLOWED_CHARACTERS.contains c || isControlChar c then
        Except.error (PackageVersionError.invalidCharacter c)
      else Except.ok (char_count + 1))
    count

/-- Model of `PackageVersion::new`: empty input fails with `Empty`; a
disallowed or control character fails with `InvalidCharacter`; more than 128
characters fail with `TooLong`; otherwise the input is wrapped as a `Version`. -/
def new (version : String) : Except PackageVersionError PackageVersion :=
  if version.isEmpty then Except.error PackageVersionError.empty
  else
    match countValidChars 0 version.data with
    | Except.error e => Except.error e
    | Except.ok char_count =>
      if char_count > MAX_CHAR_LENGTH then Except.error PackageVersionError.tooLong
      else Except.ok ⟨Version.new version⟩

end PackageVersion

end Winget

namespace Winget

/-! ## Leaf value types of the installer data model (src/installer/...)

Enums kept concrete (variant order = Rust declaration order, so derived
`Ord` agrees); the remaining validated leaf types are opaque to `optimize` /
`merge_with` (used only through equality, ordering and defaults) and are
modelled by their comparison carriers as stated in the header. -/

/-- Hardware architecture (src/installer/architecture.rs); Rust default is `Neutral`. -/
inductive Architecture where
  | x86 | x64 | arm | arm64 | neutral
deriving DecidableEq, Ord

/-- Install scope (src/installer/scope.rs). -/
inductive Scope where
  | user | machine
deriving DecidableEq, Ord

/-- Installer type (src/installer/installer_type.rs). -/
inductive InstallerType where
  | msix | msi | appx | exe | zip | inno | nullsoft | wix | burn | pwa | portable | font
deriving DecidableEq, Ord

/-- Nested installer type (src/installer/nested/installer_type.rs). -/
inductive NestedInstallerType where
  | msix | msi | appx | exe | inno | nullsoft | wix | burn | portable | font
deriving DecidableEq, Ord

/-- Upgrade behavior (src/installer/upgrade_behavior.rs). -/
inductive UpgradeBehavior where
  | install | uninstallPrevious | deny
deriving DecidableEq, Ord

/-- Repair behavior (src/installer/repair_behavior.rs). -/
inductive RepairBehavior where
  | modify | uninstaller | installer
deriving DecidableEq, Ord

/-- Elevation requirement (src/installer/elevation_requirement.rs). -/
inductive ElevationRequirement where
  | elevationRequired | elevationProhibited | elevatesSelf
deriving DecidableEq, Ord

/-- Manifest type (src/shared/manifest_type.rs); Rust default is `Installer`. -/
inductive ManifestType where
  | installer | defaultLocale | locale | version
deriving DecidableEq

/-- Validated BCP-47 tag wrapper (opaque carrier). -/
abbrev LanguageTag := String

/-- Four-part OS version (opaque carrier; it only ever appears inside `Option`). -/
abbrev MinimumOSVersion := String

/-- URL wrapper (opaque carrier); Rust default is `https://example.com` (a
fixed placeholder URL, normalised by the url crate with a trailing slash). -/
abbrev DecodedUrl := String

/-- SHA-256 hex string wrapper (opaque carrier); Rust default is 64 `'0'`s. -/
abbrev Sha256String := String

/-- Remaining validated wrappers and inner records the core never inspects
(see header): each is opaque and carried by `String`, `Int` or `Nat`. -/
abbrev PackageFamilyName := String

/-- Command alias wrapper (opaque carrier). -/
abbrev Command := String

/-- Protocol wrapper (opaque carrier). -/
abbrev Protocol := String

/-- File extension wrapper (opaque carrier). -/
abbrev FileExtension := String

/-- Capability wrapper (opaque carrier). -/
abbrev Capability := String

/-- Restricted capability wrapper (opaque carrier). -/
abbrev RestrictedCapability := String

/-- Nested installer files record (opaque carrier). -/
abbrev NestedInstallerFiles := String

/-- Package dependency record (opaque carrier). -/
abbrev PackageDependencies := String

/-- Allowed/excluded markets value (opaque carrier; appears inside `Option`). -/
abbrev Markets := String

/-- Apps-and-features (ARP) entry record (opaque carrier). -/
abbrev AppsAndFeaturesEntry := String

/-- Authentication record (opaque carrier; appears inside `Option`). -/
abbrev Authentication := String

/-- Metadata file record inside `InstallationMetadata` (opaque carrier). -/
abbrev MetadataFiles := String

/-- Installer success code, an `i64` newtype. -/
abbrev InstallerSuccessCode := Int

/-- Expected return code record (opaque carrier). -/
abbrev ExpectedReturnCodes := String

/-- Release date (`chrono::NaiveDate`, opaque carrier ordered like dates). -/
abbrev NaiveDate := Int

/-- Package identifier wrapper (opaque carrier). -/
abbrev PackageIdentifier := String

/-- Distribution channel wrapper (opaque carrier). -/
abbrev Channel := String

/-- Platform bitflags (`u32` bitset; default/empty is `0`). -/
abbrev Platform := Nat

/-- Install modes bitflags (`u8` bitset; default/empty is `0`). -/
abbrev InstallModes := Nat

/-- Unsupported OS architecture bitflags (default/empty is `0`). -/
abbrev UnsupportedOSArchitecture := Nat

/-- Unsupported arguments bitflags (`u8` bitset; default/empty is `0`). -/
abbrev UnsupportedArguments := Nat

/-- Installation metadata (src/installer/installation_metadata.rs): a default
install location and a set of metadata files; default is `(None, empty)`. -/
structure InstallationMetadata where
  default_install_location : Option String
  files : List MetadataFiles
deriving DecidableEq, Ord

/-- Dependency lists (src/installer/dependencies/mod.rs); default is four
empty sets. -/
structure Dependencies where
  windows_features : List String
  windows_libraries : List String
  package : List PackageDependencies
  external : List String
deriving DecidableEq, Ord

/-- Manifest syntax version (src/shared/manifest_version.rs), a `(u16,u16,u16)`
triple. -/
structure ManifestVersion where
  major : Nat
  minor : Nat
  patch : Nat
deriving DecidableEq

/-- `ManifestVersion::DEFAULT`, the library default `1.10.0`. -/
def ManifestVersion.DEFAULT : ManifestVersion := ⟨1, 10, 0⟩

/-! ## `InstallerSwitch` (src/installer/switches/switch.rs) and
`InstallerSwitches` (src/installer/switches/mod.rs) -/

/-- A switch value: the list of space/comma-delimited switch tokens held by
`InstallerSwitch<N>` (the per-switch character cap `N` only constrains the
fallible parser, which the core algorithms never call). -/
abbrev InstallerSwitch := List String

/-- Model of `InstallerSwitch::contains`: ASCII-case-insensitive membership. -/
def InstallerSwitch.containsCI (sw : InstallerSwitch) (other : String) : Bool :=
  sw.any (fun part => eqIgnoreAsciiCase part other)

/-- The switch-merging loop of `Installer::merge_with`: every part of
`other_switch` that is not yet contained (case-insensitively) in the growing
switch is pushed onto its end. -/
def InstallerSwitch.mergeAppend (switch other_switch : InstallerSwitch) : InstallerSwitch :=
  other_switch.foldl
    (fun switch part => if InstallerSwitch.containsCI switch part then switch else switch ++ [part])
    switch

/-- The set of switches passed to installers; every field defaults to `None`. -/
structure InstallerSwitches where
  silent : Option InstallerSwitch
  silent_with_progress : Option InstallerSwitch
  interactive : Option InstallerSwitch
  install_location : Option InstallerSwitch
  log : Option InstallerSwitch
  upgrade : Option InstallerSwitch
  custom : Option InstallerSwitch
  repair : Option InstallerSwitch
deriving DecidableEq, Ord

/-- `InstallerSwitches::DEFAULT` (all eight switches absent). -/
def InstallerSwitches.DEFAULT : InstallerSwitches :=
  ⟨none, none, none, none, none, none, none, none⟩

/-! ## `Installer` (src/installer/mod.rs), fields in declaration order. -/

/-- One concrete installer variant. -/
structure Installer where
  locale : Option LanguageTag
  platform : Platform
  minimum_os_version : Option MinimumOSVersion
  architecture : Architecture
  type : Option InstallerType
  nested_installer_type : Option NestedInstallerType
  nested_installer_files : List NestedInstallerFiles
  scope : Option Scope
  url : DecodedUrl
  sha_256 : Sha256String
  signature_sha_256 : Option Sha256String
  install_modes : InstallModes
  switches : InstallerSwitches
  success_codes : List InstallerSuccessCode
  expected_return_codes : List ExpectedReturnCodes
  upgrade_behavior : Option UpgradeBehavior
  commands : List Command
  protocols : List Protocol
  file_extensions : List FileExtension
  dependencies : Dependencies
  package_family_name : Option PackageFamilyName
  product_code : Option String
  capabilities : List Capability
  restricted_capabilities : List RestrictedCapability
  markets : Option Markets
  aborts_terminal : Bool
  release_date : Option NaiveDate
  install_location_required : Bool
  require_explicit_upgrade : Bool
  display_install_warnings : Bool
  unsupported_os_architectures : UnsupportedOSArchitecture
  unsupported_arguments : UnsupportedArguments
  apps_and_features_entries : List AppsAndFeaturesEntry
  elevation_requirement : Option ElevationRequirement
  installation_metadata : InstallationMetadata
  download_command_prohibited : Bool
  repair_behavior : Option RepairBehavior
  archive_binaries_depend_on_path : Bool
  authentication : Option Authentication
deriving DecidableEq, Ord

/-- Model of the derived `Default for Installer`: every field at its type's
default (architecture `Neutral`, the placeholder URL, the all-zero hash). -/
def Installer.defaultInstaller : Installer where
  locale := none
  platform := 0
  minimum_os_version := none
  architecture := .neutral
  type := none
  nested_installer_type := none
  nested_installer_files := []
  scope := none
  url := "https://example.com/"
  sha_256 := ⟨List.replicate 64 '0'⟩
  signature_sha_256 := none
  install_modes := 0
  switches := InstallerSwitches.DEFAULT
  success_codes := []
  expected_return_codes := []
  upgrade_behavior := none
  commands := []
  protocols := []
  file_extensions := []
  dependencies := ⟨[], [], [], []⟩
  package_family_name := none
  product_code := none
  capabilities := []
  restricted_capabilities := []
  markets := none
  aborts_terminal := false
  release_date := none
  install_location_required := false
  require_explicit_upgrade := false
  display_install_warnings := false
  unsupported_os_architectures := 0
  unsupported_arguments := 0
  apps_and_features_entries := []
  elevation_requirement := none
  installation_metadata := ⟨none, []⟩
  download_command_prohibited := false
  repair_behavior := none
  archive_binaries_depend_on_path := false
  authentication := none

/-! ## `Installer::merge_with` (src/installer/mod.rs, `merge_keys!`)

One step per field, in the macro's order: a non-switch field of `self` is
replaced by `other`'s value exactly when it equals its type's default; for
each of the eight switch fields, when both sides are present, the missing
parts of `other`'s switch are appended to `self`'s. -/

/-- Replace-if-default step for `locale`. -/
def merge_locale (self other : Installer) : Installer :=
  if self.locale = none then { self with locale := other.locale } else self

/-- Replace-if-default step for `platform`. -/
def merge_platform (self other : Installer) : Installer :=
  if self.platform = 0 then { self with platform := other.platform } else self

/-- Replace-if-default step for `minimum_os_version`. -/
def merge_minimum_os_version (self other : Installer) : Installer :=
  if self.minimum_os_version = none then
    { self with minimum_os_version := other.minimum_os_version } else self

/-- Replace-if-default step for `r#type`. -/
def merge_type (self other : Installer) : Installer :=
  if self.type = none then { self with type := other.type } else self

/-- Replace-if-default step for `nested_installer_type`. -/
def merge_nested_installer_type (self other : Installer) : Installer :=
  if self.nested_installer_type = none then
    { self with nested_installer_type := other.nested_installer_type } else self

/-- Replace-if-default step for `nested_installer_files`. -/
def merge_nested_installer_files (self other : Installer) : Installer :=
  if self.nested_installer_files = [] then
    { self with nested_installer_files := other.nested_installer_files } else self

/-- Replace-if-default step for `scope`. -/
def merge_scope (self other : Installer) : Installer :=
  if self.scope = none then { self with scope := other.scope } else self

/-- Replace-if-default step for `install_modes`. -/
def merge_install_modes (self other : Installer) : Installer :=
  if self.install_modes = 0 then { self with install_modes := other.install_modes } else self

/-- Replace-if-default step for `success_codes`. -/
def merge_success_codes (self other : Installer) : Installer :=
  if self.success_codes = [] then { self with success_codes := other.success_codes } else self

/-- Replace-if-default step for `expected_return_codes`. -/
def merge_expected_return_codes (self other : Installer) : Installer :=
  if self.expected_return_codes = [] then
    { self with expected_return_codes := other.expected_return_codes } else self

/-- Replace-if-default step for `upgrade_behavior`. -/
def merge_upgrade_behavior (self other : Installer) : Installer :=
  if self.upgrade_behavior = none then
    { self with upgrade_behavior := other.upgrade_behavior } else self

/-- Replace-if-default step for `commands`. -/
def merge_commands (self other : Installer) : Installer :=
  if self.commands = [] then { self with commands := other.commands } else self

/-- Replace-if-default step for `protocols`. -/
def merge_protocols (self other : Installer) : Installer :=
  if self.protocols = [] then { self with protocols := other.protocols } else self

/-- Replace-if-default step for `file_extensions`. -/
def merge_file_extensions (self other : Installer) : Installer :=
  if self.file_extensions = [] then
    { self with file_extensions := other.file_extensions } else self

/-- Replace-if-default step for `dependencies` (the whole record, unlike
`optimize`, which hoists its four collections separately). -/
def merge_dependencies (self other : Installer) : Installer :=
  if self.dependencies = ⟨[], [], [], []⟩ then
    { self with dependencies := other.dependencies } else self

/-- Replace-if-default step for `package_family_name`. -/
def merge_package_family_name (self other : Installer) : Installer :=
  if self.package_family_name = none then
    { self with package_family_name := other.package_family_name } else self

/-- Replace-if-default step for `product_code`. -/
def merge_product_code (self other : Installer) : Installer :=
  if self.product_code = none then { self with product_code := other.product_code } else self

/-- Replace-if-default step for `capabilities`. -/
def merge_capabilities (self other : Installer) : Installer :=
  if self.capabilities = [] then { self with capabilities := other.capabilities } else self

/-- Replace-if-default step for `restricted_capabilities`. -/
def merge_restricted_capabilities (self other : Installer) : Installer :=
  if self.restricted_capabilities = [] then
    { self with restricted_capabilities := other.restricted_capabilities } else self

/-- Replace-if-default step for `markets`. -/
def merge_markets (self other : Installer) : Installer :=
  if self.markets = none then { self with markets := other.markets } else self

/-- Replace-if-default step for `aborts_terminal`. -/
def merge_aborts_terminal (self other : Installer) : Installer :=
  if self.aborts_terminal = false then
    { self with aborts_terminal := other.aborts_terminal } else self

/-- Replace-if-default step for `release_date`. -/
def merge_release_date (self other : Installer) : Installer :=
  if self.release_date = none then { self with release_date := other.release_date } else self

/-- Replace-if-default step for `install_location_required`. -/
def merge_install_location_required (self other : Installer) : Installer :=
  if self.install_location_required = false then
    { self with install_location_required := other.install_location_required } else self

/-- Replace-if-default step for `require_explicit_upgrade`. -/
def merge_require_explicit_upgrade (self other : Installer) : Installer :=
  if self.require_explicit_upgrade = false then
    { self with require_explicit_upgrade := other.require_explicit_upgrade } else self

/-- Replace-if-default step for `display_install_warnings`. -/
def merge_display_install_warnings (self other : Installer) : Installer :=
  if self.display_install_warnings = false then
    { self with display_install_warnings := other.display_install_warnings } else self

/-- Replace-if-default step for `unsupported_os_architectures`. -/
def merge_unsupported_os_architectures (self other : Installer) : Installer :=
  if self.unsupported_os_architectures = 0 then
    { self with unsupported_os_architectures := other.unsupported_os_architectures } else self

/-- Replace-if-default step for `unsupported_arguments`. -/
def merge_unsupported_arguments (self other : Installer) : Installer :=
  if self.unsupported_arguments = 0 then
    { self with unsupported_arguments := other.unsupported_arguments } else self

/-- Replace-if-default step for `apps_and_features_entries`. -/
def merge_apps_and_features_entries (self other : Installer) : Installer :=
  if self.apps_and_features_entries = [] then
    { self with apps_and_features_entries := other.apps_and_features_entries } else self

/-- Replace-if-default step for `elevation_requirement`. -/
def merge_elevation_requirement (self other : Installer) : Installer :=
  if self.elevation_requirement = none then
    { self with elevation_requirement := other.elevation_requirement } else self

/-- Replace-if-default step for `installation_metadata`. -/
def merge_installation_metadata (self other : Installer) : Installer :=
  if self.installation_metadata = ⟨none, []⟩ then
    { self with installation_metadata := other.installation_metadata } else self

/-- Replace-if-default step for `download_command_prohibited`. -/
def merge_download_command_prohibited (self other : Installer) : Installer :=
  if self.download_command_prohibited = false then
    { self with download_command_prohibited := other.download_command_prohibited } else self

/-- Replace-if-default step for `repair_behavior`. -/
def merge_repair_behavior (self other : Installer) : Installer :=
  if self.repair_behavior = none then
    { self with repair_behavior := other.repair_behavior } else self

/-- Replace-if-default step for `archive_binaries_depend_on_path`. -/
def merge_archive_binaries_depend_on_path (self other : Installer) : Installer :=
  if self.archive_binaries_depend_on_path = false then
    { self with archive_binaries_depend_on_path := other.archive_binaries_depend_on_path }
  else self

/-- Append step for the `silent` switch: fires only when both sides are `Some`. -/
def merge_switch_silent (self other : Installer) : Installer :=
  match self.switches.silent, other.switches.silent with
  | some switch, some other_switch =>
    { self with switches.silent := some (InstallerSwitch.mergeAppend switch other_switch) }
  | _, _ => self

/-- Append step for the `silent_with_progress` switch. -/
def merge_switch_silent_with_progress (self other : Installer) : Installer :=
  match self.switches.silent_with_progress, other.switches.silent_with_progress with
  | some switch, some other_switch =>
    { self with
      switches.silent_with_progress := some (InstallerSwitch.mergeAppend switch other_switch) }
  | _, _ => self

/-- Append step for the `interactive` switch. -/
def merge_switch_interactive (self other : Installer) : Installer :=
  match self.switches.interactive, other.switches.interactive with
  | some switch, some other_switch =>
    { self with switches.interactive := some (InstallerSwitch.mergeAppend switch other_switch) }
  | _, _ => self

/-- Append step for the `install_location` switch. -/
def merge_switch_install_location (self other : Installer) : Installer :=
  match self.switches.install_location, other.switches.install_location with
  | some switch, some other_switch =>
    { self with
      switches.install_location := some (InstallerSwitch.mergeAppend switch other_switch) }
  | _, _ => self

/-- Append step for the `log` switch. -/
def merge_switch_log (self other : Installer) : Installer :=
  match self.switches.log, other.switches.log with
  | some switch, some other_switch =>
    { self with switches.log := some (InstallerSwitch.mergeAppend switch other_switch) }
  | _, _ => self

/-- Append step for the `upgrade` switch. -/
def merge_switch_upgrade (self other : Installer) : Installer :=
  match self.switches.upgrade, other.switches.upgrade with
  | some switch, some other_switch =>
    { self with switches.upgrade := some (InstallerSwitch.mergeAppend switch other_switch) }
  | _, _ => self

/-- Append step for the `custom` switch. -/
def merge_switch_custom (self other : Installer) : Installer :=
  match self.switches.custom, other.switches.custom with
  | some switch, some other_switch =>
    { self with switches.custom := some (InstallerSwitch.mergeAppend switch other_switch) }
  | _, _ => self

/-- Append step for the `repair` switch. -/
def merge_switch_repair (self other : Installer) : Installer :=
  match self.switches.repair, other.switches.repair with
  | some switch, some other_switch =>
    { self with switches.repair := some (InstallerSwitch.mergeAppend switch other_switch) }
  | _, _ => self

/-- Model of `Installer::merge_with`: the `merge_keys!` expansion, i.e. every
replace-if-default step for the enumerated non-switch fields in order, then
the eight switch append steps. -/
def Installer.merge_with (self other : Installer) : Installer :=
  let self := merge_locale self other
  let self := merge_platform self other
  let self := merge_minimum_os_version self other
  let self := merge_type self other
  let self := merge_nested_installer_type self other
  let self := merge_nested_installer_files self other
  let self := merge_scope self other
  let self := merge_install_modes self other
  let self := merge_success_codes self other
  let self := merge_expected_return_codes self other
  let self := merge_upgrade_behavior self other
  let self := merge_commands self other
  let self := merge_protocols self other
  let self := merge_file_extensions self other
  let self := merge_dependencies self other
  let self := merge_package_family_name self other
  let self := merge_product_code self other
  let self := merge_capabilities self other
  let self := merge_restricted_capabilities self other
  let self := merge_markets self other
  let self := merge_aborts_terminal self other
  let self := merge_release_date self other
  let self := merge_install_location_required self other
  let self := merge_require_explicit_upgrade self other
  let self := merge_display_install_warnings self other
  let self := merge_unsupported_os_architectures self other
  let self := merge_unsupported_arguments self other
  let self := merge_apps_and_features_entries self other
  let self := merge_elevation_requirement self other
  let self := merge_installation_metadata self other
  let self := merge_download_command_prohibited self other
  let self := merge_repair_behavior self other
  let self := merge_archive_binaries_depend_on_path self other
  let self := merge_switch_silent self other
  let self := merge_switch_silent_with_progress self other
  let self := merge_switch_interactive self other
  let self := merge_switch_install_location self other
  let self := merge_switch_log self other
  let self := merge_switch_upgrade self other
  let self := merge_switch_custom self other
  let self := merge_switch_repair self other
  self

/-! ## `InstallerManifest` (src/installer/mod.rs), fields in declaration order. -/

/-- The full installer manifest: package identity, manifest-wide defaults for
every field that can also appear per-installer, and the installer list. -/
structure InstallerManifest where
  package_identifier : PackageIdentifier
  package_version : PackageVersion
  channel : Option Channel
  locale : Option LanguageTag
  platform : Platform
  minimum_os_version : Option MinimumOSVersion
  type : Option InstallerType
  nested_installer_type : Option NestedInstallerType
  nested_installer_files : List NestedInstallerFiles
  scope : Option Scope
  install_modes : InstallModes
  switches : InstallerSwitches
  success_codes : List InstallerSuccessCode
  expected_return_codes : List ExpectedReturnCodes
  upgrade_behavior : Option UpgradeBehavior
  commands : List Command
  protocols : List Protocol
  file_extensions : List FileExtension
  dependencies : Dependencies
  package_family_name : Option PackageFamilyName
  product_code : Option String
  capabilities : List Capability
  restricted_capabilities : List RestrictedCapability
  markets : Option Markets
  aborts_terminal : Bool
  release_date : Option NaiveDate
  install_location_required : Bool
  require_explicit_upgrade : Bool
  display_install_warnings : Bool
  unsupported_os_architectures : UnsupportedOSArchitecture
  unsupported_arguments : UnsupportedArguments
  apps_and_features_entries : List AppsAndFeaturesEntry
  elevation_requirement : Option ElevationRequirement
  installation_metadata : InstallationMetadata
  download_command_prohibited : Bool
  repair_behavior : Option RepairBehavior
  archive_binaries_depend_on_path : Bool
  authentication : Option Authentication
  installers : List Installer
  manifest_type : ManifestType
  manifest_version : ManifestVersion
deriving DecidableEq

/-- Model of the derived `Default for InstallerManifest`. -/
def InstallerManifest.defaultManifest : InstallerManifest where
  package_identifier := ""
  package_version := ⟨⟨"", []⟩⟩
  channel := none
  locale := none
  platform := 0
  minimum_os_version := none
  type := none
  nested_installer_type := none
  nested_installer_files := []
  scope := none
  install_modes := 0
  switches := InstallerSwitches.DEFAULT
  success_codes := []
  expected_return_codes := []
  upgrade_behavior := none
  commands := []
  protocols := []
  file_extensions := []
  dependencies := ⟨[], [], [], []⟩
  package_family_name := none
  product_code := none
  capabilities := []
  restricted_capabilities := []
  markets := none
  aborts_terminal := false
  release_date := none
  install_location_required := false
  require_explicit_upgrade := false
  display_install_warnings := false
  unsupported_os_architectures := 0
  unsupported_arguments := 0
  apps_and_features_entries := []
  elevation_requirement := none
  installation_metadata := ⟨none, []⟩
  download_command_prohibited := false
  repair_behavior := none
  archive_binaries_depend_on_path := false
  authentication := none
  installers := []
  manifest_type := .installer
  manifest_version := ManifestVersion.DEFAULT

/-! ## `InstallerManifest::optimize` (src/installer/mod.rs, `optimize_keys!`) -/

/-- Model of itertools' `all_equal_value` as used by `optimize_keys!`: `some`
of the first element when the list is non-empty and every element equals it
(the `Ok` case); `none` for the empty list or a first unequal pair (the two
`Err` cases, whose payloads `optimize` never inspects). -/
def allEqualValue {α : Type} [DecidableEq α] : List α → Option α
  | [] => none
  | x :: xs => if xs.all (fun y => y = x) then some x else none

/-- Rust's `Vec::dedup` tail: keep an element unless it equals the previously
kept one. -/
def dedupAdjacentGo {α : Type} [DecidableEq α] : α → List α → List α
  | _, [] => []
  | prev, x :: xs => if x = prev then dedupAdjacentGo prev xs else x :: dedupAdjacentGo x xs

/-- Model of `Vec::dedup`: remove consecutive duplicates, keeping the first
element of each run. -/
def dedupAdjacent {α : Type} [DecidableEq α] : List α → List α
  | [] => []
  | a :: rest => a :: dedupAdjacentGo a rest

/-- The ascending order used by `sort_unstable`: `compare` (the derived
lexicographic `Ord` over the fields in declaration order) is not `Greater`. -/
def Installer.leOrd (a b : Installer) : Prop := compare a b ≠ Ordering.gt

instance : DecidableRel Installer.leOrd := fun a b =>
  inferInstanceAs (Decidable (compare a b ≠ Ordering.gt))

/-! One `optimize_keys!` iteration per optimized field, in the macro's order:
if every installer holds the same value for the field, hoist it to the
manifest and reset each installer's copy to the type default; otherwise reset
the manifest-level field to the type default. -/

/-- Hoist-or-reset step for `locale`. -/
def opt_locale (m : InstallerManifest) : InstallerManifest :=
  match allEqualValue (m.installers.map (·.locale)) with
  | some v =>
    { m with locale := v,
             installers := m.installers.map (fun i => { i with locale := none }) }
  | none => { m with locale := none }

/-- Hoist-or-reset step for `platform`. -/
def opt_platform (m : InstallerManifest) : InstallerManifest :=
  match allEqualValue (m.installers.map (·.platform)) with
  | some v =>
    { m with platform := v,
             installers := m.installers.map (fun i => { i with platform := 0 }) }
  | none => { m with platform := 0 }

/-- Hoist-or-reset step for `minimum_os_version`. -/
def opt_minimum_os_version (m : InstallerManifest) : InstallerManifest :=
  match allEqualValue (m.installers.map (·.minimum_os_version)) with
  | some v =>
    { m with minimum_os_version := v,
             installers := m.installers.map (fun i => { i with minimum_os_version := none }) }
  | none => { m with minimum_os_version := none }

/-- Hoist-or-reset step for `type`. -/
def opt_type (m : InstallerManifest) : InstallerManifest :=
  match allEqualValue (m.installers.map (·.type)) with
  | some v =>
    { m with type := v,
             installers := m.installers.map (fun i => { i with type := none }) }
  | none => { m with type := none }

/-- Hoist-or-reset step for `nested_installer_type`. -/
def opt_nested_installer_type (m : InstallerManifest) : InstallerManifest :=
  match allEqualValue (m.installers.map (·.nested_installer_type)) with
  | some v =>
    { m with nested_installer_type := v,
             installers := m.installers.map (fun i => { i with nested_installer_type := none }) }
  | none => { m with nested_installer_type := none }

/-- Hoist-or-reset step for `nested_installer_files`. -/
def opt_nested_installer_files (m : InstallerManifest) : InstallerManifest :=
  match allEqualValue (m.installers.map (·.nested_installer_files)) with
  | some v =>
    { m with nested_installer_files := v,
             installers := m.installers.map (fun i => { i with nested_installer_files := [] }) }
  | none => { m with nested_installer_files := [] }

/-- Hoist-or-reset step for `scope`. -/
def opt_scope (m : InstallerManifest) : InstallerManifest :=
  match allEqualValue (m.installers.map (·.scope)) with
  | some v =>
    { m with scope := v,
             installers := m.installers.map (fun i => { i with scope := none }) }
  | none => { m with scope := none }

/-- Hoist-or-reset step for `install_modes`. -/
def opt_install_modes (m : InstallerManifest) : InstallerManifest :=
  match allEqualValue (m.installers.map (·.install_modes)) with
  | some v =>
    { m with install_modes := v,
             installers := m.installers.map (fun i => { i with install_modes := 0 }) }
  | none => { m with install_modes := 0 }

/-- Hoist-or-reset step for `switches.silent`. -/
def opt_switches_silent (m : InstallerManifest) : InstallerManifest :=
  match allEqualValue (m.installers.map (·.switches.silent)) with
  | some v =>
    { m with switches.silent := v,
             installers := m.installers.map (fun i => { i with switches.silent := none }) }
  | none => { m with switches.silent := none }

/-- Hoist-or-reset step for `switches.silent_with_progress`. -/
def opt_switches_silent_with_progress (m : InstallerManifest) : InstallerManifest :=
  match allEqualValue (m.installers.map (·.switches.silent_with_progress)) with
  | some v =>
    { m with switches.silent_with_progress := v,
             installers := m.installers.map (fun i => { i with switches.silent_with_progress := none }) }
  | none => { m with switches.silent_with_progress := none }

/-- Hoist-or-reset step for `switches.interactive`. -/
def opt_switches_interactive (m : InstallerManifest) : InstallerManifest :=
  match allEqualValue (m.installers.map (·.switches.interactive)) with
  | some v =>
    { m with switches.interactive := v,
             installers := m.installers.map (fun i => { i with switches.interactive := none }) }
  | none => { m with switches.interactive := none }

/-- Hoist-or-reset step for `switches.install_location`. -/
def opt_switches_install_location (m : InstallerManifest) : InstallerManifest :=
  match allEqualValue (m.installers.map (·.switches.install_location)) with
  | some v =>
    { m with switches.install_location := v,
             installers := m.installers.map (fun i => { i with switches.install_location := none }) }
  | none => { m with switches.install_location := none }

/-- Hoist-or-reset step for `switches.log`. -/
def opt_switches_log (m : InstallerManifest) : InstallerManifest :=
  match allEqualValue (m.installers.map (·.switches.log)) with
  | some v =>
    { m with switches.log := v,
             installers := m.installers.map (fun i => { i with switches.log := none }) }
  | none => { m with switches.log := none }

/-- Hoist-or-reset step for `switches.upgrade`. -/
def opt_switches_upgrade (m : InstallerManifest) : InstallerManifest :=
  match allEqualValue (m.installers.map (·.switches.upgrade)) with
  | some v =>
    { m with switches.upgrade := v,
             installers := m.installers.map (fun i => { i with switches.upgrade := none }) }
  | none => { m with switches.upgrade := none }

/-- Hoist-or-reset step for `switches.repair`. -/
def opt_switches_repair (m : InstallerManifest) : InstallerManifest :=
  match allEqualValue (m.installers.map (·.switches.repair)) with
  | some v =>
    { m with switches.repair := v,
             installers := m.installers.map (fun i => { i with switches.repair := none }) }
  | none => { m with switches.repair := none }

/-- Hoist-or-reset step for `success_codes`. -/
def opt_success_codes (m : InstallerManifest) : InstallerManifest :=
  match allEqualValue (m.installers.map (·.success_codes)) with
  | some v =>
    { m with success_codes := v,
             installers := m.installers.map (fun i => { i with success_codes := [] }) }
  | none => { m with success_codes := [] }

/-- Hoist-or-reset step for `expected_return_codes`. -/
def opt_expected_return_codes (m : InstallerManifest) : InstallerManifest :=
  match allEqualValue (m.installers.map (·.expected_return_codes)) with
  | some v =>
    { m with expected_return_codes := v,
             installers := m.installers.map (fun i => { i with expected_return_codes := [] }) }
  | none => { m with expected_return_codes := [] }

/-- Hoist-or-reset step for `upgrade_behavior`. -/
def opt_upgrade_behavior (m : InstallerManifest) : InstallerManifest :=
  match allEqualValue (m.installers.map (·.upgrade_behavior)) with
  | some v =>
    { m with upgrade_behavior := v,
             installers := m.installers.map (fun i => { i with upgrade_behavior := none }) }
  | none => { m with upgrade_behavior := none }

/-- Hoist-or-reset step for `commands`. -/
def opt_commands (m : InstallerManifest) : InstallerManifest :=
  match allEqualValue (m.installers.map (·.commands)) with
  | some v =>
    { m with commands := v,
             installers := m.installers.map (fun i => { i with commands := [] }) }
  | none => { m with commands := [] }

/-- Hoist-or-reset step for `protocols`. -/
def opt_protocols (m : InstallerManifest) : InstallerManifest :=
  match allEqualValue (m.installers.map (·.protocols)) with
  | some v =>
    { m with protocols := v,
             installers := m.installers.map (fun i => { i with protocols := [] }) }
  | none => { m with protocols := [] }

/-- Hoist-or-reset step for `file_extensions`. -/
def opt_file_extensions (m : InstallerManifest) : InstallerManifest :=
  match allEqualValue (m.installers.map (·.file_extensions)) with
  | some v =>
    { m with file_extensions := v,
             installers := m.installers.map (fun i => { i with file_extensions := [] }) }
  | none => { m with file_extensions := [] }

/-- Hoist-or-reset step for `dependencies.windows_features`. -/
def opt_dependencies_windows_features (m : InstallerManifest) : InstallerManifest :=
  match allEqualValue (m.installers.map (·.dependencies.windows_features)) with
  | some v =>
    { m with dependencies.windows_features := v,
             installers := m.installers.map (fun i => { i with dependencies.windows_features := [] }) }
  | none => { m with dependencies.windows_features := [] }

/-- Hoist-or-reset step for `dependencies.windows_libraries`. -/
def opt_dependencies_windows_libraries (m : InstallerManifest) : InstallerManifest :=
  match allEqualValue (m.installers.map (·.dependencies.windows_libraries)) with
  | some v =>
    { m with dependencies.windows_libraries := v,
             installers := m.installers.map (fun i => { i with dependencies.windows_libraries := [] }) }
  | none => { m with dependencies.windows_libraries := [] }

/-- Hoist-or-reset step for `dependencies.package`. -/
def opt_dependencies_package (m : InstallerManifest) : InstallerManifest :=
  match allEqualValue (m.installers.map (·.dependencies.package)) with
  | some v =>
    { m with dependencies.package := v,
             installers := m.installers.map (fun i => { i with dependencies.package := [] }) }
  | none => { m with dependencies.package := [] }

/-- Hoist-or-reset step for `dependencies.external`. -/
def opt_dependencies_external (m : InstallerManifest) : InstallerManifest :=
  match allEqualValue (m.installers.map (·.dependencies.external)) with
  | some v =>
    { m with dependencies.external := v,
             installers := m.installers.map (fun i => { i with dependencies.external := [] }) }
  | none => { m with dependencies.external := [] }

/-- Hoist-or-reset step for `package_family_name`. -/
def opt_package_family_name (m : InstallerManifest) : InstallerManifest :=
  match allEqualValue (m.installers.map (·.package_family_name)) with
  | some v =>
    { m with package_family_name := v,
             installers := m.installers.map (fun i => { i with package_family_name := none }) }
  | none => { m with package_family_name := none }

/-- Hoist-or-reset step for `product_code`. -/
def opt_product_code (m : InstallerManifest) : InstallerManifest :=
  match allEqualValue (m.installers.map (·.product_code)) with
  | some v =>
    { m with product_code := v,
             installers := m.installers.map (fun i => { i with product_code := none }) }
  | none => { m with product_code := none }

/-- Hoist-or-reset step for `capabilities`. -/
def opt_capabilities (m : InstallerManifest) : InstallerManifest :=
  match allEqualValue (m.installers.map (·.capabilities)) with
  | some v =>
    { m with capabilities := v,
             installers := m.installers.map (fun i => { i with capabilities := [] }) }
  | none => { m with capabilities := [] }

/-- Hoist-or-reset step for `restricted_capabilities`. -/
def opt_restricted_capabilities (m : InstallerManifest) : InstallerManifest :=
  match allEqualValue (m.installers.map (·.restricted_capabilities)) with
  | some v =>
    { m with restricted_capabilities := v,
             installers := m.installers.map (fun i => { i with restricted_capabilities := [] }) }
  | none => { m with restricted_capabilities := [] }

/-- Hoist-or-reset step for `markets`. -/
def opt_markets (m : InstallerManifest) : InstallerManifest :=
  match allEqualValue (m.installers.map (·.markets)) with
  | some v =>
    { m with markets := v,
             installers := m.installers.map (fun i => { i with markets := none }) }
  | none => { m with markets := none }

/-- Hoist-or-reset step for `aborts_terminal`. -/
def opt_aborts_terminal (m : InstallerManifest) : InstallerManifest :=
  match allEqualValue (m.installers.map (·.aborts_terminal)) with
  | some v =>
    { m with aborts_terminal := v,
             installers := m.installers.map (fun i => { i with aborts_terminal := false }) }
  | none => { m with aborts_terminal := false }

/-- Hoist-or-reset step for `release_date`. -/
def opt_release_date (m : InstallerManifest) : InstallerManifest :=
  match allEqualValue (m.installers.map (·.release_date)) with
  | some v =>
    { m with release_date := v,
             installers := m.installers.map (fun i => { i with release_date := none }) }
  | none => { m with release_date := none }

/-- Hoist-or-reset step for `install_location_required`. -/
def opt_install_location_required (m : InstallerManifest) : InstallerManifest :=
  match allEqualValue (m.installers.map (·.install_location_required)) with
  | some v =>
    { m with install_location_required := v,
             installers := m.installers.map (fun i => { i with install_location_required := false }) }
  | none => { m with install_location_required := false }

/-- Hoist-or-reset step for `require_explicit_upgrade`. -/
def opt_require_explicit_upgrade (m : InstallerManifest) : InstallerManifest :=
  match allEqualValue (m.installers.map (·.require_explicit_upgrade)) with
  | some v =>
    { m with require_explicit_upgrade := v,
             installers := m.installers.map (fun i => { i with require_explicit_upgrade := false }) }
  | none => { m with require_explicit_upgrade := false }

/-- Hoist-or-reset step for `display_install_warnings`. -/
def opt_display_install_warnings (m : InstallerManifest) : InstallerManifest :=
  match allEqualValue (m.installers.map (·.display_install_warnings)) with
  | some v =>
    { m with display_install_warnings := v,
             installers := m.installers.map (fun i => { i with display_install_warnings := false }) }
  | none => { m with display_install_warnings := false }

/-- Hoist-or-reset step for `unsupported_os_architectures`. -/
def opt_unsupported_os_architectures (m : InstallerManifest) : InstallerManifest :=
  match allEqualValue (m.installers.map (·.unsupported_os_architectures)) with
  | some v =>
    { m with unsupported_os_architectures := v,
             installers := m.installers.map (fun i => { i with unsupported_os_architectures := 0 }) }
  | none => { m with unsupported_os_architectures := 0 }

/-- Hoist-or-reset step for `unsupported_arguments`. -/
def opt_unsupported_arguments (m : InstallerManifest) : InstallerManifest :=
  match allEqualValue (m.installers.map (·.unsupported_arguments)) with
  | some v =>
    { m with unsupported_arguments := v,
             installers := m.installers.map (fun i => { i with unsupported_arguments := 0 }) }
  | none => { m with unsupported_arguments := 0 }

/-- Hoist-or-reset step for `apps_and_features_entries`. -/
def opt_apps_and_features_entries (m : InstallerManifest) : InstallerManifest :=
  match allEqualValue (m.installers.map (·.apps_and_features_entries)) with
  | some v =>
    { m with apps_and_features_entries := v,
             installers := m.installers.map (fun i => { i with apps_and_features_entries := [] }) }
  | none => { m with apps_and_features_entries := [] }

/-- Hoist-or-reset step for `elevation_requirement`. -/
def opt_elevation_requirement (m : InstallerManifest) : InstallerManifest :=
  match allEqualValue (m.installers.map (·.elevation_requirement)) with
  | some v =>
    { m with elevation_requirement := v,
             installers := m.installers.map (fun i => { i with elevation_requirement := none }) }
  | none => { m with elevation_requirement := none }

/-- Hoist-or-reset step for `installation_metadata`. -/
def opt_installation_metadata (m : InstallerManifest) : InstallerManifest :=
  match allEqualValue (m.installers.map (·.installation_metadata)) with
  | some v =>
    { m with installation_metadata := v,
             installers := m.installers.map (fun i => { i with installation_metadata := (⟨none, []⟩ : InstallationMetadata) }) }
  | none => { m with installation_metadata := (⟨none, []⟩ : InstallationMetadata) }

/-- Hoist-or-reset step for `download_command_prohibited`. -/
def opt_download_command_prohibited (m : InstallerManifest) : InstallerManifest :=
  match allEqualValue (m.installers.map (·.download_command_prohibited)) with
  | some v =>
    { m with download_command_prohibited := v,
             installers := m.installers.map (fun i => { i with download_command_prohibited := false }) }
  | none => { m with download_command_prohibited := false }

/-- Hoist-or-reset step for `repair_behavior`. -/
def opt_repair_behavior (m : InstallerManifest) : InstallerManifest :=
  match allEqualValue (m.installers.map (·.repair_behavior)) with
  | some v =>
    { m with repair_behavior := v,
             installers := m.installers.map (fun i => { i with repair_behavior := none }) }
  | none => { m with repair_behavior := none }

/-- Hoist-or-reset step for `archive_binaries_depend_on_path`. -/
def opt_archive_binaries_depend_on_path (m : InstallerManifest) : InstallerManifest :=
  match allEqualValue (m.installers.map (·.archive_binaries_depend_on_path)) with
  | some v =>
    { m with archive_binaries_depend_on_path := v,
             installers := m.installers.map (fun i => { i with archive_binaries_depend_on_path := false }) }
  | none => { m with archive_binaries_depend_on_path := false }

/-- The field pass of `InstallerManifest::optimize`: every hoist-or-reset step,
in the macro's order. -/
def InstallerManifest.optimizeFields (m : InstallerManifest) : InstallerManifest :=
  let m := opt_locale m
  let m := opt_platform m
  let m := opt_minimum_os_version m
  let m := opt_type m
  let m := opt_nested_installer_type m
  let m := opt_nested_installer_files m
  let m := opt_scope m
  let m := opt_install_modes m
  let m := opt_switches_silent m
  let m := opt_switches_silent_with_progress m
  let m := opt_switches_interactive m
  let m := opt_switches_install_location m
  let m := opt_switches_log m
  let m := opt_switches_upgrade m
  let m := opt_switches_repair m
  let m := opt_success_codes m
  let m := opt_expected_return_codes m
  let m := opt_upgrade_behavior m
  let m := opt_commands m
  let m := opt_protocols m
  let m := opt_file_extensions m
  let m := opt_dependencies_windows_features m
  let m := opt_dependencies_windows_libraries m
  let m := opt_dependencies_package m
  let m := opt_dependencies_external m
  let m := opt_package_family_name m
  let m := opt_product_code m
  let m := opt_capabilities m
  let m := opt_restricted_capabilities m
  let m := opt_markets m
  let m := opt_aborts_terminal m
  let m := opt_release_date m
  let m := opt_install_location_required m
  let m := opt_require_explicit_upgrade m
  let m := opt_display_install_warnings m
  let m := opt_unsupported_os_architectures m
  let m := opt_unsupported_arguments m
  let m := opt_apps_and_features_entries m
  let m := opt_elevation_requirement m
  let m := opt_installation_metadata m
  let m := opt_download_command_prohibited m
  let m := opt_repair_behavior m
  let m := opt_archive_binaries_depend_on_path m
  m

/-- Model of `InstallerManifest::optimize`: run every hoist-or-reset step,
reset `manifest_version` to the library default, then sort the installer list
(`sort_unstable` by the derived `Ord`, modelled by insertion sort into the
same total order) and remove consecutive duplicates (`Vec::dedup`). -/
def InstallerManifest.optimize (self : InstallerManifest) : InstallerManifest :=
  let m := self.optimizeFields
  { m with manifest_version := ManifestVersion.DEFAULT
           installers := dedupAdjacent (m.installers.insertionSort Installer.leOrd) }

/-! ## Claim-shaped definitions and concrete inputs -/

/-- The merged value of one switch field as `merge_with` leaves it: an append
of the missing parts when both sides are present, `self`'s value otherwise. -/
def mergedSwitchValue : Option InstallerSwitch → Option InstallerSwitch → Option InstallerSwitch
  | some switch, some other_switch => some (InstallerSwitch.mergeAppend switch other_switch)
  | s, _ => s

/-- The tail the switch merge appends, phrased as the amended claim reads: the
elements of `other`'s switch, in order, that are not yet contained
(ASCII-case-insensitively) in the switch accumulated so far — `self`'s
elements together with the elements already appended. -/
def appendedTail (acc : List String) : List String → List String
  | [] => []
  | part :: parts =>
    if InstallerSwitch.containsCI acc part then appendedTail acc parts
    else part :: appendedTail (acc ++ [part]) parts

/-- Every element of the list equals `v` and the list is non-empty — the
spec's "all installers have a pairwise-equal value" (which fails on the empty
list). -/
def AllEqualTo {α : Type} (l : List α) (v : α) : Prop := l ≠ [] ∧ ∀ x ∈ l, x = v

/-- The spec's invariant for one optimized field of one manifest, over the
value lists the field induces: `origVals` are the installers' values before
`optimize`, `mVal` the manifest-level value after `optimize`, `finalVals` the
installers' values after `optimize` (sorted and deduplicated), and `passVals`
the installers' values after the hoist pass alone (exposing that each
installer keeps its value positionally in the non-hoisted case). -/
def OptimizedFieldSpec {α : Type} (dflt : α) (origVals : List α) (mVal : α)
    (finalVals passVals : List α) : Prop :=
  (∀ v, AllEqualTo origVals v → mVal = v ∧ ∀ x ∈ finalVals, x = dflt)
    ∧ ((¬ ∃ v, AllEqualTo origVals v) → mVal = dflt ∧ passVals = origVals)

/-- A manifest with a single installer carrying a non-default locale: the
smallest input on which a second `optimize` differs from the first. -/
def hoistedLocaleManifest : InstallerManifest :=
  { InstallerManifest.defaultManifest with
    installers := [ { Installer.defaultInstaller with locale := some "en-US" } ] }

/-- A manifest with no installers but non-default manifest-level optimized
fields, exercising the empty-installer-list branch of `optimize`. -/
def emptyInstallersManifest : InstallerManifest :=
  { InstallerManifest.defaultManifest with
    locale := some "en-US"
    scope := some .machine
    installers := [] }

/-- Merge input whose `silent` switch holds `/S`. -/
def mergeCexSelf : Installer :=
  { Installer.defaultInstaller with
    switches := { InstallerSwitches.DEFAULT with silent := some ["/S"] } }

/-- Merge input whose `silent` switch holds `/a` twice modulo ASCII case. -/
def mergeCexOther : Installer :=
  { Installer.defaultInstaller with
    switches := { InstallerSwitches.DEFAULT with silent := some ["/a", "/A"] } }

/-- Merge input with every switch present, for exercising all eight append
rules at once. -/
def mergeAllSwitchesSelf : Installer :=
  { Installer.defaultInstaller with
    switches :=
      ⟨some ["/s1"], some ["/p1"], some ["/i1"], some ["/d1"],
       some ["/l1"], some ["/u1"], some ["/c1"], some ["/r1"]⟩ }

/-- Second merge input with every switch present. -/
def mergeAllSwitchesOther : Installer :=
  { Installer.defaultInstaller with
    switches :=
      ⟨some ["/s2"], some ["/p2"], some ["/i2"], some ["/d2"],
       some ["/l2"], some ["/u2"], some ["/c2"], some ["/r2"]⟩ }

/-! Named prefixes of the hoist pass and the installer lists they produce,
with the hoist conditions already expressed over the original installer
values (the collapse is proved below, not assumed). -/

/-- Installer list before any hoist step. -/
def instAfter00 (m : InstallerManifest) : List Installer := m.installers

/-- Installer list after the first 1 hoist steps. -/
def instAfter01 (m : InstallerManifest) : List Installer :=
  if (allEqualValue (m.installers.map (·.locale))).isSome
  then (instAfter00 m).map (fun i => { i with locale := none })
  else instAfter00 m

/-- Installer list after the first 2 hoist steps. -/
def instAfter02 (m : InstallerManifest) : List Installer :=
  if (allEqualValue (m.installers.map (·.platform))).isSome
  then (instAfter01 m).map (fun i => { i with platform := 0 })
  else instAfter01 m

/-- Installer list after the first 3 hoist steps. -/
def instAfter03 (m : InstallerManifest) : List Installer :=
  if (allEqualValue (m.installers.map (·.minimum_os_version))).isSome
  then (instAfter02 m).map (fun i => { i with minimum_os_version := none })
  else instAfter02 m

/-- Installer list after the first 4 hoist steps. -/
def instAfter04 (m : InstallerManifest) : List Installer :=
  if (allEqualValue (m.installers.map (·.type))).isSome
  then (instAfter03 m).map (fun i => { i with type := none })
  else instAfter03 m

/-- Installer list after the first 5 hoist steps. -/
def instAfter05 (m : InstallerManifest) : List Installer :=
  if (allEqualValue (m.installers.map (·.nested_installer_type))).isSome
  then (instAfter04 m).map (fun i => { i with nested_installer_type := none })
  else instAfter04 m

/-- Installer list after the first 6 hoist steps. -/
def instAfter06 (m : InstallerManifest) : List Installer :=
  if (allEqualValue (m.installers.map (·.nested_installer_files))).isSome
  then (instAfter05 m).map (fun i => { i with nested_installer_files := [] })
  else instAfter05 m

/-- Installer list after the first 7 hoist steps. -/
def instAfter07 (m : InstallerManifest) : List Installer :=
  if (allEqualValue (m.installers.map (·.scope))).isSome
  then (instAfter06 m).map (fun i => { i with scope := none })
  else instAfter06 m

/-- Installer list after the first 8 hoist steps. -/
def instAfter08 (m : InstallerManifest) : List Installer :=
  if (allEqualValue (m.installers.map (·.install_modes))).isSome
  then (instAfter07 m).map (fun i => { i with install_modes := 0 })
  else instAfter07 m

/-- Installer list after the first 9 hoist steps. -/
def instAfter09 (m : InstallerManifest) : List Installer :=
  if (allEqualValue (m.installers.map (·.switches.silent))).isSome
  then (instAfter08 m).map (fun i => { i with switches.silent := none })
  else instAfter08 m

/-- Installer list after the first 10 hoist steps. -/
def instAfter10 (m : InstallerManifest) : List Installer :=
  if (allEqualValue (m.installers.map (·.switches.silent_with_progress))).isSome
  then (instAfter09 m).map (fun i => { i with switches.silent_with_progress := none })
  else instAfter09 m

/-- Installer list after the first 11 hoist steps. -/
def instAfter11 (m : InstallerManifest) : List Installer :=
  if (allEqualValue (m.installers.map (·.switches.interactive))).isSome
  then (instAfter10 m).map (fun i => { i with switches.interactive := none })
  else instAfter10 m

/-- Installer list after the first 12 hoist steps. -/
def instAfter12 (m : InstallerManifest) : List Installer :=
  if (allEqualValue (m.installers.map (·.switches.install_location))).isSome
  then (instAfter11 m).map (fun i => { i with switches.install_location := none })
  else instAfter11 m

/-- Installer list after the first 13 hoist steps. -/
def instAfter13 (m : InstallerManifest) : List Installer :=
  if (allEqualValue (m.installers.map (·.switches.log))).isSome
  then (instAfter12 m).map (fun i => { i with switches.log := none })
  else instAfter12 m

/-- Installer list after the first 14 hoist steps. -/
def instAfter14 (m : InstallerManifest) : List Installer :=
  if (allEqualValue (m.installers.map (·.switches.upgrade))).isSome
  then (instAfter13 m).map (fun i => { i with switches.upgrade := none })
  else instAfter13 m

/-- Installer list after the first 15 hoist steps. -/
def instAfter15 (m : InstallerManifest) : List Installer :=
  if (allEqualValue (m.installers.map (·.switches.repair))).isSome
  then (instAfter14 m).map (fun i => { i with switches.repair := none })
  else instAfter14 m

/-- Installer list after the first 16 hoist steps. -/
def instAfter16 (m : InstallerManifest) : List Installer :=
  if (allEqualValue (m.installers.map (·.success_codes))).isSome
  then (instAfter15 m).map (fun i => { i with success_codes := [] })
  else instAfter15 m

/-- Installer list after the first 17 hoist steps. -/
def instAfter17 (m : InstallerManifest) : List Installer :=
  if (allEqualValue (m.installers.map (·.expected_return_codes))).isSome
  then (instAfter16 m).map (fun i => { i with expected_return_codes := [] })
  else instAfter16 m

/-- Installer list after the first 18 hoist steps. -/
def instAfter18 (m : InstallerManifest) : List Installer :=
  if (allEqualValue (m.installers.map (·.upgrade_behavior))).isSome
  then (instAfter17 m).map (fun i => { i with upgrade_behavior := none })
  else instAfter17 m

/-- Installer list after the first 19 hoist steps. -/
def instAfter19 (m : InstallerManifest) : List Installer :=
  if (allEqualValue (m.installers.map (·.commands))).isSome
  then (instAfter18 m).map (fun i => { i with commands := [] })
  else instAfter18 m

/-- Installer list after the first 20 hoist steps. -/
def instAfter20 (m : InstallerManifest) : List Installer :=
  if (allEqualValue (m.installers.map (·.protocols))).isSome
  then (instAfter19 m).map (fun i => { i with protocols := [] })
  else instAfter19 m

/-- Installer list after the first 21 hoist steps. -/
def instAfter21 (m : InstallerManifest) : List Installer :=
  if (allEqualValue (m.installers.map (·.file_extensions))).isSome
  then (instAfter20 m).map (fun i => { i with file_extensions := [] })
  else instAfter20 m

/-- Installer list after the first 22 hoist steps. -/
def instAfter22 (m : InstallerManifest) : List Installer :=
  if (allEqualValue (m.installers.map (·.dependencies.windows_features))).isSome
  then (instAfter21 m).map (fun i => { i with dependencies.windows_features := [] })
  else instAfter21 m

/-- Installer list after the first 23 hoist steps. -/
def instAfter23 (m : InstallerManifest) : List Installer :=
  if (allEqualValue (m.installers.map (·.dependencies.windows_libraries))).isSome
  then (instAfter22 m).map (fun i => { i with dependencies.windows_libraries := [] })
  else instAfter22 m

/-- Installer list after the first 24 hoist steps. -/
def instAfter24 (m : InstallerManifest) : List Installer :=
  if (allEqualValue (m.installers.map (·.dependencies.package))).isSome
  then (instAfter23 m).map (fun i => { i with dependencies.package := [] })
  else instAfter23 m

/-- Installer list after the first 25 hoist steps. -/
def instAfter25 (m : InstallerManifest) : List Installer :=
  if (allEqualValue (m.installers.map (·.dependencies.external))).isSome
  then (instAfter24 m).map (fun i => { i with dependencies.external := [] })
  else instAfter24 m

/-- Installer list after the first 26 hoist steps. -/
def instAfter26 (m : InstallerManifest) : List Installer :=
  if (allEqualValue (m.installers.map (·.package_family_name))).isSome
  then (instAfter25 m).map (fun i => { i with package_family_name := none })
  else instAfter25 m

/-- Installer list after the first 27 hoist steps. -/
def instAfter27 (m : InstallerManifest) : List Installer :=
  if (allEqualValue (m.installers.map (·.product_code))).isSome
  then (instAfter26 m).map (fun i => { i with product_code := none })
  else instAfter26 m

/-- Installer list after the first 28 hoist steps. -/
def instAfter28 (m : InstallerManifest) : List Installer :=
  if (allEqualValue (m.installers.map (·.capabilities))).isSome
  then (instAfter27 m).map (fun i => { i with capabilities := [] })
  else instAfter27 m

/-- Installer list after the first 29 hoist steps. -/
def instAfter29 (m : InstallerManifest) : List Installer :=
  if (allEqualValue (m.installers.map (·.restricted_capabilities))).isSome
  then (instAfter28 m).map (fun i => { i with restricted_capabilities := [] })
  else instAfter28 m

/-- Installer list after the first 30 hoist steps. -/
def instAfter30 (m : InstallerManifest) : List Installer :=
  if (allEqualValue (m.installers.map (·.markets))).isSome
  then (instAfter29 m).map (fun i => { i with markets := none })
  else instAfter29 m

/-- Installer list after the first 31 hoist steps. -/
def instAfter31 (m : InstallerManifest) : List Installer :=
  if (allEqualValue (m.installers.map (·.aborts_terminal))).isSome
  then (instAfter30 m).map (fun i => { i with aborts_terminal := false })
  else instAfter30 m

/-- Installer list after the first 32 hoist steps. -/
def instAfter32 (m : InstallerManifest) : List Installer :=
  if (allEqualValue (m.installers.map (·.release_date))).isSome
  then (instAfter31 m).map (fun i => { i with release_date := none })
  else instAfter31 m

/-- Installer list after the first 33 hoist steps. -/
def instAfter33 (m : InstallerManifest) : List Installer :=
  if (allEqualValue (m.installers.map (·.install_location_required))).isSome
  then (instAfter32 m).map (fun i => { i with install_location_required := false })
  else instAfter32 m

/-- Installer list after the first 34 hoist steps. -/
def instAfter34 (m : InstallerManifest) : List Installer :=
  if (allEqualValue (m.installers.map (·.require_explicit_upgrade))).isSome
  then (instAfter33 m).map (fun i => { i with require_explicit_upgrade := false })
  else instAfter33 m

/-- Installer list after the first 35 hoist steps. -/
def instAfter35 (m : InstallerManifest) : List Installer :=
  if (allEqualValue (m.installers.map (·.display_install_warnings))).isSome
  then (instAfter34 m).map (fun i => { i with display_install_warnings := false })
  else instAfter34 m

/-- Installer list after the first 36 hoist steps. -/
def instAfter36 (m : InstallerManifest) : List Installer :=
  if (allEqualValue (m.installers.map (·.unsupported_os_architectures))).isSome
  then (instAfter35 m).map (fun i => { i with unsupported_os_architectures := 0 })
  else instAfter35 m

/-- Installer list after the first 37 hoist steps. -/
def instAfter37 (m : InstallerManifest) : List Installer :=
  if (allEqualValue (m.installers.map (·.unsupported_arguments))).isSome
  then (instAfter36 m).map (fun i => { i with unsupported_arguments := 0 })
  else instAfter36 m

/-- Installer list after the first 38 hoist steps. -/
def instAfter38 (m : InstallerManifest) : List Installer :=
  if (allEqualValue (m.installers.map (·.apps_and_features_entries))).isSome
  then (instAfter37 m).map (fun i => { i with apps_and_features_entries := [] })
  else instAfter37 m

/-- Installer list after the first 39 hoist steps. -/
def instAfter39 (m : InstallerManifest) : List Installer :=
  if (allEqualValue (m.installers.map (·.elevation_requirement))).isSome
  then (instAfter38 m).map (fun i => { i with elevation_requirement := none })
  else instAfter38 m

/-- Installer list after the first 40 hoist steps. -/
def instAfter40 (m : InstallerManifest) : List Installer :=
  if (allEqualValue (m.installers.map (·.installation_metadata))).isSome
  then (instAfter39 m).map (fun i => { i with installation_metadata := (⟨none, []⟩ : InstallationMetadata) })
  else instAfter39 m

/-- Installer list after the first 41 hoist steps. -/
def instAfter41 (m : InstallerManifest) : List Installer :=
  if (allEqualValue (m.installers.map (·.download_command_prohibited))).isSome
  then (instAfter40 m).map (fun i => { i with download_command_prohibited := false })
  else instAfter40 m

/-- Installer list after the first 42 hoist steps. -/
def instAfter42 (m : InstallerManifest) : List Installer :=
  if (allEqualValue (m.installers.map (·.repair_behavior))).isSome
  then (instAfter41 m).map (fun i => { i with repair_behavior := none })
  else instAfter41 m

/-- Installer list after the first 43 hoist steps. -/
def instAfter43 (m : InstallerManifest) : List Installer :=
  if (allEqualValue (m.installers.map (·.archive_binaries_depend_on_path))).isSome
  then (instAfter42 m).map (fun i => { i with archive_binaries_depend_on_path := false })
  else instAfter42 m

/-- The hoist pass truncated after step 1 (`locale`). -/
def passUpTo01 (m : InstallerManifest) : InstallerManifest := opt_locale (m)

/-- The hoist pass truncated after step 2 (`platform`). -/
def passUpTo02 (m : InstallerManifest) : InstallerManifest := opt_platform (passUpTo01 m)

/-- The hoist pass truncated after step 3 (`minimum_os_version`). -/
def passUpTo03 (m : InstallerManifest) : InstallerManifest := opt_minimum_os_version (passUpTo02 m)

/-- The hoist pass truncated after step 4 (`type`). -/
def passUpTo04 (m : InstallerManifest) : InstallerManifest := opt_type (passUpTo03 m)

/-- The hoist pass truncated after step 5 (`nested_installer_type`). -/
def passUpTo05 (m : InstallerManifest) : InstallerManifest := opt_nested_installer_type (passUpTo04 m)

/-- The hoist pass truncated after step 6 (`nested_installer_files`). -/
def passUpTo06 (m : InstallerManifest) : InstallerManifest := opt_nested_installer_files (passUpTo05 m)

/-- The hoist pass truncated after step 7 (`scope`). -/
def passUpTo07 (m : InstallerManifest) : InstallerManifest := opt_scope (passUpTo06 m)

/-- The hoist pass truncated after step 8 (`install_modes`). -/
def passUpTo08 (m : InstallerManifest) : InstallerManifest := opt_install_modes (passUpTo07 m)

/-- The hoist pass truncated after step 9 (`switches.silent`). -/
def passUpTo09 (m : InstallerManifest) : InstallerManifest := opt_switches_silent (passUpTo08 m)

/-- The hoist pass truncated after step 10 (`switches.silent_with_progress`). -/
def passUpTo10 (m : InstallerManifest) : InstallerManifest := opt_switches_silent_with_progress (passUpTo09 m)

/-- The hoist pass truncated after step 11 (`switches.interactive`). -/
def passUpTo11 (m : InstallerManifest) : InstallerManifest := opt_switches_interactive (passUpTo10 m)

/-- The hoist pass truncated after step 12 (`switches.install_location`). -/
def passUpTo12 (m : InstallerManifest) : InstallerManifest := opt_switches_install_location (passUpTo11 m)

/-- The hoist pass truncated after step 13 (`switches.log`). -/
def passUpTo13 (m : InstallerManifest) : InstallerManifest := opt_switches_log (passUpTo12 m)

/-- The hoist pass truncated after step 14 (`switches.upgrade`). -/
def passUpTo14 (m : InstallerManifest) : InstallerManifest := opt_switches_upgrade (passUpTo13 m)

/-- The hoist pass truncated after step 15 (`switches.repair`). -/
def passUpTo15 (m : InstallerManifest) : InstallerManifest := opt_switches_repair (passUpTo14 m)

/-- The hoist pass truncated after step 16 (`success_codes`). -/
def passUpTo16 (m : InstallerManifest) : InstallerManifest := opt_success_codes (passUpTo15 m)

/-- The hoist pass truncated after step 17 (`expected_return_codes`). -/
def passUpTo17 (m : InstallerManifest) : InstallerManifest := opt_expected_return_codes (passUpTo16 m)

/-- The hoist pass truncated after step 18 (`upgrade_behavior`). -/
def passUpTo18 (m : InstallerManifest) : InstallerManifest := opt_upgrade_behavior (passUpTo17 m)

/-- The hoist pass truncated after step 19 (`commands`). -/
def passUpTo19 (m : InstallerManifest) : InstallerManifest := opt_commands (passUpTo18 m)

/-- The hoist pass truncated after step 20 (`protocols`). -/
def passUpTo20 (m : InstallerManifest) : InstallerManifest := opt_protocols (passUpTo19 m)

/-- The hoist pass truncated after step 21 (`file_extensions`). -/
def passUpTo21 (m : InstallerManifest) : InstallerManifest := opt_file_extensions (passUpTo20 m)

/-- The hoist pass truncated after step 22 (`dependencies.windows_features`). -/
def passUpTo22 (m : InstallerManifest) : InstallerManifest := opt_dependencies_windows_features (passUpTo21 m)

/-- The hoist pass truncated after step 23 (`dependencies.windows_libraries`). -/
def passUpTo23 (m : InstallerManifest) : InstallerManifest := opt_dependencies_windows_libraries (passUpTo22 m)

/-- The hoist pass truncated after step 24 (`dependencies.package`). -/
def passUpTo24 (m : InstallerManifest) : InstallerManifest := opt_dependencies_package (passUpTo23 m)

/-- The hoist pass truncated after step 25 (`dependencies.external`). -/
def passUpTo25 (m : InstallerManifest) : InstallerManifest := opt_dependencies_external (passUpTo24 m)

/-- The hoist pass truncated after step 26 (`package_family_name`). -/
def passUpTo26 (m : InstallerManifest) : InstallerManifest := opt_package_family_name (passUpTo25 m)

/-- The hoist pass truncated after step 27 (`product_code`). -/
def passUpTo27 (m : InstallerManifest) : InstallerManifest := opt_product_code (passUpTo26 m)

/-- The hoist pass truncated after step 28 (`capabilities`). -/
def passUpTo28 (m : InstallerManifest) : InstallerManifest := opt_capabilities (passUpTo27 m)

/-- The hoist pass truncated after step 29 (`restricted_capabilities`). -/
def passUpTo29 (m : InstallerManifest) : InstallerManifest := opt_restricted_capabilities (passUpTo28 m)

/-- The hoist pass truncated after step 30 (`markets`). -/
def passUpTo30 (m : InstallerManifest) : InstallerManifest := opt_markets (passUpTo29 m)

/-- The hoist pass truncated after step 31 (`aborts_terminal`). -/
def passUpTo31 (m : InstallerManifest) : InstallerManifest := opt_aborts_terminal (passUpTo30 m)

/-- The hoist pass truncated after step 32 (`release_date`). -/
def passUpTo32 (m : InstallerManifest) : InstallerManifest := opt_release_date (passUpTo31 m)

/-- The hoist pass truncated after step 33 (`install_location_required`). -/
def passUpTo33 (m : InstallerManifest) : InstallerManifest := opt_install_location_required (passUpTo32 m)

/-- The hoist pass truncated after step 34 (`require_explicit_upgrade`). -/
def passUpTo34 (m : InstallerManifest) : InstallerManifest := opt_require_explicit_upgrade (passUpTo33 m)

/-- The hoist pass truncated after step 35 (`display_install_warnings`). -/
def passUpTo35 (m : InstallerManifest) : InstallerManifest := opt_display_install_warnings (passUpTo34 m)

/-- The hoist pass truncated after step 36 (`unsupported_os_architectures`). -/
def passUpTo36 (m : InstallerManifest) : InstallerManifest := opt_unsupported_os_architectures (passUpTo35 m)

/-- The hoist pass truncated after step 37 (`unsupported_arguments`). -/
def passUpTo37 (m : InstallerManifest) : InstallerManifest := opt_unsupported_arguments (passUpTo36 m)

/-- The hoist pass truncated after step 38 (`apps_and_features_entries`). -/
def passUpTo38 (m : InstallerManifest) : InstallerManifest := opt_apps_and_features_entries (passUpTo37 m)

/-- The hoist pass truncated after step 39 (`elevation_requirement`). -/
def passUpTo39 (m : InstallerManifest) : InstallerManifest := opt_elevation_requirement (passUpTo38 m)

/-- The hoist pass truncated after step 40 (`installation_metadata`). -/
def passUpTo40 (m : InstallerManifest) : InstallerManifest := opt_installation_metadata (passUpTo39 m)

/-- The hoist pass truncated after step 41 (`download_command_prohibited`). -/
def passUpTo41 (m : InstallerManifest) : InstallerManifest := opt_download_command_prohibited (passUpTo40 m)

/-- The hoist pass truncated after step 42 (`repair_behavior`). -/
def passUpTo42 (m : InstallerManifest) : InstallerManifest := opt_repair_behavior (passUpTo41 m)

/-- The hoist pass truncated after step 43 (`archive_binaries_depend_on_path`). -/
def passUpTo43 (m : InstallerManifest) : InstallerManifest := opt_archive_binaries_depend_on_path (passUpTo42 m)


/-! Named prefixes of the `merge_with` field chain. -/

/-- The merge chain truncated after step 1 (`locale`). -/
def mergeUpTo01 (self other : Installer) : Installer := merge_locale (self) other

/-- The merge chain truncated after step 2 (`platform`). -/
def mergeUpTo02 (self other : Installer) : Installer := merge_platform (mergeUpTo01 self other) other

/-- The merge chain truncated after step 3 (`minimum_os_version`). -/
def mergeUpTo03 (self other : Installer) : Installer := merge_minimum_os_version (mergeUpTo02 self other) other

/-- The merge chain truncated after step 4 (`type`). -/
def mergeUpTo04 (self other : Installer) : Installer := merge_type (mergeUpTo03 self other) other

/-- The merge chain truncated after step 5 (`nested_installer_type`). -/
def mergeUpTo05 (self other : Installer) : Installer := merge_nested_installer_type (mergeUpTo04 self other) other

/-- The merge chain truncated after step 6 (`nested_installer_files`). -/
def mergeUpTo06 (self other : Installer) : Installer := merge_nested_installer_files (mergeUpTo05 self other) other

/-- The merge chain truncated after step 7 (`scope`). -/
def mergeUpTo07 (self other : Installer) : Installer := merge_scope (mergeUpTo06 self other) other

/-- The merge chain truncated after step 8 (`install_modes`). -/
def mergeUpTo08 (self other : Installer) : Installer := merge_install_modes (mergeUpTo07 self other) other

/-- The merge chain truncated after step 9 (`success_codes`). -/
def mergeUpTo09 (self other : Installer) : Installer := merge_success_codes (mergeUpTo08 self other) other

/-- The merge chain truncated after step 10 (`expected_return_codes`). -/
def mergeUpTo10 (self other : Installer) : Installer := merge_expected_return_codes (mergeUpTo09 self other) other

/-- The merge chain truncated after step 11 (`upgrade_behavior`). -/
def mergeUpTo11 (self other : Installer) : Installer := merge_upgrade_behavior (mergeUpTo10 self other) other

/-- The merge chain truncated after step 12 (`commands`). -/
def mergeUpTo12 (self other : Installer) : Installer := merge_commands (mergeUpTo11 self other) other

/-- The merge chain truncated after step 13 (`protocols`). -/
def mergeUpTo13 (self other : Installer) : Installer := merge_protocols (mergeUpTo12 self other) other

/-- The merge chain truncated after step 14 (`file_extensions`). -/
def mergeUpTo14 (self other : Installer) : Installer := merge_file_extensions (mergeUpTo13 self other) other

/-- The merge chain truncated after step 15 (`dependencies`). -/
def mergeUpTo15 (self other : Installer) : Installer := merge_dependencies (mergeUpTo14 self other) other

/-- The merge chain truncated after step 16 (`package_family_name`). -/
def mergeUpTo16 (self other : Installer) : Installer := merge_package_family_name (mergeUpTo15 self other) other

/-- The merge chain truncated after step 17 (`product_code`). -/
def mergeUpTo17 (self other : Installer) : Installer := merge_product_code (mergeUpTo16 self other) other

/-- The merge chain truncated after step 18 (`capabilities`). -/
def mergeUpTo18 (self other : Installer) : Installer := merge_capabilities (mergeUpTo17 self other) other

/-- The merge chain truncated after step 19 (`restricted_capabilities`). -/
def mergeUpTo19 (self other : Installer) : Installer := merge_restricted_capabilities (mergeUpTo18 self other) other

/-- The merge chain truncated after step 20 (`markets`). -/
def mergeUpTo20 (self other : Installer) : Installer := merge_markets (mergeUpTo19 self other) other

/-- The merge chain truncated after step 21 (`aborts_terminal`). -/
def mergeUpTo21 (self other : Installer) : Installer := merge_aborts_terminal (mergeUpTo20 self other) other

/-- The merge chain truncated after step 22 (`release_date`). -/
def mergeUpTo22 (self other : Installer) : Installer := merge_release_date (mergeUpTo21 self other) other

/-- The merge chain truncated after step 23 (`install_location_required`). -/
def mergeUpTo23 (self other : Installer) : Installer := merge_install_location_required (mergeUpTo22 self other) other

/-- The merge chain truncated after step 24 (`require_explicit_upgrade`). -/
def mergeUpTo24 (self other : Installer) : Installer := merge_require_explicit_upgrade (mergeUpTo23 self other) other

/-- The merge chain truncated after step 25 (`display_install_warnings`). -/
def mergeUpTo25 (self other : Installer) : Installer := merge_display_install_warnings (mergeUpTo24 self other) other

/-- The merge chain truncated after step 26 (`unsupported_os_architectures`). -/
def mergeUpTo26 (self other : Installer) : Installer := merge_unsupported_os_architectures (mergeUpTo25 self other) other

/-- The merge chain truncated after step 27 (`unsupported_arguments`). -/
def mergeUpTo27 (self other : Installer) : Installer := merge_unsupported_arguments (mergeUpTo26 self other) other

/-- The merge chain truncated after step 28 (`apps_and_features_entries`). -/
def mergeUpTo28 (self other : Installer) : Installer := merge_apps_and_features_entries (mergeUpTo27 self other) other

/-- The merge chain truncated after step 29 (`elevation_requirement`). -/
def mergeUpTo29 (self other : Installer) : Installer := merge_elevation_requirement (mergeUpTo28 self other) other

/-- The merge chain truncated after step 30 (`installation_metadata`). -/
def mergeUpTo30 (self other : Installer) : Installer := merge_installation_metadata (mergeUpTo29 self other) other

/-- The merge chain truncated after step 31 (`download_command_prohibited`). -/
def mergeUpTo31 (self other : Installer) : Installer := merge_download_command_prohibited (mergeUpTo30 self other) other

/-- The merge chain truncated after step 32 (`repair_behavior`). -/
def mergeUpTo32 (self other : Installer) : Installer := merge_repair_behavior (mergeUpTo31 self other) other

/-- The merge chain truncated after step 33 (`archive_binaries_depend_on_path`). -/
def mergeUpTo33 (self other : Installer) : Installer := merge_archive_binaries_depend_on_path (mergeUpTo32 self other) other

/-- The merge chain truncated after step 34 (`switches.silent`). -/
def mergeUpTo34 (self other : Installer) : Installer := merge_switch_silent (mergeUpTo33 self other) other

/-- The merge chain truncated after step 35 (`switches.silent_with_progress`). -/
def mergeUpTo35 (self other : Installer) : Installer := merge_switch_silent_with_progress (mergeUpTo34 self other) other

/-- The merge chain truncated after step 36 (`switches.interactive`). -/
def mergeUpTo36 (self other : Installer) : Installer := merge_switch_interactive (mergeUpTo35 self other) other

/-- The merge chain truncated after step 37 (`switches.install_location`). -/
def mergeUpTo37 (self other : Installer) : Installer := merge_switch_install_location (mergeUpTo36 self other) other

/-- The merge chain truncated after step 38 (`switches.log`). -/
def mergeUpTo38 (self other : Installer) : Installer := merge_switch_log (mergeUpTo37 self other) other

/-- The merge chain truncated after step 39 (`switches.upgrade`). -/
def mergeUpTo39 (self other : Installer) : Installer := merge_switch_upgrade (mergeUpTo38 self other) other

/-- The merge chain truncated after step 40 (`switches.custom`). -/
def mergeUpTo40 (self other : Installer) : Installer := merge_switch_custom (mergeUpTo39 self other) other

/-- The merge chain truncated after step 41 (`switches.repair`). -/
def mergeUpTo41 (self other : Installer) : Installer := merge_switch_repair (mergeUpTo40 self other) other


/-! # Theorems

Generic helper lemmas, then per-step normal forms, then the claims. -/

/-- Push `List.map` through an `if` on lists. -/
@[simp] theorem list_map_ite {α β : Type} (f : α → β) (c : Prop) [Decidable c]
    (l1 l2 : List α) :
    List.map f (if c then l1 else l2) = if c then List.map f l1 else List.map f l2 := by
  split <;> rfl

/-- `Ordering.then` after `eq` is the second comparison. -/
@[simp] theorem eq_then_ord (p : Ordering) : Ordering.eq.then p = p := rfl

/-- `Ordering.then` after `lt` stays `lt`. -/
@[simp] theorem lt_then_ord (p : Ordering) : Ordering.lt.then p = .lt := rfl

/-- `Ordering.then` after `gt` stays `gt`. -/
@[simp] theorem gt_then_ord (p : Ordering) : Ordering.gt.then p = .gt := rfl

/-- `natCompare` on equal arguments. -/
@[simp] theorem natCompare_self (n : Nat) : natCompare n n = .eq := by
  simp [natCompare]

/-- `allEqualValue` succeeds with `v` exactly when the list is non-empty and
every element equals `v`. -/
theorem allEqualValue_some_iff {α : Type} [DecidableEq α] (l : List α) (v : α) :
    allEqualValue l = some v ↔ AllEqualTo l v := by
  cases l with
  | nil => simp [allEqualValue, AllEqualTo]
  | cons x xs =>
    simp only [allEqualValue]
    constructor
    · intro h
      split at h
      case isTrue hall =>
        injection h with h
        subst h
        simp only [List.all_eq_true, decide_eq_true_eq] at hall
        refine ⟨by simp, ?_⟩
        intro y hy
        rcases List.mem_cons.mp hy with hy | hy
        · exact hy
        · exact hall y hy
      case isFalse => exact absurd h (by simp)
    · rintro ⟨-, hv⟩
      have hx : x = v := hv x (by simp)
      have hall : xs.all (fun y => y = x) = true := by
        simp only [List.all_eq_true, decide_eq_true_eq]
        intro y hy
        rw [hv y (List.mem_cons_of_mem x hy), hx]
      rw [if_pos hall, hx]

/-- When no single value fits every installer, `allEqualValue` fails. -/
theorem allEqualValue_none_of (l : List α) [DecidableEq α]
    (h : ¬ ∃ v, AllEqualTo l v) : allEqualValue l = none := by
  cases hv : allEqualValue l with
  | none => rfl
  | some w => exact absurd ⟨w, (allEqualValue_some_iff l w).mp hv⟩ h

/-- Membership is preserved downward by the `dedup` tail. -/
theorem mem_of_mem_dedupAdjacentGo {α : Type} [DecidableEq α] (prev : α) (l : List α) (x : α)
    (h : x ∈ dedupAdjacentGo prev l) : x ∈ l := by
  induction l generalizing prev with
  | nil => simp [dedupAdjacentGo] at h
  | cons y ys ih =>
    unfold dedupAdjacentGo at h
    split at h
    · exact List.mem_cons_of_mem y (ih prev h)
    · rcases List.mem_cons.mp h with h | h
      · exact h ▸ List.mem_cons_self y ys
      · exact List.mem_cons_of_mem y (ih y h)

/-- Membership is preserved upward by the `dedup` tail, up to the element
last kept. -/
theorem mem_dedupAdjacentGo_of_mem {α : Type} [DecidableEq α] (prev : α) (l : List α) (x : α)
    (h : x ∈ l) : x ∈ dedupAdjacentGo prev l ∨ x = prev := by
  induction l generalizing prev with
  | nil => exact absurd h (by simp)
  | cons y ys ih =>
    unfold dedupAdjacentGo
    rcases List.mem_cons.mp h with h | h
    · subst h
      split
      case isTrue heq => exact Or.inr heq
      case isFalse => exact Or.inl (List.mem_cons_self x _)
    · split
      case isTrue heq => exact ih prev h
      case isFalse =>
        rcases ih y h with hmem | hx
        · exact Or.inl (List.mem_cons_of_mem y hmem)
        · exact Or.inl (hx ▸ List.mem_cons_self y _)

/-- Model of `Vec::dedup` preserves exactly the set of elements. -/
theorem mem_dedupAdjacent {α : Type} [DecidableEq α] (l : List α) (x : α) :
    x ∈ dedupAdjacent l ↔ x ∈ l := by
  cases l with
  | nil => simp [dedupAdjacent]
  | cons a rest =>
    unfold dedupAdjacent
    constructor
    · intro h
      rcases List.mem_cons.mp h with h | h
      · exact h ▸ List.mem_cons_self a rest
      · exact List.mem_cons_of_mem a (mem_of_mem_dedupAdjacentGo a rest x h)
    · intro h
      rcases List.mem_cons.mp h with h | h
      · exact h ▸ List.mem_cons_self a _
      · rcases mem_dedupAdjacentGo_of_mem a rest x h with hmem | hx
        · exact List.mem_cons_of_mem a hmem
        · exact hx ▸ List.mem_cons_self a _

/-- The record-update normal form of `optimize` over its hoist pass. -/
theorem optimize_spec (m : InstallerManifest) :
    m.optimize =
      { m.optimizeFields with
        manifest_version := ManifestVersion.DEFAULT
        installers :=
          dedupAdjacent (((m.optimizeFields).installers).insertionSort Installer.leOrd) } := by
  simp only [InstallerManifest.optimize]

/-- The final installer list of `optimize` holds exactly the installers the
hoist pass produced: sorting permutes and `dedup` only removes copies. -/
theorem mem_optimize_installers (m : InstallerManifest) (i : Installer) :
    i ∈ (m.optimize).installers ↔ i ∈ (m.optimizeFields).installers := by
  rw [optimize_spec]
  simp only [mem_dedupAdjacent, List.mem_insertionSort]

/-- Mapping preserves list-membership inclusions. -/
theorem map_mem_of_mem_of_subset {α β : Type} {l₁ l₂ : List α}
    (h : ∀ a ∈ l₁, a ∈ l₂) (g : α → β) : ∀ x ∈ l₁.map g, x ∈ l₂.map g := by
  intro x hx
  rcases List.mem_map.mp hx with ⟨a, ha, rfl⟩
  exact List.mem_map.mpr ⟨a, h a ha, rfl⟩

/-- Mapping preserves list-membership equivalences. -/
theorem map_mem_iff_of_iff {α β : Type} {l₁ l₂ : List α}
    (h : ∀ a, a ∈ l₁ ↔ a ∈ l₂) (g : α → β) : ∀ x, x ∈ l₁.map g ↔ x ∈ l₂.map g := by
  intro x
  exact ⟨map_mem_of_mem_of_subset (fun a ha => (h a).mp ha) g x,
    map_mem_of_mem_of_subset (fun a ha => (h a).mpr ha) g x⟩

/-- The one generic argument behind every per-field conjunct of the hoisting
invariant: the three projection facts established per field imply the spec's
hoist-or-reset property for that field. -/
theorem optimizedFieldSpec_intro {α : Type} [DecidableEq α] (dflt : α)
    (origVals : List α) (mVal : α) (finalVals passVals : List α)
    (h1 : mVal = (allEqualValue origVals).getD dflt)
    (h2 : passVals =
      if (allEqualValue origVals).isSome then origVals.map (fun _ => dflt) else origVals)
    (h3 : ∀ x ∈ finalVals, x ∈ passVals) :
    OptimizedFieldSpec dflt origVals mVal finalVals passVals := by
  constructor
  · intro v hv
    have hsome : allEqualValue origVals = some v := (allEqualValue_some_iff origVals v).mpr hv
    rw [hsome] at h1 h2
    refine ⟨h1, ?_⟩
    intro x hx
    have := h3 x hx
    rw [h2] at this
    simp only [Option.isSome_some, if_true] at this
    rcases List.mem_map.mp this with ⟨a, -, rfl⟩
    rfl
  · intro hne
    have hnone : allEqualValue origVals = none := allEqualValue_none_of origVals hne
    rw [hnone] at h1 h2
    exact ⟨h1, by simp at h2; exact h2⟩

/-- The one generic argument behind the second-run theorem: after a hoist pass
whose surviving values are `finalVals`, `all_equal_value ... getD default` can
only produce the default again. -/
theorem second_run_getD_default {α : Type} [DecidableEq α] (dflt : α)
    (origVals finalVals passVals : List α)
    (h2 : passVals =
      if (allEqualValue origVals).isSome then origVals.map (fun _ => dflt) else origVals)
    (hmem : ∀ x, x ∈ finalVals ↔ x ∈ passVals) :
    (allEqualValue finalVals).getD dflt = dflt := by
  cases hfin : allEqualValue finalVals with
  | none => rfl
  | some w =>
    have hw : AllEqualTo finalVals w := (allEqualValue_some_iff finalVals w).mp hfin
    cases horig : allEqualValue origVals with
    | some v =>
      rw [horig] at h2
      simp only [Option.isSome_some, if_true] at h2
      rcases hw with ⟨hne, hall⟩
      rcases List.exists_mem_of_ne_nil finalVals hne with ⟨x, hx⟩
      have hxp : x ∈ passVals := (hmem x).mp hx
      have hxd : x = dflt := by
        rw [h2] at hxp
        rcases List.mem_map.mp hxp with ⟨a, -, rfl⟩
        rfl
      rw [Option.getD_some, ← hall x hx, hxd]
    | none =>
      rw [horig] at h2
      simp only [Option.isSome_none, Bool.false_eq_true, if_false] at h2
      subst h2
      rcases hw with ⟨hne, hall⟩
      rcases List.exists_mem_of_ne_nil finalVals hne with ⟨x, hx⟩
      have : AllEqualTo passVals w := by
        refine ⟨?_, ?_⟩
        · intro hempty
          rw [hempty] at hmem
          exact absurd ((hmem x).mp hx) (by simp)
        · intro y hy
          exact hall y ((hmem y).mpr hy)
      exact absurd (horig ▸ (allEqualValue_some_iff passVals w).mpr this) (by simp)

/-! Normal forms of the 43 hoist-or-reset steps: the manifest field becomes
the hoisted value or the default, and the installer list is reset exactly
when the hoist succeeded. -/

/-- Normal form of the `locale` hoist-or-reset step. -/
@[simp] theorem opt_locale_spec (m : InstallerManifest) : opt_locale m =
    { m with locale := (allEqualValue (m.installers.map (·.locale))).getD none
             installers := if (allEqualValue (m.installers.map (·.locale))).isSome
                           then m.installers.map (fun i => { i with locale := none })
                           else m.installers } := by
  unfold opt_locale
  cases h : allEqualValue (m.installers.map (·.locale)) <;> simp [h]

/-- Normal form of the `platform` hoist-or-reset step. -/
@[simp] theorem opt_platform_spec (m : InstallerManifest) : opt_platform m =
    { m with platform := (allEqualValue (m.installers.map (·.platform))).getD 0
             installers := if (allEqualValue (m.installers.map (·.platform))).isSome
                           then m.installers.map (fun i => { i with platform := 0 })
                           else m.installers } := by
  unfold opt_platform
  cases h : allEqualValue (m.installers.map (·.platform)) <;> simp [h]

/-- Normal form of the `minimum_os_version` hoist-or-reset step. -/
@[simp] theorem opt_minimum_os_version_spec (m : InstallerManifest) : opt_minimum_os_version m =
    { m with minimum_os_version := (allEqualValue (m.installers.map (·.minimum_os_version))).getD none
             installers := if (allEqualValue (m.installers.map (·.minimum_os_version))).isSome
                           then m.installers.map (fun i => { i with minimum_os_version := none })
                           else m.installers } := by
  unfold opt_minimum_os_version
  cases h : allEqualValue (m.installers.map (·.minimum_os_version)) <;> simp [h]

/-- Normal form of the `type` hoist-or-reset step. -/
@[simp] theorem opt_type_spec (m : InstallerManifest) : opt_type m =
    { m with type := (allEqualValue (m.installers.map (·.type))).getD none
             installers := if (allEqualValue (m.installers.map (·.type))).isSome
                           then m.installers.map (fun i => { i with type := none })
                           else m.installers } := by
  unfold opt_type
  cases h : allEqualValue (m.installers.map (·.type)) <;> simp [h]

/-- Normal form of the `nested_installer_type` hoist-or-reset step. -/
@[simp] theorem opt_nested_installer_type_spec (m : InstallerManifest) : opt_nested_installer_type m =
    { m with nested_installer_type := (allEqualValue (m.installers.map (·.nested_installer_type))).getD none
             installers := if (allEqualValue (m.installers.map (·.nested_installer_type))).isSome
                           then m.installers.map (fun i => { i with nested_installer_type := none })
                           else m.installers } := by
  unfold opt_nested_installer_type
  cases h : allEqualValue (m.installers.map (·.nested_installer_type)) <;> simp [h]

/-- Normal form of the `nested_installer_files` hoist-or-reset step. -/
@[simp] theorem opt_nested_installer_files_spec (m : InstallerManifest) : opt_nested_installer_files m =
    { m with nested_installer_files := (allEqualValue (m.installers.map (·.nested_installer_files))).getD []
             installers := if (allEqualValue (m.installers.map (·.nested_installer_files))).isSome
                           then m.installers.map (fun i => { i with nested_installer_files := [] })
                           else m.installers } := by
  unfold opt_nested_installer_files
  cases h : allEqualValue (m.installers.map (·.nested_installer_files)) <;> simp [h]

/-- Normal form of the `scope` hoist-or-reset step. -/
@[simp] theorem opt_scope_spec (m : InstallerManifest) : opt_scope m =
    { m with scope := (allEqualValue (m.installers.map (·.scope))).getD none
             installers := if (allEqualValue (m.installers.map (·.scope))).isSome
                           then m.installers.map (fun i => { i with scope := none })
                           else m.installers } := by
  unfold opt_scope
  cases h : allEqualValue (m.installers.map (·.scope)) <;> simp [h]

/-- Normal form of the `install_modes` hoist-or-reset step. -/
@[simp] theorem opt_install_modes_spec (m : InstallerManifest) : opt_install_modes m =
    { m with install_modes := (allEqualValue (m.installers.map (·.install_modes))).getD 0
             installers := if (allEqualValue (m.installers.map (·.install_modes))).isSome
                           then m.installers.map (fun i => { i with install_modes := 0 })
                           else m.installers } := by
  unfold opt_install_modes
  cases h : allEqualValue (m.installers.map (·.install_modes)) <;> simp [h]

/-- Normal form of the `switches.silent` hoist-or-reset step. -/
@[simp] theorem opt_switches_silent_spec (m : InstallerManifest) : opt_switches_silent m =
    { m with switches.silent := (allEqualValue (m.installers.map (·.switches.silent))).getD none
             installers := if (allEqualValue (m.installers.map (·.switches.silent))).isSome
                           then m.installers.map (fun i => { i with switches.silent := none })
                           else m.installers } := by
  unfold opt_switches_silent
  cases h : allEqualValue (m.installers.map (·.switches.silent)) <;> simp [h]

/-- Normal form of the `switches.silent_with_progress` hoist-or-reset step. -/
@[simp] theorem opt_switches_silent_with_progress_spec (m : InstallerManifest) : opt_switches_silent_with_progress m =
    { m with switches.silent_with_progress := (allEqualValue (m.installers.map (·.switches.silent_with_progress))).getD none
             installers := if (allEqualValue (m.installers.map (·.switches.silent_with_progress))).isSome
                           then m.installers.map (fun i => { i with switches.silent_with_progress := none })
                           else m.installers } := by
  unfold opt_switches_silent_with_progress
  cases h : allEqualValue (m.installers.map (·.switches.silent_with_progress)) <;> simp [h]

/-- Normal form of the `switches.interactive` hoist-or-reset step. -/
@[simp] theorem opt_switches_interactive_spec (m : InstallerManifest) : opt_switches_interactive m =
    { m with switches.interactive := (allEqualValue (m.installers.map (·.switches.interactive))).getD none
             installers := if (allEqualValue (m.installers.map (·.switches.interactive))).isSome
                           then m.installers.map (fun i => { i with switches.interactive := none })
                           else m.installers } := by
  unfold opt_switches_interactive
  cases h : allEqualValue (m.installers.map (·.switches.interactive)) <;> simp [h]

/-- Normal form of the `switches.install_location` hoist-or-reset step. -/
@[simp] theorem opt_switches_install_location_spec (m : InstallerManifest) : opt_switches_install_location m =
    { m with switches.install_location := (allEqualValue (m.installers.map (·.switches.install_location))).getD none
             installers := if (allEqualValue (m.installers.map (·.switches.install_location))).isSome
                           then m.installers.map (fun i => { i with switches.install_location := none })
                           else m.installers } := by
  unfold opt_switches_install_location
  cases h : allEqualValue (m.installers.map (·.switches.install_location)) <;> simp [h]

/-- Normal form of the `switches.log` hoist-or-reset step. -/
@[simp] theorem opt_switches_log_spec (m : InstallerManifest) : opt_switches_log m =
    { m with switches.log := (allEqualValue (m.installers.map (·.switches.log))).getD none
             installers := if (allEqualValue (m.installers.map (·.switches.log))).isSome
                           then m.installers.map (fun i => { i with switches.log := none })
                           else m.installers } := by
  unfold opt_switches_log
  cases h : allEqualValue (m.installers.map (·.switches.log)) <;> simp [h]

/-- Normal form of the `switches.upgrade` hoist-or-reset step. -/
@[simp] theorem opt_switches_upgrade_spec (m : InstallerManifest) : opt_switches_upgrade m =
    { m with switches.upgrade := (allEqualValue (m.installers.map (·.switches.upgrade))).getD none
             installers := if (allEqualValue (m.installers.map (·.switches.upgrade))).isSome
                           then m.installers.map (fun i => { i with switches.upgrade := none })
                           else m.installers } := by
  unfold opt_switches_upgrade
  cases h : allEqualValue (m.installers.map (·.switches.upgrade)) <;> simp [h]

/-- Normal form of the `switches.repair` hoist-or-reset step. -/
@[simp] theorem opt_switches_repair_spec (m : InstallerManifest) : opt_switches_repair m =
    { m with switches.repair := (allEqualValue (m.installers.map (·.switches.repair))).getD none
             installers := if (allEqualValue (m.installers.map (·.switches.repair))).isSome
                           then m.installers.map (fun i => { i with switches.repair := none })
                           else m.installers } := by
  unfold opt_switches_repair
  cases h : allEqualValue (m.installers.map (·.switches.repair)) <;> simp [h]

/-- Normal form of the `success_codes` hoist-or-reset step. -/
@[simp] theorem opt_success_codes_spec (m : InstallerManifest) : opt_success_codes m =
    { m with success_codes := (allEqualValue (m.installers.map (·.success_codes))).getD []
             installers := if (allEqualValue (m.installers.map (·.success_codes))).isSome
                           then m.installers.map (fun i => { i with success_codes := [] })
                           else m.installers } := by
  unfold opt_success_codes
  cases h : allEqualValue (m.installers.map (·.success_codes)) <;> simp [h]

/-- Normal form of the `expected_return_codes` hoist-or-reset step. -/
@[simp] theorem opt_expected_return_codes_spec (m : InstallerManifest) : opt_expected_return_codes m =
    { m with expected_return_codes := (allEqualValue (m.installers.map (·.expected_return_codes))).getD []
             installers := if (allEqualValue (m.installers.map (·.expected_return_codes))).isSome
                           then m.installers.map (fun i => { i with expected_return_codes := [] })
                           else m.installers } := by
  unfold opt_expected_return_codes
  cases h : allEqualValue (m.installers.map (·.expected_return_codes)) <;> simp [h]

/-- Normal form of the `upgrade_behavior` hoist-or-reset step. -/
@[simp] theorem opt_upgrade_behavior_spec (m : InstallerManifest) : opt_upgrade_behavior m =
    { m with upgrade_behavior := (allEqualValue (m.installers.map (·.upgrade_behavior))).getD none
             installers := if (allEqualValue (m.installers.map (·.upgrade_behavior))).isSome
                           then m.installers.map (fun i => { i with upgrade_behavior := none })
                           else m.installers } := by
  unfold opt_upgrade_behavior
  cases h : allEqualValue (m.installers.map (·.upgrade_behavior)) <;> simp [h]

/-- Normal form of the `commands` hoist-or-reset step. -/
@[simp] theorem opt_commands_spec (m : InstallerManifest) : opt_commands m =
    { m with commands := (allEqualValue (m.installers.map (·.commands))).getD []
             installers := if (allEqualValue (m.installers.map (·.commands))).isSome
                           then m.installers.map (fun i => { i with commands := [] })
                           else m.installers } := by
  unfold opt_commands
  cases h : allEqualValue (m.installers.map (·.commands)) <;> simp [h]

/-- Normal form of the `protocols` hoist-or-reset step. -/
@[simp] theorem opt_protocols_spec (m : InstallerManifest) : opt_protocols m =
    { m with protocols := (allEqualValue (m.installers.map (·.protocols))).getD []
             installers := if (allEqualValue (m.installers.map (·.protocols))).isSome
                           then m.installers.map (fun i => { i with protocols := [] })
                           else m.installers } := by
  unfold opt_protocols
  cases h : allEqualValue (m.installers.map (·.protocols)) <;> simp [h]

/-- Normal form of the `file_extensions` hoist-or-reset step. -/
@[simp] theorem opt_file_extensions_spec (m : InstallerManifest) : opt_file_extensions m =
    { m with file_extensions := (allEqualValue (m.installers.map (·.file_extensions))).getD []
             installers := if (allEqualValue (m.installers.map (·.file_extensions))).isSome
                           then m.installers.map (fun i => { i with file_extensions := [] })
                           else m.installers } := by
  unfold opt_file_extensions
  cases h : allEqualValue (m.installers.map (·.file_extensions)) <;> simp [h]

/-- Normal form of the `dependencies.windows_features` hoist-or-reset step. -/
@[simp] theorem opt_dependencies_windows_features_spec (m : InstallerManifest) : opt_dependencies_windows_features m =
    { m with dependencies.windows_features := (allEqualValue (m.installers.map (·.dependencies.windows_features))).getD []
             installers := if (allEqualValue (m.installers.map (·.dependencies.windows_features))).isSome
                           then m.installers.map (fun i => { i with dependencies.windows_features := [] })
                           else m.installers } := by
  unfold opt_dependencies_windows_features
  cases h : allEqualValue (m.installers.map (·.dependencies.windows_features)) <;> simp [h]

/-- Normal form of the `dependencies.windows_libraries` hoist-or-reset step. -/
@[simp] theorem opt_dependencies_windows_libraries_spec (m : InstallerManifest) : opt_dependencies_windows_libraries m =
    { m with dependencies.windows_libraries := (allEqualValue (m.installers.map (·.dependencies.windows_libraries))).getD []
             installers := if (allEqualValue (m.installers.map (·.dependencies.windows_libraries))).isSome
                           then m.installers.map (fun i => { i with dependencies.windows_libraries := [] })
                           else m.installers } := by
  unfold opt_dependencies_windows_libraries
  cases h : allEqualValue (m.installers.map (·.dependencies.windows_libraries)) <;> simp [h]

/-- Normal form of the `dependencies.package` hoist-or-reset step. -/
@[simp] theorem opt_dependencies_package_spec (m : InstallerManifest) : opt_dependencies_package m =
    { m with dependencies.package := (allEqualValue (m.installers.map (·.dependencies.package))).getD []
             installers := if (allEqualValue (m.installers.map (·.dependencies.package))).isSome
                           then m.installers.map (fun i => { i with dependencies.package := [] })
                           else m.installers } := by
  unfold opt_dependencies_package
  cases h : allEqualValue (m.installers.map (·.dependencies.package)) <;> simp [h]

/-- Normal form of the `dependencies.external` hoist-or-reset step. -/
@[simp] theorem opt_dependencies_external_spec (m : InstallerManifest) : opt_dependencies_external m =
    { m with dependencies.external := (allEqualValue (m.installers.map (·.dependencies.external))).getD []
             installers := if (allEqualValue (m.installers.map (·.dependencies.external))).isSome
                           then m.installers.map (fun i => { i with dependencies.external := [] })
                           else m.installers } := by
  unfold opt_dependencies_external
  cases h : allEqualValue (m.installers.map (·.dependencies.external)) <;> simp [h]

/-- Normal form of the `package_family_name` hoist-or-reset step. -/
@[simp] theorem opt_package_family_name_spec (m : InstallerManifest) : opt_package_family_name m =
    { m with package_family_name := (allEqualValue (m.installers.map (·.package_family_name))).getD none
             installers := if (allEqualValue (m.installers.map (·.package_family_name))).isSome
                           then m.installers.map (fun i => { i with package_family_name := none })
                           else m.installers } := by
  unfold opt_package_family_name
  cases h : allEqualValue (m.installers.map (·.package_family_name)) <;> simp [h]

/-- Normal form of the `product_code` hoist-or-reset step. -/
@[simp] theorem opt_product_code_spec (m : InstallerManifest) : opt_product_code m =
    { m with product_code := (allEqualValue (m.installers.map (·.product_code))).getD none
             installers := if (allEqualValue (m.installers.map (·.product_code))).isSome
                           then m.installers.map (fun i => { i with product_code := none })
                           else m.installers } := by
  unfold opt_product_code
  cases h : allEqualValue (m.installers.map (·.product_code)) <;> simp [h]

/-- Normal form of the `capabilities` hoist-or-reset step. -/
@[simp] theorem opt_capabilities_spec (m : InstallerManifest) : opt_capabilities m =
    { m with capabilities := (allEqualValue (m.installers.map (·.capabilities))).getD []
             installers := if (allEqualValue (m.installers.map (·.capabilities))).isSome
                           then m.installers.map (fun i => { i with capabilities := [] })
                           else m.installers } := by
  unfold opt_capabilities
  cases h : allEqualValue (m.installers.map (·.capabilities)) <;> simp [h]

/-- Normal form of the `restricted_capabilities` hoist-or-reset step. -/
@[simp] theorem opt_restricted_capabilities_spec (m : InstallerManifest) : opt_restricted_capabilities m =
    { m with restricted_capabilities := (allEqualValue (m.installers.map (·.restricted_capabilities))).getD []
             installers := if (allEqualValue (m.installers.map (·.restricted_capabilities))).isSome
                           then m.installers.map (fun i => { i with restricted_capabilities := [] })
                           else m.installers } := by
  unfold opt_restricted_capabilities
  cases h : allEqualValue (m.installers.map (·.restricted_capabilities)) <;> simp [h]

/-- Normal form of the `markets` hoist-or-reset step. -/
@[simp] theorem opt_markets_spec (m : InstallerManifest) : opt_markets m =
    { m with markets := (allEqualValue (m.installers.map (·.markets))).getD none
             installers := if (allEqualValue (m.installers.map (·.markets))).isSome
                           then m.installers.map (fun i => { i with markets := none })
                           else m.installers } := by
  unfold opt_markets
  cases h : allEqualValue (m.installers.map (·.markets)) <;> simp [h]

/-- Normal form of the `aborts_terminal` hoist-or-reset step. -/
@[simp] theorem opt_aborts_terminal_spec (m : InstallerManifest) : opt_aborts_terminal m =
    { m with aborts_terminal := (allEqualValue (m.installers.map (·.aborts_terminal))).getD false
             installers := if (allEqualValue (m.installers.map (·.aborts_terminal))).isSome
                           then m.installers.map (fun i => { i with aborts_terminal := false })
                           else m.installers } := by
  unfold opt_aborts_terminal
  cases h : allEqualValue (m.installers.map (·.aborts_terminal)) <;> simp [h]

/-- Normal form of the `release_date` hoist-or-reset step. -/
@[simp] theorem opt_release_date_spec (m : InstallerManifest) : opt_release_date m =
    { m with release_date := (allEqualValue (m.installers.map (·.release_date))).getD none
             installers := if (allEqualValue (m.installers.map (·.release_date))).isSome
                           then m.installers.map (fun i => { i with release_date := none })
                           else m.installers } := by
  unfold opt_release_date
  cases h : allEqualValue (m.installers.map (·.release_date)) <;> simp [h]

/-- Normal form of the `install_location_required` hoist-or-reset step. -/
@[simp] theorem opt_install_location_required_spec (m : InstallerManifest) : opt_install_location_required m =
    { m with install_location_required := (allEqualValue (m.installers.map (·.install_location_required))).getD false
             installers := if (allEqualValue (m.installers.map (·.install_location_required))).isSome
                           then m.installers.map (fun i => { i with install_location_required := false })
                           else m.installers } := by
  unfold opt_install_location_required
  cases h : allEqualValue (m.installers.map (·.install_location_required)) <;> simp [h]

/-- Normal form of the `require_explicit_upgrade` hoist-or-reset step. -/
@[simp] theorem opt_require_explicit_upgrade_spec (m : InstallerManifest) : opt_require_explicit_upgrade m =
    { m with require_explicit_upgrade := (allEqualValue (m.installers.map (·.require_explicit_upgrade))).getD false
             installers := if (allEqualValue (m.installers.map (·.require_explicit_upgrade))).isSome
                           then m.installers.map (fun i => { i with require_explicit_upgrade := false })
                           else m.installers } := by
  unfold opt_require_explicit_upgrade
  cases h : allEqualValue (m.installers.map (·.require_explicit_upgrade)) <;> simp [h]

/-- Normal form of the `display_install_warnings` hoist-or-reset step. -/
@[simp] theorem opt_display_install_warnings_spec (m : InstallerManifest) : opt_display_install_warnings m =
    { m with display_install_warnings := (allEqualValue (m.installers.map (·.display_install_warnings))).getD false
             installers := if (allEqualValue (m.installers.map (·.display_install_warnings))).isSome
                           then m.installers.map (fun i => { i with display_install_warnings := false })
                           else m.installers } := by
  unfold opt_display_install_warnings
  cases h : allEqualValue (m.installers.map (·.display_install_warnings)) <;> simp [h]

/-- Normal form of the `unsupported_os_architectures` hoist-or-reset step. -/
@[simp] theorem opt_unsupported_os_architectures_spec (m : InstallerManifest) : opt_unsupported_os_architectures m =
    { m with unsupported_os_architectures := (allEqualValue (m.installers.map (·.unsupported_os_architectures))).getD 0
             installers := if (allEqualValue (m.installers.map (·.unsupported_os_architectures))).isSome
                           then m.installers.map (fun i => { i with unsupported_os_architectures := 0 })
                           else m.installers } := by
  unfold opt_unsupported_os_architectures
  cases h : allEqualValue (m.installers.map (·.unsupported_os_architectures)) <;> simp [h]

/-- Normal form of the `unsupported_arguments` hoist-or-reset step. -/
@[simp] theorem opt_unsupported_arguments_spec (m : InstallerManifest) : opt_unsupported_arguments m =
    { m with unsupported_arguments := (allEqualValue (m.installers.map (·.unsupported_arguments))).getD 0
             installers := if (allEqualValue (m.installers.map (·.unsupported_arguments))).isSome
                           then m.installers.map (fun i => { i with unsupported_arguments := 0 })
                           else m.installers } := by
  unfold opt_unsupported_arguments
  cases h : allEqualValue (m.installers.map (·.unsupported_arguments)) <;> simp [h]

/-- Normal form of the `apps_and_features_entries` hoist-or-reset step. -/
@[simp] theorem opt_apps_and_features_entries_spec (m : InstallerManifest) : opt_apps_and_features_entries m =
    { m with apps_and_features_entries := (allEqualValue (m.installers.map (·.apps_and_features_entries))).getD []
             installers := if (allEqualValue (m.installers.map (·.apps_and_features_entries))).isSome
                           then m.installers.map (fun i => { i with apps_and_features_entries := [] })
                           else m.installers } := by
  unfold opt_apps_and_features_entries
  cases h : allEqualValue (m.installers.map (·.apps_and_features_entries)) <;> simp [h]

/-- Normal form of the `elevation_requirement` hoist-or-reset step. -/
@[simp] theorem opt_elevation_requirement_spec (m : InstallerManifest) : opt_elevation_requirement m =
    { m with elevation_requirement := (allEqualValue (m.installers.map (·.elevation_requirement))).getD none
             installers := if (allEqualValue (m.installers.map (·.elevation_requirement))).isSome
                           then m.installers.map (fun i => { i with elevation_requirement := none })
                           else m.installers } := by
  unfold opt_elevation_requirement
  cases h : allEqualValue (m.installers.map (·.elevation_requirement)) <;> simp [h]

/-- Normal form of the `installation_metadata` hoist-or-reset step. -/
@[simp] theorem opt_installation_metadata_spec (m : InstallerManifest) : opt_installation_metadata m =
    { m with installation_metadata := (allEqualValue (m.installers.map (·.installation_metadata))).getD (⟨none, []⟩ : InstallationMetadata)
             installers := if (allEqualValue (m.installers.map (·.installation_metadata))).isSome
                           then m.installers.map (fun i => { i with installation_metadata := (⟨none, []⟩ : InstallationMetadata) })
                           else m.installers } := by
  unfold opt_installation_metadata
  cases h : allEqualValue (m.installers.map (·.installation_metadata)) <;> simp [h]

/-- Normal form of the `download_command_prohibited` hoist-or-reset step. -/
@[simp] theorem opt_download_command_prohibited_spec (m : InstallerManifest) : opt_download_command_prohibited m =
    { m with download_command_prohibited := (allEqualValue (m.installers.map (·.download_command_prohibited))).getD false
             installers := if (allEqualValue (m.installers.map (·.download_command_prohibited))).isSome
                           then m.installers.map (fun i => { i with download_command_prohibited := false })
                           else m.installers } := by
  unfold opt_download_command_prohibited
  cases h : allEqualValue (m.installers.map (·.download_command_prohibited)) <;> simp [h]

/-- Normal form of the `repair_behavior` hoist-or-reset step. -/
@[simp] theorem opt_repair_behavior_spec (m : InstallerManifest) : opt_repair_behavior m =
    { m with repair_behavior := (allEqualValue (m.installers.map (·.repair_behavior))).getD none
             installers := if (allEqualValue (m.installers.map (·.repair_behavior))).isSome
                           then m.installers.map (fun i => { i with repair_behavior := none })
                           else m.installers } := by
  unfold opt_repair_behavior
  cases h : allEqualValue (m.installers.map (·.repair_behavior)) <;> simp [h]

/-- Normal form of the `archive_binaries_depend_on_path` hoist-or-reset step. -/
@[simp] theorem opt_archive_binaries_depend_on_path_spec (m : InstallerManifest) : opt_archive_binaries_depend_on_path m =
    { m with archive_binaries_depend_on_path := (allEqualValue (m.installers.map (·.archive_binaries_depend_on_path))).getD false
             installers := if (allEqualValue (m.installers.map (·.archive_binaries_depend_on_path))).isSome
                           then m.installers.map (fun i => { i with archive_binaries_depend_on_path := false })
                           else m.installers } := by
  unfold opt_archive_binaries_depend_on_path
  cases h : allEqualValue (m.installers.map (·.archive_binaries_depend_on_path)) <;> simp [h]

theorem instAfter00_eq (m : InstallerManifest) : instAfter00 m = m.installers := rfl

/-- Mapping a function unaffected by the step-1 reset through `instAfter01`
is mapping it through `instAfter00`. -/
theorem instCollapse01 {α : Type} (g : Installer → α)
    (hg : ∀ i : Installer, g ({ i with locale := none }) = g i) (m : InstallerManifest) :
    (instAfter01 m).map g = (instAfter00 m).map g := by
  unfold instAfter01
  split
  · rw [List.map_map, show (g ∘ fun i => { i with locale := none }) = g from funext hg]
  · rfl

/-- Mapping a function unaffected by the step-2 reset through `instAfter02`
is mapping it through `instAfter01`. -/
theorem instCollapse02 {α : Type} (g : Installer → α)
    (hg : ∀ i : Installer, g ({ i with platform := 0 }) = g i) (m : InstallerManifest) :
    (instAfter02 m).map g = (instAfter01 m).map g := by
  unfold instAfter02
  split
  · rw [List.map_map, show (g ∘ fun i => { i with platform := 0 }) = g from funext hg]
  · rfl

/-- Mapping a function unaffected by the step-3 reset through `instAfter03`
is mapping it through `instAfter02`. -/
theorem instCollapse03 {α : Type} (g : Installer → α)
    (hg : ∀ i : Installer, g ({ i with minimum_os_version := none }) = g i) (m : InstallerManifest) :
    (instAfter03 m).map g = (instAfter02 m).map g := by
  unfold instAfter03
  split
  · rw [List.map_map, show (g ∘ fun i => { i with minimum_os_version := none }) = g from funext hg]
  · rfl

/-- Mapping a function unaffected by the step-4 reset through `instAfter04`
is mapping it through `instAfter03`. -/
theorem instCollapse04 {α : Type} (g : Installer → α)
    (hg : ∀ i : Installer, g ({ i with type := none }) = g i) (m : InstallerManifest) :
    (instAfter04 m).map g = (instAfter03 m).map g := by
  unfold instAfter04
  split
  · rw [List.map_map, show (g ∘ fun i => { i with type := none }) = g from funext hg]
  · rfl

/-- Mapping a function unaffected by the step-5 reset through `instAfter05`
is mapping it through `instAfter04`. -/
theorem instCollapse05 {α : Type} (g : Installer → α)
    (hg : ∀ i : Installer, g ({ i with nested_installer_type := none }) = g i) (m : InstallerManifest) :
    (instAfter05 m).map g = (instAfter04 m).map g := by
  unfold instAfter05
  split
  · rw [List.map_map, show (g ∘ fun i => { i with nested_installer_type := none }) = g from funext hg]
  · rfl

/-- Mapping a function unaffected by the step-6 reset through `instAfter06`
is mapping it through `instAfter05`. -/
theorem instCollapse06 {α : Type} (g : Installer → α)
    (hg : ∀ i : Installer, g ({ i with nested_installer_files := [] }) = g i) (m : InstallerManifest) :
    (instAfter06 m).map g = (instAfter05 m).map g := by
  unfold instAfter06
  split
  · rw [List.map_map, show (g ∘ fun i => { i with nested_installer_files := [] }) = g from funext hg]
  · rfl

/-- Mapping a function unaffected by the step-7 reset through `instAfter07`
is mapping it through `instAfter06`. -/
theorem instCollapse07 {α : Type} (g : Installer → α)
    (hg : ∀ i : Installer, g ({ i with scope := none }) = g i) (m : InstallerManifest) :
    (instAfter07 m).map g = (instAfter06 m).map g := by
  unfold instAfter07
  split
  · rw [List.map_map, show (g ∘ fun i => { i with scope := none }) = g from funext hg]
  · rfl

/-- Mapping a function unaffected by the step-8 reset through `instAfter08`
is mapping it through `instAfter07`. -/
theorem instCollapse08 {α : Type} (g : Installer → α)
    (hg : ∀ i : Installer, g ({ i with install_modes := 0 }) = g i) (m : InstallerManifest) :
    (instAfter08 m).map g = (instAfter07 m).map g := by
  unfold instAfter08
  split
  · rw [List.map_map, show (g ∘ fun i => { i with install_modes := 0 }) = g from funext hg]
  · rfl

/-- Mapping a function unaffected by the step-9 reset through `instAfter09`
is mapping it through `instAfter08`. -/
theorem instCollapse09 {α : Type} (g : Installer → α)
    (hg : ∀ i : Installer, g ({ i with switches.silent := none }) = g i) (m : InstallerManifest) :
    (instAfter09 m).map g = (instAfter08 m).map g := by
  unfold instAfter09
  split
  · rw [List.map_map, show (g ∘ fun i => { i with switches.silent := none }) = g from funext hg]
  · rfl

/-- Mapping a function unaffected by the step-10 reset through `instAfter10`
is mapping it through `instAfter09`. -/
theorem instCollapse10 {α : Type} (g : Installer → α)
    (hg : ∀ i : Installer, g ({ i with switches.silent_with_progress := none }) = g i) (m : InstallerManifest) :
    (instAfter10 m).map g = (instAfter09 m).map g := by
  unfold instAfter10
  split
  · rw [List.map_map, show (g ∘ fun i => { i with switches.silent_with_progress := none }) = g from funext hg]
  · rfl

/-- Mapping a function unaffected by the step-11 reset through `instAfter11`
is mapping it through `instAfter10`. -/
theorem instCollapse11 {α : Type} (g : Installer → α)
    (hg : ∀ i : Installer, g ({ i with switches.interactive := none }) = g i) (m : InstallerManifest) :
    (instAfter11 m).map g = (instAfter10 m).map g := by
  unfold instAfter11
  split
  · rw [List.map_map, show (g ∘ fun i => { i with switches.interactive := none }) = g from funext hg]
  · rfl

/-- Mapping a function unaffected by the step-12 reset through `instAfter12`
is mapping it through `instAfter11`. -/
theorem instCollapse12 {α : Type} (g : Installer → α)
    (hg : ∀ i : Installer, g ({ i with switches.install_location := none }) = g i) (m : InstallerManifest) :
    (instAfter12 m).map g = (instAfter11 m).map g := by
  unfold instAfter12
  split
  · rw [List.map_map, show (g ∘ fun i => { i with switches.install_location := none }) = g from funext hg]
  · rfl

/-- Mapping a function unaffected by the step-13 reset through `instAfter13`
is mapping it through `instAfter12`. -/
theorem instCollapse13 {α : Type} (g : Installer → α)
    (hg : ∀ i : Installer, g ({ i with switches.log := none }) = g i) (m : InstallerManifest) :
    (instAfter13 m).map g = (instAfter12 m).map g := by
  unfold instAfter13
  split
  · rw [List.map_map, show (g ∘ fun i => { i with switches.log := none }) = g from funext hg]
  · rfl

/-- Mapping a function unaffected by the step-14 reset through `instAfter14`
is mapping it through `instAfter13`. -/
theorem instCollapse14 {α : Type} (g : Installer → α)
    (hg : ∀ i : Installer, g ({ i with switches.upgrade := none }) = g i) (m : InstallerManifest) :
    (instAfter14 m).map g = (instAfter13 m).map g := by
  unfold instAfter14
  split
  · rw [List.map_map, show (g ∘ fun i => { i with switches.upgrade := none }) = g from funext hg]
  · rfl

/-- Mapping a function unaffected by the step-15 reset through `instAfter15`
is mapping it through `instAfter14`. -/
theorem instCollapse15 {α : Type} (g : Installer → α)
    (hg : ∀ i : Installer, g ({ i with switches.repair := none }) = g i) (m : InstallerManifest) :
    (instAfter15 m).map g = (instAfter14 m).map g := by
  unfold instAfter15
  split
  · rw [List.map_map, show (g ∘ fun i => { i with switches.repair := none }) = g from funext hg]
  · rfl

/-- Mapping a function unaffected by the step-16 reset through `instAfter16`
is mapping it through `instAfter15`. -/
theorem instCollapse16 {α : Type} (g : Installer → α)
    (hg : ∀ i : Installer, g ({ i with success_codes := [] }) = g i) (m : InstallerManifest) :
    (instAfter16 m).map g = (instAfter15 m).map g := by
  unfold instAfter16
  split
  · rw [List.map_map, show (g ∘ fun i => { i with success_codes := [] }) = g from funext hg]
  · rfl

/-- Mapping a function unaffected by the step-17 reset through `instAfter17`
is mapping it through `instAfter16`. -/
theorem instCollapse17 {α : Type} (g : Installer → α)
    (hg : ∀ i : Installer, g ({ i with expected_return_codes := [] }) = g i) (m : InstallerManifest) :
    (instAfter17 m).map g = (instAfter16 m).map g := by
  unfold instAfter17
  split
  · rw [List.map_map, show (g ∘ fun i => { i with expected_return_codes := [] }) = g from funext hg]
  · rfl

/-- Mapping a function unaffected by the step-18 reset through `instAfter18`
is mapping it through `instAfter17`. -/
theorem instCollapse18 {α : Type} (g : Installer → α)
    (hg : ∀ i : Installer, g ({ i with upgrade_behavior := none }) = g i) (m : InstallerManifest) :
    (instAfter18 m).map g = (instAfter17 m).map g := by
  unfold instAfter18
  split
  · rw [List.map_map, show (g ∘ fun i => { i with upgrade_behavior := none }) = g from funext hg]
  · rfl

/-- Mapping a function unaffected by the step-19 reset through `instAfter19`
is mapping it through `instAfter18`. -/
theorem instCollapse19 {α : Type} (g : Installer → α)
    (hg : ∀ i : Installer, g ({ i with commands := [] }) = g i) (m : InstallerManifest) :
    (instAfter19 m).map g = (instAfter18 m).map g := by
  unfold instAfter19
  split
  · rw [List.map_map, show (g ∘ fun i => { i with commands := [] }) = g from funext hg]
  · rfl

/-- Mapping a function unaffected by the step-20 reset through `instAfter20`
is mapping it through `instAfter19`. -/
theorem instCollapse20 {α : Type} (g : Installer → α)
    (hg : ∀ i : Installer, g ({ i with protocols := [] }) = g i) (m : InstallerManifest) :
    (instAfter20 m).map g = (instAfter19 m).map g := by
  unfold instAfter20
  split
  · rw [List.map_map, show (g ∘ fun i => { i with protocols := [] }) = g from funext hg]
  · rfl

/-- Mapping a function unaffected by the step-21 reset through `instAfter21`
is mapping it through `instAfter20`. -/
theorem instCollapse21 {α : Type} (g : Installer → α)
    (hg : ∀ i : Installer, g ({ i with file_extensions := [] }) = g i) (m : InstallerManifest) :
    (instAfter21 m).map g = (instAfter20 m).map g := by
  unfold instAfter21
  split
  · rw [List.map_map, show (g ∘ fun i => { i with file_extensions := [] }) = g from funext hg]
  · rfl

/-- Mapping a function unaffected by the step-22 reset through `instAfter22`
is mapping it through `instAfter21`. -/
theorem instCollapse22 {α : Type} (g : Installer → α)
    (hg : ∀ i : Installer, g ({ i with dependencies.windows_features := [] }) = g i) (m : InstallerManifest) :
    (instAfter22 m).map g = (instAfter21 m).map g := by
  unfold instAfter22
  split
  · rw [List.map_map, show (g ∘ fun i => { i with dependencies.windows_features := [] }) = g from funext hg]
  · rfl

/-- Mapping a function unaffected by the step-23 reset through `instAfter23`
is mapping it through `instAfter22`. -/
theorem instCollapse23 {α : Type} (g : Installer → α)
    (hg : ∀ i : Installer, g ({ i with dependencies.windows_libraries := [] }) = g i) (m : InstallerManifest) :
    (instAfter23 m).map g = (instAfter22 m).map g := by
  unfold instAfter23
  split
  · rw [List.map_map, show (g ∘ fun i => { i with dependencies.windows_libraries := [] }) = g from funext hg]
  · rfl

/-- Mapping a function unaffected by the step-24 reset through `instAfter24`
is mapping it through `instAfter23`. -/
theorem instCollapse24 {α : Type} (g : Installer → α)
    (hg : ∀ i : Installer, g ({ i with dependencies.package := [] }) = g i) (m : InstallerManifest) :
    (instAfter24 m).map g = (instAfter23 m).map g := by
  unfold instAfter24
  split
  · rw [List.map_map, show (g ∘ fun i => { i with dependencies.package := [] }) = g from funext hg]
  · rfl

/-- Mapping a function unaffected by the step-25 reset through `instAfter25`
is mapping it through `instAfter24`. -/
theorem instCollapse25 {α : Type} (g : Installer → α)
    (hg : ∀ i : Installer, g ({ i with dependencies.external := [] }) = g i) (m : InstallerManifest) :
    (instAfter25 m).map g = (instAfter24 m).map g := by
  unfold instAfter25
  split
  · rw [List.map_map, show (g ∘ fun i => { i with dependencies.external := [] }) = g from funext hg]
  · rfl

/-- Mapping a function unaffected by the step-26 reset through `instAfter26`
is mapping it through `instAfter25`. -/
theorem instCollapse26 {α : Type} (g : Installer → α)
    (hg : ∀ i : Installer, g ({ i with package_family_name := none }) = g i) (m : InstallerManifest) :
    (instAfter26 m).map g = (instAfter25 m).map g := by
  unfold instAfter26
  split
  · rw [List.map_map, show (g ∘ fun i => { i with package_family_name := none }) = g from funext hg]
  · rfl

/-- Mapping a function unaffected by the step-27 reset through `instAfter27`
is mapping it through `instAfter26`. -/
theorem instCollapse27 {α : Type} (g : Installer → α)
    (hg : ∀ i : Installer, g ({ i with product_code := none }) = g i) (m : InstallerManifest) :
    (instAfter27 m).map g = (instAfter26 m).map g := by
  unfold instAfter27
  split
  · rw [List.map_map, show (g ∘ fun i => { i with product_code := none }) = g from funext hg]
  · rfl

/-- Mapping a function unaffected by the step-28 reset through `instAfter28`
is mapping it through `instAfter27`. -/
theorem instCollapse28 {α : Type} (g : Installer → α)
    (hg : ∀ i : Installer, g ({ i with capabilities := [] }) = g i) (m : InstallerManifest) :
    (instAfter28 m).map g = (instAfter27 m).map g := by
  unfold instAfter28
  split
  · rw [List.map_map, show (g ∘ fun i => { i with capabilities := [] }) = g from funext hg]
  · rfl

/-- Mapping a function unaffected by the step-29 reset through `instAfter29`
is mapping it through `instAfter28`. -/
theorem instCollapse29 {α : Type} (g : Installer → α)
    (hg : ∀ i : Installer, g ({ i with restricted_capabilities := [] }) = g i) (m : InstallerManifest) :
    (instAfter29 m).map g = (instAfter28 m).map g := by
  unfold instAfter29
  split
  · rw [List.map_map, show (g ∘ fun i => { i with restricted_capabilities := [] }) = g from funext hg]
  · rfl

/-- Mapping a function unaffected by the step-30 reset through `instAfter30`
is mapping it through `instAfter29`. -/
theorem instCollapse30 {α : Type} (g : Installer → α)
    (hg : ∀ i : Installer, g ({ i with markets := none }) = g i) (m : InstallerManifest) :
    (instAfter30 m).map g = (instAfter29 m).map g := by
  unfold instAfter30
  split
  · rw [List.map_map, show (g ∘ fun i => { i with markets := none }) = g from funext hg]
  · rfl

/-- Mapping a function unaffected by the step-31 reset through `instAfter31`
is mapping it through `instAfter30`. -/
theorem instCollapse31 {α : Type} (g : Installer → α)
    (hg : ∀ i : Installer, g ({ i with aborts_terminal := false }) = g i) (m : InstallerManifest) :
    (instAfter31 m).map g = (instAfter30 m).map g := by
  unfold instAfter31
  split
  · rw [List.map_map, show (g ∘ fun i => { i with aborts_terminal := false }) = g from funext hg]
  · rfl

/-- Mapping a function unaffected by the step-32 reset through `instAfter32`
is mapping it through `instAfter31`. -/
theorem instCollapse32 {α : Type} (g : Installer → α)
    (hg : ∀ i : Installer, g ({ i with release_date := none }) = g i) (m : InstallerManifest) :
    (instAfter32 m).map g = (instAfter31 m).map g := by
  unfold instAfter32
  split
  · rw [List.map_map, show (g ∘ fun i => { i with release_date := none }) = g from funext hg]
  · rfl

/-- Mapping a function unaffected by the step-33 reset through `instAfter33`
is mapping it through `instAfter32`. -/
theorem instCollapse33 {α : Type} (g : Installer → α)
    (hg : ∀ i : Installer, g ({ i with install_location_required := false }) = g i) (m : InstallerManifest) :
    (instAfter33 m).map g = (instAfter32 m).map g := by
  unfold instAfter33
  split
  · rw [List.map_map, show (g ∘ fun i => { i with install_location_required := false }) = g from funext hg]
  · rfl

/-- Mapping a function unaffected by the step-34 reset through `instAfter34`
is mapping it through `instAfter33`. -/
theorem instCollapse34 {α : Type} (g : Installer → α)
    (hg : ∀ i : Installer, g ({ i with require_explicit_upgrade := false }) = g i) (m : InstallerManifest) :
    (instAfter34 m).map g = (instAfter33 m).map g := by
  unfold instAfter34
  split
  · rw [List.map_map, show (g ∘ fun i => { i with require_explicit_upgrade := false }) = g from funext hg]
  · rfl

/-- Mapping a function unaffected by the step-35 reset through `instAfter35`
is mapping it through `instAfter34`. -/
theorem instCollapse35 {α : Type} (g : Installer → α)
    (hg : ∀ i : Installer, g ({ i with display_install_warnings := false }) = g i) (m : InstallerManifest) :
    (instAfter35 m).map g = (instAfter34 m).map g := by
  unfold instAfter35
  split
  · rw [List.map_map, show (g ∘ fun i => { i with display_install_warnings := false }) = g from funext hg]
  · rfl

/-- Mapping a function unaffected by the step-36 reset through `instAfter36`
is mapping it through `instAfter35`. -/
theorem instCollapse36 {α : Type} (g : Installer → α)
    (hg : ∀ i : Installer, g ({ i with unsupported_os_architectures := 0 }) = g i) (m : InstallerManifest) :
    (instAfter36 m).map g = (instAfter35 m).map g := by
  unfold instAfter36
  split
  · rw [List.map_map, show (g ∘ fun i => { i with unsupported_os_architectures := 0 }) = g from funext hg]
  · rfl

/-- Mapping a function unaffected by the step-37 reset through `instAfter37`
is mapping it through `instAfter36`. -/
theorem instCollapse37 {α : Type} (g : Installer → α)
    (hg : ∀ i : Installer, g ({ i with unsupported_arguments := 0 }) = g i) (m : InstallerManifest) :
    (instAfter37 m).map g = (instAfter36 m).map g := by
  unfold instAfter37
  split
  · rw [List.map_map, show (g ∘ fun i => { i with unsupported_arguments := 0 }) = g from funext hg]
  · rfl

/-- Mapping a function unaffected by the step-38 reset through `instAfter38`
is mapping it through `instAfter37`. -/
theorem instCollapse38 {α : Type} (g : Installer → α)
    (hg : ∀ i : Installer, g ({ i with apps_and_features_entries := [] }) = g i) (m : InstallerManifest) :
    (instAfter38 m).map g = (instAfter37 m).map g := by
  unfold instAfter38
  split
  · rw [List.map_map, show (g ∘ fun i => { i with apps_and_features_entries := [] }) = g from funext hg]
  · rfl

/-- Mapping a function unaffected by the step-39 reset through `instAfter39`
is mapping it through `instAfter38`. -/
theorem instCollapse39 {α : Type} (g : Installer → α)
    (hg : ∀ i : Installer, g ({ i with elevation_requirement := none }) = g i) (m : InstallerManifest) :
    (instAfter39 m).map g = (instAfter38 m).map g := by
  unfold instAfter39
  split
  · rw [List.map_map, show (g ∘ fun i => { i with elevation_requirement := none }) = g from funext hg]
  · rfl

/-- Mapping a function unaffected by the step-40 reset through `instAfter40`
is mapping it through `instAfter39`. -/
theorem instCollapse40 {α : Type} (g : Installer → α)
    (hg : ∀ i : Installer, g ({ i with installation_metadata := (⟨none, []⟩ : InstallationMetadata) }) = g i) (m : InstallerManifest) :
    (instAfter40 m).map g = (instAfter39 m).map g := by
  unfold instAfter40
  split
  · rw [List.map_map, show (g ∘ fun i => { i with installation_metadata := (⟨none, []⟩ : InstallationMetadata) }) = g from funext hg]
  · rfl

/-- Mapping a function unaffected by the step-41 reset through `instAfter41`
is mapping it through `instAfter40`. -/
theorem instCollapse41 {α : Type} (g : Installer → α)
    (hg : ∀ i : Installer, g ({ i with download_command_prohibited := false }) = g i) (m : InstallerManifest) :
    (instAfter41 m).map g = (instAfter40 m).map g := by
  unfold instAfter41
  split
  · rw [List.map_map, show (g ∘ fun i => { i with download_command_prohibited := false }) = g from funext hg]
  · rfl

/-- Mapping a function unaffected by the step-42 reset through `instAfter42`
is mapping it through `instAfter41`. -/
theorem instCollapse42 {α : Type} (g : Installer → α)
    (hg : ∀ i : Installer, g ({ i with repair_behavior := none }) = g i) (m : InstallerManifest) :
    (instAfter42 m).map g = (instAfter41 m).map g := by
  unfold instAfter42
  split
  · rw [List.map_map, show (g ∘ fun i => { i with repair_behavior := none }) = g from funext hg]
  · rfl

/-- Mapping a function unaffected by the step-43 reset through `instAfter43`
is mapping it through `instAfter42`. -/
theorem instCollapse43 {α : Type} (g : Installer → α)
    (hg : ∀ i : Installer, g ({ i with archive_binaries_depend_on_path := false }) = g i) (m : InstallerManifest) :
    (instAfter43 m).map g = (instAfter42 m).map g := by
  unfold instAfter43
  split
  · rw [List.map_map, show (g ∘ fun i => { i with archive_binaries_depend_on_path := false }) = g from funext hg]
  · rfl

/-- Normal form of the hoist pass after step 1. -/
theorem passUpTo01_spec (m : InstallerManifest) :
    passUpTo01 m =
      { m with
        locale := (allEqualValue (m.installers.map (·.locale))).getD none
        installers := instAfter01 m } := by
  rw [show passUpTo01 m = opt_locale m from rfl, opt_locale_spec]
  unfold instAfter01
  rw [instAfter00_eq]

/-- Normal form of the hoist pass after step 2. -/
theorem passUpTo02_spec (m : InstallerManifest) :
    passUpTo02 m =
      { m with
        locale := (allEqualValue (m.installers.map (·.locale))).getD none
        platform := (allEqualValue (m.installers.map (·.platform))).getD 0
        installers := instAfter02 m } := by
  rw [show passUpTo02 m = opt_platform (passUpTo01 m) from rfl,
    passUpTo01_spec, opt_platform_spec]
  unfold instAfter02
  simp only [instAfter00_eq]
  rw [instCollapse01 (·.platform) (fun i => rfl),
    instAfter00_eq]

/-- Normal form of the hoist pass after step 3. -/
theorem passUpTo03_spec (m : InstallerManifest) :
    passUpTo03 m =
      { m with
        locale := (allEqualValue (m.installers.map (·.locale))).getD none
        platform := (allEqualValue (m.installers.map (·.platform))).getD 0
        minimum_os_version := (allEqualValue (m.installers.map (·.minimum_os_version))).getD none
        installers := instAfter03 m } := by
  rw [show passUpTo03 m = opt_minimum_os_version (passUpTo02 m) from rfl,
    passUpTo02_spec, opt_minimum_os_version_spec]
  unfold instAfter03
  simp only [instAfter00_eq]
  rw [instCollapse02 (·.minimum_os_version) (fun i => rfl),
    instCollapse01 (·.minimum_os_version) (fun i => rfl),
    instAfter00_eq]

/-- Normal form of the hoist pass after step 4. -/
theorem passUpTo04_spec (m : InstallerManifest) :
    passUpTo04 m =
      { m with
        locale := (allEqualValue (m.installers.map (·.locale))).getD none
        platform := (allEqualValue (m.installers.map (·.platform))).getD 0
        minimum_os_version := (allEqualValue (m.installers.map (·.minimum_os_version))).getD none
        type := (allEqualValue (m.installers.map (·.type))).getD none
        installers := instAfter04 m } := by
  rw [show passUpTo04 m = opt_type (passUpTo03 m) from rfl,
    passUpTo03_spec, opt_type_spec]
  unfold instAfter04
  simp only [instAfter00_eq]
  rw [instCollapse03 (·.type) (fun i => rfl),
    instCollapse02 (·.type) (fun i => rfl),
    instCollapse01 (·.type) (fun i => rfl),
    instAfter00_eq]

/-- Normal form of the hoist pass after step 5. -/
theorem passUpTo05_spec (m : InstallerManifest) :
    passUpTo05 m =
      { m with
        locale := (allEqualValue (m.installers.map (·.locale))).getD none
        platform := (allEqualValue (m.installers.map (·.platform))).getD 0
        minimum_os_version := (allEqualValue (m.installers.map (·.minimum_os_version))).getD none
        type := (allEqualValue (m.installers.map (·.type))).getD none
        nested_installer_type := (allEqualValue (m.installers.map (·.nested_installer_type))).getD none
        installers := instAfter05 m } := by
  rw [show passUpTo05 m = opt_nested_installer_type (passUpTo04 m) from rfl,
    passUpTo04_spec, opt_nested_installer_type_spec]
  unfold instAfter05
  simp only [instAfter00_eq]
  rw [instCollapse04 (·.nested_installer_type) (fun i => rfl),
    instCollapse03 (·.nested_installer_type) (fun i => rfl),
    instCollapse02 (·.nested_installer_type) (fun i => rfl),
    instCollapse01 (·.nested_installer_type) (fun i => rfl),
    instAfter00_eq]

/-- Normal form of the hoist pass after step 6. -/
theorem passUpTo06_spec (m : InstallerManifest) :
    passUpTo06 m =
      { m with
        locale := (allEqualValue (m.installers.map (·.locale))).getD none
        platform := (allEqualValue (m.installers.map (·.platform))).getD 0
        minimum_os_version := (allEqualValue (m.installers.map (·.minimum_os_version))).getD none
        type := (allEqualValue (m.installers.map (·.type))).getD none
        nested_installer_type := (allEqualValue (m.installers.map (·.nested_installer_type))).getD none
        nested_installer_files := (allEqualValue (m.installers.map (·.nested_installer_files))).getD []
        installers := instAfter06 m } := by
  rw [show passUpTo06 m = opt_nested_installer_files (passUpTo05 m) from rfl,
    passUpTo05_spec, opt_nested_installer_files_spec]
  unfold instAfter06
  simp only [instAfter00_eq]
  rw [instCollapse05 (·.nested_installer_files) (fun i => rfl),
    instCollapse04 (·.nested_installer_files) (fun i => rfl),
    instCollapse03 (·.nested_installer_files) (fun i => rfl),
    instCollapse02 (·.nested_installer_files) (fun i => rfl),
    instCollapse01 (·.nested_installer_files) (fun i => rfl),
    instAfter00_eq]

/-- Normal form of the hoist pass after step 7. -/
theorem passUpTo07_spec (m : InstallerManifest) :
    passUpTo07 m =
      { m with
        locale := (allEqualValue (m.installers.map (·.locale))).getD none
        platform := (allEqualValue (m.installers.map (·.platform))).getD 0
        minimum_os_version := (allEqualValue (m.installers.map (·.minimum_os_version))).getD none
        type := (allEqualValue (m.installers.map (·.type))).getD none
        nested_installer_type := (allEqualValue (m.installers.map (·.nested_installer_type))).getD none
        nested_installer_files := (allEqualValue (m.installers.map (·.nested_installer_files))).getD []
        scope := (allEqualValue (m.installers.map (·.scope))).getD none
        installers := instAfter07 m } := by
  rw [show passUpTo07 m = opt_scope (passUpTo06 m) from rfl,
    passUpTo06_spec, opt_scope_spec]
  unfold instAfter07
  simp only [instAfter00_eq]
  rw [instCollapse06 (·.scope) (fun i => rfl),
    instCollapse05 (·.scope) (fun i => rfl),
    instCollapse04 (·.scope) (fun i => rfl),
    instCollapse03 (·.scope) (fun i => rfl),
    instCollapse02 (·.scope) (fun i => rfl),
    instCollapse01 (·.scope) (fun i => rfl),
    instAfter00_eq]

/-- Normal form of the hoist pass after step 8. -/
theorem passUpTo08_spec (m : InstallerManifest) :
    passUpTo08 m =
      { m with
        locale := (allEqualValue (m.installers.map (·.locale))).getD none
        platform := (allEqualValue (m.installers.map (·.platform))).getD 0
        minimum_os_version := (allEqualValue (m.installers.map (·.minimum_os_version))).getD none
        type := (allEqualValue (m.installers.map (·.type))).getD none
        nested_installer_type := (allEqualValue (m.installers.map (·.nested_installer_type))).getD none
        nested_installer_files := (allEqualValue (m.installers.map (·.nested_installer_files))).getD []
        scope := (allEqualValue (m.installers.map (·.scope))).getD none
        install_modes := (allEqualValue (m.installers.map (·.install_modes))).getD 0
        installers := instAfter08 m } := by
  rw [show passUpTo08 m = opt_install_modes (passUpTo07 m) from rfl,
    passUpTo07_spec, opt_install_modes_spec]
  unfold instAfter08
  simp only [instAfter00_eq]
  rw [instCollapse07 (·.install_modes) (fun i => rfl),
    instCollapse06 (·.install_modes) (fun i => rfl),
    instCollapse05 (·.install_modes) (fun i => rfl),
    instCollapse04 (·.install_modes) (fun i => rfl),
    instCollapse03 (·.install_modes) (fun i => rfl),
    instCollapse02 (·.install_modes) (fun i => rfl),
    instCollapse01 (·.install_modes) (fun i => rfl),
    instAfter00_eq]

/-- Normal form of the hoist pass after step 9. -/
theorem passUpTo09_spec (m : InstallerManifest) :
    passUpTo09 m =
      { m with
        locale := (allEqualValue (m.installers.map (·.locale))).getD none
        platform := (allEqualValue (m.installers.map (·.platform))).getD 0
        minimum_os_version := (allEqualValue (m.installers.map (·.minimum_os_version))).getD none
        type := (allEqualValue (m.installers.map (·.type))).getD none
        nested_installer_type := (allEqualValue (m.installers.map (·.nested_installer_type))).getD none
        nested_installer_files := (allEqualValue (m.installers.map (·.nested_installer_files))).getD []
        scope := (allEqualValue (m.installers.map (·.scope))).getD none
        install_modes := (allEqualValue (m.installers.map (·.install_modes))).getD 0
        switches.silent := (allEqualValue (m.installers.map (·.switches.silent))).getD none
        installers := instAfter09 m } := by
  rw [show passUpTo09 m = opt_switches_silent (passUpTo08 m) from rfl,
    passUpTo08_spec, opt_switches_silent_spec]
  unfold instAfter09
  simp only [instAfter00_eq]
  rw [instCollapse08 (·.switches.silent) (fun i => rfl),
    instCollapse07 (·.switches.silent) (fun i => rfl),
    instCollapse06 (·.switches.silent) (fun i => rfl),
    instCollapse05 (·.switches.silent) (fun i => rfl),
    instCollapse04 (·.switches.silent) (fun i => rfl),
    instCollapse03 (·.switches.silent) (fun i => rfl),
    instCollapse02 (·.switches.silent) (fun i => rfl),
    instCollapse01 (·.switches.silent) (fun i => rfl),
    instAfter00_eq]

/-- Normal form of the hoist pass after step 10. -/
theorem passUpTo10_spec (m : InstallerManifest) :
    passUpTo10 m =
      { m with
        locale := (allEqualValue (m.installers.map (·.locale))).getD none
        platform := (allEqualValue (m.installers.map (·.platform))).getD 0
        minimum_os_version := (allEqualValue (m.installers.map (·.minimum_os_version))).getD none
        type := (allEqualValue (m.installers.map (·.type))).getD none
        nested_installer_type := (allEqualValue (m.installers.map (·.nested_installer_type))).getD none
        nested_installer_files := (allEqualValue (m.installers.map (·.nested_installer_files))).getD []
        scope := (allEqualValue (m.installers.map (·.scope))).getD none
        install_modes := (allEqualValue (m.installers.map (·.install_modes))).getD 0
        switches.silent := (allEqualValue (m.installers.map (·.switches.silent))).getD none
        switches.silent_with_progress := (allEqualValue (m.installers.map (·.switches.silent_with_progress))).getD none
        installers := instAfter10 m } := by
  rw [show passUpTo10 m = opt_switches_silent_with_progress (passUpTo09 m) from rfl,
    passUpTo09_spec, opt_switches_silent_with_progress_spec]
  unfold instAfter10
  simp only [instAfter00_eq]
  rw [instCollapse09 (·.switches.silent_with_progress) (fun i => rfl),
    instCollapse08 (·.switches.silent_with_progress) (fun i => rfl),
    instCollapse07 (·.switches.silent_with_progress) (fun i => rfl),
    instCollapse06 (·.switches.silent_with_progress) (fun i => rfl),
    instCollapse05 (·.switches.silent_with_progress) (fun i => rfl),
    instCollapse04 (·.switches.silent_with_progress) (fun i => rfl),
    instCollapse03 (·.switches.silent_with_progress) (fun i => rfl),
    instCollapse02 (·.switches.silent_with_progress) (fun i => rfl),
    instCollapse01 (·.switches.silent_with_progress) (fun i => rfl),
    instAfter00_eq]

/-- Normal form of the hoist pass after step 11. -/
theorem passUpTo11_spec (m : InstallerManifest) :
    passUpTo11 m =
      { m with
        locale := (allEqualValue (m.installers.map (·.locale))).getD none
        platform := (allEqualValue (m.installers.map (·.platform))).getD 0
        minimum_os_version := (allEqualValue (m.installers.map (·.minimum_os_version))).getD none
        type := (allEqualValue (m.installers.map (·.type))).getD none
        nested_installer_type := (allEqualValue (m.installers.map (·.nested_installer_type))).getD none
        nested_installer_files := (allEqualValue (m.installers.map (·.nested_installer_files))).getD []
        scope := (allEqualValue (m.installers.map (·.scope))).getD none
        install_modes := (allEqualValue (m.installers.map (·.install_modes))).getD 0
        switches.silent := (allEqualValue (m.installers.map (·.switches.silent))).getD none
        switches.silent_with_progress := (allEqualValue (m.installers.map (·.switches.silent_with_progress))).getD none
        switches.interactive := (allEqualValue (m.installers.map (·.switches.interactive))).getD none
        installers := instAfter11 m } := by
  rw [show passUpTo11 m = opt_switches_interactive (passUpTo10 m) from rfl,
    passUpTo10_spec, opt_switches_interactive_spec]
  unfold instAfter11
  simp only [instAfter00_eq]
  rw [instCollapse10 (·.switches.interactive) (fun i => rfl),
    instCollapse09 (·.switches.interactive) (fun i => rfl),
    instCollapse08 (·.switches.interactive) (fun i => rfl),
    instCollapse07 (·.switches.interactive) (fun i => rfl),
    instCollapse06 (·.switches.interactive) (fun i => rfl),
    instCollapse05 (·.switches.interactive) (fun i => rfl),
    instCollapse04 (·.switches.interactive) (fun i => rfl),
    instCollapse03 (·.switches.interactive) (fun i => rfl),
    instCollapse02 (·.switches.interactive) (fun i => rfl),
    instCollapse01 (·.switches.interactive) (fun i => rfl),
    instAfter00_eq]

/-- Normal form of the hoist pass after step 12. -/
theorem passUpTo12_spec (m : InstallerManifest) :
    passUpTo12 m =
      { m with
        locale := (allEqualValue (m.installers.map (·.locale))).getD none
        platform := (allEqualValue (m.installers.map (·.platform))).getD 0
        minimum_os_version := (allEqualValue (m.installers.map (·.minimum_os_version))).getD none
        type := (allEqualValue (m.installers.map (·.type))).getD none
        nested_installer_type := (allEqualValue (m.installers.map (·.nested_installer_type))).getD none
        nested_installer_files := (allEqualValue (m.installers.map (·.nested_installer_files))).getD []
        scope := (allEqualValue (m.installers.map (·.scope))).getD none
        install_modes := (allEqualValue (m.installers.map (·.install_modes))).getD 0
        switches.silent := (allEqualValue (m.installers.map (·.switches.silent))).getD none
        switches.silent_with_progress := (allEqualValue (m.installers.map (·.switches.silent_with_progress))).getD none
        switches.interactive := (allEqualValue (m.installers.map (·.switches.interactive))).getD none
        switches.install_location := (allEqualValue (m.installers.map (·.switches.install_location))).getD none
        installers := instAfter12 m } := by
  rw [show passUpTo12 m = opt_switches_install_location (passUpTo11 m) from rfl,
    passUpTo11_spec, opt_switches_install_location_spec]
  unfold instAfter12
  simp only [instAfter00_eq]
  rw [instCollapse11 (·.switches.install_location) (fun i => rfl),
    instCollapse10 (·.switches.install_location) (fun i => rfl),
    instCollapse09 (·.switches.install_location) (fun i => rfl),
    instCollapse08 (·.switches.install_location) (fun i => rfl),
    instCollapse07 (·.switches.install_location) (fun i => rfl),
    instCollapse06 (·.switches.install_location) (fun i => rfl),
    instCollapse05 (·.switches.install_location) (fun i => rfl),
    instCollapse04 (·.switches.install_location) (fun i => rfl),
    instCollapse03 (·.switches.install_location) (fun i => rfl),
    instCollapse02 (·.switches.install_location) (fun i => rfl),
    instCollapse01 (·.switches.install_location) (fun i => rfl),
    instAfter00_eq]

/-- Normal form of the hoist pass after step 13. -/
theorem passUpTo13_spec (m : InstallerManifest) :
    passUpTo13 m =
      { m with
        locale := (allEqualValue (m.installers.map (·.locale))).getD none
        platform := (allEqualValue (m.installers.map (·.platform))).getD 0
        minimum_os_version := (allEqualValue (m.installers.map (·.minimum_os_version))).getD none
        type := (allEqualValue (m.installers.map (·.type))).getD none
        nested_installer_type := (allEqualValue (m.installers.map (·.nested_installer_type))).getD none
        nested_installer_files := (allEqualValue (m.installers.map (·.nested_installer_files))).getD []
        scope := (allEqualValue (m.installers.map (·.scope))).getD none
        install_modes := (allEqualValue (m.installers.map (·.install_modes))).getD 0
        switches.silent := (allEqualValue (m.installers.map (·.switches.silent))).getD none
        switches.silent_with_progress := (allEqualValue (m.installers.map (·.switches.silent_with_progress))).getD none
        switches.interactive := (allEqualValue (m.installers.map (·.switches.interactive))).getD none
        switches.install_location := (allEqualValue (m.installers.map (·.switches.install_location))).getD none
        switches.log := (allEqualValue (m.installers.map (·.switches.log))).getD none
        installers := instAfter13 m } := by
  rw [show passUpTo13 m = opt_switches_log (passUpTo12 m) from rfl,
    passUpTo12_spec, opt_switches_log_spec]
  unfold instAfter13
  simp only [instAfter00_eq]
  rw [instCollapse12 (·.switches.log) (fun i => rfl),
    instCollapse11 (·.switches.log) (fun i => rfl),
    instCollapse10 (·.switches.log) (fun i => rfl),
    instCollapse09 (·.switches.log) (fun i => rfl),
    instCollapse08 (·.switches.log) (fun i => rfl),
    instCollapse07 (·.switches.log) (fun i => rfl),
    instCollapse06 (·.switches.log) (fun i => rfl),
    instCollapse05 (·.switches.log) (fun i => rfl),
    instCollapse04 (·.switches.log) (fun i => rfl),
    instCollapse03 (·.switches.log) (fun i => rfl),
    instCollapse02 (·.switches.log) (fun i => rfl),
    instCollapse01 (·.switches.log) (fun i => rfl),
    instAfter00_eq]

/-- Normal form of the hoist pass after step 14. -/
theorem passUpTo14_spec (m : InstallerManifest) :
    passUpTo14 m =
      { m with
        locale := (allEqualValue (m.installers.map (·.locale))).getD none
        platform := (allEqualValue (m.installers.map (·.platform))).getD 0
        minimum_os_version := (allEqualValue (m.installers.map (·.minimum_os_version))).getD none
        type := (allEqualValue (m.installers.map (·.type))).getD none
        nested_installer_type := (allEqualValue (m.installers.map (·.nested_installer_type))).getD none
        nested_installer_files := (allEqualValue (m.installers.map (·.nested_installer_files))).getD []
        scope := (allEqualValue (m.installers.map (·.scope))).getD none
        install_modes := (allEqualValue (m.installers.map (·.install_modes))).getD 0
        switches.silent := (allEqualValue (m.installers.map (·.switches.silent))).getD none
        switches.silent_with_progress := (allEqualValue (m.installers.map (·.switches.silent_with_progress))).getD none
        switches.interactive := (allEqualValue (m.installers.map (·.switches.interactive))).getD none
        switches.install_location := (allEqualValue (m.installers.map (·.switches.install_location))).getD none
        switches.log := (allEqualValue (m.installers.map (·.switches.log))).getD none
        switches.upgrade := (allEqualValue (m.installers.map (·.switches.upgrade))).getD none
        installers := instAfter14 m } := by
  rw [show passUpTo14 m = opt_switches_upgrade (passUpTo13 m) from rfl,
    passUpTo13_spec, opt_switches_upgrade_spec]
  unfold instAfter14
  simp only [instAfter00_eq]
  rw [instCollapse13 (·.switches.upgrade) (fun i => rfl),
    instCollapse12 (·.switches.upgrade) (fun i => rfl),
    instCollapse11 (·.switches.upgrade) (fun i => rfl),
    instCollapse10 (·.switches.upgrade) (fun i => rfl),
    instCollapse09 (·.switches.upgrade) (fun i => rfl),
    instCollapse08 (·.switches.upgrade) (fun i => rfl),
    instCollapse07 (·.switches.upgrade) (fun i => rfl),
    instCollapse06 (·.switches.upgrade) (fun i => rfl),
    instCollapse05 (·.switches.upgrade) (fun i => rfl),
    instCollapse04 (·.switches.upgrade) (fun i => rfl),
    instCollapse03 (·.switches.upgrade) (fun i => rfl),
    instCollapse02 (·.switches.upgrade) (fun i => rfl),
    instCollapse01 (·.switches.upgrade) (fun i => rfl),
    instAfter00_eq]

/-- Normal form of the hoist pass after step 15. -/
theorem passUpTo15_spec (m : InstallerManifest) :
    passUpTo15 m =
      { m with
        locale := (allEqualValue (m.installers.map (·.locale))).getD none
        platform := (allEqualValue (m.installers.map (·.platform))).getD 0
        minimum_os_version := (allEqualValue (m.installers.map (·.minimum_os_version))).getD none
        type := (allEqualValue (m.installers.map (·.type))).getD none
        nested_installer_type := (allEqualValue (m.installers.map (·.nested_installer_type))).getD none
        nested_installer_files := (allEqualValue (m.installers.map (·.nested_installer_files))).getD []
        scope := (allEqualValue (m.installers.map (·.scope))).getD none
        install_modes := (allEqualValue (m.installers.map (·.install_modes))).getD 0
        switches.silent := (allEqualValue (m.installers.map (·.switches.silent))).getD none
        switches.silent_with_progress := (allEqualValue (m.installers.map (·.switches.silent_with_progress))).getD none
        switches.interactive := (allEqualValue (m.installers.map (·.switches.interactive))).getD none
        switches.install_location := (allEqualValue (m.installers.map (·.switches.install_location))).getD none
        switches.log := (allEqualValue (m.installers.map (·.switches.log))).getD none
        switches.upgrade := (allEqualValue (m.installers.map (·.switches.upgrade))).getD none
        switches.repair := (allEqualValue (m.installers.map (·.switches.repair))).getD none
        installers := instAfter15 m } := by
  rw [show passUpTo15 m = opt_switches_repair (passUpTo14 m) from rfl,
    passUpTo14_spec, opt_switches_repair_spec]
  unfold instAfter15
  simp only [instAfter00_eq]
  rw [instCollapse14 (·.switches.repair) (fun i => rfl),
    instCollapse13 (·.switches.repair) (fun i => rfl),
    instCollapse12 (·.switches.repair) (fun i => rfl),
    instCollapse11 (·.switches.repair) (fun i => rfl),
    instCollapse10 (·.switches.repair) (fun i => rfl),
    instCollapse09 (·.switches.repair) (fun i => rfl),
    instCollapse08 (·.switches.repair) (fun i => rfl),
    instCollapse07 (·.switches.repair) (fun i => rfl),
    instCollapse06 (·.switches.repair) (fun i => rfl),
    instCollapse05 (·.switches.repair) (fun i => rfl),
    instCollapse04 (·.switches.repair) (fun i => rfl),
    instCollapse03 (·.switches.repair) (fun i => rfl),
    instCollapse02 (·.switches.repair) (fun i => rfl),
    instCollapse01 (·.switches.repair) (fun i => rfl),
    instAfter00_eq]

/-- Normal form of the hoist pass after step 16. -/
theorem passUpTo16_spec (m : InstallerManifest) :
    passUpTo16 m =
      { m with
        locale := (allEqualValue (m.installers.map (·.locale))).getD none
        platform := (allEqualValue (m.installers.map (·.platform))).getD 0
        minimum_os_version := (allEqualValue (m.installers.map (·.minimum_os_version))).getD none
        type := (allEqualValue (m.installers.map (·.type))).getD none
        nested_installer_type := (allEqualValue (m.installers.map (·.nested_installer_type))).getD none
        nested_installer_files := (allEqualValue (m.installers.map (·.nested_installer_files))).getD []
        scope := (allEqualValue (m.installers.map (·.scope))).getD none
        install_modes := (allEqualValue (m.installers.map (·.install_modes))).getD 0
        switches.silent := (allEqualValue (m.installers.map (·.switches.silent))).getD none
        switches.silent_with_progress := (allEqualValue (m.installers.map (·.switches.silent_with_progress))).getD none
        switches.interactive := (allEqualValue (m.installers.map (·.switches.interactive))).getD none
        switches.install_location := (allEqualValue (m.installers.map (·.switches.install_location))).getD none
        switches.log := (allEqualValue (m.installers.map (·.switches.log))).getD none
        switches.upgrade := (allEqualValue (m.installers.map (·.switches.upgrade))).getD none
        switches.repair := (allEqualValue (m.installers.map (·.switches.repair))).getD none
        success_codes := (allEqualValue (m.installers.map (·.success_codes))).getD []
        installers := instAfter16 m } := by
  rw [show passUpTo16 m = opt_success_codes (passUpTo15 m) from rfl,
    passUpTo15_spec, opt_success_codes_spec]
  unfold instAfter16
  simp only [instAfter00_eq]
  rw [instCollapse15 (·.success_codes) (fun i => rfl),
    instCollapse14 (·.success_codes) (fun i => rfl),
    instCollapse13 (·.success_codes) (fun i => rfl),
    instCollapse12 (·.success_codes) (fun i => rfl),
    instCollapse11 (·.success_codes) (fun i => rfl),
    instCollapse10 (·.success_codes) (fun i => rfl),
    instCollapse09 (·.success_codes) (fun i => rfl),
    instCollapse08 (·.success_codes) (fun i => rfl),
    instCollapse07 (·.success_codes) (fun i => rfl),
    instCollapse06 (·.success_codes) (fun i => rfl),
    instCollapse05 (·.success_codes) (fun i => rfl),
    instCollapse04 (·.success_codes) (fun i => rfl),
    instCollapse03 (·.success_codes) (fun i => rfl),
    instCollapse02 (·.success_codes) (fun i => rfl),
    instCollapse01 (·.success_codes) (fun i => rfl),
    instAfter00_eq]

/-- Normal form of the hoist pass after step 17. -/
theorem passUpTo17_spec (m : InstallerManifest) :
    passUpTo17 m =
      { m with
        locale := (allEqualValue (m.installers.map (·.locale))).getD none
        platform := (allEqualValue (m.installers.map (·.platform))).getD 0
        minimum_os_version := (allEqualValue (m.installers.map (·.minimum_os_version))).getD none
        type := (allEqualValue (m.installers.map (·.type))).getD none
        nested_installer_type := (allEqualValue (m.installers.map (·.nested_installer_type))).getD none
        nested_installer_files := (allEqualValue (m.installers.map (·.nested_installer_files))).getD []
        scope := (allEqualValue (m.installers.map (·.scope))).getD none
        install_modes := (allEqualValue (m.installers.map (·.install_modes))).getD 0
        switches.silent := (allEqualValue (m.installers.map (·.switches.silent))).getD none
        switches.silent_with_progress := (allEqualValue (m.installers.map (·.switches.silent_with_progress))).getD none
        switches.interactive := (allEqualValue (m.installers.map (·.switches.interactive))).getD none
        switches.install_location := (allEqualValue (m.installers.map (·.switches.install_location))).getD none
        switches.log := (allEqualValue (m.installers.map (·.switches.log))).getD none
        switches.upgrade := (allEqualValue (m.installers.map (·.switches.upgrade))).getD none
        switches.repair := (allEqualValue (m.installers.map (·.switches.repair))).getD none
        success_codes := (allEqualValue (m.installers.map (·.success_codes))).getD []
        expected_return_codes := (allEqualValue (m.installers.map (·.expected_return_codes))).getD []
        installers := instAfter17 m } := by
  rw [show passUpTo17 m = opt_expected_return_codes (passUpTo16 m) from rfl,
    passUpTo16_spec, opt_expected_return_codes_spec]
  unfold instAfter17
  simp only [instAfter00_eq]
  rw [instCollapse16 (·.expected_return_codes) (fun i => rfl),
    instCollapse15 (·.expected_return_codes) (fun i => rfl),
    instCollapse14 (·.expected_return_codes) (fun i => rfl),
    instCollapse13 (·.expected_return_codes) (fun i => rfl),
    instCollapse12 (·.expected_return_codes) (fun i => rfl),
    instCollapse11 (·.expected_return_codes) (fun i => rfl),
    instCollapse10 (·.expected_return_codes) (fun i => rfl),
    instCollapse09 (·.expected_return_codes) (fun i => rfl),
    instCollapse08 (·.expected_return_codes) (fun i => rfl),
    instCollapse07 (·.expected_return_codes) (fun i => rfl),
    instCollapse06 (·.expected_return_codes) (fun i => rfl),
    instCollapse05 (·.expected_return_codes) (fun i => rfl),
    instCollapse04 (·.expected_return_codes) (fun i => rfl),
    instCollapse03 (·.expected_return_codes) (fun i => rfl),
    instCollapse02 (·.expected_return_codes) (fun i => rfl),
    instCollapse01 (·.expected_return_codes) (fun i => rfl),
    instAfter00_eq]

/-- Normal form of the hoist pass after step 18. -/
theorem passUpTo18_spec (m : InstallerManifest) :
    passUpTo18 m =
      { m with
        locale := (allEqualValue (m.installers.map (·.locale))).getD none
        platform := (allEqualValue (m.installers.map (·.platform))).getD 0
        minimum_os_version := (allEqualValue (m.installers.map (·.minimum_os_version))).getD none
        type := (allEqualValue (m.installers.map (·.type))).getD none
        nested_installer_type := (allEqualValue (m.installers.map (·.nested_installer_type))).getD none
        nested_installer_files := (allEqualValue (m.installers.map (·.nested_installer_files))).getD []
        scope := (allEqualValue (m.installers.map (·.scope))).getD none
        install_modes := (allEqualValue (m.installers.map (·.install_modes))).getD 0
        switches.silent := (allEqualValue (m.installers.map (·.switches.silent))).getD none
        switches.silent_with_progress := (allEqualValue (m.installers.map (·.switches.silent_with_progress))).getD none
        switches.interactive := (allEqualValue (m.installers.map (·.switches.interactive))).getD none
        switches.install_location := (allEqualValue (m.installers.map (·.switches.install_location))).getD none
        switches.log := (allEqualValue (m.installers.map (·.switches.log))).getD none
        switches.upgrade := (allEqualValue (m.installers.map (·.switches.upgrade))).getD none
        switches.repair := (allEqualValue (m.installers.map (·.switches.repair))).getD none
        success_codes := (allEqualValue (m.installers.map (·.success_codes))).getD []
        expected_return_codes := (allEqualValue (m.installers.map (·.expected_return_codes))).getD []
        upgrade_behavior := (allEqualValue (m.installers.map (·.upgrade_behavior))).getD none
        installers := instAfter18 m } := by
  rw [show passUpTo18 m = opt_upgrade_behavior (passUpTo17 m) from rfl,
    passUpTo17_spec, opt_upgrade_behavior_spec]
  unfold instAfter18
  simp only [instAfter00_eq]
  rw [instCollapse17 (·.upgrade_behavior) (fun i => rfl),
    instCollapse16 (·.upgrade_behavior) (fun i => rfl),
    instCollapse15 (·.upgrade_behavior) (fun i => rfl),
    instCollapse14 (·.upgrade_behavior) (fun i => rfl),
    instCollapse13 (·.upgrade_behavior) (fun i => rfl),
    instCollapse12 (·.upgrade_behavior) (fun i => rfl),
    instCollapse11 (·.upgrade_behavior) (fun i => rfl),
    instCollapse10 (·.upgrade_behavior) (fun i => rfl),
    instCollapse09 (·.upgrade_behavior) (fun i => rfl),
    instCollapse08 (·.upgrade_behavior) (fun i => rfl),
    instCollapse07 (·.upgrade_behavior) (fun i => rfl),
    instCollapse06 (·.upgrade_behavior) (fun i => rfl),
    instCollapse05 (·.upgrade_behavior) (fun i => rfl),
    instCollapse04 (·.upgrade_behavior) (fun i => rfl),
    instCollapse03 (·.upgrade_behavior) (fun i => rfl),
    instCollapse02 (·.upgrade_behavior) (fun i => rfl),
    instCollapse01 (·.upgrade_behavior) (fun i => rfl),
    instAfter00_eq]

/-- Normal form of the hoist pass after step 19. -/
theorem passUpTo19_spec (m : InstallerManifest) :
    passUpTo19 m =
      { m with
        locale := (allEqualValue (m.installers.map (·.locale))).getD none
        platform := (allEqualValue (m.installers.map (·.platform))).getD 0
        minimum_os_version := (allEqualValue (m.installers.map (·.minimum_os_version))).getD none
        type := (allEqualValue (m.installers.map (·.type))).getD none
        nested_installer_type := (allEqualValue (m.installers.map (·.nested_installer_type))).getD none
        nested_installer_files := (allEqualValue (m.installers.map (·.nested_installer_files))).getD []
        scope := (allEqualValue (m.installers.map (·.scope))).getD none
        install_modes := (allEqualValue (m.installers.map (·.install_modes))).getD 0
        switches.silent := (allEqualValue (m.installers.map (·.switches.silent))).getD none
        switches.silent_with_progress := (allEqualValue (m.installers.map (·.switches.silent_with_progress))).getD none
        switches.interactive := (allEqualValue (m.installers.map (·.switches.interactive))).getD none
        switches.install_location := (allEqualValue (m.installers.map (·.switches.install_location))).getD none
        switches.log := (allEqualValue (m.installers.map (·.switches.log))).getD none
        switches.upgrade := (allEqualValue (m.installers.map (·.switches.upgrade))).getD none
        switches.repair := (allEqualValue (m.installers.map (·.switches.repair))).getD none
        success_codes := (allEqualValue (m.installers.map (·.success_codes))).getD []
        expected_return_codes := (allEqualValue (m.installers.map (·.expected_return_codes))).getD []
        upgrade_behavior := (allEqualValue (m.installers.map (·.upgrade_behavior))).getD none
        commands := (allEqualValue (m.installers.map (·.commands))).getD []
        installers := instAfter19 m } := by
  rw [show passUpTo19 m = opt_commands (passUpTo18 m) from rfl,
    passUpTo18_spec, opt_commands_spec]
  unfold instAfter19
  simp only [instAfter00_eq]
  rw [instCollapse18 (·.commands) (fun i => rfl),
    instCollapse17 (·.commands) (fun i => rfl),
    instCollapse16 (·.commands) (fun i => rfl),
    instCollapse15 (·.commands) (fun i => rfl),
    instCollapse14 (·.commands) (fun i => rfl),
    instCollapse13 (·.commands) (fun i => rfl),
    instCollapse12 (·.commands) (fun i => rfl),
    instCollapse11 (·.commands) (fun i => rfl),
    instCollapse10 (·.commands) (fun i => rfl),
    instCollapse09 (·.commands) (fun i => rfl),
    instCollapse08 (·.commands) (fun i => rfl),
    instCollapse07 (·.commands) (fun i => rfl),
    instCollapse06 (·.commands) (fun i => rfl),
    instCollapse05 (·.commands) (fun i => rfl),
    instCollapse04 (·.commands) (fun i => rfl),
    instCollapse03 (·.commands) (fun i => rfl),
    instCollapse02 (·.commands) (fun i => rfl),
    instCollapse01 (·.commands) (fun i => rfl),
    instAfter00_eq]

/-- Normal form of the hoist pass after step 20. -/
theorem passUpTo20_spec (m : InstallerManifest) :
    passUpTo20 m =
      { m with
        locale := (allEqualValue (m.installers.map (·.locale))).getD none
        platform := (allEqualValue (m.installers.map (·.platform))).getD 0
        minimum_os_version := (allEqualValue (m.installers.map (·.minimum_os_version))).getD none
        type := (allEqualValue (m.installers.map (·.type))).getD none
        nested_installer_type := (allEqualValue (m.installers.map (·.nested_installer_type))).getD none
        nested_installer_files := (allEqualValue (m.installers.map (·.nested_installer_files))).getD []
        scope := (allEqualValue (m.installers.map (·.scope))).getD none
        install_modes := (allEqualValue (m.installers.map (·.install_modes))).getD 0
        switches.silent := (allEqualValue (m.installers.map (·.switches.silent))).getD none
        switches.silent_with_progress := (allEqualValue (m.installers.map (·.switches.silent_with_progress))).getD none
        switches.interactive := (allEqualValue (m.installers.map (·.switches.interactive))).getD none
        switches.install_location := (allEqualValue (m.installers.map (·.switches.install_location))).getD none
        switches.log := (allEqualValue (m.installers.map (·.switches.log))).getD none
        switches.upgrade := (allEqualValue (m.installers.map (·.switches.upgrade))).getD none
        switches.repair := (allEqualValue (m.installers.map (·.switches.repair))).getD none
        success_codes := (allEqualValue (m.installers.map (·.success_codes))).getD []
        expected_return_codes := (allEqualValue (m.installers.map (·.expected_return_codes))).getD []
        upgrade_behavior := (allEqualValue (m.installers.map (·.upgrade_behavior))).getD none
        commands := (allEqualValue (m.installers.map (·.commands))).getD []
        protocols := (allEqualValue (m.installers.map (·.protocols))).getD []
        installers := instAfter20 m } := by
  rw [show passUpTo20 m = opt_protocols (passUpTo19 m) from rfl,
    passUpTo19_spec, opt_protocols_spec]
  unfold instAfter20
  simp only [instAfter00_eq]
  rw [instCollapse19 (·.protocols) (fun i => rfl),
    instCollapse18 (·.protocols) (fun i => rfl),
    instCollapse17 (·.protocols) (fun i => rfl),
    instCollapse16 (·.protocols) (fun i => rfl),
    instCollapse15 (·.protocols) (fun i => rfl),
    instCollapse14 (·.protocols) (fun i => rfl),
    instCollapse13 (·.protocols) (fun i => rfl),
    instCollapse12 (·.protocols) (fun i => rfl),
    instCollapse11 (·.protocols) (fun i => rfl),
    instCollapse10 (·.protocols) (fun i => rfl),
    instCollapse09 (·.protocols) (fun i => rfl),
    instCollapse08 (·.protocols) (fun i => rfl),
    instCollapse07 (·.protocols) (fun i => rfl),
    instCollapse06 (·.protocols) (fun i => rfl),
    instCollapse05 (·.protocols) (fun i => rfl),
    instCollapse04 (·.protocols) (fun i => rfl),
    instCollapse03 (·.protocols) (fun i => rfl),
    instCollapse02 (·.protocols) (fun i => rfl),
    instCollapse01 (·.protocols) (fun i => rfl),
    instAfter00_eq]

/-- Normal form of the hoist pass after step 21. -/
theorem passUpTo21_spec (m : InstallerManifest) :
    passUpTo21 m =
      { m with
        locale := (allEqualValue (m.installers.map (·.locale))).getD none
        platform := (allEqualValue (m.installers.map (·.platform))).getD 0
        minimum_os_version := (allEqualValue (m.installers.map (·.minimum_os_version))).getD none
        type := (allEqualValue (m.installers.map (·.type))).getD none
        nested_installer_type := (allEqualValue (m.installers.map (·.nested_installer_type))).getD none
        nested_installer_files := (allEqualValue (m.installers.map (·.nested_installer_files))).getD []
        scope := (allEqualValue (m.installers.map (·.scope))).getD none
        install_modes := (allEqualValue (m.installers.map (·.install_modes))).getD 0
        switches.silent := (allEqualValue (m.installers.map (·.switches.silent))).getD none
        switches.silent_with_progress := (allEqualValue (m.installers.map (·.switches.silent_with_progress))).getD none
        switches.interactive := (allEqualValue (m.installers.map (·.switches.interactive))).getD none
        switches.install_location := (allEqualValue (m.installers.map (·.switches.install_location))).getD none
        switches.log := (allEqualValue (m.installers.map (·.switches.log))).getD none
        switches.upgrade := (allEqualValue (m.installers.map (·.switches.upgrade))).getD none
        switches.repair := (allEqualValue (m.installers.map (·.switches.repair))).getD none
        success_codes := (allEqualValue (m.installers.map (·.success_codes))).getD []
        expected_return_codes := (allEqualValue (m.installers.map (·.expected_return_codes))).getD []
        upgrade_behavior := (allEqualValue (m.installers.map (·.upgrade_behavior))).getD none
        commands := (allEqualValue (m.installers.map (·.commands))).getD []
        protocols := (allEqualValue (m.installers.map (·.protocols))).getD []
        file_extensions := (allEqualValue (m.installers.map (·.file_extensions))).getD []
        installers := instAfter21 m } := by
  rw [show passUpTo21 m = opt_file_extensions (passUpTo20 m) from rfl,
    passUpTo20_spec, opt_file_extensions_spec]
  unfold instAfter21
  simp only [instAfter00_eq]
  rw [instCollapse20 (·.file_extensions) (fun i => rfl),
    instCollapse19 (·.file_extensions) (fun i => rfl),
    instCollapse18 (·.file_extensions) (fun i => rfl),
    instCollapse17 (·.file_extensions) (fun i => rfl),
    instCollapse16 (·.file_extensions) (fun i => rfl),
    instCollapse15 (·.file_extensions) (fun i => rfl),
    instCollapse14 (·.file_extensions) (fun i => rfl),
    instCollapse13 (·.file_extensions) (fun i => rfl),
    instCollapse12 (·.file_extensions) (fun i => rfl),
    instCollapse11 (·.file_extensions) (fun i => rfl),
    instCollapse10 (·.file_extensions) (fun i => rfl),
    instCollapse09 (·.file_extensions) (fun i => rfl),
    instCollapse08 (·.file_extensions) (fun i => rfl),
    instCollapse07 (·.file_extensions) (fun i => rfl),
    instCollapse06 (·.file_extensions) (fun i => rfl),
    instCollapse05 (·.file_extensions) (fun i => rfl),
    instCollapse04 (·.file_extensions) (fun i => rfl),
    instCollapse03 (·.file_extensions) (fun i => rfl),
    instCollapse02 (·.file_extensions) (fun i => rfl),
    instCollapse01 (·.file_extensions) (fun i => rfl),
    instAfter00_eq]

/-- Normal form of the hoist pass after step 22. -/
theorem passUpTo22_spec (m : InstallerManifest) :
    passUpTo22 m =
      { m with
        locale := (allEqualValue (m.installers.map (·.locale))).getD none
        platform := (allEqualValue (m.installers.map (·.platform))).getD 0
        minimum_os_version := (allEqualValue (m.installers.map (·.minimum_os_version))).getD none
        type := (allEqualValue (m.installers.map (·.type))).getD none
        nested_installer_type := (allEqualValue (m.installers.map (·.nested_installer_type))).getD none
        nested_installer_files := (allEqualValue (m.installers.map (·.nested_installer_files))).getD []
        scope := (allEqualValue (m.installers.map (·.scope))).getD none
        install_modes := (allEqualValue (m.installers.map (·.install_modes))).getD 0
        switches.silent := (allEqualValue (m.installers.map (·.switches.silent))).getD none
        switches.silent_with_progress := (allEqualValue (m.installers.map (·.switches.silent_with_progress))).getD none
        switches.interactive := (allEqualValue (m.installers.map (·.switches.interactive))).getD none
        switches.install_location := (allEqualValue (m.installers.map (·.switches.install_location))).getD none
        switches.log := (allEqualValue (m.installers.map (·.switches.log))).getD none
        switches.upgrade := (allEqualValue (m.installers.map (·.switches.upgrade))).getD none
        switches.repair := (allEqualValue (m.installers.map (·.switches.repair))).getD none
        success_codes := (allEqualValue (m.installers.map (·.success_codes))).getD []
        expected_return_codes := (allEqualValue (m.installers.map (·.expected_return_codes))).getD []
        upgrade_behavior := (allEqualValue (m.installers.map (·.upgrade_behavior))).getD none
        commands := (allEqualValue (m.installers.map (·.commands))).getD []
        protocols := (allEqualValue (m.installers.map (·.protocols))).getD []
        file_extensions := (allEqualValue (m.installers.map (·.file_extensions))).getD []
        dependencies.windows_features := (allEqualValue (m.installers.map (·.dependencies.windows_features))).getD []
        installers := instAfter22 m } := by
  rw [show passUpTo22 m = opt_dependencies_windows_features (passUpTo21 m) from rfl,
    passUpTo21_spec, opt_dependencies_windows_features_spec]
  unfold instAfter22
  simp only [instAfter00_eq]
  rw [instCollapse21 (·.dependencies.windows_features) (fun i => rfl),
    instCollapse20 (·.dependencies.windows_features) (fun i => rfl),
    instCollapse19 (·.dependencies.windows_features) (fun i => rfl),
    instCollapse18 (·.dependencies.windows_features) (fun i => rfl),
    instCollapse17 (·.dependencies.windows_features) (fun i => rfl),
    instCollapse16 (·.dependencies.windows_features) (fun i => rfl),
    instCollapse15 (·.dependencies.windows_features) (fun i => rfl),
    instCollapse14 (·.dependencies.windows_features) (fun i => rfl),
    instCollapse13 (·.dependencies.windows_features) (fun i => rfl),
    instCollapse12 (·.dependencies.windows_features) (fun i => rfl),
    instCollapse11 (·.dependencies.windows_features) (fun i => rfl),
    instCollapse10 (·.dependencies.windows_features) (fun i => rfl),
    instCollapse09 (·.dependencies.windows_features) (fun i => rfl),
    instCollapse08 (·.dependencies.windows_features) (fun i => rfl),
    instCollapse07 (·.dependencies.windows_features) (fun i => rfl),
    instCollapse06 (·.dependencies.windows_features) (fun i => rfl),
    instCollapse05 (·.dependencies.windows_features) (fun i => rfl),
    instCollapse04 (·.dependencies.windows_features) (fun i => rfl),
    instCollapse03 (·.dependencies.windows_features) (fun i => rfl),
    instCollapse02 (·.dependencies.windows_features) (fun i => rfl),
    instCollapse01 (·.dependencies.windows_features) (fun i => rfl),
    instAfter00_eq]

/-- Normal form of the hoist pass after step 23. -/
theorem passUpTo23_spec (m : InstallerManifest) :
    passUpTo23 m =
      { m with
        locale := (allEqualValue (m.installers.map (·.locale))).getD none
        platform := (allEqualValue (m.installers.map (·.platform))).getD 0
        minimum_os_version := (allEqualValue (m.installers.map (·.minimum_os_version))).getD none
        type := (allEqualValue (m.installers.map (·.type))).getD none
        nested_installer_type := (allEqualValue (m.installers.map (·.nested_installer_type))).getD none
        nested_installer_files := (allEqualValue (m.installers.map (·.nested_installer_files))).getD []
        scope := (allEqualValue (m.installers.map (·.scope))).getD none
        install_modes := (allEqualValue (m.installers.map (·.install_modes))).getD 0
        switches.silent := (allEqualValue (m.installers.map (·.switches.silent))).getD none
        switches.silent_with_progress := (allEqualValue (m.installers.map (·.switches.silent_with_progress))).getD none
        switches.interactive := (allEqualValue (m.installers.map (·.switches.interactive))).getD none
        switches.install_location := (allEqualValue (m.installers.map (·.switches.install_location))).getD none
        switches.log := (allEqualValue (m.installers.map (·.switches.log))).getD none
        switches.upgrade := (allEqualValue (m.installers.map (·.switches.upgrade))).getD none
        switches.repair := (allEqualValue (m.installers.map (·.switches.repair))).getD none
        success_codes := (allEqualValue (m.installers.map (·.success_codes))).getD []
        expected_return_codes := (allEqualValue (m.installers.map (·.expected_return_codes))).getD []
        upgrade_behavior := (allEqualValue (m.installers.map (·.upgrade_behavior))).getD none
        commands := (allEqualValue (m.installers.map (·.commands))).getD []
        protocols := (allEqualValue (m.installers.map (·.protocols))).getD []
        file_extensions := (allEqualValue (m.installers.map (·.file_extensions))).getD []
        dependencies.windows_features := (allEqualValue (m.installers.map (·.dependencies.windows_features))).getD []
        dependencies.windows_libraries := (allEqualValue (m.installers.map (·.dependencies.windows_libraries))).getD []
        installers := instAfter23 m } := by
  rw [show passUpTo23 m = opt_dependencies_windows_libraries (passUpTo22 m) from rfl,
    passUpTo22_spec, opt_dependencies_windows_libraries_spec]
  unfold instAfter23
  simp only [instAfter00_eq]
  rw [instCollapse22 (·.dependencies.windows_libraries) (fun i => rfl),
    instCollapse21 (·.dependencies.windows_libraries) (fun i => rfl),
    instCollapse20 (·.dependencies.windows_libraries) (fun i => rfl),
    instCollapse19 (·.dependencies.windows_libraries) (fun i => rfl),
    instCollapse18 (·.dependencies.windows_libraries) (fun i => rfl),
    instCollapse17 (·.dependencies.windows_libraries) (fun i => rfl),
    instCollapse16 (·.dependencies.windows_libraries) (fun i => rfl),
    instCollapse15 (·.dependencies.windows_libraries) (fun i => rfl),
    instCollapse14 (·.dependencies.windows_libraries) (fun i => rfl),
    instCollapse13 (·.dependencies.windows_libraries) (fun i => rfl),
    instCollapse12 (·.dependencies.windows_libraries) (fun i => rfl),
    instCollapse11 (·.dependencies.windows_libraries) (fun i => rfl),
    instCollapse10 (·.dependencies.windows_libraries) (fun i => rfl),
    instCollapse09 (·.dependencies.windows_libraries) (fun i => rfl),
    instCollapse08 (·.dependencies.windows_libraries) (fun i => rfl),
    instCollapse07 (·.dependencies.windows_libraries) (fun i => rfl),
    instCollapse06 (·.dependencies.windows_libraries) (fun i => rfl),
    instCollapse05 (·.dependencies.windows_libraries) (fun i => rfl),
    instCollapse04 (·.dependencies.windows_libraries) (fun i => rfl),
    instCollapse03 (·.dependencies.windows_libraries) (fun i => rfl),
    instCollapse02 (·.dependencies.windows_libraries) (fun i => rfl),
    instCollapse01 (·.dependencies.windows_libraries) (fun i => rfl),
    instAfter00_eq]

/-- Normal form of the hoist pass after step 24. -/
theorem passUpTo24_spec (m : InstallerManifest) :
    passUpTo24 m =
      { m with
        locale := (allEqualValue (m.installers.map (·.locale))).getD none
        platform := (allEqualValue (m.installers.map (·.platform))).getD 0
        minimum_os_version := (allEqualValue (m.installers.map (·.minimum_os_version))).getD none
        type := (allEqualValue (m.installers.map (·.type))).getD none
        nested_installer_type := (allEqualValue (m.installers.map (·.nested_installer_type))).getD none
        nested_installer_files := (allEqualValue (m.installers.map (·.nested_installer_files))).getD []
        scope := (allEqualValue (m.installers.map (·.scope))).getD none
        install_modes := (allEqualValue (m.installers.map (·.install_modes))).getD 0
        switches.silent := (allEqualValue (m.installers.map (·.switches.silent))).getD none
        switches.silent_with_progress := (allEqualValue (m.installers.map (·.switches.silent_with_progress))).getD none
        switches.interactive := (allEqualValue (m.installers.map (·.switches.interactive))).getD none
        switches.install_location := (allEqualValue (m.installers.map (·.switches.install_location))).getD none
        switches.log := (allEqualValue (m.installers.map (·.switches.log))).getD none
        switches.upgrade := (allEqualValue (m.installers.map (·.switches.upgrade))).getD none
        switches.repair := (allEqualValue (m.installers.map (·.switches.repair))).getD none
        success_codes := (allEqualValue (m.installers.map (·.success_codes))).getD []
        expected_return_codes := (allEqualValue (m.installers.map (·.expected_return_codes))).getD []
        upgrade_behavior := (allEqualValue (m.installers.map (·.upgrade_behavior))).getD none
        commands := (allEqualValue (m.installers.map (·.commands))).getD []
        protocols := (allEqualValue (m.installers.map (·.protocols))).getD []
        file_extensions := (allEqualValue (m.installers.map (·.file_extensions))).getD []
        dependencies.windows_features := (allEqualValue (m.installers.map (·.dependencies.windows_features))).getD []
        dependencies.windows_libraries := (allEqualValue (m.installers.map (·.dependencies.windows_libraries))).getD []
        dependencies.package := (allEqualValue (m.installers.map (·.dependencies.package))).getD []
        installers := instAfter24 m } := by
  rw [show passUpTo24 m = opt_dependencies_package (passUpTo23 m) from rfl,
    passUpTo23_spec, opt_dependencies_package_spec]
  unfold instAfter24
  simp only [instAfter00_eq]
  rw [instCollapse23 (·.dependencies.package) (fun i => rfl),
    instCollapse22 (·.dependencies.package) (fun i => rfl),
    instCollapse21 (·.dependencies.package) (fun i => rfl),
    instCollapse20 (·.dependencies.package) (fun i => rfl),
    instCollapse19 (·.dependencies.package) (fun i => rfl),
    instCollapse18 (·.dependencies.package) (fun i => rfl),
    instCollapse17 (·.dependencies.package) (fun i => rfl),
    instCollapse16 (·.dependencies.package) (fun i => rfl),
    instCollapse15 (·.dependencies.package) (fun i => rfl),
    instCollapse14 (·.dependencies.package) (fun i => rfl),
    instCollapse13 (·.dependencies.package) (fun i => rfl),
    instCollapse12 (·.dependencies.package) (fun i => rfl),
    instCollapse11 (·.dependencies.package) (fun i => rfl),
    instCollapse10 (·.dependencies.package) (fun i => rfl),
    instCollapse09 (·.dependencies.package) (fun i => rfl),
    instCollapse08 (·.dependencies.package) (fun i => rfl),
    instCollapse07 (·.dependencies.package) (fun i => rfl),
    instCollapse06 (·.dependencies.package) (fun i => rfl),
    instCollapse05 (·.dependencies.package) (fun i => rfl),
    instCollapse04 (·.dependencies.package) (fun i => rfl),
    instCollapse03 (·.dependencies.package) (fun i => rfl),
    instCollapse02 (·.dependencies.package) (fun i => rfl),
    instCollapse01 (·.dependencies.package) (fun i => rfl),
    instAfter00_eq]

/-- Normal form of the hoist pass after step 25. -/
theorem passUpTo25_spec (m : InstallerManifest) :
    passUpTo25 m =
      { m with
        locale := (allEqualValue (m.installers.map (·.locale))).getD none
        platform := (allEqualValue (m.installers.map (·.platform))).getD 0
        minimum_os_version := (allEqualValue (m.installers.map (·.minimum_os_version))).getD none
        type := (allEqualValue (m.installers.map (·.type))).getD none
        nested_installer_type := (allEqualValue (m.installers.map (·.nested_installer_type))).getD none
        nested_installer_files := (allEqualValue (m.installers.map (·.nested_installer_files))).getD []
        scope := (allEqualValue (m.installers.map (·.scope))).getD none
        install_modes := (allEqualValue (m.installers.map (·.install_modes))).getD 0
        switches.silent := (allEqualValue (m.installers.map (·.switches.silent))).getD none
        switches.silent_with_progress := (allEqualValue (m.installers.map (·.switches.silent_with_progress))).getD none
        switches.interactive := (allEqualValue (m.installers.map (·.switches.interactive))).getD none
        switches.install_location := (allEqualValue (m.installers.map (·.switches.install_location))).getD none
        switches.log := (allEqualValue (m.installers.map (·.switches.log))).getD none
        switches.upgrade := (allEqualValue (m.installers.map (·.switches.upgrade))).getD none
        switches.repair := (allEqualValue (m.installers.map (·.switches.repair))).getD none
        success_codes := (allEqualValue (m.installers.map (·.success_codes))).getD []
        expected_return_codes := (allEqualValue (m.installers.map (·.expected_return_codes))).getD []
        upgrade_behavior := (allEqualValue (m.installers.map (·.upgrade_behavior))).getD none
        commands := (allEqualValue (m.installers.map (·.commands))).getD []
        protocols := (allEqualValue (m.installers.map (·.protocols))).getD []
        file_extensions := (allEqualValue (m.installers.map (·.file_extensions))).getD []
        dependencies.windows_features := (allEqualValue (m.installers.map (·.dependencies.windows_features))).getD []
        dependencies.windows_libraries := (allEqualValue (m.installers.map (·.dependencies.windows_libraries))).getD []
        dependencies.package := (allEqualValue (m.installers.map (·.dependencies.package))).getD []
        dependencies.external := (allEqualValue (m.installers.map (·.dependencies.external))).getD []
        installers := instAfter25 m } := by
  rw [show passUpTo25 m = opt_dependencies_external (passUpTo24 m) from rfl,
    passUpTo24_spec, opt_dependencies_external_spec]
  unfold instAfter25
  simp only [instAfter00_eq]
  rw [instCollapse24 (·.dependencies.external) (fun i => rfl),
    instCollapse23 (·.dependencies.external) (fun i => rfl),
    instCollapse22 (·.dependencies.external) (fun i => rfl),
    instCollapse21 (·.dependencies.external) (fun i => rfl),
    instCollapse20 (·.dependencies.external) (fun i => rfl),
    instCollapse19 (·.dependencies.external) (fun i => rfl),
    instCollapse18 (·.dependencies.external) (fun i => rfl),
    instCollapse17 (·.dependencies.external) (fun i => rfl),
    instCollapse16 (·.dependencies.external) (fun i => rfl),
    instCollapse15 (·.dependencies.external) (fun i => rfl),
    instCollapse14 (·.dependencies.external) (fun i => rfl),
    instCollapse13 (·.dependencies.external) (fun i => rfl),
    instCollapse12 (·.dependencies.external) (fun i => rfl),
    instCollapse11 (·.dependencies.external) (fun i => rfl),
    instCollapse10 (·.dependencies.external) (fun i => rfl),
    instCollapse09 (·.dependencies.external) (fun i => rfl),
    instCollapse08 (·.dependencies.external) (fun i => rfl),
    instCollapse07 (·.dependencies.external) (fun i => rfl),
    instCollapse06 (·.dependencies.external) (fun i => rfl),
    instCollapse05 (·.dependencies.external) (fun i => rfl),
    instCollapse04 (·.dependencies.external) (fun i => rfl),
    instCollapse03 (·.dependencies.external) (fun i => rfl),
    instCollapse02 (·.dependencies.external) (fun i => rfl),
    instCollapse01 (·.dependencies.external) (fun i => rfl),
    instAfter00_eq]

/-- Normal form of the hoist pass after step 26. -/
theorem passUpTo26_spec (m : InstallerManifest) :
    passUpTo26 m =
      { m with
        locale := (allEqualValue (m.installers.map (·.locale))).getD none
        platform := (allEqualValue (m.installers.map (·.platform))).getD 0
        minimum_os_version := (allEqualValue (m.installers.map (·.minimum_os_version))).getD none
        type := (allEqualValue (m.installers.map (·.type))).getD none
        nested_installer_type := (allEqualValue (m.installers.map (·.nested_installer_type))).getD none
        nested_installer_files := (allEqualValue (m.installers.map (·.nested_installer_files))).getD []
        scope := (allEqualValue (m.installers.map (·.scope))).getD none
        install_modes := (allEqualValue (m.installers.map (·.install_modes))).getD 0
        switches.silent := (allEqualValue (m.installers.map (·.switches.silent))).getD none
        switches.silent_with_progress := (allEqualValue (m.installers.map (·.switches.silent_with_progress))).getD none
        switches.interactive := (allEqualValue (m.installers.map (·.switches.interactive))).getD none
        switches.install_location := (allEqualValue (m.installers.map (·.switches.install_location))).getD none
        switches.log := (allEqualValue (m.installers.map (·.switches.log))).getD none
        switches.upgrade := (allEqualValue (m.installers.map (·.switches.upgrade))).getD none
        switches.repair := (allEqualValue (m.installers.map (·.switches.repair))).getD none
        success_codes := (allEqualValue (m.installers.map (·.success_codes))).getD []
        expected_return_codes := (allEqualValue (m.installers.map (·.expected_return_codes))).getD []
        upgrade_behavior := (allEqualValue (m.installers.map (·.upgrade_behavior))).getD none
        commands := (allEqualValue (m.installers.map (·.commands))).getD []
        protocols := (allEqualValue (m.installers.map (·.protocols))).getD []
        file_extensions := (allEqualValue (m.installers.map (·.file_extensions))).getD []
        dependencies.windows_features := (allEqualValue (m.installers.map (·.dependencies.windows_features))).getD []
        dependencies.windows_libraries := (allEqualValue (m.installers.map (·.dependencies.windows_libraries))).getD []
        dependencies.package := (allEqualValue (m.installers.map (·.dependencies.package))).getD []
        dependencies.external := (allEqualValue (m.installers.map (·.dependencies.external))).getD []
        package_family_name := (allEqualValue (m.installers.map (·.package_family_name))).getD none
        installers := instAfter26 m } := by
  rw [show passUpTo26 m = opt_package_family_name (passUpTo25 m) from rfl,
    passUpTo25_spec, opt_package_family_name_spec]
  unfold instAfter26
  simp only [instAfter00_eq]
  rw [instCollapse25 (·.package_family_name) (fun i => rfl),
    instCollapse24 (·.package_family_name) (fun i => rfl),
    instCollapse23 (·.package_family_name) (fun i => rfl),
    instCollapse22 (·.package_family_name) (fun i => rfl),
    instCollapse21 (·.package_family_name) (fun i => rfl),
    instCollapse20 (·.package_family_name) (fun i => rfl),
    instCollapse19 (·.package_family_name) (fun i => rfl),
    instCollapse18 (·.package_family_name) (fun i => rfl),
    instCollapse17 (·.package_family_name) (fun i => rfl),
    instCollapse16 (·.package_family_name) (fun i => rfl),
    instCollapse15 (·.package_family_name) (fun i => rfl),
    instCollapse14 (·.package_family_name) (fun i => rfl),
    instCollapse13 (·.package_family_name) (fun i => rfl),
    instCollapse12 (·.package_family_name) (fun i => rfl),
    instCollapse11 (·.package_family_name) (fun i => rfl),
    instCollapse10 (·.package_family_name) (fun i => rfl),
    instCollapse09 (·.package_family_name) (fun i => rfl),
    instCollapse08 (·.package_family_name) (fun i => rfl),
    instCollapse07 (·.package_family_name) (fun i => rfl),
    instCollapse06 (·.package_family_name) (fun i => rfl),
    instCollapse05 (·.package_family_name) (fun i => rfl),
    instCollapse04 (·.package_family_name) (fun i => rfl),
    instCollapse03 (·.package_family_name) (fun i => rfl),
    instCollapse02 (·.package_family_name) (fun i => rfl),
    instCollapse01 (·.package_family_name) (fun i => rfl),
    instAfter00_eq]

/-- Normal form of the hoist pass after step 27. -/
theorem passUpTo27_spec (m : InstallerManifest) :
    passUpTo27 m =
      { m with
        locale := (allEqualValue (m.installers.map (·.locale))).getD none
        platform := (allEqualValue (m.installers.map (·.platform))).getD 0
        minimum_os_version := (allEqualValue (m.installers.map (·.minimum_os_version))).getD none
        type := (allEqualValue (m.installers.map (·.type))).getD none
        nested_installer_type := (allEqualValue (m.installers.map (·.nested_installer_type))).getD none
        nested_installer_files := (allEqualValue (m.installers.map (·.nested_installer_files))).getD []
        scope := (allEqualValue (m.installers.map (·.scope))).getD none
        install_modes := (allEqualValue (m.installers.map (·.install_modes))).getD 0
        switches.silent := (allEqualValue (m.installers.map (·.switches.silent))).getD none
        switches.silent_with_progress := (allEqualValue (m.installers.map (·.switches.silent_with_progress))).getD none
        switches.interactive := (allEqualValue (m.installers.map (·.switches.interactive))).getD none
        switches.install_location := (allEqualValue (m.installers.map (·.switches.install_location))).getD none
        switches.log := (allEqualValue (m.installers.map (·.switches.log))).getD none
        switches.upgrade := (allEqualValue (m.installers.map (·.switches.upgrade))).getD none
        switches.repair := (allEqualValue (m.installers.map (·.switches.repair))).getD none
        success_codes := (allEqualValue (m.installers.map (·.success_codes))).getD []
        expected_return_codes := (allEqualValue (m.installers.map (·.expected_return_codes))).getD []
        upgrade_behavior := (allEqualValue (m.installers.map (·.upgrade_behavior))).getD none
        commands := (allEqualValue (m.installers.map (·.commands))).getD []
        protocols := (allEqualValue (m.installers.map (·.protocols))).getD []
        file_extensions := (allEqualValue (m.installers.map (·.file_extensions))).getD []
        dependencies.windows_features := (allEqualValue (m.installers.map (·.dependencies.windows_features))).getD []
        dependencies.windows_libraries := (allEqualValue (m.installers.map (·.dependencies.windows_libraries))).getD []
        dependencies.package := (allEqualValue (m.installers.map (·.dependencies.package))).getD []
        dependencies.external := (allEqualValue (m.installers.map (·.dependencies.external))).getD []
        package_family_name := (allEqualValue (m.installers.map (·.package_family_name))).getD none
        product_code := (allEqualValue (m.installers.map (·.product_code))).getD none
        installers := instAfter27 m } := by
  rw [show passUpTo27 m = opt_product_code (passUpTo26 m) from rfl,
    passUpTo26_spec, opt_product_code_spec]
  unfold instAfter27
  simp only [instAfter00_eq]
  rw [instCollapse26 (·.product_code) (fun i => rfl),
    instCollapse25 (·.product_code) (fun i => rfl),
    instCollapse24 (·.product_code) (fun i => rfl),
    instCollapse23 (·.product_code) (fun i => rfl),
    instCollapse22 (·.product_code) (fun i => rfl),
    instCollapse21 (·.product_code) (fun i => rfl),
    instCollapse20 (·.product_code) (fun i => rfl),
    instCollapse19 (·.product_code) (fun i => rfl),
    instCollapse18 (·.product_code) (fun i => rfl),
    instCollapse17 (·.product_code) (fun i => rfl),
    instCollapse16 (·.product_code) (fun i => rfl),
    instCollapse15 (·.product_code) (fun i => rfl),
    instCollapse14 (·.product_code) (fun i => rfl),
    instCollapse13 (·.product_code) (fun i => rfl),
    instCollapse12 (·.product_code) (fun i => rfl),
    instCollapse11 (·.product_code) (fun i => rfl),
    instCollapse10 (·.product_code) (fun i => rfl),
    instCollapse09 (·.product_code) (fun i => rfl),
    instCollapse08 (·.product_code) (fun i => rfl),
    instCollapse07 (·.product_code) (fun i => rfl),
    instCollapse06 (·.product_code) (fun i => rfl),
    instCollapse05 (·.product_code) (fun i => rfl),
    instCollapse04 (·.product_code) (fun i => rfl),
    instCollapse03 (·.product_code) (fun i => rfl),
    instCollapse02 (·.product_code) (fun i => rfl),
    instCollapse01 (·.product_code) (fun i => rfl),
    instAfter00_eq]

/-- Normal form of the hoist pass after step 28. -/
theorem passUpTo28_spec (m : InstallerManifest) :
    passUpTo28 m =
      { m with
        locale := (allEqualValue (m.installers.map (·.locale))).getD none
        platform := (allEqualValue (m.installers.map (·.platform))).getD 0
        minimum_os_version := (allEqualValue (m.installers.map (·.minimum_os_version))).getD none
        type := (allEqualValue (m.installers.map (·.type))).getD none
        nested_installer_type := (allEqualValue (m.installers.map (·.nested_installer_type))).getD none
        nested_installer_files := (allEqualValue (m.installers.map (·.nested_installer_files))).getD []
        scope := (allEqualValue (m.installers.map (·.scope))).getD none
        install_modes := (allEqualValue (m.installers.map (·.install_modes))).getD 0
        switches.silent := (allEqualValue (m.installers.map (·.switches.silent))).getD none
        switches.silent_with_progress := (allEqualValue (m.installers.map (·.switches.silent_with_progress))).getD none
        switches.interactive := (allEqualValue (m.installers.map (·.switches.interactive))).getD none
        switches.install_location := (allEqualValue (m.installers.map (·.switches.install_location))).getD none
        switches.log := (allEqualValue (m.installers.map (·.switches.log))).getD none
        switches.upgrade := (allEqualValue (m.installers.map (·.switches.upgrade))).getD none
        switches.repair := (allEqualValue (m.installers.map (·.switches.repair))).getD none
        success_codes := (allEqualValue (m.installers.map (·.success_codes))).getD []
        expected_return_codes := (allEqualValue (m.installers.map (·.expected_return_codes))).getD []
        upgrade_behavior := (allEqualValue (m.installers.map (·.upgrade_behavior))).getD none
        commands := (allEqualValue (m.installers.map (·.commands))).getD []
        protocols := (allEqualValue (m.installers.map (·.protocols))).getD []
        file_extensions := (allEqualValue (m.installers.map (·.file_extensions))).getD []
        dependencies.windows_features := (allEqualValue (m.installers.map (·.dependencies.windows_features))).getD []
        dependencies.windows_libraries := (allEqualValue (m.installers.map (·.dependencies.windows_libraries))).getD []
        dependencies.package := (allEqualValue (m.installers.map (·.dependencies.package))).getD []
        dependencies.external := (allEqualValue (m.installers.map (·.dependencies.external))).getD []
        package_family_name := (allEqualValue (m.installers.map (·.package_family_name))).getD none
        product_code := (allEqualValue (m.installers.map (·.product_code))).getD none
        capabilities := (allEqualValue (m.installers.map (·.capabilities))).getD []
        installers := instAfter28 m } := by
  rw [show passUpTo28 m = opt_capabilities (passUpTo27 m) from rfl,
    passUpTo27_spec, opt_capabilities_spec]
  unfold instAfter28
  simp only [instAfter00_eq]
  rw [instCollapse27 (·.capabilities) (fun i => rfl),
    instCollapse26 (·.capabilities) (fun i => rfl),
    instCollapse25 (·.capabilities) (fun i => rfl),
    instCollapse24 (·.capabilities) (fun i => rfl),
    instCollapse23 (·.capabilities) (fun i => rfl),
    instCollapse22 (·.capabilities) (fun i => rfl),
    instCollapse21 (·.capabilities) (fun i => rfl),
    instCollapse20 (·.capabilities) (fun i => rfl),
    instCollapse19 (·.capabilities) (fun i => rfl),
    instCollapse18 (·.capabilities) (fun i => rfl),
    instCollapse17 (·.capabilities) (fun i => rfl),
    instCollapse16 (·.capabilities) (fun i => rfl),
    instCollapse15 (·.capabilities) (fun i => rfl),
    instCollapse14 (·.capabilities) (fun i => rfl),
    instCollapse13 (·.capabilities) (fun i => rfl),
    instCollapse12 (·.capabilities) (fun i => rfl),
    instCollapse11 (·.capabilities) (fun i => rfl),
    instCollapse10 (·.capabilities) (fun i => rfl),
    instCollapse09 (·.capabilities) (fun i => rfl),
    instCollapse08 (·.capabilities) (fun i => rfl),
    instCollapse07 (·.capabilities) (fun i => rfl),
    instCollapse06 (·.capabilities) (fun i => rfl),
    instCollapse05 (·.capabilities) (fun i => rfl),
    instCollapse04 (·.capabilities) (fun i => rfl),
    instCollapse03 (·.capabilities) (fun i => rfl),
    instCollapse02 (·.capabilities) (fun i => rfl),
    instCollapse01 (·.capabilities) (fun i => rfl),
    instAfter00_eq]

/-- Normal form of the hoist pass after step 29. -/
theorem passUpTo29_spec (m : InstallerManifest) :
    passUpTo29 m =
      { m with
        locale := (allEqualValue (m.installers.map (·.locale))).getD none
        platform := (allEqualValue (m.installers.map (·.platform))).getD 0
        minimum_os_version := (allEqualValue (m.installers.map (·.minimum_os_version))).getD none
        type := (allEqualValue (m.installers.map (·.type))).getD none
        nested_installer_type := (allEqualValue (m.installers.map (·.nested_installer_type))).getD none
        nested_installer_files := (allEqualValue (m.installers.map (·.nested_installer_files))).getD []
        scope := (allEqualValue (m.installers.map (·.scope))).getD none
        install_modes := (allEqualValue (m.installers.map (·.install_modes))).getD 0
        switches.silent := (allEqualValue (m.installers.map (·.switches.silent))).getD none
        switches.silent_with_progress := (allEqualValue (m.installers.map (·.switches.silent_with_progress))).getD none
        switches.interactive := (allEqualValue (m.installers.map (·.switches.interactive))).getD none
        switches.install_location := (allEqualValue (m.installers.map (·.switches.install_location))).getD none
        switches.log := (allEqualValue (m.installers.map (·.switches.log))).getD none
        switches.upgrade := (allEqualValue (m.installers.map (·.switches.upgrade))).getD none
        switches.repair := (allEqualValue (m.installers.map (·.switches.repair))).getD none
        success_codes := (allEqualValue (m.installers.map (·.success_codes))).getD []
        expected_return_codes := (allEqualValue (m.installers.map (·.expected_return_codes))).getD []
        upgrade_behavior := (allEqualValue (m.installers.map (·.upgrade_behavior))).getD none
        commands := (allEqualValue (m.installers.map (·.commands))).getD []
        protocols := (allEqualValue (m.installers.map (·.protocols))).getD []
        file_extensions := (allEqualValue (m.installers.map (·.file_extensions))).getD []
        dependencies.windows_features := (allEqualValue (m.installers.map (·.dependencies.windows_features))).getD []
        dependencies.windows_libraries := (allEqualValue (m.installers.map (·.dependencies.windows_libraries))).getD []
        dependencies.package := (allEqualValue (m.installers.map (·.dependencies.package))).getD []
        dependencies.external := (allEqualValue (m.installers.map (·.dependencies.external))).getD []
        package_family_name := (allEqualValue (m.installers.map (·.package_family_name))).getD none
        product_code := (allEqualValue (m.installers.map (·.product_code))).getD none
        capabilities := (allEqualValue (m.installers.map (·.capabilities))).getD []
        restricted_capabilities := (allEqualValue (m.installers.map (·.restricted_capabilities))).getD []
        installers := instAfter29 m } := by
  rw [show passUpTo29 m = opt_restricted_capabilities (passUpTo28 m) from rfl,
    passUpTo28_spec, opt_restricted_capabilities_spec]
  unfold instAfter29
  simp only [instAfter00_eq]
  rw [instCollapse28 (·.restricted_capabilities) (fun i => rfl),
    instCollapse27 (·.restricted_capabilities) (fun i => rfl),
    instCollapse26 (·.restricted_capabilities) (fun i => rfl),
    instCollapse25 (·.restricted_capabilities) (fun i => rfl),
    instCollapse24 (·.restricted_capabilities) (fun i => rfl),
    instCollapse23 (·.restricted_capabilities) (fun i => rfl),
    instCollapse22 (·.restricted_capabilities) (fun i => rfl),
    instCollapse21 (·.restricted_capabilities) (fun i => rfl),
    instCollapse20 (·.restricted_capabilities) (fun i => rfl),
    instCollapse19 (·.restricted_capabilities) (fun i => rfl),
    instCollapse18 (·.restricted_capabilities) (fun i => rfl),
    instCollapse17 (·.restricted_capabilities) (fun i => rfl),
    instCollapse16 (·.restricted_capabilities) (fun i => rfl),
    instCollapse15 (·.restricted_capabilities) (fun i => rfl),
    instCollapse14 (·.restricted_capabilities) (fun i => rfl),
    instCollapse13 (·.restricted_capabilities) (fun i => rfl),
    instCollapse12 (·.restricted_capabilities) (fun i => rfl),
    instCollapse11 (·.restricted_capabilities) (fun i => rfl),
    instCollapse10 (·.restricted_capabilities) (fun i => rfl),
    instCollapse09 (·.restricted_capabilities) (fun i => rfl),
    instCollapse08 (·.restricted_capabilities) (fun i => rfl),
    instCollapse07 (·.restricted_capabilities) (fun i => rfl),
    instCollapse06 (·.restricted_capabilities) (fun i => rfl),
    instCollapse05 (·.restricted_capabilities) (fun i => rfl),
    instCollapse04 (·.restricted_capabilities) (fun i => rfl),
    instCollapse03 (·.restricted_capabilities) (fun i => rfl),
    instCollapse02 (·.restricted_capabilities) (fun i => rfl),
    instCollapse01 (·.restricted_capabilities) (fun i => rfl),
    instAfter00_eq]

/-- Normal form of the hoist pass after step 30. -/
theorem passUpTo30_spec (m : InstallerManifest) :
    passUpTo30 m =
      { m with
        locale := (allEqualValue (m.installers.map (·.locale))).getD none
        platform := (allEqualValue (m.installers.map (·.platform))).getD 0
        minimum_os_version := (allEqualValue (m.installers.map (·.minimum_os_version))).getD none
        type := (allEqualValue (m.installers.map (·.type))).getD none
        nested_installer_type := (allEqualValue (m.installers.map (·.nested_installer_type))).getD none
        nested_installer_files := (allEqualValue (m.installers.map (·.nested_installer_files))).getD []
        scope := (allEqualValue (m.installers.map (·.scope))).getD none
        install_modes := (allEqualValue (m.installers.map (·.install_modes))).getD 0
        switches.silent := (allEqualValue (m.installers.map (·.switches.silent))).getD none
        switches.silent_with_progress := (allEqualValue (m.installers.map (·.switches.silent_with_progress))).getD none
        switches.interactive := (allEqualValue (m.installers.map (·.switches.interactive))).getD none
        switches.install_location := (allEqualValue (m.installers.map (·.switches.install_location))).getD none
        switches.log := (allEqualValue (m.installers.map (·.switches.log))).getD none
        switches.upgrade := (allEqualValue (m.installers.map (·.switches.upgrade))).getD none
        switches.repair := (allEqualValue (m.installers.map (·.switches.repair))).getD none
        success_codes := (allEqualValue (m.installers.map (·.success_codes))).getD []
        expected_return_codes := (allEqualValue (m.installers.map (·.expected_return_codes))).getD []
        upgrade_behavior := (allEqualValue (m.installers.map (·.upgrade_behavior))).getD none
        commands := (allEqualValue (m.installers.map (·.commands))).getD []
        protocols := (allEqualValue (m.installers.map (·.protocols))).getD []
        file_extensions := (allEqualValue (m.installers.map (·.file_extensions))).getD []
        dependencies.windows_features := (allEqualValue (m.installers.map (·.dependencies.windows_features))).getD []
        dependencies.windows_libraries := (allEqualValue (m.installers.map (·.dependencies.windows_libraries))).getD []
        dependencies.package := (allEqualValue (m.installers.map (·.dependencies.package))).getD []
        dependencies.external := (allEqualValue (m.installers.map (·.dependencies.external))).getD []
        package_family_name := (allEqualValue (m.installers.map (·.package_family_name))).getD none
        product_code := (allEqualValue (m.installers.map (·.product_code))).getD none
        capabilities := (allEqualValue (m.installers.map (·.capabilities))).getD []
        restricted_capabilities := (allEqualValue (m.installers.map (·.restricted_capabilities))).getD []
        markets := (allEqualValue (m.installers.map (·.markets))).getD none
        installers := instAfter30 m } := by
  rw [show passUpTo30 m = opt_markets (passUpTo29 m) from rfl,
    passUpTo29_spec, opt_markets_spec]
  unfold instAfter30
  simp only [instAfter00_eq]
  rw [instCollapse29 (·.markets) (fun i => rfl),
    instCollapse28 (·.markets) (fun i => rfl),
    instCollapse27 (·.markets) (fun i => rfl),
    instCollapse26 (·.markets) (fun i => rfl),
    instCollapse25 (·.markets) (fun i => rfl),
    instCollapse24 (·.markets) (fun i => rfl),
    instCollapse23 (·.markets) (fun i => rfl),
    instCollapse22 (·.markets) (fun i => rfl),
    instCollapse21 (·.markets) (fun i => rfl),
    instCollapse20 (·.markets) (fun i => rfl),
    instCollapse19 (·.markets) (fun i => rfl),
    instCollapse18 (·.markets) (fun i => rfl),
    instCollapse17 (·.markets) (fun i => rfl),
    instCollapse16 (·.markets) (fun i => rfl),
    instCollapse15 (·.markets) (fun i => rfl),
    instCollapse14 (·.markets) (fun i => rfl),
    instCollapse13 (·.markets) (fun i => rfl),
    instCollapse12 (·.markets) (fun i => rfl),
    instCollapse11 (·.markets) (fun i => rfl),
    instCollapse10 (·.markets) (fun i => rfl),
    instCollapse09 (·.markets) (fun i => rfl),
    instCollapse08 (·.markets) (fun i => rfl),
    instCollapse07 (·.markets) (fun i => rfl),
    instCollapse06 (·.markets) (fun i => rfl),
    instCollapse05 (·.markets) (fun i => rfl),
    instCollapse04 (·.markets) (fun i => rfl),
    instCollapse03 (·.markets) (fun i => rfl),
    instCollapse02 (·.markets) (fun i => rfl),
    instCollapse01 (·.markets) (fun i => rfl),
    instAfter00_eq]

/-- Normal form of the hoist pass after step 31. -/
theorem passUpTo31_spec (m : InstallerManifest) :
    passUpTo31 m =
      { m with
        locale := (allEqualValue (m.installers.map (·.locale))).getD none
        platform := (allEqualValue (m.installers.map (·.platform))).getD 0
        minimum_os_version := (allEqualValue (m.installers.map (·.minimum_os_version))).getD none
        type := (allEqualValue (m.installers.map (·.type))).getD none
        nested_installer_type := (allEqualValue (m.installers.map (·.nested_installer_type))).getD none
        nested_installer_files := (allEqualValue (m.installers.map (·.nested_installer_files))).getD []
        scope := (allEqualValue (m.installers.map (·.scope))).getD none
        install_modes := (allEqualValue (m.installers.map (·.install_modes))).getD 0
        switches.silent := (allEqualValue (m.installers.map (·.switches.silent))).getD none
        switches.silent_with_progress := (allEqualValue (m.installers.map (·.switches.silent_with_progress))).getD none
        switches.interactive := (allEqualValue (m.installers.map (·.switches.interactive))).getD none
        switches.install_location := (allEqualValue (m.installers.map (·.switches.install_location))).getD none
        switches.log := (allEqualValue (m.installers.map (·.switches.log))).getD none
        switches.upgrade := (allEqualValue (m.installers.map (·.switches.upgrade))).getD none
        switches.repair := (allEqualValue (m.installers.map (·.switches.repair))).getD none
        success_codes := (allEqualValue (m.installers.map (·.success_codes))).getD []
        expected_return_codes := (allEqualValue (m.installers.map (·.expected_return_codes))).getD []
        upgrade_behavior := (allEqualValue (m.installers.map (·.upgrade_behavior))).getD none
        commands := (allEqualValue (m.installers.map (·.commands))).getD []
        protocols := (allEqualValue (m.installers.map (·.protocols))).getD []
        file_extensions := (allEqualValue (m.installers.map (·.file_extensions))).getD []
        dependencies.windows_features := (allEqualValue (m.installers.map (·.dependencies.windows_features))).getD []
        dependencies.windows_libraries := (allEqualValue (m.installers.map (·.dependencies.windows_libraries))).getD []
        dependencies.package := (allEqualValue (m.installers.map (·.dependencies.package))).getD []
        dependencies.external := (allEqualValue (m.installers.map (·.dependencies.external))).getD []
        package_family_name := (allEqualValue (m.installers.map (·.package_family_name))).getD none
        product_code := (allEqualValue (m.installers.map (·.product_code))).getD none
        capabilities := (allEqualValue (m.installers.map (·.capabilities))).getD []
        restricted_capabilities := (allEqualValue (m.installers.map (·.restricted_capabilities))).getD []
        markets := (allEqualValue (m.installers.map (·.markets))).getD none
        aborts_terminal := (allEqualValue (m.installers.map (·.aborts_terminal))).getD false
        installers := instAfter31 m } := by
  rw [show passUpTo31 m = opt_aborts_terminal (passUpTo30 m) from rfl,
    passUpTo30_spec, opt_aborts_terminal_spec]
  unfold instAfter31
  simp only [instAfter00_eq]
  rw [instCollapse30 (·.aborts_terminal) (fun i => rfl),
    instCollapse29 (·.aborts_terminal) (fun i => rfl),
    instCollapse28 (·.aborts_terminal) (fun i => rfl),
    instCollapse27 (·.aborts_terminal) (fun i => rfl),
    instCollapse26 (·.aborts_terminal) (fun i => rfl),
    instCollapse25 (·.aborts_terminal) (fun i => rfl),
    instCollapse24 (·.aborts_terminal) (fun i => rfl),
    instCollapse23 (·.aborts_terminal) (fun i => rfl),
    instCollapse22 (·.aborts_terminal) (fun i => rfl),
    instCollapse21 (·.aborts_terminal) (fun i => rfl),
    instCollapse20 (·.aborts_terminal) (fun i => rfl),
    instCollapse19 (·.aborts_terminal) (fun i => rfl),
    instCollapse18 (·.aborts_terminal) (fun i => rfl),
    instCollapse17 (·.aborts_terminal) (fun i => rfl),
    instCollapse16 (·.aborts_terminal) (fun i => rfl),
    instCollapse15 (·.aborts_terminal) (fun i => rfl),
    instCollapse14 (·.aborts_terminal) (fun i => rfl),
    instCollapse13 (·.aborts_terminal) (fun i => rfl),
    instCollapse12 (·.aborts_terminal) (fun i => rfl),
    instCollapse11 (·.aborts_terminal) (fun i => rfl),
    instCollapse10 (·.aborts_terminal) (fun i => rfl),
    instCollapse09 (·.aborts_terminal) (fun i => rfl),
    instCollapse08 (·.aborts_terminal) (fun i => rfl),
    instCollapse07 (·.aborts_terminal) (fun i => rfl),
    instCollapse06 (·.aborts_terminal) (fun i => rfl),
    instCollapse05 (·.aborts_terminal) (fun i => rfl),
    instCollapse04 (·.aborts_terminal) (fun i => rfl),
    instCollapse03 (·.aborts_terminal) (fun i => rfl),
    instCollapse02 (·.aborts_terminal) (fun i => rfl),
    instCollapse01 (·.aborts_terminal) (fun i => rfl),
    instAfter00_eq]

/-- Normal form of the hoist pass after step 32. -/
theorem passUpTo32_spec (m : InstallerManifest) :
    passUpTo32 m =
      { m with
        locale := (allEqualValue (m.installers.map (·.locale))).getD none
        platform := (allEqualValue (m.installers.map (·.platform))).getD 0
        minimum_os_version := (allEqualValue (m.installers.map (·.minimum_os_version))).getD none
        type := (allEqualValue (m.installers.map (·.type))).getD none
        nested_installer_type := (allEqualValue (m.installers.map (·.nested_installer_type))).getD none
        nested_installer_files := (allEqualValue (m.installers.map (·.nested_installer_files))).getD []
        scope := (allEqualValue (m.installers.map (·.scope))).getD none
        install_modes := (allEqualValue (m.installers.map (·.install_modes))).getD 0
        switches.silent := (allEqualValue (m.installers.map (·.switches.silent))).getD none
        switches.silent_with_progress := (allEqualValue (m.installers.map (·.switches.silent_with_progress))).getD none
        switches.interactive := (allEqualValue (m.installers.map (·.switches.interactive))).getD none
        switches.install_location := (allEqualValue (m.installers.map (·.switches.install_location))).getD none
        switches.log := (allEqualValue (m.installers.map (·.switches.log))).getD none
        switches.upgrade := (allEqualValue (m.installers.map (·.switches.upgrade))).getD none
        switches.repair := (allEqualValue (m.installers.map (·.switches.repair))).getD none
        success_codes := (allEqualValue (m.installers.map (·.success_codes))).getD []
        expected_return_codes := (allEqualValue (m.installers.map (·.expected_return_codes))).getD []
        upgrade_behavior := (allEqualValue (m.installers.map (·.upgrade_behavior))).getD none
        commands := (allEqualValue (m.installers.map (·.commands))).getD []
        protocols := (allEqualValue (m.installers.map (·.protocols))).getD []
        file_extensions := (allEqualValue (m.installers.map (·.file_extensions))).getD []
        dependencies.windows_features := (allEqualValue (m.installers.map (·.dependencies.windows_features))).getD []
        dependencies.windows_libraries := (allEqualValue (m.installers.map (·.dependencies.windows_libraries))).getD []
        dependencies.package := (allEqualValue (m.installers.map (·.dependencies.package))).getD []
        dependencies.external := (allEqualValue (m.installers.map (·.dependencies.external))).getD []
        package_family_name := (allEqualValue (m.installers.map (·.package_family_name))).getD none
        product_code := (allEqualValue (m.installers.map (·.product_code))).getD none
        capabilities := (allEqualValue (m.installers.map (·.capabilities))).getD []
        restricted_capabilities := (allEqualValue (m.installers.map (·.restricted_capabilities))).getD []
        markets := (allEqualValue (m.installers.map (·.markets))).getD none
        aborts_terminal := (allEqualValue (m.installers.map (·.aborts_terminal))).getD false
        release_date := (allEqualValue (m.installers.map (·.release_date))).getD none
        installers := instAfter32 m } := by
  rw [show passUpTo32 m = opt_release_date (passUpTo31 m) from rfl,
    passUpTo31_spec, opt_release_date_spec]
  unfold instAfter32
  simp only [instAfter00_eq]
  rw [instCollapse31 (·.release_date) (fun i => rfl),
    instCollapse30 (·.release_date) (fun i => rfl),
    instCollapse29 (·.release_date) (fun i => rfl),
    instCollapse28 (·.release_date) (fun i => rfl),
    instCollapse27 (·.release_date) (fun i => rfl),
    instCollapse26 (·.release_date) (fun i => rfl),
    instCollapse25 (·.release_date) (fun i => rfl),
    instCollapse24 (·.release_date) (fun i => rfl),
    instCollapse23 (·.release_date) (fun i => rfl),
    instCollapse22 (·.release_date) (fun i => rfl),
    instCollapse21 (·.release_date) (fun i => rfl),
    instCollapse20 (·.release_date) (fun i => rfl),
    instCollapse19 (·.release_date) (fun i => rfl),
    instCollapse18 (·.release_date) (fun i => rfl),
    instCollapse17 (·.release_date) (fun i => rfl),
    instCollapse16 (·.release_date) (fun i => rfl),
    instCollapse15 (·.release_date) (fun i => rfl),
    instCollapse14 (·.release_date) (fun i => rfl),
    instCollapse13 (·.release_date) (fun i => rfl),
    instCollapse12 (·.release_date) (fun i => rfl),
    instCollapse11 (·.release_date) (fun i => rfl),
    instCollapse10 (·.release_date) (fun i => rfl),
    instCollapse09 (·.release_date) (fun i => rfl),
    instCollapse08 (·.release_date) (fun i => rfl),
    instCollapse07 (·.release_date) (fun i => rfl),
    instCollapse06 (·.release_date) (fun i => rfl),
    instCollapse05 (·.release_date) (fun i => rfl),
    instCollapse04 (·.release_date) (fun i => rfl),
    instCollapse03 (·.release_date) (fun i => rfl),
    instCollapse02 (·.release_date) (fun i => rfl),
    instCollapse01 (·.release_date) (fun i => rfl),
    instAfter00_eq]

/-- Normal form of the hoist pass after step 33. -/
theorem passUpTo33_spec (m : InstallerManifest) :
    passUpTo33 m =
      { m with
        locale := (allEqualValue (m.installers.map (·.locale))).getD none
        platform := (allEqualValue (m.installers.map (·.platform))).getD 0
        minimum_os_version := (allEqualValue (m.installers.map (·.minimum_os_version))).getD none
        type := (allEqualValue (m.installers.map (·.type))).getD none
        nested_installer_type := (allEqualValue (m.installers.map (·.nested_installer_type))).getD none
        nested_installer_files := (allEqualValue (m.installers.map (·.nested_installer_files))).getD []
        scope := (allEqualValue (m.installers.map (·.scope))).getD none
        install_modes := (allEqualValue (m.installers.map (·.install_modes))).getD 0
        switches.silent := (allEqualValue (m.installers.map (·.switches.silent))).getD none
        switches.silent_with_progress := (allEqualValue (m.installers.map (·.switches.silent_with_progress))).getD none
        switches.interactive := (allEqualValue (m.installers.map (·.switches.interactive))).getD none
        switches.install_location := (allEqualValue (m.installers.map (·.switches.install_location))).getD none
        switches.log := (allEqualValue (m.installers.map (·.switches.log))).getD none
        switches.upgrade := (allEqualValue (m.installers.map (·.switches.upgrade))).getD none
        switches.repair := (allEqualValue (m.installers.map (·.switches.repair))).getD none
        success_codes := (allEqualValue (m.installers.map (·.success_codes))).getD []
        expected_return_codes := (allEqualValue (m.installers.map (·.expected_return_codes))).getD []
        upgrade_behavior := (allEqualValue (m.installers.map (·.upgrade_behavior))).getD none
        commands := (allEqualValue (m.installers.map (·.commands))).getD []
        protocols := (allEqualValue (m.installers.map (·.protocols))).getD []
        file_extensions := (allEqualValue (m.installers.map (·.file_extensions))).getD []
        dependencies.windows_features := (allEqualValue (m.installers.map (·.dependencies.windows_features))).getD []
        dependencies.windows_libraries := (allEqualValue (m.installers.map (·.dependencies.windows_libraries))).getD []
        dependencies.package := (allEqualValue (m.installers.map (·.dependencies.package))).getD []
        dependencies.external := (allEqualValue (m.installers.map (·.dependencies.external))).getD []
        package_family_name := (allEqualValue (m.installers.map (·.package_family_name))).getD none
        product_code := (allEqualValue (m.installers.map (·.product_code))).getD none
        capabilities := (allEqualValue (m.installers.map (·.capabilities))).getD []
        restricted_capabilities := (allEqualValue (m.installers.map (·.restricted_capabilities))).getD []
        markets := (allEqualValue (m.installers.map (·.markets))).getD none
        aborts_terminal := (allEqualValue (m.installers.map (·.aborts_terminal))).getD false
        release_date := (allEqualValue (m.installers.map (·.release_date))).getD none
        install_location_required := (allEqualValue (m.installers.map (·.install_location_required))).getD false
        installers := instAfter33 m } := by
  rw [show passUpTo33 m = opt_install_location_required (passUpTo32 m) from rfl,
    passUpTo32_spec, opt_install_location_required_spec]
  unfold instAfter33
  simp only [instAfter00_eq]
  rw [instCollapse32 (·.install_location_required) (fun i => rfl),
    instCollapse31 (·.install_location_required) (fun i => rfl),
    instCollapse30 (·.install_location_required) (fun i => rfl),
    instCollapse29 (·.install_location_required) (fun i => rfl),
    instCollapse28 (·.install_location_required) (fun i => rfl),
    instCollapse27 (·.install_location_required) (fun i => rfl),
    instCollapse26 (·.install_location_required) (fun i => rfl),
    instCollapse25 (·.install_location_required) (fun i => rfl),
    instCollapse24 (·.install_location_required) (fun i => rfl),
    instCollapse23 (·.install_location_required) (fun i => rfl),
    instCollapse22 (·.install_location_required) (fun i => rfl),
    instCollapse21 (·.install_location_required) (fun i => rfl),
    instCollapse20 (·.install_location_required) (fun i => rfl),
    instCollapse19 (·.install_location_required) (fun i => rfl),
    instCollapse18 (·.install_location_required) (fun i => rfl),
    instCollapse17 (·.install_location_required) (fun i => rfl),
    instCollapse16 (·.install_location_required) (fun i => rfl),
    instCollapse15 (·.install_location_required) (fun i => rfl),
    instCollapse14 (·.install_location_required) (fun i => rfl),
    instCollapse13 (·.install_location_required) (fun i => rfl),
    instCollapse12 (·.install_location_required) (fun i => rfl),
    instCollapse11 (·.install_location_required) (fun i => rfl),
    instCollapse10 (·.install_location_required) (fun i => rfl),
    instCollapse09 (·.install_location_required) (fun i => rfl),
    instCollapse08 (·.install_location_required) (fun i => rfl),
    instCollapse07 (·.install_location_required) (fun i => rfl),
    instCollapse06 (·.install_location_required) (fun i => rfl),
    instCollapse05 (·.install_location_required) (fun i => rfl),
    instCollapse04 (·.install_location_required) (fun i => rfl),
    instCollapse03 (·.install_location_required) (fun i => rfl),
    instCollapse02 (·.install_location_required) (fun i => rfl),
    instCollapse01 (·.install_location_required) (fun i => rfl),
    instAfter00_eq]

/-- Normal form of the hoist pass after step 34. -/
theorem passUpTo34_spec (m : InstallerManifest) :
    passUpTo34 m =
      { m with
        locale := (allEqualValue (m.installers.map (·.locale))).getD none
        platform := (allEqualValue (m.installers.map (·.platform))).getD 0
        minimum_os_version := (allEqualValue (m.installers.map (·.minimum_os_version))).getD none
        type := (allEqualValue (m.installers.map (·.type))).getD none
        nested_installer_type := (allEqualValue (m.installers.map (·.nested_installer_type))).getD none
        nested_installer_files := (allEqualValue (m.installers.map (·.nested_installer_files))).getD []
        scope := (allEqualValue (m.installers.map (·.scope))).getD none
        install_modes := (allEqualValue (m.installers.map (·.install_modes))).getD 0
        switches.silent := (allEqualValue (m.installers.map (·.switches.silent))).getD none
        switches.silent_with_progress := (allEqualValue (m.installers.map (·.switches.silent_with_progress))).getD none
        switches.interactive := (allEqualValue (m.installers.map (·.switches.interactive))).getD none
        switches.install_location := (allEqualValue (m.installers.map (·.switches.install_location))).getD none
        switches.log := (allEqualValue (m.installers.map (·.switches.log))).getD none
        switches.upgrade := (allEqualValue (m.installers.map (·.switches.upgrade))).getD none
        switches.repair := (allEqualValue (m.installers.map (·.switches.repair))).getD none
        success_codes := (allEqualValue (m.installers.map (·.success_codes))).getD []
        expected_return_codes := (allEqualValue (m.installers.map (·.expected_return_codes))).getD []
        upgrade_behavior := (allEqualValue (m.installers.map (·.upgrade_behavior))).getD none
        commands := (allEqualValue (m.installers.map (·.commands))).getD []
        protocols := (allEqualValue (m.installers.map (·.protocols))).getD []
        file_extensions := (allEqualValue (m.installers.map (·.file_extensions))).getD []
        dependencies.windows_features := (allEqualValue (m.installers.map (·.dependencies.windows_features))).getD []
        dependencies.windows_libraries := (allEqualValue (m.installers.map (·.dependencies.windows_libraries))).getD []
        dependencies.package := (allEqualValue (m.installers.map (·.dependencies.package))).getD []
        dependencies.external := (allEqualValue (m.installers.map (·.dependencies.external))).getD []
        package_family_name := (allEqualValue (m.installers.map (·.package_family_name))).getD none
        product_code := (allEqualValue (m.installers.map (·.product_code))).getD none
        capabilities := (allEqualValue (m.installers.map (·.capabilities))).getD []
        restricted_capabilities := (allEqualValue (m.installers.map (·.restricted_capabilities))).getD []
        markets := (allEqualValue (m.installers.map (·.markets))).getD none
        aborts_terminal := (allEqualValue (m.installers.map (·.aborts_terminal))).getD false
        release_date := (allEqualValue (m.installers.map (·.release_date))).getD none
        install_location_required := (allEqualValue (m.installers.map (·.install_location_required))).getD false
        require_explicit_upgrade := (allEqualValue (m.installers.map (·.require_explicit_upgrade))).getD false
        installers := instAfter34 m } := by
  rw [show passUpTo34 m = opt_require_explicit_upgrade (passUpTo33 m) from rfl,
    passUpTo33_spec, opt_require_explicit_upgrade_spec]
  unfold instAfter34
  simp only [instAfter00_eq]
  rw [instCollapse33 (·.require_explicit_upgrade) (fun i => rfl),
    instCollapse32 (·.require_explicit_upgrade) (fun i => rfl),
    instCollapse31 (·.require_explicit_upgrade) (fun i => rfl),
    instCollapse30 (·.require_explicit_upgrade) (fun i => rfl),
    instCollapse29 (·.require_explicit_upgrade) (fun i => rfl),
    instCollapse28 (·.require_explicit_upgrade) (fun i => rfl),
    instCollapse27 (·.require_explicit_upgrade) (fun i => rfl),
    instCollapse26 (·.require_explicit_upgrade) (fun i => rfl),
    instCollapse25 (·.require_explicit_upgrade) (fun i => rfl),
    instCollapse24 (·.require_explicit_upgrade) (fun i => rfl),
    instCollapse23 (·.require_explicit_upgrade) (fun i => rfl),
    instCollapse22 (·.require_explicit_upgrade) (fun i => rfl),
    instCollapse21 (·.require_explicit_upgrade) (fun i => rfl),
    instCollapse20 (·.require_explicit_upgrade) (fun i => rfl),
    instCollapse19 (·.require_explicit_upgrade) (fun i => rfl),
    instCollapse18 (·.require_explicit_upgrade) (fun i => rfl),
    instCollapse17 (·.require_explicit_upgrade) (fun i => rfl),
    instCollapse16 (·.require_explicit_upgrade) (fun i => rfl),
    instCollapse15 (·.require_explicit_upgrade) (fun i => rfl),
    instCollapse14 (·.require_explicit_upgrade) (fun i => rfl),
    instCollapse13 (·.require_explicit_upgrade) (fun i => rfl),
    instCollapse12 (·.require_explicit_upgrade) (fun i => rfl),
    instCollapse11 (·.require_explicit_upgrade) (fun i => rfl),
    instCollapse10 (·.require_explicit_upgrade) (fun i => rfl),
    instCollapse09 (·.require_explicit_upgrade) (fun i => rfl),
    instCollapse08 (·.require_explicit_upgrade) (fun i => rfl),
    instCollapse07 (·.require_explicit_upgrade) (fun i => rfl),
    instCollapse06 (·.require_explicit_upgrade) (fun i => rfl),
    instCollapse05 (·.require_explicit_upgrade) (fun i => rfl),
    instCollapse04 (·.require_explicit_upgrade) (fun i => rfl),
    instCollapse03 (·.require_explicit_upgrade) (fun i => rfl),
    instCollapse02 (·.require_explicit_upgrade) (fun i => rfl),
    instCollapse01 (·.require_explicit_upgrade) (fun i => rfl),
    instAfter00_eq]

/-- Normal form of the hoist pass after step 35. -/
theorem passUpTo35_spec (m : InstallerManifest) :
    passUpTo35 m =
      { m with
        locale := (allEqualValue (m.installers.map (·.locale))).getD none
        platform := (allEqualValue (m.installers.map (·.platform))).getD 0
        minimum_os_version := (allEqualValue (m.installers.map (·.minimum_os_version))).getD none
        type := (allEqualValue (m.installers.map (·.type))).getD none
        nested_installer_type := (allEqualValue (m.installers.map (·.nested_installer_type))).getD none
        nested_installer_files := (allEqualValue (m.installers.map (·.nested_installer_files))).getD []
        scope := (allEqualValue (m.installers.map (·.scope))).getD none
        install_modes := (allEqualValue (m.installers.map (·.install_modes))).getD 0
        switches.silent := (allEqualValue (m.installers.map (·.switches.silent))).getD none
        switches.silent_with_progress := (allEqualValue (m.installers.map (·.switches.silent_with_progress))).getD none
        switches.interactive := (allEqualValue (m.installers.map (·.switches.interactive))).getD none
        switches.install_location := (allEqualValue (m.installers.map (·.switches.install_location))).getD none
        switches.log := (allEqualValue (m.installers.map (·.switches.log))).getD none
        switches.upgrade := (allEqualValue (m.installers.map (·.switches.upgrade))).getD none
        switches.repair := (allEqualValue (m.installers.map (·.switches.repair))).getD none
        success_codes := (allEqualValue (m.installers.map (·.success_codes))).getD []
        expected_return_codes := (allEqualValue (m.installers.map (·.expected_return_codes))).getD []
        upgrade_behavior := (allEqualValue (m.installers.map (·.upgrade_behavior))).getD none
        commands := (allEqualValue (m.installers.map (·.commands))).getD []
        protocols := (allEqualValue (m.installers.map (·.protocols))).getD []
        file_extensions := (allEqualValue (m.installers.map (·.file_extensions))).getD []
        dependencies.windows_features := (allEqualValue (m.installers.map (·.dependencies.windows_features))).getD []
        dependencies.windows_libraries := (allEqualValue (m.installers.map (·.dependencies.windows_libraries))).getD []
        dependencies.package := (allEqualValue (m.installers.map (·.dependencies.package))).getD []
        dependencies.external := (allEqualValue (m.installers.map (·.dependencies.external))).getD []
        package_family_name := (allEqualValue (m.installers.map (·.package_family_name))).getD none
        product_code := (allEqualValue (m.installers.map (·.product_code))).getD none
        capabilities := (allEqualValue (m.installers.map (·.capabilities))).getD []
        restricted_capabilities := (allEqualValue (m.installers.map (·.restricted_capabilities))).getD []
        markets := (allEqualValue (m.installers.map (·.markets))).getD none
        aborts_terminal := (allEqualValue (m.installers.map (·.aborts_terminal))).getD false
        release_date := (allEqualValue (m.installers.map (·.release_date))).getD none
        install_location_required := (allEqualValue (m.installers.map (·.install_location_required))).getD false
        require_explicit_upgrade := (allEqualValue (m.installers.map (·.require_explicit_upgrade))).getD false
        display_install_warnings := (allEqualValue (m.installers.map (·.display_install_warnings))).getD false
        installers := instAfter35 m } := by
  rw [show passUpTo35 m = opt_display_install_warnings (passUpTo34 m) from rfl,
    passUpTo34_spec, opt_display_install_warnings_spec]
  unfold instAfter35
  simp only [instAfter00_eq]
  rw [instCollapse34 (·.display_install_warnings) (fun i => rfl),
    instCollapse33 (·.display_install_warnings) (fun i => rfl),
    instCollapse32 (·.display_install_warnings) (fun i => rfl),
    instCollapse31 (·.display_install_warnings) (fun i => rfl),
    instCollapse30 (·.display_install_warnings) (fun i => rfl),
    instCollapse29 (·.display_install_warnings) (fun i => rfl),
    instCollapse28 (·.display_install_warnings) (fun i => rfl),
    instCollapse27 (·.display_install_warnings) (fun i => rfl),
    instCollapse26 (·.display_install_warnings) (fun i => rfl),
    instCollapse25 (·.display_install_warnings) (fun i => rfl),
    instCollapse24 (·.display_install_warnings) (fun i => rfl),
    instCollapse23 (·.display_install_warnings) (fun i => rfl),
    instCollapse22 (·.display_install_warnings) (fun i => rfl),
    instCollapse21 (·.display_install_warnings) (fun i => rfl),
    instCollapse20 (·.display_install_warnings) (fun i => rfl),
    instCollapse19 (·.display_install_warnings) (fun i => rfl),
    instCollapse18 (·.display_install_warnings) (fun i => rfl),
    instCollapse17 (·.display_install_warnings) (fun i => rfl),
    instCollapse16 (·.display_install_warnings) (fun i => rfl),
    instCollapse15 (·.display_install_warnings) (fun i => rfl),
    instCollapse14 (·.display_install_warnings) (fun i => rfl),
    instCollapse13 (·.display_install_warnings) (fun i => rfl),
    instCollapse12 (·.display_install_warnings) (fun i => rfl),
    instCollapse11 (·.display_install_warnings) (fun i => rfl),
    instCollapse10 (·.display_install_warnings) (fun i => rfl),
    instCollapse09 (·.display_install_warnings) (fun i => rfl),
    instCollapse08 (·.display_install_warnings) (fun i => rfl),
    instCollapse07 (·.display_install_warnings) (fun i => rfl),
    instCollapse06 (·.display_install_warnings) (fun i => rfl),
    instCollapse05 (·.display_install_warnings) (fun i => rfl),
    instCollapse04 (·.display_install_warnings) (fun i => rfl),
    instCollapse03 (·.display_install_warnings) (fun i => rfl),
    instCollapse02 (·.display_install_warnings) (fun i => rfl),
    instCollapse01 (·.display_install_warnings) (fun i => rfl),
    instAfter00_eq]

/-- Normal form of the hoist pass after step 36. -/
theorem passUpTo36_spec (m : InstallerManifest) :
    passUpTo36 m =
      { m with
        locale := (allEqualValue (m.installers.map (·.locale))).getD none
        platform := (allEqualValue (m.installers.map (·.platform))).getD 0
        minimum_os_version := (allEqualValue (m.installers.map (·.minimum_os_version))).getD none
        type := (allEqualValue (m.installers.map (·.type))).getD none
        nested_installer_type := (allEqualValue (m.installers.map (·.nested_installer_type))).getD none
        nested_installer_files := (allEqualValue (m.installers.map (·.nested_installer_files))).getD []
        scope := (allEqualValue (m.installers.map (·.scope))).getD none
        install_modes := (allEqualValue (m.installers.map (·.install_modes))).getD 0
        switches.silent := (allEqualValue (m.installers.map (·.switches.silent))).getD none
        switches.silent_with_progress := (allEqualValue (m.installers.map (·.switches.silent_with_progress))).getD none
        switches.interactive := (allEqualValue (m.installers.map (·.switches.interactive))).getD none
        switches.install_location := (allEqualValue (m.installers.map (·.switches.install_location))).getD none
        switches.log := (allEqualValue (m.installers.map (·.switches.log))).getD none
        switches.upgrade := (allEqualValue (m.installers.map (·.switches.upgrade))).getD none
        switches.repair := (allEqualValue (m.installers.map (·.switches.repair))).getD none
        success_codes := (allEqualValue (m.installers.map (·.success_codes))).getD []
        expected_return_codes := (allEqualValue (m.installers.map (·.expected_return_codes))).getD []
        upgrade_behavior := (allEqualValue (m.installers.map (·.upgrade_behavior))).getD none
        commands := (allEqualValue (m.installers.map (·.commands))).getD []
        protocols := (allEqualValue (m.installers.map (·.protocols))).getD []
        file_extensions := (allEqualValue (m.installers.map (·.file_extensions))).getD []
        dependencies.windows_features := (allEqualValue (m.installers.map (·.dependencies.windows_features))).getD []
        dependencies.windows_libraries := (allEqualValue (m.installers.map (·.dependencies.windows_libraries))).getD []
        dependencies.package := (allEqualValue (m.installers.map (·.dependencies.package))).getD []
        dependencies.external := (allEqualValue (m.installers.map (·.dependencies.external))).getD []
        package_family_name := (allEqualValue (m.installers.map (·.package_family_name))).getD none
        product_code := (allEqualValue (m.installers.map (·.product_code))).getD none
        capabilities := (allEqualValue (m.installers.map (·.capabilities))).getD []
        restricted_capabilities := (allEqualValue (m.installers.map (·.restricted_capabilities))).getD []
        markets := (allEqualValue (m.installers.map (·.markets))).getD none
        aborts_terminal := (allEqualValue (m.installers.map (·.aborts_terminal))).getD false
        release_date := (allEqualValue (m.installers.map (·.release_date))).getD none
        install_location_required := (allEqualValue (m.installers.map (·.install_location_required))).getD false
        require_explicit_upgrade := (allEqualValue (m.installers.map (·.require_explicit_upgrade))).getD false
        display_install_warnings := (allEqualValue (m.installers.map (·.display_install_warnings))).getD false
        unsupported_os_architectures := (allEqualValue (m.installers.map (·.unsupported_os_architectures))).getD 0
        installers := instAfter36 m } := by
  rw [show passUpTo36 m = opt_unsupported_os_architectures (passUpTo35 m) from rfl,
    passUpTo35_spec, opt_unsupported_os_architectures_spec]
  unfold instAfter36
  simp only [instAfter00_eq]
  rw [instCollapse35 (·.unsupported_os_architectures) (fun i => rfl),
    instCollapse34 (·.unsupported_os_architectures) (fun i => rfl),
    instCollapse33 (·.unsupported_os_architectures) (fun i => rfl),
    instCollapse32 (·.unsupported_os_architectures) (fun i => rfl),
    instCollapse31 (·.unsupported_os_architectures) (fun i => rfl),
    instCollapse30 (·.unsupported_os_architectures) (fun i => rfl),
    instCollapse29 (·.unsupported_os_architectures) (fun i => rfl),
    instCollapse28 (·.unsupported_os_architectures) (fun i => rfl),
    instCollapse27 (·.unsupported_os_architectures) (fun i => rfl),
    instCollapse26 (·.unsupported_os_architectures) (fun i => rfl),
    instCollapse25 (·.unsupported_os_architectures) (fun i => rfl),
    instCollapse24 (·.unsupported_os_architectures) (fun i => rfl),
    instCollapse23 (·.unsupported_os_architectures) (fun i => rfl),
    instCollapse22 (·.unsupported_os_architectures) (fun i => rfl),
    instCollapse21 (·.unsupported_os_architectures) (fun i => rfl),
    instCollapse20 (·.unsupported_os_architectures) (fun i => rfl),
    instCollapse19 (·.unsupported_os_architectures) (fun i => rfl),
    instCollapse18 (·.unsupported_os_architectures) (fun i => rfl),
    instCollapse17 (·.unsupported_os_architectures) (fun i => rfl),
    instCollapse16 (·.unsupported_os_architectures) (fun i => rfl),
    instCollapse15 (·.unsupported_os_architectures) (fun i => rfl),
    instCollapse14 (·.unsupported_os_architectures) (fun i => rfl),
    instCollapse13 (·.unsupported_os_architectures) (fun i => rfl),
    instCollapse12 (·.unsupported_os_architectures) (fun i => rfl),
    instCollapse11 (·.unsupported_os_architectures) (fun i => rfl),
    instCollapse10 (·.unsupported_os_architectures) (fun i => rfl),
    instCollapse09 (·.unsupported_os_architectures) (fun i => rfl),
    instCollapse08 (·.unsupported_os_architectures) (fun i => rfl),
    instCollapse07 (·.unsupported_os_architectures) (fun i => rfl),
    instCollapse06 (·.unsupported_os_architectures) (fun i => rfl),
    instCollapse05 (·.unsupported_os_architectures) (fun i => rfl),
    instCollapse04 (·.unsupported_os_architectures) (fun i => rfl),
    instCollapse03 (·.unsupported_os_architectures) (fun i => rfl),
    instCollapse02 (·.unsupported_os_architectures) (fun i => rfl),
    instCollapse01 (·.unsupported_os_architectures) (fun i => rfl),
    instAfter00_eq]

/-- Normal form of the hoist pass after step 37. -/
theorem passUpTo37_spec (m : InstallerManifest) :
    passUpTo37 m =
      { m with
        locale := (allEqualValue (m.installers.map (·.locale))).getD none
        platform := (allEqualValue (m.installers.map (·.platform))).getD 0
        minimum_os_version := (allEqualValue (m.installers.map (·.minimum_os_version))).getD none
        type := (allEqualValue (m.installers.map (·.type))).getD none
        nested_installer_type := (allEqualValue (m.installers.map (·.nested_installer_type))).getD none
        nested_installer_files := (allEqualValue (m.installers.map (·.nested_installer_files))).getD []
        scope := (allEqualValue (m.installers.map (·.scope))).getD none
        install_modes := (allEqualValue (m.installers.map (·.install_modes))).getD 0
        switches.silent := (allEqualValue (m.installers.map (·.switches.silent))).getD none
        switches.silent_with_progress := (allEqualValue (m.installers.map (·.switches.silent_with_progress))).getD none
        switches.interactive := (allEqualValue (m.installers.map (·.switches.interactive))).getD none
        switches.install_location := (allEqualValue (m.installers.map (·.switches.install_location))).getD none
        switches.log := (allEqualValue (m.installers.map (·.switches.log))).getD none
        switches.upgrade := (allEqualValue (m.installers.map (·.switches.upgrade))).getD none
        switches.repair := (allEqualValue (m.installers.map (·.switches.repair))).getD none
        success_codes := (allEqualValue (m.installers.map (·.success_codes))).getD []
        expected_return_codes := (allEqualValue (m.installers.map (·.expected_return_codes))).getD []
        upgrade_behavior := (allEqualValue (m.installers.map (·.upgrade_behavior))).getD none
        commands := (allEqualValue (m.installers.map (·.commands))).getD []
        protocols := (allEqualValue (m.installers.map (·.protocols))).getD []
        file_extensions := (allEqualValue (m.installers.map (·.file_extensions))).getD []
        dependencies.windows_features := (allEqualValue (m.installers.map (·.dependencies.windows_features))).getD []
        dependencies.windows_libraries := (allEqualValue (m.installers.map (·.dependencies.windows_libraries))).getD []
        dependencies.package := (allEqualValue (m.installers.map (·.dependencies.package))).getD []
        dependencies.external := (allEqualValue (m.installers.map (·.dependencies.external))).getD []
        package_family_name := (allEqualValue (m.installers.map (·.package_family_name))).getD none
        product_code := (allEqualValue (m.installers.map (·.product_code))).getD none
        capabilities := (allEqualValue (m.installers.map (·.capabilities))).getD []
        restricted_capabilities := (allEqualValue (m.installers.map (·.restricted_capabilities))).getD []
        markets := (allEqualValue (m.installers.map (·.markets))).getD none
        aborts_terminal := (allEqualValue (m.installers.map (·.aborts_terminal))).getD false
        release_date := (allEqualValue (m.installers.map (·.release_date))).getD none
        install_location_required := (allEqualValue (m.installers.map (·.install_location_required))).getD false
        require_explicit_upgrade := (allEqualValue (m.installers.map (·.require_explicit_upgrade))).getD false
        display_install_warnings := (allEqualValue (m.installers.map (·.display_install_warnings))).getD false
        unsupported_os_architectures := (allEqualValue (m.installers.map (·.unsupported_os_architectures))).getD 0
        unsupported_arguments := (allEqualValue (m.installers.map (·.unsupported_arguments))).getD 0
        installers := instAfter37 m } := by
  rw [show passUpTo37 m = opt_unsupported_arguments (passUpTo36 m) from rfl,
    passUpTo36_spec, opt_unsupported_arguments_spec]
  unfold instAfter37
  simp only [instAfter00_eq]
  rw [instCollapse36 (·.unsupported_arguments) (fun i => rfl),
    instCollapse35 (·.unsupported_arguments) (fun i => rfl),
    instCollapse34 (·.unsupported_arguments) (fun i => rfl),
    instCollapse33 (·.unsupported_arguments) (fun i => rfl),
    instCollapse32 (·.unsupported_arguments) (fun i => rfl),
    instCollapse31 (·.unsupported_arguments) (fun i => rfl),
    instCollapse30 (·.unsupported_arguments) (fun i => rfl),
    instCollapse29 (·.unsupported_arguments) (fun i => rfl),
    instCollapse28 (·.unsupported_arguments) (fun i => rfl),
    instCollapse27 (·.unsupported_arguments) (fun i => rfl),
    instCollapse26 (·.unsupported_arguments) (fun i => rfl),
    instCollapse25 (·.unsupported_arguments) (fun i => rfl),
    instCollapse24 (·.unsupported_arguments) (fun i => rfl),
    instCollapse23 (·.unsupported_arguments) (fun i => rfl),
    instCollapse22 (·.unsupported_arguments) (fun i => rfl),
    instCollapse21 (·.unsupported_arguments) (fun i => rfl),
    instCollapse20 (·.unsupported_arguments) (fun i => rfl),
    instCollapse19 (·.unsupported_arguments) (fun i => rfl),
    instCollapse18 (·.unsupported_arguments) (fun i => rfl),
    instCollapse17 (·.unsupported_arguments) (fun i => rfl),
    instCollapse16 (·.unsupported_arguments) (fun i => rfl),
    instCollapse15 (·.unsupported_arguments) (fun i => rfl),
    instCollapse14 (·.unsupported_arguments) (fun i => rfl),
    instCollapse13 (·.unsupported_arguments) (fun i => rfl),
    instCollapse12 (·.unsupported_arguments) (fun i => rfl),
    instCollapse11 (·.unsupported_arguments) (fun i => rfl),
    instCollapse10 (·.unsupported_arguments) (fun i => rfl),
    instCollapse09 (·.unsupported_arguments) (fun i => rfl),
    instCollapse08 (·.unsupported_arguments) (fun i => rfl),
    instCollapse07 (·.unsupported_arguments) (fun i => rfl),
    instCollapse06 (·.unsupported_arguments) (fun i => rfl),
    instCollapse05 (·.unsupported_arguments) (fun i => rfl),
    instCollapse04 (·.unsupported_arguments) (fun i => rfl),
    instCollapse03 (·.unsupported_arguments) (fun i => rfl),
    instCollapse02 (·.unsupported_arguments) (fun i => rfl),
    instCollapse01 (·.unsupported_arguments) (fun i => rfl),
    instAfter00_eq]

/-- Normal form of the hoist pass after step 38. -/
theorem passUpTo38_spec (m : InstallerManifest) :
    passUpTo38 m =
      { m with
        locale := (allEqualValue (m.installers.map (·.locale))).getD none
        platform := (allEqualValue (m.installers.map (·.platform))).getD 0
        minimum_os_version := (allEqualValue (m.installers.map (·.minimum_os_version))).getD none
        type := (allEqualValue (m.installers.map (·.type))).getD none
        nested_installer_type := (allEqualValue (m.installers.map (·.nested_installer_type))).getD none
        nested_installer_files := (allEqualValue (m.installers.map (·.nested_installer_files))).getD []
        scope := (allEqualValue (m.installers.map (·.scope))).getD none
        install_modes := (allEqualValue (m.installers.map (·.install_modes))).getD 0
        switches.silent := (allEqualValue (m.installers.map (·.switches.silent))).getD none
        switches.silent_with_progress := (allEqualValue (m.installers.map (·.switches.silent_with_progress))).getD none
        switches.interactive := (allEqualValue (m.installers.map (·.switches.interactive))).getD none
        switches.install_location := (allEqualValue (m.installers.map (·.switches.install_location))).getD none
        switches.log := (allEqualValue (m.installers.map (·.switches.log))).getD none
        switches.upgrade := (allEqualValue (m.installers.map (·.switches.upgrade))).getD none
        switches.repair := (allEqualValue (m.installers.map (·.switches.repair))).getD none
        success_codes := (allEqualValue (m.installers.map (·.success_codes))).getD []
        expected_return_codes := (allEqualValue (m.installers.map (·.expected_return_codes))).getD []
        upgrade_behavior := (allEqualValue (m.installers.map (·.upgrade_behavior))).getD none
        commands := (allEqualValue (m.installers.map (·.commands))).getD []
        protocols := (allEqualValue (m.installers.map (·.protocols))).getD []
        file_extensions := (allEqualValue (m.installers.map (·.file_extensions))).getD []
        dependencies.windows_features := (allEqualValue (m.installers.map (·.dependencies.windows_features))).getD []
        dependencies.windows_libraries := (allEqualValue (m.installers.map (·.dependencies.windows_libraries))).getD []
        dependencies.package := (allEqualValue (m.installers.map (·.dependencies.package))).getD []
        dependencies.external := (allEqualValue (m.installers.map (·.dependencies.external))).getD []
        package_family_name := (allEqualValue (m.installers.map (·.package_family_name))).getD none
        product_code := (allEqualValue (m.installers.map (·.product_code))).getD none
        capabilities := (allEqualValue (m.installers.map (·.capabilities))).getD []
        restricted_capabilities := (allEqualValue (m.installers.map (·.restricted_capabilities))).getD []
        markets := (allEqualValue (m.installers.map (·.markets))).getD none
        aborts_terminal := (allEqualValue (m.installers.map (·.aborts_terminal))).getD false
        release_date := (allEqualValue (m.installers.map (·.release_date))).getD none
        install_location_required := (allEqualValue (m.installers.map (·.install_location_required))).getD false
        require_explicit_upgrade := (allEqualValue (m.installers.map (·.require_explicit_upgrade))).getD false
        display_install_warnings := (allEqualValue (m.installers.map (·.display_install_warnings))).getD false
        unsupported_os_architectures := (allEqualValue (m.installers.map (·.unsupported_os_architectures))).getD 0
        unsupported_arguments := (allEqualValue (m.installers.map (·.unsupported_arguments))).getD 0
        apps_and_features_entries := (allEqualValue (m.installers.map (·.apps_and_features_entries))).getD []
        installers := instAfter38 m } := by
  rw [show passUpTo38 m = opt_apps_and_features_entries (passUpTo37 m) from rfl,
    passUpTo37_spec, opt_apps_and_features_entries_spec]
  unfold instAfter38
  simp only [instAfter00_eq]
  rw [instCollapse37 (·.apps_and_features_entries) (fun i => rfl),
    instCollapse36 (·.apps_and_features_entries) (fun i => rfl),
    instCollapse35 (·.apps_and_features_entries) (fun i => rfl),
    instCollapse34 (·.apps_and_features_entries) (fun i => rfl),
    instCollapse33 (·.apps_and_features_entries) (fun i => rfl),
    instCollapse32 (·.apps_and_features_entries) (fun i => rfl),
    instCollapse31 (·.apps_and_features_entries) (fun i => rfl),
    instCollapse30 (·.apps_and_features_entries) (fun i => rfl),
    instCollapse29 (·.apps_and_features_entries) (fun i => rfl),
    instCollapse28 (·.apps_and_features_entries) (fun i => rfl),
    instCollapse27 (·.apps_and_features_entries) (fun i => rfl),
    instCollapse26 (·.apps_and_features_entries) (fun i => rfl),
    instCollapse25 (·.apps_and_features_entries) (fun i => rfl),
    instCollapse24 (·.apps_and_features_entries) (fun i => rfl),
    instCollapse23 (·.apps_and_features_entries) (fun i => rfl),
    instCollapse22 (·.apps_and_features_entries) (fun i => rfl),
    instCollapse21 (·.apps_and_features_entries) (fun i => rfl),
    instCollapse20 (·.apps_and_features_entries) (fun i => rfl),
    instCollapse19 (·.apps_and_features_entries) (fun i => rfl),
    instCollapse18 (·.apps_and_features_entries) (fun i => rfl),
    instCollapse17 (·.apps_and_features_entries) (fun i => rfl),
    instCollapse16 (·.apps_and_features_entries) (fun i => rfl),
    instCollapse15 (·.apps_and_features_entries) (fun i => rfl),
    instCollapse14 (·.apps_and_features_entries) (fun i => rfl),
    instCollapse13 (·.apps_and_features_entries) (fun i => rfl),
    instCollapse12 (·.apps_and_features_entries) (fun i => rfl),
    instCollapse11 (·.apps_and_features_entries) (fun i => rfl),
    instCollapse10 (·.apps_and_features_entries) (fun i => rfl),
    instCollapse09 (·.apps_and_features_entries) (fun i => rfl),
    instCollapse08 (·.apps_and_features_entries) (fun i => rfl),
    instCollapse07 (·.apps_and_features_entries) (fun i => rfl),
    instCollapse06 (·.apps_and_features_entries) (fun i => rfl),
    instCollapse05 (·.apps_and_features_entries) (fun i => rfl),
    instCollapse04 (·.apps_and_features_entries) (fun i => rfl),
    instCollapse03 (·.apps_and_features_entries) (fun i => rfl),
    instCollapse02 (·.apps_and_features_entries) (fun i => rfl),
    instCollapse01 (·.apps_and_features_entries) (fun i => rfl),
    instAfter00_eq]

/-- Normal form of the hoist pass after step 39. -/
theorem passUpTo39_spec (m : InstallerManifest) :
    passUpTo39 m =
      { m with
        locale := (allEqualValue (m.installers.map (·.locale))).getD none
        platform := (allEqualValue (m.installers.map (·.platform))).getD 0
        minimum_os_version := (allEqualValue (m.installers.map (·.minimum_os_version))).getD none
        type := (allEqualValue (m.installers.map (·.type))).getD none
        nested_installer_type := (allEqualValue (m.installers.map (·.nested_installer_type))).getD none
        nested_installer_files := (allEqualValue (m.installers.map (·.nested_installer_files))).getD []
        scope := (allEqualValue (m.installers.map (·.scope))).getD none
        install_modes := (allEqualValue (m.installers.map (·.install_modes))).getD 0
        switches.silent := (allEqualValue (m.installers.map (·.switches.silent))).getD none
        switches.silent_with_progress := (allEqualValue (m.installers.map (·.switches.silent_with_progress))).getD none
        switches.interactive := (allEqualValue (m.installers.map (·.switches.interactive))).getD none
        switches.install_location := (allEqualValue (m.installers.map (·.switches.install_location))).getD none
        switches.log := (allEqualValue (m.installers.map (·.switches.log))).getD none
        switches.upgrade := (allEqualValue (m.installers.map (·.switches.upgrade))).getD none
        switches.repair := (allEqualValue (m.installers.map (·.switches.repair))).getD none
        success_codes := (allEqualValue (m.installers.map (·.success_codes))).getD []
        expected_return_codes := (allEqualValue (m.installers.map (·.expected_return_codes))).getD []
        upgrade_behavior := (allEqualValue (m.installers.map (·.upgrade_behavior))).getD none
        commands := (allEqualValue (m.installers.map (·.commands))).getD []
        protocols := (allEqualValue (m.installers.map (·.protocols))).getD []
        file_extensions := (allEqualValue (m.installers.map (·.file_extensions))).getD []
        dependencies.windows_features := (allEqualValue (m.installers.map (·.dependencies.windows_features))).getD []
        dependencies.windows_libraries := (allEqualValue (m.installers.map (·.dependencies.windows_libraries))).getD []
        dependencies.package := (allEqualValue (m.installers.map (·.dependencies.package))).getD []
        dependencies.external := (allEqualValue (m.installers.map (·.dependencies.external))).getD []
        package_family_name := (allEqualValue (m.installers.map (·.package_family_name))).getD none
        product_code := (allEqualValue (m.installers.map (·.product_code))).getD none
        capabilities := (allEqualValue (m.installers.map (·.capabilities))).getD []
        restricted_capabilities := (allEqualValue (m.installers.map (·.restricted_capabilities))).getD []
        markets := (allEqualValue (m.installers.map (·.markets))).getD none
        aborts_terminal := (allEqualValue (m.installers.map (·.aborts_terminal))).getD false
        release_date := (allEqualValue (m.installers.map (·.release_date))).getD none
        install_location_required := (allEqualValue (m.installers.map (·.install_location_required))).getD false
        require_explicit_upgrade := (allEqualValue (m.installers.map (·.require_explicit_upgrade))).getD false
        display_install_warnings := (allEqualValue (m.installers.map (·.display_install_warnings))).getD false
        unsupported_os_architectures := (allEqualValue (m.installers.map (·.unsupported_os_architectures))).getD 0
        unsupported_arguments := (allEqualValue (m.installers.map (·.unsupported_arguments))).getD 0
        apps_and_features_entries := (allEqualValue (m.installers.map (·.apps_and_features_entries))).getD []
        elevation_requirement := (allEqualValue (m.installers.map (·.elevation_requirement))).getD none
        installers := instAfter39 m } := by
  rw [show passUpTo39 m = opt_elevation_requirement (passUpTo38 m) from rfl,
    passUpTo38_spec, opt_elevation_requirement_spec]
  unfold instAfter39
  simp only [instAfter00_eq]
  rw [instCollapse38 (·.elevation_requirement) (fun i => rfl),
    instCollapse37 (·.elevation_requirement) (fun i => rfl),
    instCollapse36 (·.elevation_requirement) (fun i => rfl),
    instCollapse35 (·.elevation_requirement) (fun i => rfl),
    instCollapse34 (·.elevation_requirement) (fun i => rfl),
    instCollapse33 (·.elevation_requirement) (fun i => rfl),
    instCollapse32 (·.elevation_requirement) (fun i => rfl),
    instCollapse31 (·.elevation_requirement) (fun i => rfl),
    instCollapse30 (·.elevation_requirement) (fun i => rfl),
    instCollapse29 (·.elevation_requirement) (fun i => rfl),
    instCollapse28 (·.elevation_requirement) (fun i => rfl),
    instCollapse27 (·.elevation_requirement) (fun i => rfl),
    instCollapse26 (·.elevation_requirement) (fun i => rfl),
    instCollapse25 (·.elevation_requirement) (fun i => rfl),
    instCollapse24 (·.elevation_requirement) (fun i => rfl),
    instCollapse23 (·.elevation_requirement) (fun i => rfl),
    instCollapse22 (·.elevation_requirement) (fun i => rfl),
    instCollapse21 (·.elevation_requirement) (fun i => rfl),
    instCollapse20 (·.elevation_requirement) (fun i => rfl),
    instCollapse19 (·.elevation_requirement) (fun i => rfl),
    instCollapse18 (·.elevation_requirement) (fun i => rfl),
    instCollapse17 (·.elevation_requirement) (fun i => rfl),
    instCollapse16 (·.elevation_requirement) (fun i => rfl),
    instCollapse15 (·.elevation_requirement) (fun i => rfl),
    instCollapse14 (·.elevation_requirement) (fun i => rfl),
    instCollapse13 (·.elevation_requirement) (fun i => rfl),
    instCollapse12 (·.elevation_requirement) (fun i => rfl),
    instCollapse11 (·.elevation_requirement) (fun i => rfl),
    instCollapse10 (·.elevation_requirement) (fun i => rfl),
    instCollapse09 (·.elevation_requirement) (fun i => rfl),
    instCollapse08 (·.elevation_requirement) (fun i => rfl),
    instCollapse07 (·.elevation_requirement) (fun i => rfl),
    instCollapse06 (·.elevation_requirement) (fun i => rfl),
    instCollapse05 (·.elevation_requirement) (fun i => rfl),
    instCollapse04 (·.elevation_requirement) (fun i => rfl),
    instCollapse03 (·.elevation_requirement) (fun i => rfl),
    instCollapse02 (·.elevation_requirement) (fun i => rfl),
    instCollapse01 (·.elevation_requirement) (fun i => rfl),
    instAfter00_eq]

/-- Normal form of the hoist pass after step 40. -/
theorem passUpTo40_spec (m : InstallerManifest) :
    passUpTo40 m =
      { m with
        locale := (allEqualValue (m.installers.map (·.locale))).getD none
        platform := (allEqualValue (m.installers.map (·.platform))).getD 0
        minimum_os_version := (allEqualValue (m.installers.map (·.minimum_os_version))).getD none
        type := (allEqualValue (m.installers.map (·.type))).getD none
        nested_installer_type := (allEqualValue (m.installers.map (·.nested_installer_type))).getD none
        nested_installer_files := (allEqualValue (m.installers.map (·.nested_installer_files))).getD []
        scope := (allEqualValue (m.installers.map (·.scope))).getD none
        install_modes := (allEqualValue (m.installers.map (·.install_modes))).getD 0
        switches.silent := (allEqualValue (m.installers.map (·.switches.silent))).getD none
        switches.silent_with_progress := (allEqualValue (m.installers.map (·.switches.silent_with_progress))).getD none
        switches.interactive := (allEqualValue (m.installers.map (·.switches.interactive))).getD none
        switches.install_location := (allEqualValue (m.installers.map (·.switches.install_location))).getD none
        switches.log := (allEqualValue (m.installers.map (·.switches.log))).getD none
        switches.upgrade := (allEqualValue (m.installers.map (·.switches.upgrade))).getD none
        switches.repair := (allEqualValue (m.installers.map (·.switches.repair))).getD none
        success_codes := (allEqualValue (m.installers.map (·.success_codes))).getD []
        expected_return_codes := (allEqualValue (m.installers.map (·.expected_return_codes))).getD []
        upgrade_behavior := (allEqualValue (m.installers.map (·.upgrade_behavior))).getD none
        commands := (allEqualValue (m.installers.map (·.commands))).getD []
        protocols := (allEqualValue (m.installers.map (·.protocols))).getD []
        file_extensions := (allEqualValue (m.installers.map (·.file_extensions))).getD []
        dependencies.windows_features := (allEqualValue (m.installers.map (·.dependencies.windows_features))).getD []
        dependencies.windows_libraries := (allEqualValue (m.installers.map (·.dependencies.windows_libraries))).getD []
        dependencies.package := (allEqualValue (m.installers.map (·.dependencies.package))).getD []
        dependencies.external := (allEqualValue (m.installers.map (·.dependencies.external))).getD []
        package_family_name := (allEqualValue (m.installers.map (·.package_family_name))).getD none
        product_code := (allEqualValue (m.installers.map (·.product_code))).getD none
        capabilities := (allEqualValue (m.installers.map (·.capabilities))).getD []
        restricted_capabilities := (allEqualValue (m.installers.map (·.restricted_capabilities))).getD []
        markets := (allEqualValue (m.installers.map (·.markets))).getD none
        aborts_terminal := (allEqualValue (m.installers.map (·.aborts_terminal))).getD false
        release_date := (allEqualValue (m.installers.map (·.release_date))).getD none
        install_location_required := (allEqualValue (m.installers.map (·.install_location_required))).getD false
        require_explicit_upgrade := (allEqualValue (m.installers.map (·.require_explicit_upgrade))).getD false
        display_install_warnings := (allEqualValue (m.installers.map (·.display_install_warnings))).getD false
        unsupported_os_architectures := (allEqualValue (m.installers.map (·.unsupported_os_architectures))).getD 0
        unsupported_arguments := (allEqualValue (m.installers.map (·.unsupported_arguments))).getD 0
        apps_and_features_entries := (allEqualValue (m.installers.map (·.apps_and_features_entries))).getD []
        elevation_requirement := (allEqualValue (m.installers.map (·.elevation_requirement))).getD none
        installation_metadata := (allEqualValue (m.installers.map (·.installation_metadata))).getD (⟨none, []⟩ : InstallationMetadata)
        installers := instAfter40 m } := by
  rw [show passUpTo40 m = opt_installation_metadata (passUpTo39 m) from rfl,
    passUpTo39_spec, opt_installation_metadata_spec]
  unfold instAfter40
  simp only [instAfter00_eq]
  rw [instCollapse39 (·.installation_metadata) (fun i => rfl),
    instCollapse38 (·.installation_metadata) (fun i => rfl),
    instCollapse37 (·.installation_metadata) (fun i => rfl),
    instCollapse36 (·.installation_metadata) (fun i => rfl),
    instCollapse35 (·.installation_metadata) (fun i => rfl),
    instCollapse34 (·.installation_metadata) (fun i => rfl),
    instCollapse33 (·.installation_metadata) (fun i => rfl),
    instCollapse32 (·.installation_metadata) (fun i => rfl),
    instCollapse31 (·.installation_metadata) (fun i => rfl),
    instCollapse30 (·.installation_metadata) (fun i => rfl),
    instCollapse29 (·.installation_metadata) (fun i => rfl),
    instCollapse28 (·.installation_metadata) (fun i => rfl),
    instCollapse27 (·.installation_metadata) (fun i => rfl),
    instCollapse26 (·.installation_metadata) (fun i => rfl),
    instCollapse25 (·.installation_metadata) (fun i => rfl),
    instCollapse24 (·.installation_metadata) (fun i => rfl),
    instCollapse23 (·.installation_metadata) (fun i => rfl),
    instCollapse22 (·.installation_metadata) (fun i => rfl),
    instCollapse21 (·.installation_metadata) (fun i => rfl),
    instCollapse20 (·.installation_metadata) (fun i => rfl),
    instCollapse19 (·.installation_metadata) (fun i => rfl),
    instCollapse18 (·.installation_metadata) (fun i => rfl),
    instCollapse17 (·.installation_metadata) (fun i => rfl),
    instCollapse16 (·.installation_metadata) (fun i => rfl),
    instCollapse15 (·.installation_metadata) (fun i => rfl),
    instCollapse14 (·.installation_metadata) (fun i => rfl),
    instCollapse13 (·.installation_metadata) (fun i => rfl),
    instCollapse12 (·.installation_metadata) (fun i => rfl),
    instCollapse11 (·.installation_metadata) (fun i => rfl),
    instCollapse10 (·.installation_metadata) (fun i => rfl),
    instCollapse09 (·.installation_metadata) (fun i => rfl),
    instCollapse08 (·.installation_metadata) (fun i => rfl),
    instCollapse07 (·.installation_metadata) (fun i => rfl),
    instCollapse06 (·.installation_metadata) (fun i => rfl),
    instCollapse05 (·.installation_metadata) (fun i => rfl),
    instCollapse04 (·.installation_metadata) (fun i => rfl),
    instCollapse03 (·.installation_metadata) (fun i => rfl),
    instCollapse02 (·.installation_metadata) (fun i => rfl),
    instCollapse01 (·.installation_metadata) (fun i => rfl),
    instAfter00_eq]

/-- Normal form of the hoist pass after step 41. -/
theorem passUpTo41_spec (m : InstallerManifest) :
    passUpTo41 m =
      { m with
        locale := (allEqualValue (m.installers.map (·.locale))).getD none
        platform := (allEqualValue (m.installers.map (·.platform))).getD 0
        minimum_os_version := (allEqualValue (m.installers.map (·.minimum_os_version))).getD none
        type := (allEqualValue (m.installers.map (·.type))).getD none
        nested_installer_type := (allEqualValue (m.installers.map (·.nested_installer_type))).getD none
        nested_installer_files := (allEqualValue (m.installers.map (·.nested_installer_files))).getD []
        scope := (allEqualValue (m.installers.map (·.scope))).getD none
        install_modes := (allEqualValue (m.installers.map (·.install_modes))).getD 0
        switches.silent := (allEqualValue (m.installers.map (·.switches.silent))).getD none
        switches.silent_with_progress := (allEqualValue (m.installers.map (·.switches.silent_with_progress))).getD none
        switches.interactive := (allEqualValue (m.installers.map (·.switches.interactive))).getD none
        switches.install_location := (allEqualValue (m.installers.map (·.switches.install_location))).getD none
        switches.log := (allEqualValue (m.installers.map (·.switches.log))).getD none
        switches.upgrade := (allEqualValue (m.installers.map (·.switches.upgrade))).getD none
        switches.repair := (allEqualValue (m.installers.map (·.switches.repair))).getD none
        success_codes := (allEqualValue (m.installers.map (·.success_codes))).getD []
        expected_return_codes := (allEqualValue (m.installers.map (·.expected_return_codes))).getD []
        upgrade_behavior := (allEqualValue (m.installers.map (·.upgrade_behavior))).getD none
        commands := (allEqualValue (m.installers.map (·.commands))).getD []
        protocols := (allEqualValue (m.installers.map (·.protocols))).getD []
        file_extensions := (allEqualValue (m.installers.map (·.file_extensions))).getD []
        dependencies.windows_features := (allEqualValue (m.installers.map (·.dependencies.windows_features))).getD []
        dependencies.windows_libraries := (allEqualValue (m.installers.map (·.dependencies.windows_libraries))).getD []
        dependencies.package := (allEqualValue (m.installers.map (·.dependencies.package))).getD []
        dependencies.external := (allEqualValue (m.installers.map (·.dependencies.external))).getD []
        package_family_name := (allEqualValue (m.installers.map (·.package_family_name))).getD none
        product_code := (allEqualValue (m.installers.map (·.product_code))).getD none
        capabilities := (allEqualValue (m.installers.map (·.capabilities))).getD []
        restricted_capabilities := (allEqualValue (m.installers.map (·.restricted_capabilities))).getD []
        markets := (allEqualValue (m.installers.map (·.markets))).getD none
        aborts_terminal := (allEqualValue (m.installers.map (·.aborts_terminal))).getD false
        release_date := (allEqualValue (m.installers.map (·.release_date))).getD none
        install_location_required := (allEqualValue (m.installers.map (·.install_location_required))).getD false
        require_explicit_upgrade := (allEqualValue (m.installers.map (·.require_explicit_upgrade))).getD false
        display_install_warnings := (allEqualValue (m.installers.map (·.display_install_warnings))).getD false
        unsupported_os_architectures := (allEqualValue (m.installers.map (·.unsupported_os_architectures))).getD 0
        unsupported_arguments := (allEqualValue (m.installers.map (·.unsupported_arguments))).getD 0
        apps_and_features_entries := (allEqualValue (m.installers.map (·.apps_and_features_entries))).getD []
        elevation_requirement := (allEqualValue (m.installers.map (·.elevation_requirement))).getD none
        installation_metadata := (allEqualValue (m.installers.map (·.installation_metadata))).getD (⟨none, []⟩ : InstallationMetadata)
        download_command_prohibited := (allEqualValue (m.installers.map (·.download_command_prohibited))).getD false
        installers := instAfter41 m } := by
  rw [show passUpTo41 m = opt_download_command_prohibited (passUpTo40 m) from rfl,
    passUpTo40_spec, opt_download_command_prohibited_spec]
  unfold instAfter41
  simp only [instAfter00_eq]
  rw [instCollapse40 (·.download_command_prohibited) (fun i => rfl),
    instCollapse39 (·.download_command_prohibited) (fun i => rfl),
    instCollapse38 (·.download_command_prohibited) (fun i => rfl),
    instCollapse37 (·.download_command_prohibited) (fun i => rfl),
    instCollapse36 (·.download_command_prohibited) (fun i => rfl),
    instCollapse35 (·.download_command_prohibited) (fun i => rfl),
    instCollapse34 (·.download_command_prohibited) (fun i => rfl),
    instCollapse33 (·.download_command_prohibited) (fun i => rfl),
    instCollapse32 (·.download_command_prohibited) (fun i => rfl),
    instCollapse31 (·.download_command_prohibited) (fun i => rfl),
    instCollapse30 (·.download_command_prohibited) (fun i => rfl),
    instCollapse29 (·.download_command_prohibited) (fun i => rfl),
    instCollapse28 (·.download_command_prohibited) (fun i => rfl),
    instCollapse27 (·.download_command_prohibited) (fun i => rfl),
    instCollapse26 (·.download_command_prohibited) (fun i => rfl),
    instCollapse25 (·.download_command_prohibited) (fun i => rfl),
    instCollapse24 (·.download_command_prohibited) (fun i => rfl),
    instCollapse23 (·.download_command_prohibited) (fun i => rfl),
    instCollapse22 (·.download_command_prohibited) (fun i => rfl),
    instCollapse21 (·.download_command_prohibited) (fun i => rfl),
    instCollapse20 (·.download_command_prohibited) (fun i => rfl),
    instCollapse19 (·.download_command_prohibited) (fun i => rfl),
    instCollapse18 (·.download_command_prohibited) (fun i => rfl),
    instCollapse17 (·.download_command_prohibited) (fun i => rfl),
    instCollapse16 (·.download_command_prohibited) (fun i => rfl),
    instCollapse15 (·.download_command_prohibited) (fun i => rfl),
    instCollapse14 (·.download_command_prohibited) (fun i => rfl),
    instCollapse13 (·.download_command_prohibited) (fun i => rfl),
    instCollapse12 (·.download_command_prohibited) (fun i => rfl),
    instCollapse11 (·.download_command_prohibited) (fun i => rfl),
    instCollapse10 (·.download_command_prohibited) (fun i => rfl),
    instCollapse09 (·.download_command_prohibited) (fun i => rfl),
    instCollapse08 (·.download_command_prohibited) (fun i => rfl),
    instCollapse07 (·.download_command_prohibited) (fun i => rfl),
    instCollapse06 (·.download_command_prohibited) (fun i => rfl),
    instCollapse05 (·.download_command_prohibited) (fun i => rfl),
    instCollapse04 (·.download_command_prohibited) (fun i => rfl),
    instCollapse03 (·.download_command_prohibited) (fun i => rfl),
    instCollapse02 (·.download_command_prohibited) (fun i => rfl),
    instCollapse01 (·.download_command_prohibited) (fun i => rfl),
    instAfter00_eq]

/-- Normal form of the hoist pass after step 42. -/
theorem passUpTo42_spec (m : InstallerManifest) :
    passUpTo42 m =
      { m with
        locale := (allEqualValue (m.installers.map (·.locale))).getD none
        platform := (allEqualValue (m.installers.map (·.platform))).getD 0
        minimum_os_version := (allEqualValue (m.installers.map (·.minimum_os_version))).getD none
        type := (allEqualValue (m.installers.map (·.type))).getD none
        nested_installer_type := (allEqualValue (m.installers.map (·.nested_installer_type))).getD none
        nested_installer_files := (allEqualValue (m.installers.map (·.nested_installer_files))).getD []
        scope := (allEqualValue (m.installers.map (·.scope))).getD none
        install_modes := (allEqualValue (m.installers.map (·.install_modes))).getD 0
        switches.silent := (allEqualValue (m.installers.map (·.switches.silent))).getD none
        switches.silent_with_progress := (allEqualValue (m.installers.map (·.switches.silent_with_progress))).getD none
        switches.interactive := (allEqualValue (m.installers.map (·.switches.interactive))).getD none
        switches.install_location := (allEqualValue (m.installers.map (·.switches.install_location))).getD none
        switches.log := (allEqualValue (m.installers.map (·.switches.log))).getD none
        switches.upgrade := (allEqualValue (m.installers.map (·.switches.upgrade))).getD none
        switches.repair := (allEqualValue (m.installers.map (·.switches.repair))).getD none
        success_codes := (allEqualValue (m.installers.map (·.success_codes))).getD []
        expected_return_codes := (allEqualValue (m.installers.map (·.expected_return_codes))).getD []
        upgrade_behavior := (allEqualValue (m.installers.map (·.upgrade_behavior))).getD none
        commands := (allEqualValue (m.installers.map (·.commands))).getD []
        protocols := (allEqualValue (m.installers.map (·.protocols))).getD []
        file_extensions := (allEqualValue (m.installers.map (·.file_extensions))).getD []
        dependencies.windows_features := (allEqualValue (m.installers.map (·.dependencies.windows_features))).getD []
        dependencies.windows_libraries := (allEqualValue (m.installers.map (·.dependencies.windows_libraries))).getD []
        dependencies.package := (allEqualValue (m.installers.map (·.dependencies.package))).getD []
        dependencies.external := (allEqualValue (m.installers.map (·.dependencies.external))).getD []
        package_family_name := (allEqualValue (m.installers.map (·.package_family_name))).getD none
        product_code := (allEqualValue (m.installers.map (·.product_code))).getD none
        capabilities := (allEqualValue (m.installers.map (·.capabilities))).getD []
        restricted_capabilities := (allEqualValue (m.installers.map (·.restricted_capabilities))).getD []
        markets := (allEqualValue (m.installers.map (·.markets))).getD none
        aborts_terminal := (allEqualValue (m.installers.map (·.aborts_terminal))).getD false
        release_date := (allEqualValue (m.installers.map (·.release_date))).getD none
        install_location_required := (allEqualValue (m.installers.map (·.install_location_required))).getD false
        require_explicit_upgrade := (allEqualValue (m.installers.map (·.require_explicit_upgrade))).getD false
        display_install_warnings := (allEqualValue (m.installers.map (·.display_install_warnings))).getD false
        unsupported_os_architectures := (allEqualValue (m.installers.map (·.unsupported_os_architectures))).getD 0
        unsupported_arguments := (allEqualValue (m.installers.map (·.unsupported_arguments))).getD 0
        apps_and_features_entries := (allEqualValue (m.installers.map (·.apps_and_features_entries))).getD []
        elevation_requirement := (allEqualValue (m.installers.map (·.elevation_requirement))).getD none
        installation_metadata := (allEqualValue (m.installers.map (·.installation_metadata))).getD (⟨none, []⟩ : InstallationMetadata)
        download_command_prohibited := (allEqualValue (m.installers.map (·.download_command_prohibited))).getD false
        repair_behavior := (allEqualValue (m.installers.map (·.repair_behavior))).getD none
        installers := instAfter42 m } := by
  rw [show passUpTo42 m = opt_repair_behavior (passUpTo41 m) from rfl,
    passUpTo41_spec, opt_repair_behavior_spec]
  unfold instAfter42
  simp only [instAfter00_eq]
  rw [instCollapse41 (·.repair_behavior) (fun i => rfl),
    instCollapse40 (·.repair_behavior) (fun i => rfl),
    instCollapse39 (·.repair_behavior) (fun i => rfl),
    instCollapse38 (·.repair_behavior) (fun i => rfl),
    instCollapse37 (·.repair_behavior) (fun i => rfl),
    instCollapse36 (·.repair_behavior) (fun i => rfl),
    instCollapse35 (·.repair_behavior) (fun i => rfl),
    instCollapse34 (·.repair_behavior) (fun i => rfl),
    instCollapse33 (·.repair_behavior) (fun i => rfl),
    instCollapse32 (·.repair_behavior) (fun i => rfl),
    instCollapse31 (·.repair_behavior) (fun i => rfl),
    instCollapse30 (·.repair_behavior) (fun i => rfl),
    instCollapse29 (·.repair_behavior) (fun i => rfl),
    instCollapse28 (·.repair_behavior) (fun i => rfl),
    instCollapse27 (·.repair_behavior) (fun i => rfl),
    instCollapse26 (·.repair_behavior) (fun i => rfl),
    instCollapse25 (·.repair_behavior) (fun i => rfl),
    instCollapse24 (·.repair_behavior) (fun i => rfl),
    instCollapse23 (·.repair_behavior) (fun i => rfl),
    instCollapse22 (·.repair_behavior) (fun i => rfl),
    instCollapse21 (·.repair_behavior) (fun i => rfl),
    instCollapse20 (·.repair_behavior) (fun i => rfl),
    instCollapse19 (·.repair_behavior) (fun i => rfl),
    instCollapse18 (·.repair_behavior) (fun i => rfl),
    instCollapse17 (·.repair_behavior) (fun i => rfl),
    instCollapse16 (·.repair_behavior) (fun i => rfl),
    instCollapse15 (·.repair_behavior) (fun i => rfl),
    instCollapse14 (·.repair_behavior) (fun i => rfl),
    instCollapse13 (·.repair_behavior) (fun i => rfl),
    instCollapse12 (·.repair_behavior) (fun i => rfl),
    instCollapse11 (·.repair_behavior) (fun i => rfl),
    instCollapse10 (·.repair_behavior) (fun i => rfl),
    instCollapse09 (·.repair_behavior) (fun i => rfl),
    instCollapse08 (·.repair_behavior) (fun i => rfl),
    instCollapse07 (·.repair_behavior) (fun i => rfl),
    instCollapse06 (·.repair_behavior) (fun i => rfl),
    instCollapse05 (·.repair_behavior) (fun i => rfl),
    instCollapse04 (·.repair_behavior) (fun i => rfl),
    instCollapse03 (·.repair_behavior) (fun i => rfl),
    instCollapse02 (·.repair_behavior) (fun i => rfl),
    instCollapse01 (·.repair_behavior) (fun i => rfl),
    instAfter00_eq]

/-- Normal form of the hoist pass after step 43. -/
theorem passUpTo43_spec (m : InstallerManifest) :
    passUpTo43 m =
      { m with
        locale := (allEqualValue (m.installers.map (·.locale))).getD none
        platform := (allEqualValue (m.installers.map (·.platform))).getD 0
        minimum_os_version := (allEqualValue (m.installers.map (·.minimum_os_version))).getD none
        type := (allEqualValue (m.installers.map (·.type))).getD none
        nested_installer_type := (allEqualValue (m.installers.map (·.nested_installer_type))).getD none
        nested_installer_files := (allEqualValue (m.installers.map (·.nested_installer_files))).getD []
        scope := (allEqualValue (m.installers.map (·.scope))).getD none
        install_modes := (allEqualValue (m.installers.map (·.install_modes))).getD 0
        switches.silent := (allEqualValue (m.installers.map (·.switches.silent))).getD none
        switches.silent_with_progress := (allEqualValue (m.installers.map (·.switches.silent_with_progress))).getD none
        switches.interactive := (allEqualValue (m.installers.map (·.switches.interactive))).getD none
        switches.install_location := (allEqualValue (m.installers.map (·.switches.install_location))).getD none
        switches.log := (allEqualValue (m.installers.map (·.switches.log))).getD none
        switches.upgrade := (allEqualValue (m.installers.map (·.switches.upgrade))).getD none
        switches.repair := (allEqualValue (m.installers.map (·.switches.repair))).getD none
        success_codes := (allEqualValue (m.installers.map (·.success_codes))).getD []
        expected_return_codes := (allEqualValue (m.installers.map (·.expected_return_codes))).getD []
        upgrade_behavior := (allEqualValue (m.installers.map (·.upgrade_behavior))).getD none
        commands := (allEqualValue (m.installers.map (·.commands))).getD []
        protocols := (allEqualValue (m.installers.map (·.protocols))).getD []
        file_extensions := (allEqualValue (m.installers.map (·.file_extensions))).getD []
        dependencies.windows_features := (allEqualValue (m.installers.map (·.dependencies.windows_features))).getD []
        dependencies.windows_libraries := (allEqualValue (m.installers.map (·.dependencies.windows_libraries))).getD []
        dependencies.package := (allEqualValue (m.installers.map (·.dependencies.package))).getD []
        dependencies.external := (allEqualValue (m.installers.map (·.dependencies.external))).getD []
        package_family_name := (allEqualValue (m.installers.map (·.package_family_name))).getD none
        product_code := (allEqualValue (m.installers.map (·.product_code))).getD none
        capabilities := (allEqualValue (m.installers.map (·.capabilities))).getD []
        restricted_capabilities := (allEqualValue (m.installers.map (·.restricted_capabilities))).getD []
        markets := (allEqualValue (m.installers.map (·.markets))).getD none
        aborts_terminal := (allEqualValue (m.installers.map (·.aborts_terminal))).getD false
        release_date := (allEqualValue (m.installers.map (·.release_date))).getD none
        install_location_required := (allEqualValue (m.installers.map (·.install_location_required))).getD false
        require_explicit_upgrade := (allEqualValue (m.installers.map (·.require_explicit_upgrade))).getD false
        display_install_warnings := (allEqualValue (m.installers.map (·.display_install_warnings))).getD false
        unsupported_os_architectures := (allEqualValue (m.installers.map (·.unsupported_os_architectures))).getD 0
        unsupported_arguments := (allEqualValue (m.installers.map (·.unsupported_arguments))).getD 0
        apps_and_features_entries := (allEqualValue (m.installers.map (·.apps_and_features_entries))).getD []
        elevation_requirement := (allEqualValue (m.installers.map (·.elevation_requirement))).getD none
        installation_metadata := (allEqualValue (m.installers.map (·.installation_metadata))).getD (⟨none, []⟩ : InstallationMetadata)
        download_command_prohibited := (allEqualValue (m.installers.map (·.download_command_prohibited))).getD false
        repair_behavior := (allEqualValue (m.installers.map (·.repair_behavior))).getD none
        archive_binaries_depend_on_path := (allEqualValue (m.installers.map (·.archive_binaries_depend_on_path))).getD false
        installers := instAfter43 m } := by
  rw [show passUpTo43 m = opt_archive_binaries_depend_on_path (passUpTo42 m) from rfl,
    passUpTo42_spec, opt_archive_binaries_depend_on_path_spec]
  unfold instAfter43
  simp only [instAfter00_eq]
  rw [instCollapse42 (·.archive_binaries_depend_on_path) (fun i => rfl),
    instCollapse41 (·.archive_binaries_depend_on_path) (fun i => rfl),
    instCollapse40 (·.archive_binaries_depend_on_path) (fun i => rfl),
    instCollapse39 (·.archive_binaries_depend_on_path) (fun i => rfl),
    instCollapse38 (·.archive_binaries_depend_on_path) (fun i => rfl),
    instCollapse37 (·.archive_binaries_depend_on_path) (fun i => rfl),
    instCollapse36 (·.archive_binaries_depend_on_path) (fun i => rfl),
    instCollapse35 (·.archive_binaries_depend_on_path) (fun i => rfl),
    instCollapse34 (·.archive_binaries_depend_on_path) (fun i => rfl),
    instCollapse33 (·.archive_binaries_depend_on_path) (fun i => rfl),
    instCollapse32 (·.archive_binaries_depend_on_path) (fun i => rfl),
    instCollapse31 (·.archive_binaries_depend_on_path) (fun i => rfl),
    instCollapse30 (·.archive_binaries_depend_on_path) (fun i => rfl),
    instCollapse29 (·.archive_binaries_depend_on_path) (fun i => rfl),
    instCollapse28 (·.archive_binaries_depend_on_path) (fun i => rfl),
    instCollapse27 (·.archive_binaries_depend_on_path) (fun i => rfl),
    instCollapse26 (·.archive_binaries_depend_on_path) (fun i => rfl),
    instCollapse25 (·.archive_binaries_depend_on_path) (fun i => rfl),
    instCollapse24 (·.archive_binaries_depend_on_path) (fun i => rfl),
    instCollapse23 (·.archive_binaries_depend_on_path) (fun i => rfl),
    instCollapse22 (·.archive_binaries_depend_on_path) (fun i => rfl),
    instCollapse21 (·.archive_binaries_depend_on_path) (fun i => rfl),
    instCollapse20 (·.archive_binaries_depend_on_path) (fun i => rfl),
    instCollapse19 (·.archive_binaries_depend_on_path) (fun i => rfl),
    instCollapse18 (·.archive_binaries_depend_on_path) (fun i => rfl),
    instCollapse17 (·.archive_binaries_depend_on_path) (fun i => rfl),
    instCollapse16 (·.archive_binaries_depend_on_path) (fun i => rfl),
    instCollapse15 (·.archive_binaries_depend_on_path) (fun i => rfl),
    instCollapse14 (·.archive_binaries_depend_on_path) (fun i => rfl),
    instCollapse13 (·.archive_binaries_depend_on_path) (fun i => rfl),
    instCollapse12 (·.archive_binaries_depend_on_path) (fun i => rfl),
    instCollapse11 (·.archive_binaries_depend_on_path) (fun i => rfl),
    instCollapse10 (·.archive_binaries_depend_on_path) (fun i => rfl),
    instCollapse09 (·.archive_binaries_depend_on_path) (fun i => rfl),
    instCollapse08 (·.archive_binaries_depend_on_path) (fun i => rfl),
    instCollapse07 (·.archive_binaries_depend_on_path) (fun i => rfl),
    instCollapse06 (·.archive_binaries_depend_on_path) (fun i => rfl),
    instCollapse05 (·.archive_binaries_depend_on_path) (fun i => rfl),
    instCollapse04 (·.archive_binaries_depend_on_path) (fun i => rfl),
    instCollapse03 (·.archive_binaries_depend_on_path) (fun i => rfl),
    instCollapse02 (·.archive_binaries_depend_on_path) (fun i => rfl),
    instCollapse01 (·.archive_binaries_depend_on_path) (fun i => rfl),
    instAfter00_eq]

/-- The hoist pass is its final named prefix. -/
theorem optimizeFields_eq_pass (m : InstallerManifest) : m.optimizeFields = passUpTo43 m := rfl

/-- The installer list the hoist pass produces. -/
theorem optimizeFields_installers (m : InstallerManifest) :
    (m.optimizeFields).installers = instAfter43 m := by
  rw [optimizeFields_eq_pass, passUpTo43_spec]

/-- Manifest-level `locale` after `optimize`: the hoisted common value, or the
type default when the installers disagree or the list is empty. -/
theorem optM_locale (m : InstallerManifest) :
    (m.optimize).locale = (allEqualValue (m.installers.map (·.locale))).getD none := by
  rw [optimize_spec, optimizeFields_eq_pass, passUpTo43_spec]

/-- Manifest-level `platform` after `optimize`: the hoisted common value, or the
type default when the installers disagree or the list is empty. -/
theorem optM_platform (m : InstallerManifest) :
    (m.optimize).platform = (allEqualValue (m.installers.map (·.platform))).getD 0 := by
  rw [optimize_spec, optimizeFields_eq_pass, passUpTo43_spec]

/-- Manifest-level `minimum_os_version` after `optimize`: the hoisted common value, or the
type default when the installers disagree or the list is empty. -/
theorem optM_minimum_os_version (m : InstallerManifest) :
    (m.optimize).minimum_os_version = (allEqualValue (m.installers.map (·.minimum_os_version))).getD none := by
  rw [optimize_spec, optimizeFields_eq_pass, passUpTo43_spec]

/-- Manifest-level `type` after `optimize`: the hoisted common value, or the
type default when the installers disagree or the list is empty. -/
theorem optM_type (m : InstallerManifest) :
    (m.optimize).type = (allEqualValue (m.installers.map (·.type))).getD none := by
  rw [optimize_spec, optimizeFields_eq_pass, passUpTo43_spec]

/-- Manifest-level `nested_installer_type` after `optimize`: the hoisted common value, or the
type default when the installers disagree or the list is empty. -/
theorem optM_nested_installer_type (m : InstallerManifest) :
    (m.optimize).nested_installer_type = (allEqualValue (m.installers.map (·.nested_installer_type))).getD none := by
  rw [optimize_spec, optimizeFields_eq_pass, passUpTo43_spec]

/-- Manifest-level `nested_installer_files` after `optimize`: the hoisted common value, or the
type default when the installers disagree or the list is empty. -/
theorem optM_nested_installer_files (m : InstallerManifest) :
    (m.optimize).nested_installer_files = (allEqualValue (m.installers.map (·.nested_installer_files))).getD [] := by
  rw [optimize_spec, optimizeFields_eq_pass, passUpTo43_spec]

/-- Manifest-level `scope` after `optimize`: the hoisted common value, or the
type default when the installers disagree or the list is empty. -/
theorem optM_scope (m : InstallerManifest) :
    (m.optimize).scope = (allEqualValue (m.installers.map (·.scope))).getD none := by
  rw [optimize_spec, optimizeFields_eq_pass, passUpTo43_spec]

/-- Manifest-level `install_modes` after `optimize`: the hoisted common value, or the
type default when the installers disagree or the list is empty. -/
theorem optM_install_modes (m : InstallerManifest) :
    (m.optimize).install_modes = (allEqualValue (m.installers.map (·.install_modes))).getD 0 := by
  rw [optimize_spec, optimizeFields_eq_pass, passUpTo43_spec]

/-- Manifest-level `switches.silent` after `optimize`: the hoisted common value, or the
type default when the installers disagree or the list is empty. -/
theorem optM_switches_silent (m : InstallerManifest) :
    (m.optimize).switches.silent = (allEqualValue (m.installers.map (·.switches.silent))).getD none := by
  rw [optimize_spec, optimizeFields_eq_pass, passUpTo43_spec]

/-- Manifest-level `switches.silent_with_progress` after `optimize`: the hoisted common value, or the
type default when the installers disagree or the list is empty. -/
theorem optM_switches_silent_with_progress (m : InstallerManifest) :
    (m.optimize).switches.silent_with_progress = (allEqualValue (m.installers.map (·.switches.silent_with_progress))).getD none := by
  rw [optimize_spec, optimizeFields_eq_pass, passUpTo43_spec]

/-- Manifest-level `switches.interactive` after `optimize`: the hoisted common value, or the
type default when the installers disagree or the list is empty. -/
theorem optM_switches_interactive (m : InstallerManifest) :
    (m.optimize).switches.interactive = (allEqualValue (m.installers.map (·.switches.interactive))).getD none := by
  rw [optimize_spec, optimizeFields_eq_pass, passUpTo43_spec]

/-- Manifest-level `switches.install_location` after `optimize`: the hoisted common value, or the
type default when the installers disagree or the list is empty. -/
theorem optM_switches_install_location (m : InstallerManifest) :
    (m.optimize).switches.install_location = (allEqualValue (m.installers.map (·.switches.install_location))).getD none := by
  rw [optimize_spec, optimizeFields_eq_pass, passUpTo43_spec]

/-- Manifest-level `switches.log` after `optimize`: the hoisted common value, or the
type default when the installers disagree or the list is empty. -/
theorem optM_switches_log (m : InstallerManifest) :
    (m.optimize).switches.log = (allEqualValue (m.installers.map (·.switches.log))).getD none := by
  rw [optimize_spec, optimizeFields_eq_pass, passUpTo43_spec]

/-- Manifest-level `switches.upgrade` after `optimize`: the hoisted common value, or the
type default when the installers disagree or the list is empty. -/
theorem optM_switches_upgrade (m : InstallerManifest) :
    (m.optimize).switches.upgrade = (allEqualValue (m.installers.map (·.switches.upgrade))).getD none := by
  rw [optimize_spec, optimizeFields_eq_pass, passUpTo43_spec]

/-- Manifest-level `switches.repair` after `optimize`: the hoisted common value, or the
type default when the installers disagree or the list is empty. -/
theorem optM_switches_repair (m : InstallerManifest) :
    (m.optimize).switches.repair = (allEqualValue (m.installers.map (·.switches.repair))).getD none := by
  rw [optimize_spec, optimizeFields_eq_pass, passUpTo43_spec]

/-- Manifest-level `success_codes` after `optimize`: the hoisted common value, or the
type default when the installers disagree or the list is empty. -/
theorem optM_success_codes (m : InstallerManifest) :
    (m.optimize).success_codes = (allEqualValue (m.installers.map (·.success_codes))).getD [] := by
  rw [optimize_spec, optimizeFields_eq_pass, passUpTo43_spec]

/-- Manifest-level `expected_return_codes` after `optimize`: the hoisted common value, or the
type default when the installers disagree or the list is empty. -/
theorem optM_expected_return_codes (m : InstallerManifest) :
    (m.optimize).expected_return_codes = (allEqualValue (m.installers.map (·.expected_return_codes))).getD [] := by
  rw [optimize_spec, optimizeFields_eq_pass, passUpTo43_spec]

/-- Manifest-level `upgrade_behavior` after `optimize`: the hoisted common value, or the
type default when the installers disagree or the list is empty. -/
theorem optM_upgrade_behavior (m : InstallerManifest) :
    (m.optimize).upgrade_behavior = (allEqualValue (m.installers.map (·.upgrade_behavior))).getD none := by
  rw [optimize_spec, optimizeFields_eq_pass, passUpTo43_spec]

/-- Manifest-level `commands` after `optimize`: the hoisted common value, or the
type default when the installers disagree or the list is empty. -/
theorem optM_commands (m : InstallerManifest) :
    (m.optimize).commands = (allEqualValue (m.installers.map (·.commands))).getD [] := by
  rw [optimize_spec, optimizeFields_eq_pass, passUpTo43_spec]

/-- Manifest-level `protocols` after `optimize`: the hoisted common value, or the
type default when the installers disagree or the list is empty. -/
theorem optM_protocols (m : InstallerManifest) :
    (m.optimize).protocols = (allEqualValue (m.installers.map (·.protocols))).getD [] := by
  rw [optimize_spec, optimizeFields_eq_pass, passUpTo43_spec]

/-- Manifest-level `file_extensions` after `optimize`: the hoisted common value, or the
type default when the installers disagree or the list is empty. -/
theorem optM_file_extensions (m : InstallerManifest) :
    (m.optimize).file_extensions = (allEqualValue (m.installers.map (·.file_extensions))).getD [] := by
  rw [optimize_spec, optimizeFields_eq_pass, passUpTo43_spec]

/-- Manifest-level `dependencies.windows_features` after `optimize`: the hoisted common value, or the
type default when the installers disagree or the list is empty. -/
theorem optM_dependencies_windows_features (m : InstallerManifest) :
    (m.optimize).dependencies.windows_features = (allEqualValue (m.installers.map (·.dependencies.windows_features))).getD [] := by
  rw [optimize_spec, optimizeFields_eq_pass, passUpTo43_spec]

/-- Manifest-level `dependencies.windows_libraries` after `optimize`: the hoisted common value, or the
type default when the installers disagree or the list is empty. -/
theorem optM_dependencies_windows_libraries (m : InstallerManifest) :
    (m.optimize).dependencies.windows_libraries = (allEqualValue (m.installers.map (·.dependencies.windows_libraries))).getD [] := by
  rw [optimize_spec, optimizeFields_eq_pass, passUpTo43_spec]

/-- Manifest-level `dependencies.package` after `optimize`: the hoisted common value, or the
type default when the installers disagree or the list is empty. -/
theorem optM_dependencies_package (m : InstallerManifest) :
    (m.optimize).dependencies.package = (allEqualValue (m.installers.map (·.dependencies.package))).getD [] := by
  rw [optimize_spec, optimizeFields_eq_pass, passUpTo43_spec]

/-- Manifest-level `dependencies.external` after `optimize`: the hoisted common value, or the
type default when the installers disagree or the list is empty. -/
theorem optM_dependencies_external (m : InstallerManifest) :
    (m.optimize).dependencies.external = (allEqualValue (m.installers.map (·.dependencies.external))).getD [] := by
  rw [optimize_spec, optimizeFields_eq_pass, passUpTo43_spec]

/-- Manifest-level `package_family_name` after `optimize`: the hoisted common value, or the
type default when the installers disagree or the list is empty. -/
theorem optM_package_family_name (m : InstallerManifest) :
    (m.optimize).package_family_name = (allEqualValue (m.installers.map (·.package_family_name))).getD none := by
  rw [optimize_spec, optimizeFields_eq_pass, passUpTo43_spec]

/-- Manifest-level `product_code` after `optimize`: the hoisted common value, or the
type default when the installers disagree or the list is empty. -/
theorem optM_product_code (m : InstallerManifest) :
    (m.optimize).product_code = (allEqualValue (m.installers.map (·.product_code))).getD none := by
  rw [optimize_spec, optimizeFields_eq_pass, passUpTo43_spec]

/-- Manifest-level `capabilities` after `optimize`: the hoisted common value, or the
type default when the installers disagree or the list is empty. -/
theorem optM_capabilities (m : InstallerManifest) :
    (m.optimize).capabilities = (allEqualValue (m.installers.map (·.capabilities))).getD [] := by
  rw [optimize_spec, optimizeFields_eq_pass, passUpTo43_spec]

/-- Manifest-level `restricted_capabilities` after `optimize`: the hoisted common value, or the
type default when the installers disagree or the list is empty. -/
theorem optM_restricted_capabilities (m : InstallerManifest) :
    (m.optimize).restricted_capabilities = (allEqualValue (m.installers.map (·.restricted_capabilities))).getD [] := by
  rw [optimize_spec, optimizeFields_eq_pass, passUpTo43_spec]

/-- Manifest-level `markets` after `optimize`: the hoisted common value, or the
type default when the installers disagree or the list is empty. -/
theorem optM_markets (m : InstallerManifest) :
    (m.optimize).markets = (allEqualValue (m.installers.map (·.markets))).getD none := by
  rw [optimize_spec, optimizeFields_eq_pass, passUpTo43_spec]

/-- Manifest-level `aborts_terminal` after `optimize`: the hoisted common value, or the
type default when the installers disagree or the list is empty. -/
theorem optM_aborts_terminal (m : InstallerManifest) :
    (m.optimize).aborts_terminal = (allEqualValue (m.installers.map (·.aborts_terminal))).getD false := by
  rw [optimize_spec, optimizeFields_eq_pass, passUpTo43_spec]

/-- Manifest-level `release_date` after `optimize`: the hoisted common value, or the
type default when the installers disagree or the list is empty. -/
theorem optM_release_date (m : InstallerManifest) :
    (m.optimize).release_date = (allEqualValue (m.installers.map (·.release_date))).getD none := by
  rw [optimize_spec, optimizeFields_eq_pass, passUpTo43_spec]

/-- Manifest-level `install_location_required` after `optimize`: the hoisted common value, or the
type default when the installers disagree or the list is empty. -/
theorem optM_install_location_required (m : InstallerManifest) :
    (m.optimize).install_location_required = (allEqualValue (m.installers.map (·.install_location_required))).getD false := by
  rw [optimize_spec, optimizeFields_eq_pass, passUpTo43_spec]

/-- Manifest-level `require_explicit_upgrade` after `optimize`: the hoisted common value, or the
type default when the installers disagree or the list is empty. -/
theorem optM_require_explicit_upgrade (m : InstallerManifest) :
    (m.optimize).require_explicit_upgrade = (allEqualValue (m.installers.map (·.require_explicit_upgrade))).getD false := by
  rw [optimize_spec, optimizeFields_eq_pass, passUpTo43_spec]

/-- Manifest-level `display_install_warnings` after `optimize`: the hoisted common value, or the
type default when the installers disagree or the list is empty. -/
theorem optM_display_install_warnings (m : InstallerManifest) :
    (m.optimize).display_install_warnings = (allEqualValue (m.installers.map (·.display_install_warnings))).getD false := by
  rw [optimize_spec, optimizeFields_eq_pass, passUpTo43_spec]

/-- Manifest-level `unsupported_os_architectures` after `optimize`: the hoisted common value, or the
type default when the installers disagree or the list is empty. -/
theorem optM_unsupported_os_architectures (m : InstallerManifest) :
    (m.optimize).unsupported_os_architectures = (allEqualValue (m.installers.map (·.unsupported_os_architectures))).getD 0 := by
  rw [optimize_spec, optimizeFields_eq_pass, passUpTo43_spec]

/-- Manifest-level `unsupported_arguments` after `optimize`: the hoisted common value, or the
type default when the installers disagree or the list is empty. -/
theorem optM_unsupported_arguments (m : InstallerManifest) :
    (m.optimize).unsupported_arguments = (allEqualValue (m.installers.map (·.unsupported_arguments))).getD 0 := by
  rw [optimize_spec, optimizeFields_eq_pass, passUpTo43_spec]

/-- Manifest-level `apps_and_features_entries` after `optimize`: the hoisted common value, or the
type default when the installers disagree or the list is empty. -/
theorem optM_apps_and_features_entries (m : InstallerManifest) :
    (m.optimize).apps_and_features_entries = (allEqualValue (m.installers.map (·.apps_and_features_entries))).getD [] := by
  rw [optimize_spec, optimizeFields_eq_pass, passUpTo43_spec]

/-- Manifest-level `elevation_requirement` after `optimize`: the hoisted common value, or the
type default when the installers disagree or the list is empty. -/
theorem optM_elevation_requirement (m : InstallerManifest) :
    (m.optimize).elevation_requirement = (allEqualValue (m.installers.map (·.elevation_requirement))).getD none := by
  rw [optimize_spec, optimizeFields_eq_pass, passUpTo43_spec]

/-- Manifest-level `installation_metadata` after `optimize`: the hoisted common value, or the
type default when the installers disagree or the list is empty. -/
theorem optM_installation_metadata (m : InstallerManifest) :
    (m.optimize).installation_metadata = (allEqualValue (m.installers.map (·.installation_metadata))).getD (⟨none, []⟩ : InstallationMetadata) := by
  rw [optimize_spec, optimizeFields_eq_pass, passUpTo43_spec]

/-- Manifest-level `download_command_prohibited` after `optimize`: the hoisted common value, or the
type default when the installers disagree or the list is empty. -/
theorem optM_download_command_prohibited (m : InstallerManifest) :
    (m.optimize).download_command_prohibited = (allEqualValue (m.installers.map (·.download_command_prohibited))).getD false := by
  rw [optimize_spec, optimizeFields_eq_pass, passUpTo43_spec]

/-- Manifest-level `repair_behavior` after `optimize`: the hoisted common value, or the
type default when the installers disagree or the list is empty. -/
theorem optM_repair_behavior (m : InstallerManifest) :
    (m.optimize).repair_behavior = (allEqualValue (m.installers.map (·.repair_behavior))).getD none := by
  rw [optimize_spec, optimizeFields_eq_pass, passUpTo43_spec]

/-- Manifest-level `archive_binaries_depend_on_path` after `optimize`: the hoisted common value, or the
type default when the installers disagree or the list is empty. -/
theorem optM_archive_binaries_depend_on_path (m : InstallerManifest) :
    (m.optimize).archive_binaries_depend_on_path = (allEqualValue (m.installers.map (·.archive_binaries_depend_on_path))).getD false := by
  rw [optimize_spec, optimizeFields_eq_pass, passUpTo43_spec]

/-- Installer-level `locale` values after the hoist pass: all reset to the
default when the hoist fired, untouched (positionally) otherwise. -/
theorem optI_locale (m : InstallerManifest) :
    (m.optimizeFields).installers.map (·.locale)
      = (if (allEqualValue (m.installers.map (·.locale))).isSome
         then (m.installers.map (·.locale)).map (fun _ => none)
         else m.installers.map (·.locale)) := by
  rw [optimizeFields_installers]
  rw [instCollapse43 (·.locale) (fun i => rfl),
    instCollapse42 (·.locale) (fun i => rfl),
    instCollapse41 (·.locale) (fun i => rfl),
    instCollapse40 (·.locale) (fun i => rfl),
    instCollapse39 (·.locale) (fun i => rfl),
    instCollapse38 (·.locale) (fun i => rfl),
    instCollapse37 (·.locale) (fun i => rfl),
    instCollapse36 (·.locale) (fun i => rfl),
    instCollapse35 (·.locale) (fun i => rfl),
    instCollapse34 (·.locale) (fun i => rfl),
    instCollapse33 (·.locale) (fun i => rfl),
    instCollapse32 (·.locale) (fun i => rfl),
    instCollapse31 (·.locale) (fun i => rfl),
    instCollapse30 (·.locale) (fun i => rfl),
    instCollapse29 (·.locale) (fun i => rfl),
    instCollapse28 (·.locale) (fun i => rfl),
    instCollapse27 (·.locale) (fun i => rfl),
    instCollapse26 (·.locale) (fun i => rfl),
    instCollapse25 (·.locale) (fun i => rfl),
    instCollapse24 (·.locale) (fun i => rfl),
    instCollapse23 (·.locale) (fun i => rfl),
    instCollapse22 (·.locale) (fun i => rfl),
    instCollapse21 (·.locale) (fun i => rfl),
    instCollapse20 (·.locale) (fun i => rfl),
    instCollapse19 (·.locale) (fun i => rfl),
    instCollapse18 (·.locale) (fun i => rfl),
    instCollapse17 (·.locale) (fun i => rfl),
    instCollapse16 (·.locale) (fun i => rfl),
    instCollapse15 (·.locale) (fun i => rfl),
    instCollapse14 (·.locale) (fun i => rfl),
    instCollapse13 (·.locale) (fun i => rfl),
    instCollapse12 (·.locale) (fun i => rfl),
    instCollapse11 (·.locale) (fun i => rfl),
    instCollapse10 (·.locale) (fun i => rfl),
    instCollapse09 (·.locale) (fun i => rfl),
    instCollapse08 (·.locale) (fun i => rfl),
    instCollapse07 (·.locale) (fun i => rfl),
    instCollapse06 (·.locale) (fun i => rfl),
    instCollapse05 (·.locale) (fun i => rfl),
    instCollapse04 (·.locale) (fun i => rfl),
    instCollapse03 (·.locale) (fun i => rfl),
    instCollapse02 (·.locale) (fun i => rfl)]
  unfold instAfter01
  simp only [list_map_ite, List.map_map, Function.comp_def]
  rw [instAfter00_eq]

/-- Installer-level `platform` values after the hoist pass: all reset to the
default when the hoist fired, untouched (positionally) otherwise. -/
theorem optI_platform (m : InstallerManifest) :
    (m.optimizeFields).installers.map (·.platform)
      = (if (allEqualValue (m.installers.map (·.platform))).isSome
         then (m.installers.map (·.platform)).map (fun _ => 0)
         else m.installers.map (·.platform)) := by
  rw [optimizeFields_installers]
  rw [instCollapse43 (·.platform) (fun i => rfl),
    instCollapse42 (·.platform) (fun i => rfl),
    instCollapse41 (·.platform) (fun i => rfl),
    instCollapse40 (·.platform) (fun i => rfl),
    instCollapse39 (·.platform) (fun i => rfl),
    instCollapse38 (·.platform) (fun i => rfl),
    instCollapse37 (·.platform) (fun i => rfl),
    instCollapse36 (·.platform) (fun i => rfl),
    instCollapse35 (·.platform) (fun i => rfl),
    instCollapse34 (·.platform) (fun i => rfl),
    instCollapse33 (·.platform) (fun i => rfl),
    instCollapse32 (·.platform) (fun i => rfl),
    instCollapse31 (·.platform) (fun i => rfl),
    instCollapse30 (·.platform) (fun i => rfl),
    instCollapse29 (·.platform) (fun i => rfl),
    instCollapse28 (·.platform) (fun i => rfl),
    instCollapse27 (·.platform) (fun i => rfl),
    instCollapse26 (·.platform) (fun i => rfl),
    instCollapse25 (·.platform) (fun i => rfl),
    instCollapse24 (·.platform) (fun i => rfl),
    instCollapse23 (·.platform) (fun i => rfl),
    instCollapse22 (·.platform) (fun i => rfl),
    instCollapse21 (·.platform) (fun i => rfl),
    instCollapse20 (·.platform) (fun i => rfl),
    instCollapse19 (·.platform) (fun i => rfl),
    instCollapse18 (·.platform) (fun i => rfl),
    instCollapse17 (·.platform) (fun i => rfl),
    instCollapse16 (·.platform) (fun i => rfl),
    instCollapse15 (·.platform) (fun i => rfl),
    instCollapse14 (·.platform) (fun i => rfl),
    instCollapse13 (·.platform) (fun i => rfl),
    instCollapse12 (·.platform) (fun i => rfl),
    instCollapse11 (·.platform) (fun i => rfl),
    instCollapse10 (·.platform) (fun i => rfl),
    instCollapse09 (·.platform) (fun i => rfl),
    instCollapse08 (·.platform) (fun i => rfl),
    instCollapse07 (·.platform) (fun i => rfl),
    instCollapse06 (·.platform) (fun i => rfl),
    instCollapse05 (·.platform) (fun i => rfl),
    instCollapse04 (·.platform) (fun i => rfl),
    instCollapse03 (·.platform) (fun i => rfl)]
  unfold instAfter02
  simp only [list_map_ite, List.map_map, Function.comp_def]
  rw [instCollapse01 (fun _ => (0 : Platform)) (fun i => rfl),
    instCollapse01 (·.platform) (fun i => rfl),
    instAfter00_eq]

/-- Installer-level `minimum_os_version` values after the hoist pass: all reset to the
default when the hoist fired, untouched (positionally) otherwise. -/
theorem optI_minimum_os_version (m : InstallerManifest) :
    (m.optimizeFields).installers.map (·.minimum_os_version)
      = (if (allEqualValue (m.installers.map (·.minimum_os_version))).isSome
         then (m.installers.map (·.minimum_os_version)).map (fun _ => none)
         else m.installers.map (·.minimum_os_version)) := by
  rw [optimizeFields_installers]
  rw [instCollapse43 (·.minimum_os_version) (fun i => rfl),
    instCollapse42 (·.minimum_os_version) (fun i => rfl),
    instCollapse41 (·.minimum_os_version) (fun i => rfl),
    instCollapse40 (·.minimum_os_version) (fun i => rfl),
    instCollapse39 (·.minimum_os_version) (fun i => rfl),
    instCollapse38 (·.minimum_os_version) (fun i => rfl),
    instCollapse37 (·.minimum_os_version) (fun i => rfl),
    instCollapse36 (·.minimum_os_version) (fun i => rfl),
    instCollapse35 (·.minimum_os_version) (fun i => rfl),
    instCollapse34 (·.minimum_os_version) (fun i => rfl),
    instCollapse33 (·.minimum_os_version) (fun i => rfl),
    instCollapse32 (·.minimum_os_version) (fun i => rfl),
    instCollapse31 (·.minimum_os_version) (fun i => rfl),
    instCollapse30 (·.minimum_os_version) (fun i => rfl),
    instCollapse29 (·.minimum_os_version) (fun i => rfl),
    instCollapse28 (·.minimum_os_version) (fun i => rfl),
    instCollapse27 (·.minimum_os_version) (fun i => rfl),
    instCollapse26 (·.minimum_os_version) (fun i => rfl),
    instCollapse25 (·.minimum_os_version) (fun i => rfl),
    instCollapse24 (·.minimum_os_version) (fun i => rfl),
    instCollapse23 (·.minimum_os_version) (fun i => rfl),
    instCollapse22 (·.minimum_os_version) (fun i => rfl),
    instCollapse21 (·.minimum_os_version) (fun i => rfl),
    instCollapse20 (·.minimum_os_version) (fun i => rfl),
    instCollapse19 (·.minimum_os_version) (fun i => rfl),
    instCollapse18 (·.minimum_os_version) (fun i => rfl),
    instCollapse17 (·.minimum_os_version) (fun i => rfl),
    instCollapse16 (·.minimum_os_version) (fun i => rfl),
    instCollapse15 (·.minimum_os_version) (fun i => rfl),
    instCollapse14 (·.minimum_os_version) (fun i => rfl),
    instCollapse13 (·.minimum_os_version) (fun i => rfl),
    instCollapse12 (·.minimum_os_version) (fun i => rfl),
    instCollapse11 (·.minimum_os_version) (fun i => rfl),
    instCollapse10 (·.minimum_os_version) (fun i => rfl),
    instCollapse09 (·.minimum_os_version) (fun i => rfl),
    instCollapse08 (·.minimum_os_version) (fun i => rfl),
    instCollapse07 (·.minimum_os_version) (fun i => rfl),
    instCollapse06 (·.minimum_os_version) (fun i => rfl),
    instCollapse05 (·.minimum_os_version) (fun i => rfl),
    instCollapse04 (·.minimum_os_version) (fun i => rfl)]
  unfold instAfter03
  simp only [list_map_ite, List.map_map, Function.comp_def]
  rw [instCollapse02 (fun _ => (none : Option MinimumOSVersion)) (fun i => rfl),
    instCollapse01 (fun _ => (none : Option MinimumOSVersion)) (fun i => rfl),
    instCollapse02 (·.minimum_os_version) (fun i => rfl),
    instCollapse01 (·.minimum_os_version) (fun i => rfl),
    instAfter00_eq]

/-- Installer-level `type` values after the hoist pass: all reset to the
default when the hoist fired, untouched (positionally) otherwise. -/
theorem optI_type (m : InstallerManifest) :
    (m.optimizeFields).installers.map (·.type)
      = (if (allEqualValue (m.installers.map (·.type))).isSome
         then (m.installers.map (·.type)).map (fun _ => none)
         else m.installers.map (·.type)) := by
  rw [optimizeFields_installers]
  rw [instCollapse43 (·.type) (fun i => rfl),
    instCollapse42 (·.type) (fun i => rfl),
    instCollapse41 (·.type) (fun i => rfl),
    instCollapse40 (·.type) (fun i => rfl),
    instCollapse39 (·.type) (fun i => rfl),
    instCollapse38 (·.type) (fun i => rfl),
    instCollapse37 (·.type) (fun i => rfl),
    instCollapse36 (·.type) (fun i => rfl),
    instCollapse35 (·.type) (fun i => rfl),
    instCollapse34 (·.type) (fun i => rfl),
    instCollapse33 (·.type) (fun i => rfl),
    instCollapse32 (·.type) (fun i => rfl),
    instCollapse31 (·.type) (fun i => rfl),
    instCollapse30 (·.type) (fun i => rfl),
    instCollapse29 (·.type) (fun i => rfl),
    instCollapse28 (·.type) (fun i => rfl),
    instCollapse27 (·.type) (fun i => rfl),
    instCollapse26 (·.type) (fun i => rfl),
    instCollapse25 (·.type) (fun i => rfl),
    instCollapse24 (·.type) (fun i => rfl),
    instCollapse23 (·.type) (fun i => rfl),
    instCollapse22 (·.type) (fun i => rfl),
    instCollapse21 (·.type) (fun i => rfl),
    instCollapse20 (·.type) (fun i => rfl),
    instCollapse19 (·.type) (fun i => rfl),
    instCollapse18 (·.type) (fun i => rfl),
    instCollapse17 (·.type) (fun i => rfl),
    instCollapse16 (·.type) (fun i => rfl),
    instCollapse15 (·.type) (fun i => rfl),
    instCollapse14 (·.type) (fun i => rfl),
    instCollapse13 (·.type) (fun i => rfl),
    instCollapse12 (·.type) (fun i => rfl),
    instCollapse11 (·.type) (fun i => rfl),
    instCollapse10 (·.type) (fun i => rfl),
    instCollapse09 (·.type) (fun i => rfl),
    instCollapse08 (·.type) (fun i => rfl),
    instCollapse07 (·.type) (fun i => rfl),
    instCollapse06 (·.type) (fun i => rfl),
    instCollapse05 (·.type) (fun i => rfl)]
  unfold instAfter04
  simp only [list_map_ite, List.map_map, Function.comp_def]
  rw [instCollapse03 (fun _ => (none : Option InstallerType)) (fun i => rfl),
    instCollapse02 (fun _ => (none : Option InstallerType)) (fun i => rfl),
    instCollapse01 (fun _ => (none : Option InstallerType)) (fun i => rfl),
    instCollapse03 (·.type) (fun i => rfl),
    instCollapse02 (·.type) (fun i => rfl),
    instCollapse01 (·.type) (fun i => rfl),
    instAfter00_eq]

/-- Installer-level `nested_installer_type` values after the hoist pass: all reset to the
default when the hoist fired, untouched (positionally) otherwise. -/
theorem optI_nested_installer_type (m : InstallerManifest) :
    (m.optimizeFields).installers.map (·.nested_installer_type)
      = (if (allEqualValue (m.installers.map (·.nested_installer_type))).isSome
         then (m.installers.map (·.nested_installer_type)).map (fun _ => none)
         else m.installers.map (·.nested_installer_type)) := by
  rw [optimizeFields_installers]
  rw [instCollapse43 (·.nested_installer_type) (fun i => rfl),
    instCollapse42 (·.nested_installer_type) (fun i => rfl),
    instCollapse41 (·.nested_installer_type) (fun i => rfl),
    instCollapse40 (·.nested_installer_type) (fun i => rfl),
    instCollapse39 (·.nested_installer_type) (fun i => rfl),
    instCollapse38 (·.nested_installer_type) (fun i => rfl),
    instCollapse37 (·.nested_installer_type) (fun i => rfl),
    instCollapse36 (·.nested_installer_type) (fun i => rfl),
    instCollapse35 (·.nested_installer_type) (fun i => rfl),
    instCollapse34 (·.nested_installer_type) (fun i => rfl),
    instCollapse33 (·.nested_installer_type) (fun i => rfl),
    instCollapse32 (·.nested_installer_type) (fun i => rfl),
    instCollapse31 (·.nested_installer_type) (fun i => rfl),
    instCollapse30 (·.nested_installer_type) (fun i => rfl),
    instCollapse29 (·.nested_installer_type) (fun i => rfl),
    instCollapse28 (·.nested_installer_type) (fun i => rfl),
    instCollapse27 (·.nested_installer_type) (fun i => rfl),
    instCollapse26 (·.nested_installer_type) (fun i => rfl),
    instCollapse25 (·.nested_installer_type) (fun i => rfl),
    instCollapse24 (·.nested_installer_type) (fun i => rfl),
    instCollapse23 (·.nested_installer_type) (fun i => rfl),
    instCollapse22 (·.nested_installer_type) (fun i => rfl),
    instCollapse21 (·.nested_installer_type) (fun i => rfl),
    instCollapse20 (·.nested_installer_type) (fun i => rfl),
    instCollapse19 (·.nested_installer_type) (fun i => rfl),
    instCollapse18 (·.nested_installer_type) (fun i => rfl),
    instCollapse17 (·.nested_installer_type) (fun i => rfl),
    instCollapse16 (·.nested_installer_type) (fun i => rfl),
    instCollapse15 (·.nested_installer_type) (fun i => rfl),
    instCollapse14 (·.nested_installer_type) (fun i => rfl),
    instCollapse13 (·.nested_installer_type) (fun i => rfl),
    instCollapse12 (·.nested_installer_type) (fun i => rfl),
    instCollapse11 (·.nested_installer_type) (fun i => rfl),
    instCollapse10 (·.nested_installer_type) (fun i => rfl),
    instCollapse09 (·.nested_installer_type) (fun i => rfl),
    instCollapse08 (·.nested_installer_type) (fun i => rfl),
    instCollapse07 (·.nested_installer_type) (fun i => rfl),
    instCollapse06 (·.nested_installer_type) (fun i => rfl)]
  unfold instAfter05
  simp only [list_map_ite, List.map_map, Function.comp_def]
  rw [instCollapse04 (fun _ => (none : Option NestedInstallerType)) (fun i => rfl),
    instCollapse03 (fun _ => (none : Option NestedInstallerType)) (fun i => rfl),
    instCollapse02 (fun _ => (none : Option NestedInstallerType)) (fun i => rfl),
    instCollapse01 (fun _ => (none : Option NestedInstallerType)) (fun i => rfl),
    instCollapse04 (·.nested_installer_type) (fun i => rfl),
    instCollapse03 (·.nested_installer_type) (fun i => rfl),
    instCollapse02 (·.nested_installer_type) (fun i => rfl),
    instCollapse01 (·.nested_installer_type) (fun i => rfl),
    instAfter00_eq]

/-- Installer-level `nested_installer_files` values after the hoist pass: all reset to the
default when the hoist fired, untouched (positionally) otherwise. -/
theorem optI_nested_installer_files (m : InstallerManifest) :
    (m.optimizeFields).installers.map (·.nested_installer_files)
      = (if (allEqualValue (m.installers.map (·.nested_installer_files))).isSome
         then (m.installers.map (·.nested_installer_files)).map (fun _ => [])
         else m.installers.map (·.nested_installer_files)) := by
  rw [optimizeFields_installers]
  rw [instCollapse43 (·.nested_installer_files) (fun i => rfl),
    instCollapse42 (·.nested_installer_files) (fun i => rfl),
    instCollapse41 (·.nested_installer_files) (fun i => rfl),
    instCollapse40 (·.nested_installer_files) (fun i => rfl),
    instCollapse39 (·.nested_installer_files) (fun i => rfl),
    instCollapse38 (·.nested_installer_files) (fun i => rfl),
    instCollapse37 (·.nested_installer_files) (fun i => rfl),
    instCollapse36 (·.nested_installer_files) (fun i => rfl),
    instCollapse35 (·.nested_installer_files) (fun i => rfl),
    instCollapse34 (·.nested_installer_files) (fun i => rfl),
    instCollapse33 (·.nested_installer_files) (fun i => rfl),
    instCollapse32 (·.nested_installer_files) (fun i => rfl),
    instCollapse31 (·.nested_installer_files) (fun i => rfl),
    instCollapse30 (·.nested_installer_files) (fun i => rfl),
    instCollapse29 (·.nested_installer_files) (fun i => rfl),
    instCollapse28 (·.nested_installer_files) (fun i => rfl),
    instCollapse27 (·.nested_installer_files) (fun i => rfl),
    instCollapse26 (·.nested_installer_files) (fun i => rfl),
    instCollapse25 (·.nested_installer_files) (fun i => rfl),
    instCollapse24 (·.nested_installer_files) (fun i => rfl),
    instCollapse23 (·.nested_installer_files) (fun i => rfl),
    instCollapse22 (·.nested_installer_files) (fun i => rfl),
    instCollapse21 (·.nested_installer_files) (fun i => rfl),
    instCollapse20 (·.nested_installer_files) (fun i => rfl),
    instCollapse19 (·.nested_installer_files) (fun i => rfl),
    instCollapse18 (·.nested_installer_files) (fun i => rfl),
    instCollapse17 (·.nested_installer_files) (fun i => rfl),
    instCollapse16 (·.nested_installer_files) (fun i => rfl),
    instCollapse15 (·.nested_installer_files) (fun i => rfl),
    instCollapse14 (·.nested_installer_files) (fun i => rfl),
    instCollapse13 (·.nested_installer_files) (fun i => rfl),
    instCollapse12 (·.nested_installer_files) (fun i => rfl),
    instCollapse11 (·.nested_installer_files) (fun i => rfl),
    instCollapse10 (·.nested_installer_files) (fun i => rfl),
    instCollapse09 (·.nested_installer_files) (fun i => rfl),
    instCollapse08 (·.nested_installer_files) (fun i => rfl),
    instCollapse07 (·.nested_installer_files) (fun i => rfl)]
  unfold instAfter06
  simp only [list_map_ite, List.map_map, Function.comp_def]
  rw [instCollapse05 (fun _ => ([] : List NestedInstallerFiles)) (fun i => rfl),
    instCollapse04 (fun _ => ([] : List NestedInstallerFiles)) (fun i => rfl),
    instCollapse03 (fun _ => ([] : List NestedInstallerFiles)) (fun i => rfl),
    instCollapse02 (fun _ => ([] : List NestedInstallerFiles)) (fun i => rfl),
    instCollapse01 (fun _ => ([] : List NestedInstallerFiles)) (fun i => rfl),
    instCollapse05 (·.nested_installer_files) (fun i => rfl),
    instCollapse04 (·.nested_installer_files) (fun i => rfl),
    instCollapse03 (·.nested_installer_files) (fun i => rfl),
    instCollapse02 (·.nested_installer_files) (fun i => rfl),
    instCollapse01 (·.nested_installer_files) (fun i => rfl),
    instAfter00_eq]

/-- Installer-level `scope` values after the hoist pass: all reset to the
default when the hoist fired, untouched (positionally) otherwise. -/
theorem optI_scope (m : InstallerManifest) :
    (m.optimizeFields).installers.map (·.scope)
      = (if (allEqualValue (m.installers.map (·.scope))).isSome
         then (m.installers.map (·.scope)).map (fun _ => none)
         else m.installers.map (·.scope)) := by
  rw [optimizeFields_installers]
  rw [instCollapse43 (·.scope) (fun i => rfl),
    instCollapse42 (·.scope) (fun i => rfl),
    instCollapse41 (·.scope) (fun i => rfl),
    instCollapse40 (·.scope) (fun i => rfl),
    instCollapse39 (·.scope) (fun i => rfl),
    instCollapse38 (·.scope) (fun i => rfl),
    instCollapse37 (·.scope) (fun i => rfl),
    instCollapse36 (·.scope) (fun i => rfl),
    instCollapse35 (·.scope) (fun i => rfl),
    instCollapse34 (·.scope) (fun i => rfl),
    instCollapse33 (·.scope) (fun i => rfl),
    instCollapse32 (·.scope) (fun i => rfl),
    instCollapse31 (·.scope) (fun i => rfl),
    instCollapse30 (·.scope) (fun i => rfl),
    instCollapse29 (·.scope) (fun i => rfl),
    instCollapse28 (·.scope) (fun i => rfl),
    instCollapse27 (·.scope) (fun i => rfl),
    instCollapse26 (·.scope) (fun i => rfl),
    instCollapse25 (·.scope) (fun i => rfl),
    instCollapse24 (·.scope) (fun i => rfl),
    instCollapse23 (·.scope) (fun i => rfl),
    instCollapse22 (·.scope) (fun i => rfl),
    instCollapse21 (·.scope) (fun i => rfl),
    instCollapse20 (·.scope) (fun i => rfl),
    instCollapse19 (·.scope) (fun i => rfl),
    instCollapse18 (·.scope) (fun i => rfl),
    instCollapse17 (·.scope) (fun i => rfl),
    instCollapse16 (·.scope) (fun i => rfl),
    instCollapse15 (·.scope) (fun i => rfl),
    instCollapse14 (·.scope) (fun i => rfl),
    instCollapse13 (·.scope) (fun i => rfl),
    instCollapse12 (·.scope) (fun i => rfl),
    instCollapse11 (·.scope) (fun i => rfl),
    instCollapse10 (·.scope) (fun i => rfl),
    instCollapse09 (·.scope) (fun i => rfl),
    instCollapse08 (·.scope) (fun i => rfl)]
  unfold instAfter07
  simp only [list_map_ite, List.map_map, Function.comp_def]
  rw [instCollapse06 (fun _ => (none : Option Scope)) (fun i => rfl),
    instCollapse05 (fun _ => (none : Option Scope)) (fun i => rfl),
    instCollapse04 (fun _ => (none : Option Scope)) (fun i => rfl),
    instCollapse03 (fun _ => (none : Option Scope)) (fun i => rfl),
    instCollapse02 (fun _ => (none : Option Scope)) (fun i => rfl),
    instCollapse01 (fun _ => (none : Option Scope)) (fun i => rfl),
    instCollapse06 (·.scope) (fun i => rfl),
    instCollapse05 (·.scope) (fun i => rfl),
    instCollapse04 (·.scope) (fun i => rfl),
    instCollapse03 (·.scope) (fun i => rfl),
    instCollapse02 (·.scope) (fun i => rfl),
    instCollapse01 (·.scope) (fun i => rfl),
    instAfter00_eq]

/-- Installer-level `install_modes` values after the hoist pass: all reset to the
default when the hoist fired, untouched (positionally) otherwise. -/
theorem optI_install_modes (m : InstallerManifest) :
    (m.optimizeFields).installers.map (·.install_modes)
      = (if (allEqualValue (m.installers.map (·.install_modes))).isSome
         then (m.installers.map (·.install_modes)).map (fun _ => 0)
         else m.installers.map (·.install_modes)) := by
  rw [optimizeFields_installers]
  rw [instCollapse43 (·.install_modes) (fun i => rfl),
    instCollapse42 (·.install_modes) (fun i => rfl),
    instCollapse41 (·.install_modes) (fun i => rfl),
    instCollapse40 (·.install_modes) (fun i => rfl),
    instCollapse39 (·.install_modes) (fun i => rfl),
    instCollapse38 (·.install_modes) (fun i => rfl),
    instCollapse37 (·.install_modes) (fun i => rfl),
    instCollapse36 (·.install_modes) (fun i => rfl),
    instCollapse35 (·.install_modes) (fun i => rfl),
    instCollapse34 (·.install_modes) (fun i => rfl),
    instCollapse33 (·.install_modes) (fun i => rfl),
    instCollapse32 (·.install_modes) (fun i => rfl),
    instCollapse31 (·.install_modes) (fun i => rfl),
    instCollapse30 (·.install_modes) (fun i => rfl),
    instCollapse29 (·.install_modes) (fun i => rfl),
    instCollapse28 (·.install_modes) (fun i => rfl),
    instCollapse27 (·.install_modes) (fun i => rfl),
    instCollapse26 (·.install_modes) (fun i => rfl),
    instCollapse25 (·.install_modes) (fun i => rfl),
    instCollapse24 (·.install_modes) (fun i => rfl),
    instCollapse23 (·.install_modes) (fun i => rfl),
    instCollapse22 (·.install_modes) (fun i => rfl),
    instCollapse21 (·.install_modes) (fun i => rfl),
    instCollapse20 (·.install_modes) (fun i => rfl),
    instCollapse19 (·.install_modes) (fun i => rfl),
    instCollapse18 (·.install_modes) (fun i => rfl),
    instCollapse17 (·.install_modes) (fun i => rfl),
    instCollapse16 (·.install_modes) (fun i => rfl),
    instCollapse15 (·.install_modes) (fun i => rfl),
    instCollapse14 (·.install_modes) (fun i => rfl),
    instCollapse13 (·.install_modes) (fun i => rfl),
    instCollapse12 (·.install_modes) (fun i => rfl),
    instCollapse11 (·.install_modes) (fun i => rfl),
    instCollapse10 (·.install_modes) (fun i => rfl),
    instCollapse09 (·.install_modes) (fun i => rfl)]
  unfold instAfter08
  simp only [list_map_ite, List.map_map, Function.comp_def]
  rw [instCollapse07 (fun _ => (0 : InstallModes)) (fun i => rfl),
    instCollapse06 (fun _ => (0 : InstallModes)) (fun i => rfl),
    instCollapse05 (fun _ => (0 : InstallModes)) (fun i => rfl),
    instCollapse04 (fun _ => (0 : InstallModes)) (fun i => rfl),
    instCollapse03 (fun _ => (0 : InstallModes)) (fun i => rfl),
    instCollapse02 (fun _ => (0 : InstallModes)) (fun i => rfl),
    instCollapse01 (fun _ => (0 : InstallModes)) (fun i => rfl),
    instCollapse07 (·.install_modes) (fun i => rfl),
    instCollapse06 (·.install_modes) (fun i => rfl),
    instCollapse05 (·.install_modes) (fun i => rfl),
    instCollapse04 (·.install_modes) (fun i => rfl),
    instCollapse03 (·.install_modes) (fun i => rfl),
    instCollapse02 (·.install_modes) (fun i => rfl),
    instCollapse01 (·.install_modes) (fun i => rfl),
    instAfter00_eq]

/-- Installer-level `switches.silent` values after the hoist pass: all reset to the
default when the hoist fired, untouched (positionally) otherwise. -/
theorem optI_switches_silent (m : InstallerManifest) :
    (m.optimizeFields).installers.map (·.switches.silent)
      = (if (allEqualValue (m.installers.map (·.switches.silent))).isSome
         then (m.installers.map (·.switches.silent)).map (fun _ => none)
         else m.installers.map (·.switches.silent)) := by
  rw [optimizeFields_installers]
  rw [instCollapse43 (·.switches.silent) (fun i => rfl),
    instCollapse42 (·.switches.silent) (fun i => rfl),
    instCollapse41 (·.switches.silent) (fun i => rfl),
    instCollapse40 (·.switches.silent) (fun i => rfl),
    instCollapse39 (·.switches.silent) (fun i => rfl),
    instCollapse38 (·.switches.silent) (fun i => rfl),
    instCollapse37 (·.switches.silent) (fun i => rfl),
    instCollapse36 (·.switches.silent) (fun i => rfl),
    instCollapse35 (·.switches.silent) (fun i => rfl),
    instCollapse34 (·.switches.silent) (fun i => rfl),
    instCollapse33 (·.switches.silent) (fun i => rfl),
    instCollapse32 (·.switches.silent) (fun i => rfl),
    instCollapse31 (·.switches.silent) (fun i => rfl),
    instCollapse30 (·.switches.silent) (fun i => rfl),
    instCollapse29 (·.switches.silent) (fun i => rfl),
    instCollapse28 (·.switches.silent) (fun i => rfl),
    instCollapse27 (·.switches.silent) (fun i => rfl),
    instCollapse26 (·.switches.silent) (fun i => rfl),
    instCollapse25 (·.switches.silent) (fun i => rfl),
    instCollapse24 (·.switches.silent) (fun i => rfl),
    instCollapse23 (·.switches.silent) (fun i => rfl),
    instCollapse22 (·.switches.silent) (fun i => rfl),
    instCollapse21 (·.switches.silent) (fun i => rfl),
    instCollapse20 (·.switches.silent) (fun i => rfl),
    instCollapse19 (·.switches.silent) (fun i => rfl),
    instCollapse18 (·.switches.silent) (fun i => rfl),
    instCollapse17 (·.switches.silent) (fun i => rfl),
    instCollapse16 (·.switches.silent) (fun i => rfl),
    instCollapse15 (·.switches.silent) (fun i => rfl),
    instCollapse14 (·.switches.silent) (fun i => rfl),
    instCollapse13 (·.switches.silent) (fun i => rfl),
    instCollapse12 (·.switches.silent) (fun i => rfl),
    instCollapse11 (·.switches.silent) (fun i => rfl),
    instCollapse10 (·.switches.silent) (fun i => rfl)]
  unfold instAfter09
  simp only [list_map_ite, List.map_map, Function.comp_def]
  rw [instCollapse08 (fun _ => (none : Option InstallerSwitch)) (fun i => rfl),
    instCollapse07 (fun _ => (none : Option InstallerSwitch)) (fun i => rfl),
    instCollapse06 (fun _ => (none : Option InstallerSwitch)) (fun i => rfl),
    instCollapse05 (fun _ => (none : Option InstallerSwitch)) (fun i => rfl),
    instCollapse04 (fun _ => (none : Option InstallerSwitch)) (fun i => rfl),
    instCollapse03 (fun _ => (none : Option InstallerSwitch)) (fun i => rfl),
    instCollapse02 (fun _ => (none : Option InstallerSwitch)) (fun i => rfl),
    instCollapse01 (fun _ => (none : Option InstallerSwitch)) (fun i => rfl),
    instCollapse08 (·.switches.silent) (fun i => rfl),
    instCollapse07 (·.switches.silent) (fun i => rfl),
    instCollapse06 (·.switches.silent) (fun i => rfl),
    instCollapse05 (·.switches.silent) (fun i => rfl),
    instCollapse04 (·.switches.silent) (fun i => rfl),
    instCollapse03 (·.switches.silent) (fun i => rfl),
    instCollapse02 (·.switches.silent) (fun i => rfl),
    instCollapse01 (·.switches.silent) (fun i => rfl),
    instAfter00_eq]

/-- Installer-level `switches.silent_with_progress` values after the hoist pass: all reset to the
default when the hoist fired, untouched (positionally) otherwise. -/
theorem optI_switches_silent_with_progress (m : InstallerManifest) :
    (m.optimizeFields).installers.map (·.switches.silent_with_progress)
      = (if (allEqualValue (m.installers.map (·.switches.silent_with_progress))).isSome
         then (m.installers.map (·.switches.silent_with_progress)).map (fun _ => none)
         else m.installers.map (·.switches.silent_with_progress)) := by
  rw [optimizeFields_installers]
  rw [instCollapse43 (·.switches.silent_with_progress) (fun i => rfl),
    instCollapse42 (·.switches.silent_with_progress) (fun i => rfl),
    instCollapse41 (·.switches.silent_with_progress) (fun i => rfl),
    instCollapse40 (·.switches.silent_with_progress) (fun i => rfl),
    instCollapse39 (·.switches.silent_with_progress) (fun i => rfl),
    instCollapse38 (·.switches.silent_with_progress) (fun i => rfl),
    instCollapse37 (·.switches.silent_with_progress) (fun i => rfl),
    instCollapse36 (·.switches.silent_with_progress) (fun i => rfl),
    instCollapse35 (·.switches.silent_with_progress) (fun i => rfl),
    instCollapse34 (·.switches.silent_with_progress) (fun i => rfl),
    instCollapse33 (·.switches.silent_with_progress) (fun i => rfl),
    instCollapse32 (·.switches.silent_with_progress) (fun i => rfl),
    instCollapse31 (·.switches.silent_with_progress) (fun i => rfl),
    instCollapse30 (·.switches.silent_with_progress) (fun i => rfl),
    instCollapse29 (·.switches.silent_with_progress) (fun i => rfl),
    instCollapse28 (·.switches.silent_with_progress) (fun i => rfl),
    instCollapse27 (·.switches.silent_with_progress) (fun i => rfl),
    instCollapse26 (·.switches.silent_with_progress) (fun i => rfl),
    instCollapse25 (·.switches.silent_with_progress) (fun i => rfl),
    instCollapse24 (·.switches.silent_with_progress) (fun i => rfl),
    instCollapse23 (·.switches.silent_with_progress) (fun i => rfl),
    instCollapse22 (·.switches.silent_with_progress) (fun i => rfl),
    instCollapse21 (·.switches.silent_with_progress) (fun i => rfl),
    instCollapse20 (·.switches.silent_with_progress) (fun i => rfl),
    instCollapse19 (·.switches.silent_with_progress) (fun i => rfl),
    instCollapse18 (·.switches.silent_with_progress) (fun i => rfl),
    instCollapse17 (·.switches.silent_with_progress) (fun i => rfl),
    instCollapse16 (·.switches.silent_with_progress) (fun i => rfl),
    instCollapse15 (·.switches.silent_with_progress) (fun i => rfl),
    instCollapse14 (·.switches.silent_with_progress) (fun i => rfl),
    instCollapse13 (·.switches.silent_with_progress) (fun i => rfl),
    instCollapse12 (·.switches.silent_with_progress) (fun i => rfl),
    instCollapse11 (·.switches.silent_with_progress) (fun i => rfl)]
  unfold instAfter10
  simp only [list_map_ite, List.map_map, Function.comp_def]
  rw [instCollapse09 (fun _ => (none : Option InstallerSwitch)) (fun i => rfl),
    instCollapse08 (fun _ => (none : Option InstallerSwitch)) (fun i => rfl),
    instCollapse07 (fun _ => (none : Option InstallerSwitch)) (fun i => rfl),
    instCollapse06 (fun _ => (none : Option InstallerSwitch)) (fun i => rfl),
    instCollapse05 (fun _ => (none : Option InstallerSwitch)) (fun i => rfl),
    instCollapse04 (fun _ => (none : Option InstallerSwitch)) (fun i => rfl),
    instCollapse03 (fun _ => (none : Option InstallerSwitch)) (fun i => rfl),
    instCollapse02 (fun _ => (none : Option InstallerSwitch)) (fun i => rfl),
    instCollapse01 (fun _ => (none : Option InstallerSwitch)) (fun i => rfl),
    instCollapse09 (·.switches.silent_with_progress) (fun i => rfl),
    instCollapse08 (·.switches.silent_with_progress) (fun i => rfl),
    instCollapse07 (·.switches.silent_with_progress) (fun i => rfl),
    instCollapse06 (·.switches.silent_with_progress) (fun i => rfl),
    instCollapse05 (·.switches.silent_with_progress) (fun i => rfl),
    instCollapse04 (·.switches.silent_with_progress) (fun i => rfl),
    instCollapse03 (·.switches.silent_with_progress) (fun i => rfl),
    instCollapse02 (·.switches.silent_with_progress) (fun i => rfl),
    instCollapse01 (·.switches.silent_with_progress) (fun i => rfl),
    instAfter00_eq]

/-- Installer-level `switches.interactive` values after the hoist pass: all reset to the
default when the hoist fired, untouched (positionally) otherwise. -/
theorem optI_switches_interactive (m : InstallerManifest) :
    (m.optimizeFields).installers.map (·.switches.interactive)
      = (if (allEqualValue (m.installers.map (·.switches.interactive))).isSome
         then (m.installers.map (·.switches.interactive)).map (fun _ => none)
         else m.installers.map (·.switches.interactive)) := by
  rw [optimizeFields_installers]
  rw [instCollapse43 (·.switches.interactive) (fun i => rfl),
    instCollapse42 (·.switches.interactive) (fun i => rfl),
    instCollapse41 (·.switches.interactive) (fun i => rfl),
    instCollapse40 (·.switches.interactive) (fun i => rfl),
    instCollapse39 (·.switches.interactive) (fun i => rfl),
    instCollapse38 (·.switches.interactive) (fun i => rfl),
    instCollapse37 (·.switches.interactive) (fun i => rfl),
    instCollapse36 (·.switches.interactive) (fun i => rfl),
    instCollapse35 (·.switches.interactive) (fun i => rfl),
    instCollapse34 (·.switches.interactive) (fun i => rfl),
    instCollapse33 (·.switches.interactive) (fun i => rfl),
    instCollapse32 (·.switches.interactive) (fun i => rfl),
    instCollapse31 (·.switches.interactive) (fun i => rfl),
    instCollapse30 (·.switches.interactive) (fun i => rfl),
    instCollapse29 (·.switches.interactive) (fun i => rfl),
    instCollapse28 (·.switches.interactive) (fun i => rfl),
    instCollapse27 (·.switches.interactive) (fun i => rfl),
    instCollapse26 (·.switches.interactive) (fun i => rfl),
    instCollapse25 (·.switches.interactive) (fun i => rfl),
    instCollapse24 (·.switches.interactive) (fun i => rfl),
    instCollapse23 (·.switches.interactive) (fun i => rfl),
    instCollapse22 (·.switches.interactive) (fun i => rfl),
    instCollapse21 (·.switches.interactive) (fun i => rfl),
    instCollapse20 (·.switches.interactive) (fun i => rfl),
    instCollapse19 (·.switches.interactive) (fun i => rfl),
    instCollapse18 (·.switches.interactive) (fun i => rfl),
    instCollapse17 (·.switches.interactive) (fun i => rfl),
    instCollapse16 (·.switches.interactive) (fun i => rfl),
    instCollapse15 (·.switches.interactive) (fun i => rfl),
    instCollapse14 (·.switches.interactive) (fun i => rfl),
    instCollapse13 (·.switches.interactive) (fun i => rfl),
    instCollapse12 (·.switches.interactive) (fun i => rfl)]
  unfold instAfter11
  simp only [list_map_ite, List.map_map, Function.comp_def]
  rw [instCollapse10 (fun _ => (none : Option InstallerSwitch)) (fun i => rfl),
    instCollapse09 (fun _ => (none : Option InstallerSwitch)) (fun i => rfl),
    instCollapse08 (fun _ => (none : Option InstallerSwitch)) (fun i => rfl),
    instCollapse07 (fun _ => (none : Option InstallerSwitch)) (fun i => rfl),
    instCollapse06 (fun _ => (none : Option InstallerSwitch)) (fun i => rfl),
    instCollapse05 (fun _ => (none : Option InstallerSwitch)) (fun i => rfl),
    instCollapse04 (fun _ => (none : Option InstallerSwitch)) (fun i => rfl),
    instCollapse03 (fun _ => (none : Option InstallerSwitch)) (fun i => rfl),
    instCollapse02 (fun _ => (none : Option InstallerSwitch)) (fun i => rfl),
    instCollapse01 (fun _ => (none : Option InstallerSwitch)) (fun i => rfl),
    instCollapse10 (·.switches.interactive) (fun i => rfl),
    instCollapse09 (·.switches.interactive) (fun i => rfl),
    instCollapse08 (·.switches.interactive) (fun i => rfl),
    instCollapse07 (·.switches.interactive) (fun i => rfl),
    instCollapse06 (·.switches.interactive) (fun i => rfl),
    instCollapse05 (·.switches.interactive) (fun i => rfl),
    instCollapse04 (·.switches.interactive) (fun i => rfl),
    instCollapse03 (·.switches.interactive) (fun i => rfl),
    instCollapse02 (·.switches.interactive) (fun i => rfl),
    instCollapse01 (·.switches.interactive) (fun i => rfl),
    instAfter00_eq]

/-- Installer-level `switches.install_location` values after the hoist pass: all reset to the
default when the hoist fired, untouched (positionally) otherwise. -/
theorem optI_switches_install_location (m : InstallerManifest) :
    (m.optimizeFields).installers.map (·.switches.install_location)
      = (if (allEqualValue (m.installers.map (·.switches.install_location))).isSome
         then (m.installers.map (·.switches.install_location)).map (fun _ => none)
         else m.installers.map (·.switches.install_location)) := by
  rw [optimizeFields_installers]
  rw [instCollapse43 (·.switches.install_location) (fun i => rfl),
    instCollapse42 (·.switches.install_location) (fun i => rfl),
    instCollapse41 (·.switches.install_location) (fun i => rfl),
    instCollapse40 (·.switches.install_location) (fun i => rfl),
    instCollapse39 (·.switches.install_location) (fun i => rfl),
    instCollapse38 (·.switches.install_location) (fun i => rfl),
    instCollapse37 (·.switches.install_location) (fun i => rfl),
    instCollapse36 (·.switches.install_location) (fun i => rfl),
    instCollapse35 (·.switches.install_location) (fun i => rfl),
    instCollapse34 (·.switches.install_location) (fun i => rfl),
    instCollapse33 (·.switches.install_location) (fun i => rfl),
    instCollapse32 (·.switches.install_location) (fun i => rfl),
    instCollapse31 (·.switches.install_location) (fun i => rfl),
    instCollapse30 (·.switches.install_location) (fun i => rfl),
    instCollapse29 (·.switches.install_location) (fun i => rfl),
    instCollapse28 (·.switches.install_location) (fun i => rfl),
    instCollapse27 (·.switches.install_location) (fun i => rfl),
    instCollapse26 (·.switches.install_location) (fun i => rfl),
    instCollapse25 (·.switches.install_location) (fun i => rfl),
    instCollapse24 (·.switches.install_location) (fun i => rfl),
    instCollapse23 (·.switches.install_location) (fun i => rfl),
    instCollapse22 (·.switches.install_location) (fun i => rfl),
    instCollapse21 (·.switches.install_location) (fun i => rfl),
    instCollapse20 (·.switches.install_location) (fun i => rfl),
    instCollapse19 (·.switches.install_location) (fun i => rfl),
    instCollapse18 (·.switches.install_location) (fun i => rfl),
    instCollapse17 (·.switches.install_location) (fun i => rfl),
    instCollapse16 (·.switches.install_location) (fun i => rfl),
    instCollapse15 (·.switches.install_location) (fun i => rfl),
    instCollapse14 (·.switches.install_location) (fun i => rfl),
    instCollapse13 (·.switches.install_location) (fun i => rfl)]
  unfold instAfter12
  simp only [list_map_ite, List.map_map, Function.comp_def]
  rw [instCollapse11 (fun _ => (none : Option InstallerSwitch)) (fun i => rfl),
    instCollapse10 (fun _ => (none : Option InstallerSwitch)) (fun i => rfl),
    instCollapse09 (fun _ => (none : Option InstallerSwitch)) (fun i => rfl),
    instCollapse08 (fun _ => (none : Option InstallerSwitch)) (fun i => rfl),
    instCollapse07 (fun _ => (none : Option InstallerSwitch)) (fun i => rfl),
    instCollapse06 (fun _ => (none : Option InstallerSwitch)) (fun i => rfl),
    instCollapse05 (fun _ => (none : Option InstallerSwitch)) (fun i => rfl),
    instCollapse04 (fun _ => (none : Option InstallerSwitch)) (fun i => rfl),
    instCollapse03 (fun _ => (none : Option InstallerSwitch)) (fun i => rfl),
    instCollapse02 (fun _ => (none : Option InstallerSwitch)) (fun i => rfl),
    instCollapse01 (fun _ => (none : Option InstallerSwitch)) (fun i => rfl),
    instCollapse11 (·.switches.install_location) (fun i => rfl),
    instCollapse10 (·.switches.install_location) (fun i => rfl),
    instCollapse09 (·.switches.install_location) (fun i => rfl),
    instCollapse08 (·.switches.install_location) (fun i => rfl),
    instCollapse07 (·.switches.install_location) (fun i => rfl),
    instCollapse06 (·.switches.install_location) (fun i => rfl),
    instCollapse05 (·.switches.install_location) (fun i => rfl),
    instCollapse04 (·.switches.install_location) (fun i => rfl),
    instCollapse03 (·.switches.install_location) (fun i => rfl),
    instCollapse02 (·.switches.install_location) (fun i => rfl),
    instCollapse01 (·.switches.install_location) (fun i => rfl),
    instAfter00_eq]

/-- Installer-level `switches.log` values after the hoist pass: all reset to the
default when the hoist fired, untouched (positionally) otherwise. -/
theorem optI_switches_log (m : InstallerManifest) :
    (m.optimizeFields).installers.map (·.switches.log)
      = (if (allEqualValue (m.installers.map (·.switches.log))).isSome
         then (m.installers.map (·.switches.log)).map (fun _ => none)
         else m.installers.map (·.switches.log)) := by
  rw [optimizeFields_installers]
  rw [instCollapse43 (·.switches.log) (fun i => rfl),
    instCollapse42 (·.switches.log) (fun i => rfl),
    instCollapse41 (·.switches.log) (fun i => rfl),
    instCollapse40 (·.switches.log) (fun i => rfl),
    instCollapse39 (·.switches.log) (fun i => rfl),
    instCollapse38 (·.switches.log) (fun i => rfl),
    instCollapse37 (·.switches.log) (fun i => rfl),
    instCollapse36 (·.switches.log) (fun i => rfl),
    instCollapse35 (·.switches.log) (fun i => rfl),
    instCollapse34 (·.switches.log) (fun i => rfl),
    instCollapse33 (·.switches.log) (fun i => rfl),
    instCollapse32 (·.switches.log) (fun i => rfl),
    instCollapse31 (·.switches.log) (fun i => rfl),
    instCollapse30 (·.switches.log) (fun i => rfl),
    instCollapse29 (·.switches.log) (fun i => rfl),
    instCollapse28 (·.switches.log) (fun i => rfl),
    instCollapse27 (·.switches.log) (fun i => rfl),
    instCollapse26 (·.switches.log) (fun i => rfl),
    instCollapse25 (·.switches.log) (fun i => rfl),
    instCollapse24 (·.switches.log) (fun i => rfl),
    instCollapse23 (·.switches.log) (fun i => rfl),
    instCollapse22 (·.switches.log) (fun i => rfl),
    instCollapse21 (·.switches.log) (fun i => rfl),
    instCollapse20 (·.switches.log) (fun i => rfl),
    instCollapse19 (·.switches.log) (fun i => rfl),
    instCollapse18 (·.switches.log) (fun i => rfl),
    instCollapse17 (·.switches.log) (fun i => rfl),
    instCollapse16 (·.switches.log) (fun i => rfl),
    instCollapse15 (·.switches.log) (fun i => rfl),
    instCollapse14 (·.switches.log) (fun i => rfl)]
  unfold instAfter13
  simp only [list_map_ite, List.map_map, Function.comp_def]
  rw [instCollapse12 (fun _ => (none : Option InstallerSwitch)) (fun i => rfl),
    instCollapse11 (fun _ => (none : Option InstallerSwitch)) (fun i => rfl),
    instCollapse10 (fun _ => (none : Option InstallerSwitch)) (fun i => rfl),
    instCollapse09 (fun _ => (none : Option InstallerSwitch)) (fun i => rfl),
    instCollapse08 (fun _ => (none : Option InstallerSwitch)) (fun i => rfl),
    instCollapse07 (fun _ => (none : Option InstallerSwitch)) (fun i => rfl),
    instCollapse06 (fun _ => (none : Option InstallerSwitch)) (fun i => rfl),
    instCollapse05 (fun _ => (none : Option InstallerSwitch)) (fun i => rfl),
    instCollapse04 (fun _ => (none : Option InstallerSwitch)) (fun i => rfl),
    instCollapse03 (fun _ => (none : Option InstallerSwitch)) (fun i => rfl),
    instCollapse02 (fun _ => (none : Option InstallerSwitch)) (fun i => rfl),
    instCollapse01 (fun _ => (none : Option InstallerSwitch)) (fun i => rfl),
    instCollapse12 (·.switches.log) (fun i => rfl),
    instCollapse11 (·.switches.log) (fun i => rfl),
    instCollapse10 (·.switches.log) (fun i => rfl),
    instCollapse09 (·.switches.log) (fun i => rfl),
    instCollapse08 (·.switches.log) (fun i => rfl),
    instCollapse07 (·.switches.log) (fun i => rfl),
    instCollapse06 (·.switches.log) (fun i => rfl),
    instCollapse05 (·.switches.log) (fun i => rfl),
    instCollapse04 (·.switches.log) (fun i => rfl),
    instCollapse03 (·.switches.log) (fun i => rfl),
    instCollapse02 (·.switches.log) (fun i => rfl),
    instCollapse01 (·.switches.log) (fun i => rfl),
    instAfter00_eq]

/-- Installer-level `switches.upgrade` values after the hoist pass: all reset to the
default when the hoist fired, untouched (positionally) otherwise. -/
theorem optI_switches_upgrade (m : InstallerManifest) :
    (m.optimizeFields).installers.map (·.switches.upgrade)
      = (if (allEqualValue (m.installers.map (·.switches.upgrade))).isSome
         then (m.installers.map (·.switches.upgrade)).map (fun _ => none)
         else m.installers.map (·.switches.upgrade)) := by
  rw [optimizeFields_installers]
  rw [instCollapse43 (·.switches.upgrade) (fun i => rfl),
    instCollapse42 (·.switches.upgrade) (fun i => rfl),
    instCollapse41 (·.switches.upgrade) (fun i => rfl),
    instCollapse40 (·.switches.upgrade) (fun i => rfl),
    instCollapse39 (·.switches.upgrade) (fun i => rfl),
    instCollapse38 (·.switches.upgrade) (fun i => rfl),
    instCollapse37 (·.switches.upgrade) (fun i => rfl),
    instCollapse36 (·.switches.upgrade) (fun i => rfl),
    instCollapse35 (·.switches.upgrade) (fun i => rfl),
    instCollapse34 (·.switches.upgrade) (fun i => rfl),
    instCollapse33 (·.switches.upgrade) (fun i => rfl),
    instCollapse32 (·.switches.upgrade) (fun i => rfl),
    instCollapse31 (·.switches.upgrade) (fun i => rfl),
    instCollapse30 (·.switches.upgrade) (fun i => rfl),
    instCollapse29 (·.switches.upgrade) (fun i => rfl),
    instCollapse28 (·.switches.upgrade) (fun i => rfl),
    instCollapse27 (·.switches.upgrade) (fun i => rfl),
    instCollapse26 (·.switches.upgrade) (fun i => rfl),
    instCollapse25 (·.switches.upgrade) (fun i => rfl),
    instCollapse24 (·.switches.upgrade) (fun i => rfl),
    instCollapse23 (·.switches.upgrade) (fun i => rfl),
    instCollapse22 (·.switches.upgrade) (fun i => rfl),
    instCollapse21 (·.switches.upgrade) (fun i => rfl),
    instCollapse20 (·.switches.upgrade) (fun i => rfl),
    instCollapse19 (·.switches.upgrade) (fun i => rfl),
    instCollapse18 (·.switches.upgrade) (fun i => rfl),
    instCollapse17 (·.switches.upgrade) (fun i => rfl),
    instCollapse16 (·.switches.upgrade) (fun i => rfl),
    instCollapse15 (·.switches.upgrade) (fun i => rfl)]
  unfold instAfter14
  simp only [list_map_ite, List.map_map, Function.comp_def]
  rw [instCollapse13 (fun _ => (none : Option InstallerSwitch)) (fun i => rfl),
    instCollapse12 (fun _ => (none : Option InstallerSwitch)) (fun i => rfl),
    instCollapse11 (fun _ => (none : Option InstallerSwitch)) (fun i => rfl),
    instCollapse10 (fun _ => (none : Option InstallerSwitch)) (fun i => rfl),
    instCollapse09 (fun _ => (none : Option InstallerSwitch)) (fun i => rfl),
    instCollapse08 (fun _ => (none : Option InstallerSwitch)) (fun i => rfl),
    instCollapse07 (fun _ => (none : Option InstallerSwitch)) (fun i => rfl),
    instCollapse06 (fun _ => (none : Option InstallerSwitch)) (fun i => rfl),
    instCollapse05 (fun _ => (none : Option InstallerSwitch)) (fun i => rfl),
    instCollapse04 (fun _ => (none : Option InstallerSwitch)) (fun i => rfl),
    instCollapse03 (fun _ => (none : Option InstallerSwitch)) (fun i => rfl),
    instCollapse02 (fun _ => (none : Option InstallerSwitch)) (fun i => rfl),
    instCollapse01 (fun _ => (none : Option InstallerSwitch)) (fun i => rfl),
    instCollapse13 (·.switches.upgrade) (fun i => rfl),
    instCollapse12 (·.switches.upgrade) (fun i => rfl),
    instCollapse11 (·.switches.upgrade) (fun i => rfl),
    instCollapse10 (·.switches.upgrade) (fun i => rfl),
    instCollapse09 (·.switches.upgrade) (fun i => rfl),
    instCollapse08 (·.switches.upgrade) (fun i => rfl),
    instCollapse07 (·.switches.upgrade) (fun i => rfl),
    instCollapse06 (·.switches.upgrade) (fun i => rfl),
    instCollapse05 (·.switches.upgrade) (fun i => rfl),
    instCollapse04 (·.switches.upgrade) (fun i => rfl),
    instCollapse03 (·.switches.upgrade) (fun i => rfl),
    instCollapse02 (·.switches.upgrade) (fun i => rfl),
    instCollapse01 (·.switches.upgrade) (fun i => rfl),
    instAfter00_eq]

/-- Installer-level `switches.repair` values after the hoist pass: all reset to the
default when the hoist fired, untouched (positionally) otherwise. -/
theorem optI_switches_repair (m : InstallerManifest) :
    (m.optimizeFields).installers.map (·.switches.repair)
      = (if (allEqualValue (m.installers.map (·.switches.repair))).isSome
         then (m.installers.map (·.switches.repair)).map (fun _ => none)
         else m.installers.map (·.switches.repair)) := by
  rw [optimizeFields_installers]
  rw [instCollapse43 (·.switches.repair) (fun i => rfl),
    instCollapse42 (·.switches.repair) (fun i => rfl),
    instCollapse41 (·.switches.repair) (fun i => rfl),
    instCollapse40 (·.switches.repair) (fun i => rfl),
    instCollapse39 (·.switches.repair) (fun i => rfl),
    instCollapse38 (·.switches.repair) (fun i => rfl),
    instCollapse37 (·.switches.repair) (fun i => rfl),
    instCollapse36 (·.switches.repair) (fun i => rfl),
    instCollapse35 (·.switches.repair) (fun i => rfl),
    instCollapse34 (·.switches.repair) (fun i => rfl),
    instCollapse33 (·.switches.repair) (fun i => rfl),
    instCollapse32 (·.switches.repair) (fun i => rfl),
    instCollapse31 (·.switches.repair) (fun i => rfl),
    instCollapse30 (·.switches.repair) (fun i => rfl),
    instCollapse29 (·.switches.repair) (fun i => rfl),
    instCollapse28 (·.switches.repair) (fun i => rfl),
    instCollapse27 (·.switches.repair) (fun i => rfl),
    instCollapse26 (·.switches.repair) (fun i => rfl),
    instCollapse25 (·.switches.repair) (fun i => rfl),
    instCollapse24 (·.switches.repair) (fun i => rfl),
    instCollapse23 (·.switches.repair) (fun i => rfl),
    instCollapse22 (·.switches.repair) (fun i => rfl),
    instCollapse21 (·.switches.repair) (fun i => rfl),
    instCollapse20 (·.switches.repair) (fun i => rfl),
    instCollapse19 (·.switches.repair) (fun i => rfl),
    instCollapse18 (·.switches.repair) (fun i => rfl),
    instCollapse17 (·.switches.repair) (fun i => rfl),
    instCollapse16 (·.switches.repair) (fun i => rfl)]
  unfold instAfter15
  simp only [list_map_ite, List.map_map, Function.comp_def]
  rw [instCollapse14 (fun _ => (none : Option InstallerSwitch)) (fun i => rfl),
    instCollapse13 (fun _ => (none : Option InstallerSwitch)) (fun i => rfl),
    instCollapse12 (fun _ => (none : Option InstallerSwitch)) (fun i => rfl),
    instCollapse11 (fun _ => (none : Option InstallerSwitch)) (fun i => rfl),
    instCollapse10 (fun _ => (none : Option InstallerSwitch)) (fun i => rfl),
    instCollapse09 (fun _ => (none : Option InstallerSwitch)) (fun i => rfl),
    instCollapse08 (fun _ => (none : Option InstallerSwitch)) (fun i => rfl),
    instCollapse07 (fun _ => (none : Option InstallerSwitch)) (fun i => rfl),
    instCollapse06 (fun _ => (none : Option InstallerSwitch)) (fun i => rfl),
    instCollapse05 (fun _ => (none : Option InstallerSwitch)) (fun i => rfl),
    instCollapse04 (fun _ => (none : Option InstallerSwitch)) (fun i => rfl),
    instCollapse03 (fun _ => (none : Option InstallerSwitch)) (fun i => rfl),
    instCollapse02 (fun _ => (none : Option InstallerSwitch)) (fun i => rfl),
    instCollapse01 (fun _ => (none : Option InstallerSwitch)) (fun i => rfl),
    instCollapse14 (·.switches.repair) (fun i => rfl),
    instCollapse13 (·.switches.repair) (fun i => rfl),
    instCollapse12 (·.switches.repair) (fun i => rfl),
    instCollapse11 (·.switches.repair) (fun i => rfl),
    instCollapse10 (·.switches.repair) (fun i => rfl),
    instCollapse09 (·.switches.repair) (fun i => rfl),
    instCollapse08 (·.switches.repair) (fun i => rfl),
    instCollapse07 (·.switches.repair) (fun i => rfl),
    instCollapse06 (·.switches.repair) (fun i => rfl),
    instCollapse05 (·.switches.repair) (fun i => rfl),
    instCollapse04 (·.switches.repair) (fun i => rfl),
    instCollapse03 (·.switches.repair) (fun i => rfl),
    instCollapse02 (·.switches.repair) (fun i => rfl),
    instCollapse01 (·.switches.repair) (fun i => rfl),
    instAfter00_eq]

/-- Installer-level `success_codes` values after the hoist pass: all reset to the
default when the hoist fired, untouched (positionally) otherwise. -/
theorem optI_success_codes (m : InstallerManifest) :
    (m.optimizeFields).installers.map (·.success_codes)
      = (if (allEqualValue (m.installers.map (·.success_codes))).isSome
         then (m.installers.map (·.success_codes)).map (fun _ => [])
         else m.installers.map (·.success_codes)) := by
  rw [optimizeFields_installers]
  rw [instCollapse43 (·.success_codes) (fun i => rfl),
    instCollapse42 (·.success_codes) (fun i => rfl),
    instCollapse41 (·.success_codes) (fun i => rfl),
    instCollapse40 (·.success_codes) (fun i => rfl),
    instCollapse39 (·.success_codes) (fun i => rfl),
    instCollapse38 (·.success_codes) (fun i => rfl),
    instCollapse37 (·.success_codes) (fun i => rfl),
    instCollapse36 (·.success_codes) (fun i => rfl),
    instCollapse35 (·.success_codes) (fun i => rfl),
    instCollapse34 (·.success_codes) (fun i => rfl),
    instCollapse33 (·.success_codes) (fun i => rfl),
    instCollapse32 (·.success_codes) (fun i => rfl),
    instCollapse31 (·.success_codes) (fun i => rfl),
    instCollapse30 (·.success_codes) (fun i => rfl),
    instCollapse29 (·.success_codes) (fun i => rfl),
    instCollapse28 (·.success_codes) (fun i => rfl),
    instCollapse27 (·.success_codes) (fun i => rfl),
    instCollapse26 (·.success_codes) (fun i => rfl),
    instCollapse25 (·.success_codes) (fun i => rfl),
    instCollapse24 (·.success_codes) (fun i => rfl),
    instCollapse23 (·.success_codes) (fun i => rfl),
    instCollapse22 (·.success_codes) (fun i => rfl),
    instCollapse21 (·.success_codes) (fun i => rfl),
    instCollapse20 (·.success_codes) (fun i => rfl),
    instCollapse19 (·.success_codes) (fun i => rfl),
    instCollapse18 (·.success_codes) (fun i => rfl),
    instCollapse17 (·.success_codes) (fun i => rfl)]
  unfold instAfter16
  simp only [list_map_ite, List.map_map, Function.comp_def]
  rw [instCollapse15 (fun _ => ([] : List InstallerSuccessCode)) (fun i => rfl),
    instCollapse14 (fun _ => ([] : List InstallerSuccessCode)) (fun i => rfl),
    instCollapse13 (fun _ => ([] : List InstallerSuccessCode)) (fun i => rfl),
    instCollapse12 (fun _ => ([] : List InstallerSuccessCode)) (fun i => rfl),
    instCollapse11 (fun _ => ([] : List InstallerSuccessCode)) (fun i => rfl),
    instCollapse10 (fun _ => ([] : List InstallerSuccessCode)) (fun i => rfl),
    instCollapse09 (fun _ => ([] : List InstallerSuccessCode)) (fun i => rfl),
    instCollapse08 (fun _ => ([] : List InstallerSuccessCode)) (fun i => rfl),
    instCollapse07 (fun _ => ([] : List InstallerSuccessCode)) (fun i => rfl),
    instCollapse06 (fun _ => ([] : List InstallerSuccessCode)) (fun i => rfl),
    instCollapse05 (fun _ => ([] : List InstallerSuccessCode)) (fun i => rfl),
    instCollapse04 (fun _ => ([] : List InstallerSuccessCode)) (fun i => rfl),
    instCollapse03 (fun _ => ([] : List InstallerSuccessCode)) (fun i => rfl),
    instCollapse02 (fun _ => ([] : List InstallerSuccessCode)) (fun i => rfl),
    instCollapse01 (fun _ => ([] : List InstallerSuccessCode)) (fun i => rfl),
    instCollapse15 (·.success_codes) (fun i => rfl),
    instCollapse14 (·.success_codes) (fun i => rfl),
    instCollapse13 (·.success_codes) (fun i => rfl),
    instCollapse12 (·.success_codes) (fun i => rfl),
    instCollapse11 (·.success_codes) (fun i => rfl),
    instCollapse10 (·.success_codes) (fun i => rfl),
    instCollapse09 (·.success_codes) (fun i => rfl),
    instCollapse08 (·.success_codes) (fun i => rfl),
    instCollapse07 (·.success_codes) (fun i => rfl),
    instCollapse06 (·.success_codes) (fun i => rfl),
    instCollapse05 (·.success_codes) (fun i => rfl),
    instCollapse04 (·.success_codes) (fun i => rfl),
    instCollapse03 (·.success_codes) (fun i => rfl),
    instCollapse02 (·.success_codes) (fun i => rfl),
    instCollapse01 (·.success_codes) (fun i => rfl),
    instAfter00_eq]

/-- Installer-level `expected_return_codes` values after the hoist pass: all reset to the
default when the hoist fired, untouched (positionally) otherwise. -/
theorem optI_expected_return_codes (m : InstallerManifest) :
    (m.optimizeFields).installers.map (·.expected_return_codes)
      = (if (allEqualValue (m.installers.map (·.expected_return_codes))).isSome
         then (m.installers.map (·.expected_return_codes)).map (fun _ => [])
         else m.installers.map (·.expected_return_codes)) := by
  rw [optimizeFields_installers]
  rw [instCollapse43 (·.expected_return_codes) (fun i => rfl),
    instCollapse42 (·.expected_return_codes) (fun i => rfl),
    instCollapse41 (·.expected_return_codes) (fun i => rfl),
    instCollapse40 (·.expected_return_codes) (fun i => rfl),
    instCollapse39 (·.expected_return_codes) (fun i => rfl),
    instCollapse38 (·.expected_return_codes) (fun i => rfl),
    instCollapse37 (·.expected_return_codes) (fun i => rfl),
    instCollapse36 (·.expected_return_codes) (fun i => rfl),
    instCollapse35 (·.expected_return_codes) (fun i => rfl),
    instCollapse34 (·.expected_return_codes) (fun i => rfl),
    instCollapse33 (·.expected_return_codes) (fun i => rfl),
    instCollapse32 (·.expected_return_codes) (fun i => rfl),
    instCollapse31 (·.expected_return_codes) (fun i => rfl),
    instCollapse30 (·.expected_return_codes) (fun i => rfl),
    instCollapse29 (·.expected_return_codes) (fun i => rfl),
    instCollapse28 (·.expected_return_codes) (fun i => rfl),
    instCollapse27 (·.expected_return_codes) (fun i => rfl),
    instCollapse26 (·.expected_return_codes) (fun i => rfl),
    instCollapse25 (·.expected_return_codes) (fun i => rfl),
    instCollapse24 (·.expected_return_codes) (fun i => rfl),
    instCollapse23 (·.expected_return_codes) (fun i => rfl),
    instCollapse22 (·.expected_return_codes) (fun i => rfl),
    instCollapse21 (·.expected_return_codes) (fun i => rfl),
    instCollapse20 (·.expected_return_codes) (fun i => rfl),
    instCollapse19 (·.expected_return_codes) (fun i => rfl),
    instCollapse18 (·.expected_return_codes) (fun i => rfl)]
  unfold instAfter17
  simp only [list_map_ite, List.map_map, Function.comp_def]
  rw [instCollapse16 (fun _ => ([] : List ExpectedReturnCodes)) (fun i => rfl),
    instCollapse15 (fun _ => ([] : List ExpectedReturnCodes)) (fun i => rfl),
    instCollapse14 (fun _ => ([] : List ExpectedReturnCodes)) (fun i => rfl),
    instCollapse13 (fun _ => ([] : List ExpectedReturnCodes)) (fun i => rfl),
    instCollapse12 (fun _ => ([] : List ExpectedReturnCodes)) (fun i => rfl),
    instCollapse11 (fun _ => ([] : List ExpectedReturnCodes)) (fun i => rfl),
    instCollapse10 (fun _ => ([] : List ExpectedReturnCodes)) (fun i => rfl),
    instCollapse09 (fun _ => ([] : List ExpectedReturnCodes)) (fun i => rfl),
    instCollapse08 (fun _ => ([] : List ExpectedReturnCodes)) (fun i => rfl),
    instCollapse07 (fun _ => ([] : List ExpectedReturnCodes)) (fun i => rfl),
    instCollapse06 (fun _ => ([] : List ExpectedReturnCodes)) (fun i => rfl),
    instCollapse05 (fun _ => ([] : List ExpectedReturnCodes)) (fun i => rfl),
    instCollapse04 (fun _ => ([] : List ExpectedReturnCodes)) (fun i => rfl),
    instCollapse03 (fun _ => ([] : List ExpectedReturnCodes)) (fun i => rfl),
    instCollapse02 (fun _ => ([] : List ExpectedReturnCodes)) (fun i => rfl),
    instCollapse01 (fun _ => ([] : List ExpectedReturnCodes)) (fun i => rfl),
    instCollapse16 (·.expected_return_codes) (fun i => rfl),
    instCollapse15 (·.expected_return_codes) (fun i => rfl),
    instCollapse14 (·.expected_return_codes) (fun i => rfl),
    instCollapse13 (·.expected_return_codes) (fun i => rfl),
    instCollapse12 (·.expected_return_codes) (fun i => rfl),
    instCollapse11 (·.expected_return_codes) (fun i => rfl),
    instCollapse10 (·.expected_return_codes) (fun i => rfl),
    instCollapse09 (·.expected_return_codes) (fun i => rfl),
    instCollapse08 (·.expected_return_codes) (fun i => rfl),
    instCollapse07 (·.expected_return_codes) (fun i => rfl),
    instCollapse06 (·.expected_return_codes) (fun i => rfl),
    instCollapse05 (·.expected_return_codes) (fun i => rfl),
    instCollapse04 (·.expected_return_codes) (fun i => rfl),
    instCollapse03 (·.expected_return_codes) (fun i => rfl),
    instCollapse02 (·.expected_return_codes) (fun i => rfl),
    instCollapse01 (·.expected_return_codes) (fun i => rfl),
    instAfter00_eq]

/-- Installer-level `upgrade_behavior` values after the hoist pass: all reset to the
default when the hoist fired, untouched (positionally) otherwise. -/
theorem optI_upgrade_behavior (m : InstallerManifest) :
    (m.optimizeFields).installers.map (·.upgrade_behavior)
      = (if (allEqualValue (m.installers.map (·.upgrade_behavior))).isSome
         then (m.installers.map (·.upgrade_behavior)).map (fun _ => none)
         else m.installers.map (·.upgrade_behavior)) := by
  rw [optimizeFields_installers]
  rw [instCollapse43 (·.upgrade_behavior) (fun i => rfl),
    instCollapse42 (·.upgrade_behavior) (fun i => rfl),
    instCollapse41 (·.upgrade_behavior) (fun i => rfl),
    instCollapse40 (·.upgrade_behavior) (fun i => rfl),
    instCollapse39 (·.upgrade_behavior) (fun i => rfl),
    instCollapse38 (·.upgrade_behavior) (fun i => rfl),
    instCollapse37 (·.upgrade_behavior) (fun i => rfl),
    instCollapse36 (·.upgrade_behavior) (fun i => rfl),
    instCollapse35 (·.upgrade_behavior) (fun i => rfl),
    instCollapse34 (·.upgrade_behavior) (fun i => rfl),
    instCollapse33 (·.upgrade_behavior) (fun i => rfl),
    instCollapse32 (·.upgrade_behavior) (fun i => rfl),
    instCollapse31 (·.upgrade_behavior) (fun i => rfl),
    instCollapse30 (·.upgrade_behavior) (fun i => rfl),
    instCollapse29 (·.upgrade_behavior) (fun i => rfl),
    instCollapse28 (·.upgrade_behavior) (fun i => rfl),
    instCollapse27 (·.upgrade_behavior) (fun i => rfl),
    instCollapse26 (·.upgrade_behavior) (fun i => rfl),
    instCollapse25 (·.upgrade_behavior) (fun i => rfl),
    instCollapse24 (·.upgrade_behavior) (fun i => rfl),
    instCollapse23 (·.upgrade_behavior) (fun i => rfl),
    instCollapse22 (·.upgrade_behavior) (fun i => rfl),
    instCollapse21 (·.upgrade_behavior) (fun i => rfl),
    instCollapse20 (·.upgrade_behavior) (fun i => rfl),
    instCollapse19 (·.upgrade_behavior) (fun i => rfl)]
  unfold instAfter18
  simp only [list_map_ite, List.map_map, Function.comp_def]
  rw [instCollapse17 (fun _ => (none : Option UpgradeBehavior)) (fun i => rfl),
    instCollapse16 (fun _ => (none : Option UpgradeBehavior)) (fun i => rfl),
    instCollapse15 (fun _ => (none : Option UpgradeBehavior)) (fun i => rfl),
    instCollapse14 (fun _ => (none : Option UpgradeBehavior)) (fun i => rfl),
    instCollapse13 (fun _ => (none : Option UpgradeBehavior)) (fun i => rfl),
    instCollapse12 (fun _ => (none : Option UpgradeBehavior)) (fun i => rfl),
    instCollapse11 (fun _ => (none : Option UpgradeBehavior)) (fun i => rfl),
    instCollapse10 (fun _ => (none : Option UpgradeBehavior)) (fun i => rfl),
    instCollapse09 (fun _ => (none : Option UpgradeBehavior)) (fun i => rfl),
    instCollapse08 (fun _ => (none : Option UpgradeBehavior)) (fun i => rfl),
    instCollapse07 (fun _ => (none : Option UpgradeBehavior)) (fun i => rfl),
    instCollapse06 (fun _ => (none : Option UpgradeBehavior)) (fun i => rfl),
    instCollapse05 (fun _ => (none : Option UpgradeBehavior)) (fun i => rfl),
    instCollapse04 (fun _ => (none : Option UpgradeBehavior)) (fun i => rfl),
    instCollapse03 (fun _ => (none : Option UpgradeBehavior)) (fun i => rfl),
    instCollapse02 (fun _ => (none : Option UpgradeBehavior)) (fun i => rfl),
    instCollapse01 (fun _ => (none : Option UpgradeBehavior)) (fun i => rfl),
    instCollapse17 (·.upgrade_behavior) (fun i => rfl),
    instCollapse16 (·.upgrade_behavior) (fun i => rfl),
    instCollapse15 (·.upgrade_behavior) (fun i => rfl),
    instCollapse14 (·.upgrade_behavior) (fun i => rfl),
    instCollapse13 (·.upgrade_behavior) (fun i => rfl),
    instCollapse12 (·.upgrade_behavior) (fun i => rfl),
    instCollapse11 (·.upgrade_behavior) (fun i => rfl),
    instCollapse10 (·.upgrade_behavior) (fun i => rfl),
    instCollapse09 (·.upgrade_behavior) (fun i => rfl),
    instCollapse08 (·.upgrade_behavior) (fun i => rfl),
    instCollapse07 (·.upgrade_behavior) (fun i => rfl),
    instCollapse06 (·.upgrade_behavior) (fun i => rfl),
    instCollapse05 (·.upgrade_behavior) (fun i => rfl),
    instCollapse04 (·.upgrade_behavior) (fun i => rfl),
    instCollapse03 (·.upgrade_behavior) (fun i => rfl),
    instCollapse02 (·.upgrade_behavior) (fun i => rfl),
    instCollapse01 (·.upgrade_behavior) (fun i => rfl),
    instAfter00_eq]

/-- Installer-level `commands` values after the hoist pass: all reset to the
default when the hoist fired, untouched (positionally) otherwise. -/
theorem optI_commands (m : InstallerManifest) :
    (m.optimizeFields).installers.map (·.commands)
      = (if (allEqualValue (m.installers.map (·.commands))).isSome
         then (m.installers.map (·.commands)).map (fun _ => [])
         else m.installers.map (·.commands)) := by
  rw [optimizeFields_installers]
  rw [instCollapse43 (·.commands) (fun i => rfl),
    instCollapse42 (·.commands) (fun i => rfl),
    instCollapse41 (·.commands) (fun i => rfl),
    instCollapse40 (·.commands) (fun i => rfl),
    instCollapse39 (·.commands) (fun i => rfl),
    instCollapse38 (·.commands) (fun i => rfl),
    instCollapse37 (·.commands) (fun i => rfl),
    instCollapse36 (·.commands) (fun i => rfl),
    instCollapse35 (·.commands) (fun i => rfl),
    instCollapse34 (·.commands) (fun i => rfl),
    instCollapse33 (·.commands) (fun i => rfl),
    instCollapse32 (·.commands) (fun i => rfl),
    instCollapse31 (·.commands) (fun i => rfl),
    instCollapse30 (·.commands) (fun i => rfl),
    instCollapse29 (·.commands) (fun i => rfl),
    instCollapse28 (·.commands) (fun i => rfl),
    instCollapse27 (·.commands) (fun i => rfl),
    instCollapse26 (·.commands) (fun i => rfl),
    instCollapse25 (·.commands) (fun i => rfl),
    instCollapse24 (·.commands) (fun i => rfl),
    instCollapse23 (·.commands) (fun i => rfl),
    instCollapse22 (·.commands) (fun i => rfl),
    instCollapse21 (·.commands) (fun i => rfl),
    instCollapse20 (·.commands) (fun i => rfl)]
  unfold instAfter19
  simp only [list_map_ite, List.map_map, Function.comp_def]
  rw [instCollapse18 (fun _ => ([] : List Command)) (fun i => rfl),
    instCollapse17 (fun _ => ([] : List Command)) (fun i => rfl),
    instCollapse16 (fun _ => ([] : List Command)) (fun i => rfl),
    instCollapse15 (fun _ => ([] : List Command)) (fun i => rfl),
    instCollapse14 (fun _ => ([] : List Command)) (fun i => rfl),
    instCollapse13 (fun _ => ([] : List Command)) (fun i => rfl),
    instCollapse12 (fun _ => ([] : List Command)) (fun i => rfl),
    instCollapse11 (fun _ => ([] : List Command)) (fun i => rfl),
    instCollapse10 (fun _ => ([] : List Command)) (fun i => rfl),
    instCollapse09 (fun _ => ([] : List Command)) (fun i => rfl),
    instCollapse08 (fun _ => ([] : List Command)) (fun i => rfl),
    instCollapse07 (fun _ => ([] : List Command)) (fun i => rfl),
    instCollapse06 (fun _ => ([] : List Command)) (fun i => rfl),
    instCollapse05 (fun _ => ([] : List Command)) (fun i => rfl),
    instCollapse04 (fun _ => ([] : List Command)) (fun i => rfl),
    instCollapse03 (fun _ => ([] : List Command)) (fun i => rfl),
    instCollapse02 (fun _ => ([] : List Command)) (fun i => rfl),
    instCollapse01 (fun _ => ([] : List Command)) (fun i => rfl),
    instCollapse18 (·.commands) (fun i => rfl),
    instCollapse17 (·.commands) (fun i => rfl),
    instCollapse16 (·.commands) (fun i => rfl),
    instCollapse15 (·.commands) (fun i => rfl),
    instCollapse14 (·.commands) (fun i => rfl),
    instCollapse13 (·.commands) (fun i => rfl),
    instCollapse12 (·.commands) (fun i => rfl),
    instCollapse11 (·.commands) (fun i => rfl),
    instCollapse10 (·.commands) (fun i => rfl),
    instCollapse09 (·.commands) (fun i => rfl),
    instCollapse08 (·.commands) (fun i => rfl),
    instCollapse07 (·.commands) (fun i => rfl),
    instCollapse06 (·.commands) (fun i => rfl),
    instCollapse05 (·.commands) (fun i => rfl),
    instCollapse04 (·.commands) (fun i => rfl),
    instCollapse03 (·.commands) (fun i => rfl),
    instCollapse02 (·.commands) (fun i => rfl),
    instCollapse01 (·.commands) (fun i => rfl),
    instAfter00_eq]

/-- Installer-level `protocols` values after the hoist pass: all reset to the
default when the hoist fired, untouched (positionally) otherwise. -/
theorem optI_protocols (m : InstallerManifest) :
    (m.optimizeFields).installers.map (·.protocols)
      = (if (allEqualValue (m.installers.map (·.protocols))).isSome
         then (m.installers.map (·.protocols)).map (fun _ => [])
         else m.installers.map (·.protocols)) := by
  rw [optimizeFields_installers]
  rw [instCollapse43 (·.protocols) (fun i => rfl),
    instCollapse42 (·.protocols) (fun i => rfl),
    instCollapse41 (·.protocols) (fun i => rfl),
    instCollapse40 (·.protocols) (fun i => rfl),
    instCollapse39 (·.protocols) (fun i => rfl),
    instCollapse38 (·.protocols) (fun i => rfl),
    instCollapse37 (·.protocols) (fun i => rfl),
    instCollapse36 (·.protocols) (fun i => rfl),
    instCollapse35 (·.protocols) (fun i => rfl),
    instCollapse34 (·.protocols) (fun i => rfl),
    instCollapse33 (·.protocols) (fun i => rfl),
    instCollapse32 (·.protocols) (fun i => rfl),
    instCollapse31 (·.protocols) (fun i => rfl),
    instCollapse30 (·.protocols) (fun i => rfl),
    instCollapse29 (·.protocols) (fun i => rfl),
    instCollapse28 (·.protocols) (fun i => rfl),
    instCollapse27 (·.protocols) (fun i => rfl),
    instCollapse26 (·.protocols) (fun i => rfl),
    instCollapse25 (·.protocols) (fun i => rfl),
    instCollapse24 (·.protocols) (fun i => rfl),
    instCollapse23 (·.protocols) (fun i => rfl),
    instCollapse22 (·.protocols) (fun i => rfl),
    instCollapse21 (·.protocols) (fun i => rfl)]
  unfold instAfter20
  simp only [list_map_ite, List.map_map, Function.comp_def]
  rw [instCollapse19 (fun _ => ([] : List Protocol)) (fun i => rfl),
    instCollapse18 (fun _ => ([] : List Protocol)) (fun i => rfl),
    instCollapse17 (fun _ => ([] : List Protocol)) (fun i => rfl),
    instCollapse16 (fun _ => ([] : List Protocol)) (fun i => rfl),
    instCollapse15 (fun _ => ([] : List Protocol)) (fun i => rfl),
    instCollapse14 (fun _ => ([] : List Protocol)) (fun i => rfl),
    instCollapse13 (fun _ => ([] : List Protocol)) (fun i => rfl),
    instCollapse12 (fun _ => ([] : List Protocol)) (fun i => rfl),
    instCollapse11 (fun _ => ([] : List Protocol)) (fun i => rfl),
    instCollapse10 (fun _ => ([] : List Protocol)) (fun i => rfl),
    instCollapse09 (fun _ => ([] : List Protocol)) (fun i => rfl),
    instCollapse08 (fun _ => ([] : List Protocol)) (fun i => rfl),
    instCollapse07 (fun _ => ([] : List Protocol)) (fun i => rfl),
    instCollapse06 (fun _ => ([] : List Protocol)) (fun i => rfl),
    instCollapse05 (fun _ => ([] : List Protocol)) (fun i => rfl),
    instCollapse04 (fun _ => ([] : List Protocol)) (fun i => rfl),
    instCollapse03 (fun _ => ([] : List Protocol)) (fun i => rfl),
    instCollapse02 (fun _ => ([] : List Protocol)) (fun i => rfl),
    instCollapse01 (fun _ => ([] : List Protocol)) (fun i => rfl),
    instCollapse19 (·.protocols) (fun i => rfl),
    instCollapse18 (·.protocols) (fun i => rfl),
    instCollapse17 (·.protocols) (fun i => rfl),
    instCollapse16 (·.protocols) (fun i => rfl),
    instCollapse15 (·.protocols) (fun i => rfl),
    instCollapse14 (·.protocols) (fun i => rfl),
    instCollapse13 (·.protocols) (fun i => rfl),
    instCollapse12 (·.protocols) (fun i => rfl),
    instCollapse11 (·.protocols) (fun i => rfl),
    instCollapse10 (·.protocols) (fun i => rfl),
    instCollapse09 (·.protocols) (fun i => rfl),
    instCollapse08 (·.protocols) (fun i => rfl),
    instCollapse07 (·.protocols) (fun i => rfl),
    instCollapse06 (·.protocols) (fun i => rfl),
    instCollapse05 (·.protocols) (fun i => rfl),
    instCollapse04 (·.protocols) (fun i => rfl),
    instCollapse03 (·.protocols) (fun i => rfl),
    instCollapse02 (·.protocols) (fun i => rfl),
    instCollapse01 (·.protocols) (fun i => rfl),
    instAfter00_eq]

/-- Installer-level `file_extensions` values after the hoist pass: all reset to the
default when the hoist fired, untouched (positionally) otherwise. -/
theorem optI_file_extensions (m : InstallerManifest) :
    (m.optimizeFields).installers.map (·.file_extensions)
      = (if (allEqualValue (m.installers.map (·.file_extensions))).isSome
         then (m.installers.map (·.file_extensions)).map (fun _ => [])
         else m.installers.map (·.file_extensions)) := by
  rw [optimizeFields_installers]
  rw [instCollapse43 (·.file_extensions) (fun i => rfl),
    instCollapse42 (·.file_extensions) (fun i => rfl),
    instCollapse41 (·.file_extensions) (fun i => rfl),
    instCollapse40 (·.file_extensions) (fun i => rfl),
    instCollapse39 (·.file_extensions) (fun i => rfl),
    instCollapse38 (·.file_extensions) (fun i => rfl),
    instCollapse37 (·.file_extensions) (fun i => rfl),
    instCollapse36 (·.file_extensions) (fun i => rfl),
    instCollapse35 (·.file_extensions) (fun i => rfl),
    instCollapse34 (·.file_extensions) (fun i => rfl),
    instCollapse33 (·.file_extensions) (fun i => rfl),
    instCollapse32 (·.file_extensions) (fun i => rfl),
    instCollapse31 (·.file_extensions) (fun i => rfl),
    instCollapse30 (·.file_extensions) (fun i => rfl),
    instCollapse29 (·.file_extensions) (fun i => rfl),
    instCollapse28 (·.file_extensions) (fun i => rfl),
    instCollapse27 (·.file_extensions) (fun i => rfl),
    instCollapse26 (·.file_extensions) (fun i => rfl),
    instCollapse25 (·.file_extensions) (fun i => rfl),
    instCollapse24 (·.file_extensions) (fun i => rfl),
    instCollapse23 (·.file_extensions) (fun i => rfl),
    instCollapse22 (·.file_extensions) (fun i => rfl)]
  unfold instAfter21
  simp only [list_map_ite, List.map_map, Function.comp_def]
  rw [instCollapse20 (fun _ => ([] : List FileExtension)) (fun i => rfl),
    instCollapse19 (fun _ => ([] : List FileExtension)) (fun i => rfl),
    instCollapse18 (fun _ => ([] : List FileExtension)) (fun i => rfl),
    instCollapse17 (fun _ => ([] : List FileExtension)) (fun i => rfl),
    instCollapse16 (fun _ => ([] : List FileExtension)) (fun i => rfl),
    instCollapse15 (fun _ => ([] : List FileExtension)) (fun i => rfl),
    instCollapse14 (fun _ => ([] : List FileExtension)) (fun i => rfl),
    instCollapse13 (fun _ => ([] : List FileExtension)) (fun i => rfl),
    instCollapse12 (fun _ => ([] : List FileExtension)) (fun i => rfl),
    instCollapse11 (fun _ => ([] : List FileExtension)) (fun i => rfl),
    instCollapse10 (fun _ => ([] : List FileExtension)) (fun i => rfl),
    instCollapse09 (fun _ => ([] : List FileExtension)) (fun i => rfl),
    instCollapse08 (fun _ => ([] : List FileExtension)) (fun i => rfl),
    instCollapse07 (fun _ => ([] : List FileExtension)) (fun i => rfl),
    instCollapse06 (fun _ => ([] : List FileExtension)) (fun i => rfl),
    instCollapse05 (fun _ => ([] : List FileExtension)) (fun i => rfl),
    instCollapse04 (fun _ => ([] : List FileExtension)) (fun i => rfl),
    instCollapse03 (fun _ => ([] : List FileExtension)) (fun i => rfl),
    instCollapse02 (fun _ => ([] : List FileExtension)) (fun i => rfl),
    instCollapse01 (fun _ => ([] : List FileExtension)) (fun i => rfl),
    instCollapse20 (·.file_extensions) (fun i => rfl),
    instCollapse19 (·.file_extensions) (fun i => rfl),
    instCollapse18 (·.file_extensions) (fun i => rfl),
    instCollapse17 (·.file_extensions) (fun i => rfl),
    instCollapse16 (·.file_extensions) (fun i => rfl),
    instCollapse15 (·.file_extensions) (fun i => rfl),
    instCollapse14 (·.file_extensions) (fun i => rfl),
    instCollapse13 (·.file_extensions) (fun i => rfl),
    instCollapse12 (·.file_extensions) (fun i => rfl),
    instCollapse11 (·.file_extensions) (fun i => rfl),
    instCollapse10 (·.file_extensions) (fun i => rfl),
    instCollapse09 (·.file_extensions) (fun i => rfl),
    instCollapse08 (·.file_extensions) (fun i => rfl),
    instCollapse07 (·.file_extensions) (fun i => rfl),
    instCollapse06 (·.file_extensions) (fun i => rfl),
    instCollapse05 (·.file_extensions) (fun i => rfl),
    instCollapse04 (·.file_extensions) (fun i => rfl),
    instCollapse03 (·.file_extensions) (fun i => rfl),
    instCollapse02 (·.file_extensions) (fun i => rfl),
    instCollapse01 (·.file_extensions) (fun i => rfl),
    instAfter00_eq]

/-- Installer-level `dependencies.windows_features` values after the hoist pass: all reset to the
default when the hoist fired, untouched (positionally) otherwise. -/
theorem optI_dependencies_windows_features (m : InstallerManifest) :
    (m.optimizeFields).installers.map (·.dependencies.windows_features)
      = (if (allEqualValue (m.installers.map (·.dependencies.windows_features))).isSome
         then (m.installers.map (·.dependencies.windows_features)).map (fun _ => [])
         else m.installers.map (·.dependencies.windows_features)) := by
  rw [optimizeFields_installers]
  rw [instCollapse43 (·.dependencies.windows_features) (fun i => rfl),
    instCollapse42 (·.dependencies.windows_features) (fun i => rfl),
    instCollapse41 (·.dependencies.windows_features) (fun i => rfl),
    instCollapse40 (·.dependencies.windows_features) (fun i => rfl),
    instCollapse39 (·.dependencies.windows_features) (fun i => rfl),
    instCollapse38 (·.dependencies.windows_features) (fun i => rfl),
    instCollapse37 (·.dependencies.windows_features) (fun i => rfl),
    instCollapse36 (·.dependencies.windows_features) (fun i => rfl),
    instCollapse35 (·.dependencies.windows_features) (fun i => rfl),
    instCollapse34 (·.dependencies.windows_features) (fun i => rfl),
    instCollapse33 (·.dependencies.windows_features) (fun i => rfl),
    instCollapse32 (·.dependencies.windows_features) (fun i => rfl),
    instCollapse31 (·.dependencies.windows_features) (fun i => rfl),
    instCollapse30 (·.dependencies.windows_features) (fun i => rfl),
    instCollapse29 (·.dependencies.windows_features) (fun i => rfl),
    instCollapse28 (·.dependencies.windows_features) (fun i => rfl),
    instCollapse27 (·.dependencies.windows_features) (fun i => rfl),
    instCollapse26 (·.dependencies.windows_features) (fun i => rfl),
    instCollapse25 (·.dependencies.windows_features) (fun i => rfl),
    instCollapse24 (·.dependencies.windows_features) (fun i => rfl),
    instCollapse23 (·.dependencies.windows_features) (fun i => rfl)]
  unfold instAfter22
  simp only [list_map_ite, List.map_map, Function.comp_def]
  rw [instCollapse21 (fun _ => ([] : List String)) (fun i => rfl),
    instCollapse20 (fun _ => ([] : List String)) (fun i => rfl),
    instCollapse19 (fun _ => ([] : List String)) (fun i => rfl),
    instCollapse18 (fun _ => ([] : List String)) (fun i => rfl),
    instCollapse17 (fun _ => ([] : List String)) (fun i => rfl),
    instCollapse16 (fun _ => ([] : List String)) (fun i => rfl),
    instCollapse15 (fun _ => ([] : List String)) (fun i => rfl),
    instCollapse14 (fun _ => ([] : List String)) (fun i => rfl),
    instCollapse13 (fun _ => ([] : List String)) (fun i => rfl),
    instCollapse12 (fun _ => ([] : List String)) (fun i => rfl),
    instCollapse11 (fun _ => ([] : List String)) (fun i => rfl),
    instCollapse10 (fun _ => ([] : List String)) (fun i => rfl),
    instCollapse09 (fun _ => ([] : List String)) (fun i => rfl),
    instCollapse08 (fun _ => ([] : List String)) (fun i => rfl),
    instCollapse07 (fun _ => ([] : List String)) (fun i => rfl),
    instCollapse06 (fun _ => ([] : List String)) (fun i => rfl),
    instCollapse05 (fun _ => ([] : List String)) (fun i => rfl),
    instCollapse04 (fun _ => ([] : List String)) (fun i => rfl),
    instCollapse03 (fun _ => ([] : List String)) (fun i => rfl),
    instCollapse02 (fun _ => ([] : List String)) (fun i => rfl),
    instCollapse01 (fun _ => ([] : List String)) (fun i => rfl),
    instCollapse21 (·.dependencies.windows_features) (fun i => rfl),
    instCollapse20 (·.dependencies.windows_features) (fun i => rfl),
    instCollapse19 (·.dependencies.windows_features) (fun i => rfl),
    instCollapse18 (·.dependencies.windows_features) (fun i => rfl),
    instCollapse17 (·.dependencies.windows_features) (fun i => rfl),
    instCollapse16 (·.dependencies.windows_features) (fun i => rfl),
    instCollapse15 (·.dependencies.windows_features) (fun i => rfl),
    instCollapse14 (·.dependencies.windows_features) (fun i => rfl),
    instCollapse13 (·.dependencies.windows_features) (fun i => rfl),
    instCollapse12 (·.dependencies.windows_features) (fun i => rfl),
    instCollapse11 (·.dependencies.windows_features) (fun i => rfl),
    instCollapse10 (·.dependencies.windows_features) (fun i => rfl),
    instCollapse09 (·.dependencies.windows_features) (fun i => rfl),
    instCollapse08 (·.dependencies.windows_features) (fun i => rfl),
    instCollapse07 (·.dependencies.windows_features) (fun i => rfl),
    instCollapse06 (·.dependencies.windows_features) (fun i => rfl),
    instCollapse05 (·.dependencies.windows_features) (fun i => rfl),
    instCollapse04 (·.dependencies.windows_features) (fun i => rfl),
    instCollapse03 (·.dependencies.windows_features) (fun i => rfl),
    instCollapse02 (·.dependencies.windows_features) (fun i => rfl),
    instCollapse01 (·.dependencies.windows_features) (fun i => rfl),
    instAfter00_eq]

/-- Installer-level `dependencies.windows_libraries` values after the hoist pass: all reset to the
default when the hoist fired, untouched (positionally) otherwise. -/
theorem optI_dependencies_windows_libraries (m : InstallerManifest) :
    (m.optimizeFields).installers.map (·.dependencies.windows_libraries)
      = (if (allEqualValue (m.installers.map (·.dependencies.windows_libraries))).isSome
         then (m.installers.map (·.dependencies.windows_libraries)).map (fun _ => [])
         else m.installers.map (·.dependencies.windows_libraries)) := by
  rw [optimizeFields_installers]
  rw [instCollapse43 (·.dependencies.windows_libraries) (fun i => rfl),
    instCollapse42 (·.dependencies.windows_libraries) (fun i => rfl),
    instCollapse41 (·.dependencies.windows_libraries) (fun i => rfl),
    instCollapse40 (·.dependencies.windows_libraries) (fun i => rfl),
    instCollapse39 (·.dependencies.windows_libraries) (fun i => rfl),
    instCollapse38 (·.dependencies.windows_libraries) (fun i => rfl),
    instCollapse37 (·.dependencies.windows_libraries) (fun i => rfl),
    instCollapse36 (·.dependencies.windows_libraries) (fun i => rfl),
    instCollapse35 (·.dependencies.windows_libraries) (fun i => rfl),
    instCollapse34 (·.dependencies.windows_libraries) (fun i => rfl),
    instCollapse33 (·.dependencies.windows_libraries) (fun i => rfl),
    instCollapse32 (·.dependencies.windows_libraries) (fun i => rfl),
    instCollapse31 (·.dependencies.windows_libraries) (fun i => rfl),
    instCollapse30 (·.dependencies.windows_libraries) (fun i => rfl),
    instCollapse29 (·.dependencies.windows_libraries) (fun i => rfl),
    instCollapse28 (·.dependencies.windows_libraries) (fun i => rfl),
    instCollapse27 (·.dependencies.windows_libraries) (fun i => rfl),
    instCollapse26 (·.dependencies.windows_libraries) (fun i => rfl),
    instCollapse25 (·.dependencies.windows_libraries) (fun i => rfl),
    instCollapse24 (·.dependencies.windows_libraries) (fun i => rfl)]
  unfold instAfter23
  simp only [list_map_ite, List.map_map, Function.comp_def]
  rw [instCollapse22 (fun _ => ([] : List String)) (fun i => rfl),
    instCollapse21 (fun _ => ([] : List String)) (fun i => rfl),
    instCollapse20 (fun _ => ([] : List String)) (fun i => rfl),
    instCollapse19 (fun _ => ([] : List String)) (fun i => rfl),
    instCollapse18 (fun _ => ([] : List String)) (fun i => rfl),
    instCollapse17 (fun _ => ([] : List String)) (fun i => rfl),
    instCollapse16 (fun _ => ([] : List String)) (fun i => rfl),
    instCollapse15 (fun _ => ([] : List String)) (fun i => rfl),
    instCollapse14 (fun _ => ([] : List String)) (fun i => rfl),
    instCollapse13 (fun _ => ([] : List String)) (fun i => rfl),
    instCollapse12 (fun _ => ([] : List String)) (fun i => rfl),
    instCollapse11 (fun _ => ([] : List String)) (fun i => rfl),
    instCollapse10 (fun _ => ([] : List String)) (fun i => rfl),
    instCollapse09 (fun _ => ([] : List String)) (fun i => rfl),
    instCollapse08 (fun _ => ([] : List String)) (fun i => rfl),
    instCollapse07 (fun _ => ([] : List String)) (fun i => rfl),
    instCollapse06 (fun _ => ([] : List String)) (fun i => rfl),
    instCollapse05 (fun _ => ([] : List String)) (fun i => rfl),
    instCollapse04 (fun _ => ([] : List String)) (fun i => rfl),
    instCollapse03 (fun _ => ([] : List String)) (fun i => rfl),
    instCollapse02 (fun _ => ([] : List String)) (fun i => rfl),
    instCollapse01 (fun _ => ([] : List String)) (fun i => rfl),
    instCollapse22 (·.dependencies.windows_libraries) (fun i => rfl),
    instCollapse21 (·.dependencies.windows_libraries) (fun i => rfl),
    instCollapse20 (·.dependencies.windows_libraries) (fun i => rfl),
    instCollapse19 (·.dependencies.windows_libraries) (fun i => rfl),
    instCollapse18 (·.dependencies.windows_libraries) (fun i => rfl),
    instCollapse17 (·.dependencies.windows_libraries) (fun i => rfl),
    instCollapse16 (·.dependencies.windows_libraries) (fun i => rfl),
    instCollapse15 (·.dependencies.windows_libraries) (fun i => rfl),
    instCollapse14 (·.dependencies.windows_libraries) (fun i => rfl),
    instCollapse13 (·.dependencies.windows_libraries) (fun i => rfl),
    instCollapse12 (·.dependencies.windows_libraries) (fun i => rfl),
    instCollapse11 (·.dependencies.windows_libraries) (fun i => rfl),
    instCollapse10 (·.dependencies.windows_libraries) (fun i => rfl),
    instCollapse09 (·.dependencies.windows_libraries) (fun i => rfl),
    instCollapse08 (·.dependencies.windows_libraries) (fun i => rfl),
    instCollapse07 (·.dependencies.windows_libraries) (fun i => rfl),
    instCollapse06 (·.dependencies.windows_libraries) (fun i => rfl),
    instCollapse05 (·.dependencies.windows_libraries) (fun i => rfl),
    instCollapse04 (·.dependencies.windows_libraries) (fun i => rfl),
    instCollapse03 (·.dependencies.windows_libraries) (fun i => rfl),
    instCollapse02 (·.dependencies.windows_libraries) (fun i => rfl),
    instCollapse01 (·.dependencies.windows_libraries) (fun i => rfl),
    instAfter00_eq]

/-- Installer-level `dependencies.package` values after the hoist pass: all reset to the
default when the hoist fired, untouched (positionally) otherwise. -/
theorem optI_dependencies_package (m : InstallerManifest) :
    (m.optimizeFields).installers.map (·.dependencies.package)
      = (if (allEqualValue (m.installers.map (·.dependencies.package))).isSome
         then (m.installers.map (·.dependencies.package)).map (fun _ => [])
         else m.installers.map (·.dependencies.package)) := by
  rw [optimizeFields_installers]
  rw [instCollapse43 (·.dependencies.package) (fun i => rfl),
    instCollapse42 (·.dependencies.package) (fun i => rfl),
    instCollapse41 (·.dependencies.package) (fun i => rfl),
    instCollapse40 (·.dependencies.package) (fun i => rfl),
    instCollapse39 (·.dependencies.package) (fun i => rfl),
    instCollapse38 (·.dependencies.package) (fun i => rfl),
    instCollapse37 (·.dependencies.package) (fun i => rfl),
    instCollapse36 (·.dependencies.package) (fun i => rfl),
    instCollapse35 (·.dependencies.package) (fun i => rfl),
    instCollapse34 (·.dependencies.package) (fun i => rfl),
    instCollapse33 (·.dependencies.package) (fun i => rfl),
    instCollapse32 (·.dependencies.package) (fun i => rfl),
    instCollapse31 (·.dependencies.package) (fun i => rfl),
    instCollapse30 (·.dependencies.package) (fun i => rfl),
    instCollapse29 (·.dependencies.package) (fun i => rfl),
    instCollapse28 (·.dependencies.package) (fun i => rfl),
    instCollapse27 (·.dependencies.package) (fun i => rfl),
    instCollapse26 (·.dependencies.package) (fun i => rfl),
    instCollapse25 (·.dependencies.package) (fun i => rfl)]
  unfold instAfter24
  simp only [list_map_ite, List.map_map, Function.comp_def]
  rw [instCollapse23 (fun _ => ([] : List PackageDependencies)) (fun i => rfl),
    instCollapse22 (fun _ => ([] : List PackageDependencies)) (fun i => rfl),
    instCollapse21 (fun _ => ([] : List PackageDependencies)) (fun i => rfl),
    instCollapse20 (fun _ => ([] : List PackageDependencies)) (fun i => rfl),
    instCollapse19 (fun _ => ([] : List PackageDependencies)) (fun i => rfl),
    instCollapse18 (fun _ => ([] : List PackageDependencies)) (fun i => rfl),
    instCollapse17 (fun _ => ([] : List PackageDependencies)) (fun i => rfl),
    instCollapse16 (fun _ => ([] : List PackageDependencies)) (fun i => rfl),
    instCollapse15 (fun _ => ([] : List PackageDependencies)) (fun i => rfl),
    instCollapse14 (fun _ => ([] : List PackageDependencies)) (fun i => rfl),
    instCollapse13 (fun _ => ([] : List PackageDependencies)) (fun i => rfl),
    instCollapse12 (fun _ => ([] : List PackageDependencies)) (fun i => rfl),
    instCollapse11 (fun _ => ([] : List PackageDependencies)) (fun i => rfl),
    instCollapse10 (fun _ => ([] : List PackageDependencies)) (fun i => rfl),
    instCollapse09 (fun _ => ([] : List PackageDependencies)) (fun i => rfl),
    instCollapse08 (fun _ => ([] : List PackageDependencies)) (fun i => rfl),
    instCollapse07 (fun _ => ([] : List PackageDependencies)) (fun i => rfl),
    instCollapse06 (fun _ => ([] : List PackageDependencies)) (fun i => rfl),
    instCollapse05 (fun _ => ([] : List PackageDependencies)) (fun i => rfl),
    instCollapse04 (fun _ => ([] : List PackageDependencies)) (fun i => rfl),
    instCollapse03 (fun _ => ([] : List PackageDependencies)) (fun i => rfl),
    instCollapse02 (fun _ => ([] : List PackageDependencies)) (fun i => rfl),
    instCollapse01 (fun _ => ([] : List PackageDependencies)) (fun i => rfl),
    instCollapse23 (·.dependencies.package) (fun i => rfl),
    instCollapse22 (·.dependencies.package) (fun i => rfl),
    instCollapse21 (·.dependencies.package) (fun i => rfl),
    instCollapse20 (·.dependencies.package) (fun i => rfl),
    instCollapse19 (·.dependencies.package) (fun i => rfl),
    instCollapse18 (·.dependencies.package) (fun i => rfl),
    instCollapse17 (·.dependencies.package) (fun i => rfl),
    instCollapse16 (·.dependencies.package) (fun i => rfl),
    instCollapse15 (·.dependencies.package) (fun i => rfl),
    instCollapse14 (·.dependencies.package) (fun i => rfl),
    instCollapse13 (·.dependencies.package) (fun i => rfl),
    instCollapse12 (·.dependencies.package) (fun i => rfl),
    instCollapse11 (·.dependencies.package) (fun i => rfl),
    instCollapse10 (·.dependencies.package) (fun i => rfl),
    instCollapse09 (·.dependencies.package) (fun i => rfl),
    instCollapse08 (·.dependencies.package) (fun i => rfl),
    instCollapse07 (·.dependencies.package) (fun i => rfl),
    instCollapse06 (·.dependencies.package) (fun i => rfl),
    instCollapse05 (·.dependencies.package) (fun i => rfl),
    instCollapse04 (·.dependencies.package) (fun i => rfl),
    instCollapse03 (·.dependencies.package) (fun i => rfl),
    instCollapse02 (·.dependencies.package) (fun i => rfl),
    instCollapse01 (·.dependencies.package) (fun i => rfl),
    instAfter00_eq]

/-- Installer-level `dependencies.external` values after the hoist pass: all reset to the
default when the hoist fired, untouched (positionally) otherwise. -/
theorem optI_dependencies_external (m : InstallerManifest) :
    (m.optimizeFields).installers.map (·.dependencies.external)
      = (if (allEqualValue (m.installers.map (·.dependencies.external))).isSome
         then (m.installers.map (·.dependencies.external)).map (fun _ => [])
         else m.installers.map (·.dependencies.external)) := by
  rw [optimizeFields_installers]
  rw [instCollapse43 (·.dependencies.external) (fun i => rfl),
    instCollapse42 (·.dependencies.external) (fun i => rfl),
    instCollapse41 (·.dependencies.external) (fun i => rfl),
    instCollapse40 (·.dependencies.external) (fun i => rfl),
    instCollapse39 (·.dependencies.external) (fun i => rfl),
    instCollapse38 (·.dependencies.external) (fun i => rfl),
    instCollapse37 (·.dependencies.external) (fun i => rfl),
    instCollapse36 (·.dependencies.external) (fun i => rfl),
    instCollapse35 (·.dependencies.external) (fun i => rfl),
    instCollapse34 (·.dependencies.external) (fun i => rfl),
    instCollapse33 (·.dependencies.external) (fun i => rfl),
    instCollapse32 (·.dependencies.external) (fun i => rfl),
    instCollapse31 (·.dependencies.external) (fun i => rfl),
    instCollapse30 (·.dependencies.external) (fun i => rfl),
    instCollapse29 (·.dependencies.external) (fun i => rfl),
    instCollapse28 (·.dependencies.external) (fun i => rfl),
    instCollapse27 (·.dependencies.external) (fun i => rfl),
    instCollapse26 (·.dependencies.external) (fun i => rfl)]
  unfold instAfter25
  simp only [list_map_ite, List.map_map, Function.comp_def]
  rw [instCollapse24 (fun _ => ([] : List String)) (fun i => rfl),
    instCollapse23 (fun _ => ([] : List String)) (fun i => rfl),
    instCollapse22 (fun _ => ([] : List String)) (fun i => rfl),
    instCollapse21 (fun _ => ([] : List String)) (fun i => rfl),
    instCollapse20 (fun _ => ([] : List String)) (fun i => rfl),
    instCollapse19 (fun _ => ([] : List String)) (fun i => rfl),
    instCollapse18 (fun _ => ([] : List String)) (fun i => rfl),
    instCollapse17 (fun _ => ([] : List String)) (fun i => rfl),
    instCollapse16 (fun _ => ([] : List String)) (fun i => rfl),
    instCollapse15 (fun _ => ([] : List String)) (fun i => rfl),
    instCollapse14 (fun _ => ([] : List String)) (fun i => rfl),
    instCollapse13 (fun _ => ([] : List String)) (fun i => rfl),
    instCollapse12 (fun _ => ([] : List String)) (fun i => rfl),
    instCollapse11 (fun _ => ([] : List String)) (fun i => rfl),
    instCollapse10 (fun _ => ([] : List String)) (fun i => rfl),
    instCollapse09 (fun _ => ([] : List String)) (fun i => rfl),
    instCollapse08 (fun _ => ([] : List String)) (fun i => rfl),
    instCollapse07 (fun _ => ([] : List String)) (fun i => rfl),
    instCollapse06 (fun _ => ([] : List String)) (fun i => rfl),
    instCollapse05 (fun _ => ([] : List String)) (fun i => rfl),
    instCollapse04 (fun _ => ([] : List String)) (fun i => rfl),
    instCollapse03 (fun _ => ([] : List String)) (fun i => rfl),
    instCollapse02 (fun _ => ([] : List String)) (fun i => rfl),
    instCollapse01 (fun _ => ([] : List String)) (fun i => rfl),
    instCollapse24 (·.dependencies.external) (fun i => rfl),
    instCollapse23 (·.dependencies.external) (fun i => rfl),
    instCollapse22 (·.dependencies.external) (fun i => rfl),
    instCollapse21 (·.dependencies.external) (fun i => rfl),
    instCollapse20 (·.dependencies.external) (fun i => rfl),
    instCollapse19 (·.dependencies.external) (fun i => rfl),
    instCollapse18 (·.dependencies.external) (fun i => rfl),
    instCollapse17 (·.dependencies.external) (fun i => rfl),
    instCollapse16 (·.dependencies.external) (fun i => rfl),
    instCollapse15 (·.dependencies.external) (fun i => rfl),
    instCollapse14 (·.dependencies.external) (fun i => rfl),
    instCollapse13 (·.dependencies.external) (fun i => rfl),
    instCollapse12 (·.dependencies.external) (fun i => rfl),
    instCollapse11 (·.dependencies.external) (fun i => rfl),
    instCollapse10 (·.dependencies.external) (fun i => rfl),
    instCollapse09 (·.dependencies.external) (fun i => rfl),
    instCollapse08 (·.dependencies.external) (fun i => rfl),
    instCollapse07 (·.dependencies.external) (fun i => rfl),
    instCollapse06 (·.dependencies.external) (fun i => rfl),
    instCollapse05 (·.dependencies.external) (fun i => rfl),
    instCollapse04 (·.dependencies.external) (fun i => rfl),
    instCollapse03 (·.dependencies.external) (fun i => rfl),
    instCollapse02 (·.dependencies.external) (fun i => rfl),
    instCollapse01 (·.dependencies.external) (fun i => rfl),
    instAfter00_eq]

/-- Installer-level `package_family_name` values after the hoist pass: all reset to the
default when the hoist fired, untouched (positionally) otherwise. -/
theorem optI_package_family_name (m : InstallerManifest) :
    (m.optimizeFields).installers.map (·.package_family_name)
      = (if (allEqualValue (m.installers.map (·.package_family_name))).isSome
         then (m.installers.map (·.package_family_name)).map (fun _ => none)
         else m.installers.map (·.package_family_name)) := by
  rw [optimizeFields_installers]
  rw [instCollapse43 (·.package_family_name) (fun i => rfl),
    instCollapse42 (·.package_family_name) (fun i => rfl),
    instCollapse41 (·.package_family_name) (fun i => rfl),
    instCollapse40 (·.package_family_name) (fun i => rfl),
    instCollapse39 (·.package_family_name) (fun i => rfl),
    instCollapse38 (·.package_family_name) (fun i => rfl),
    instCollapse37 (·.package_family_name) (fun i => rfl),
    instCollapse36 (·.package_family_name) (fun i => rfl),
    instCollapse35 (·.package_family_name) (fun i => rfl),
    instCollapse34 (·.package_family_name) (fun i => rfl),
    instCollapse33 (·.package_family_name) (fun i => rfl),
    instCollapse32 (·.package_family_name) (fun i => rfl),
    instCollapse31 (·.package_family_name) (fun i => rfl),
    instCollapse30 (·.package_family_name) (fun i => rfl),
    instCollapse29 (·.package_family_name) (fun i => rfl),
    instCollapse28 (·.package_family_name) (fun i => rfl),
    instCollapse27 (·.package_family_name) (fun i => rfl)]
  unfold instAfter26
  simp only [list_map_ite, List.map_map, Function.comp_def]
  rw [instCollapse25 (fun _ => (none : Option PackageFamilyName)) (fun i => rfl),
    instCollapse24 (fun _ => (none : Option PackageFamilyName)) (fun i => rfl),
    instCollapse23 (fun _ => (none : Option PackageFamilyName)) (fun i => rfl),
    instCollapse22 (fun _ => (none : Option PackageFamilyName)) (fun i => rfl),
    instCollapse21 (fun _ => (none : Option PackageFamilyName)) (fun i => rfl),
    instCollapse20 (fun _ => (none : Option PackageFamilyName)) (fun i => rfl),
    instCollapse19 (fun _ => (none : Option PackageFamilyName)) (fun i => rfl),
    instCollapse18 (fun _ => (none : Option PackageFamilyName)) (fun i => rfl),
    instCollapse17 (fun _ => (none : Option PackageFamilyName)) (fun i => rfl),
    instCollapse16 (fun _ => (none : Option PackageFamilyName)) (fun i => rfl),
    instCollapse15 (fun _ => (none : Option PackageFamilyName)) (fun i => rfl),
    instCollapse14 (fun _ => (none : Option PackageFamilyName)) (fun i => rfl),
    instCollapse13 (fun _ => (none : Option PackageFamilyName)) (fun i => rfl),
    instCollapse12 (fun _ => (none : Option PackageFamilyName)) (fun i => rfl),
    instCollapse11 (fun _ => (none : Option PackageFamilyName)) (fun i => rfl),
    instCollapse10 (fun _ => (none : Option PackageFamilyName)) (fun i => rfl),
    instCollapse09 (fun _ => (none : Option PackageFamilyName)) (fun i => rfl),
    instCollapse08 (fun _ => (none : Option PackageFamilyName)) (fun i => rfl),
    instCollapse07 (fun _ => (none : Option PackageFamilyName)) (fun i => rfl),
    instCollapse06 (fun _ => (none : Option PackageFamilyName)) (fun i => rfl),
    instCollapse05 (fun _ => (none : Option PackageFamilyName)) (fun i => rfl),
    instCollapse04 (fun _ => (none : Option PackageFamilyName)) (fun i => rfl),
    instCollapse03 (fun _ => (none : Option PackageFamilyName)) (fun i => rfl),
    instCollapse02 (fun _ => (none : Option PackageFamilyName)) (fun i => rfl),
    instCollapse01 (fun _ => (none : Option PackageFamilyName)) (fun i => rfl),
    instCollapse25 (·.package_family_name) (fun i => rfl),
    instCollapse24 (·.package_family_name) (fun i => rfl),
    instCollapse23 (·.package_family_name) (fun i => rfl),
    instCollapse22 (·.package_family_name) (fun i => rfl),
    instCollapse21 (·.package_family_name) (fun i => rfl),
    instCollapse20 (·.package_family_name) (fun i => rfl),
    instCollapse19 (·.package_family_name) (fun i => rfl),
    instCollapse18 (·.package_family_name) (fun i => rfl),
    instCollapse17 (·.package_family_name) (fun i => rfl),
    instCollapse16 (·.package_family_name) (fun i => rfl),
    instCollapse15 (·.package_family_name) (fun i => rfl),
    instCollapse14 (·.package_family_name) (fun i => rfl),
    instCollapse13 (·.package_family_name) (fun i => rfl),
    instCollapse12 (·.package_family_name) (fun i => rfl),
    instCollapse11 (·.package_family_name) (fun i => rfl),
    instCollapse10 (·.package_family_name) (fun i => rfl),
    instCollapse09 (·.package_family_name) (fun i => rfl),
    instCollapse08 (·.package_family_name) (fun i => rfl),
    instCollapse07 (·.package_family_name) (fun i => rfl),
    instCollapse06 (·.package_family_name) (fun i => rfl),
    instCollapse05 (·.package_family_name) (fun i => rfl),
    instCollapse04 (·.package_family_name) (fun i => rfl),
    instCollapse03 (·.package_family_name) (fun i => rfl),
    instCollapse02 (·.package_family_name) (fun i => rfl),
    instCollapse01 (·.package_family_name) (fun i => rfl),
    instAfter00_eq]

/-- Installer-level `product_code` values after the hoist pass: all reset to the
default when the hoist fired, untouched (positionally) otherwise. -/
theorem optI_product_code (m : InstallerManifest) :
    (m.optimizeFields).installers.map (·.product_code)
      = (if (allEqualValue (m.installers.map (·.product_code))).isSome
         then (m.installers.map (·.product_code)).map (fun _ => none)
         else m.installers.map (·.product_code)) := by
  rw [optimizeFields_installers]
  rw [instCollapse43 (·.product_code) (fun i => rfl),
    instCollapse42 (·.product_code) (fun i => rfl),
    instCollapse41 (·.product_code) (fun i => rfl),
    instCollapse40 (·.product_code) (fun i => rfl),
    instCollapse39 (·.product_code) (fun i => rfl),
    instCollapse38 (·.product_code) (fun i => rfl),
    instCollapse37 (·.product_code) (fun i => rfl),
    instCollapse36 (·.product_code) (fun i => rfl),
    instCollapse35 (·.product_code) (fun i => rfl),
    instCollapse34 (·.product_code) (fun i => rfl),
    instCollapse33 (·.product_code) (fun i => rfl),
    instCollapse32 (·.product_code) (fun i => rfl),
    instCollapse31 (·.product_code) (fun i => rfl),
    instCollapse30 (·.product_code) (fun i => rfl),
    instCollapse29 (·.product_code) (fun i => rfl),
    instCollapse28 (·.product_code) (fun i => rfl)]
  unfold instAfter27
  simp only [list_map_ite, List.map_map, Function.comp_def]
  rw [instCollapse26 (fun _ => (none : Option String)) (fun i => rfl),
    instCollapse25 (fun _ => (none : Option String)) (fun i => rfl),
    instCollapse24 (fun _ => (none : Option String)) (fun i => rfl),
    instCollapse23 (fun _ => (none : Option String)) (fun i => rfl),
    instCollapse22 (fun _ => (none : Option String)) (fun i => rfl),
    instCollapse21 (fun _ => (none : Option String)) (fun i => rfl),
    instCollapse20 (fun _ => (none : Option String)) (fun i => rfl),
    instCollapse19 (fun _ => (none : Option String)) (fun i => rfl),
    instCollapse18 (fun _ => (none : Option String)) (fun i => rfl),
    instCollapse17 (fun _ => (none : Option String)) (fun i => rfl),
    instCollapse16 (fun _ => (none : Option String)) (fun i => rfl),
    instCollapse15 (fun _ => (none : Option String)) (fun i => rfl),
    instCollapse14 (fun _ => (none : Option String)) (fun i => rfl),
    instCollapse13 (fun _ => (none : Option String)) (fun i => rfl),
    instCollapse12 (fun _ => (none : Option String)) (fun i => rfl),
    instCollapse11 (fun _ => (none : Option String)) (fun i => rfl),
    instCollapse10 (fun _ => (none : Option String)) (fun i => rfl),
    instCollapse09 (fun _ => (none : Option String)) (fun i => rfl),
    instCollapse08 (fun _ => (none : Option String)) (fun i => rfl),
    instCollapse07 (fun _ => (none : Option String)) (fun i => rfl),
    instCollapse06 (fun _ => (none : Option String)) (fun i => rfl),
    instCollapse05 (fun _ => (none : Option String)) (fun i => rfl),
    instCollapse04 (fun _ => (none : Option String)) (fun i => rfl),
    instCollapse03 (fun _ => (none : Option String)) (fun i => rfl),
    instCollapse02 (fun _ => (none : Option String)) (fun i => rfl),
    instCollapse01 (fun _ => (none : Option String)) (fun i => rfl),
    instCollapse26 (·.product_code) (fun i => rfl),
    instCollapse25 (·.product_code) (fun i => rfl),
    instCollapse24 (·.product_code) (fun i => rfl),
    instCollapse23 (·.product_code) (fun i => rfl),
    instCollapse22 (·.product_code) (fun i => rfl),
    instCollapse21 (·.product_code) (fun i => rfl),
    instCollapse20 (·.product_code) (fun i => rfl),
    instCollapse19 (·.product_code) (fun i => rfl),
    instCollapse18 (·.product_code) (fun i => rfl),
    instCollapse17 (·.product_code) (fun i => rfl),
    instCollapse16 (·.product_code) (fun i => rfl),
    instCollapse15 (·.product_code) (fun i => rfl),
    instCollapse14 (·.product_code) (fun i => rfl),
    instCollapse13 (·.product_code) (fun i => rfl),
    instCollapse12 (·.product_code) (fun i => rfl),
    instCollapse11 (·.product_code) (fun i => rfl),
    instCollapse10 (·.product_code) (fun i => rfl),
    instCollapse09 (·.product_code) (fun i => rfl),
    instCollapse08 (·.product_code) (fun i => rfl),
    instCollapse07 (·.product_code) (fun i => rfl),
    instCollapse06 (·.product_code) (fun i => rfl),
    instCollapse05 (·.product_code) (fun i => rfl),
    instCollapse04 (·.product_code) (fun i => rfl),
    instCollapse03 (·.product_code) (fun i => rfl),
    instCollapse02 (·.product_code) (fun i => rfl),
    instCollapse01 (·.product_code) (fun i => rfl),
    instAfter00_eq]

/-- Installer-level `capabilities` values after the hoist pass: all reset to the
default when the hoist fired, untouched (positionally) otherwise. -/
theorem optI_capabilities (m : InstallerManifest) :
    (m.optimizeFields).installers.map (·.capabilities)
      = (if (allEqualValue (m.installers.map (·.capabilities))).isSome
         then (m.installers.map (·.capabilities)).map (fun _ => [])
         else m.installers.map (·.capabilities)) := by
  rw [optimizeFields_installers]
  rw [instCollapse43 (·.capabilities) (fun i => rfl),
    instCollapse42 (·.capabilities) (fun i => rfl),
    instCollapse41 (·.capabilities) (fun i => rfl),
    instCollapse40 (·.capabilities) (fun i => rfl),
    instCollapse39 (·.capabilities) (fun i => rfl),
    instCollapse38 (·.capabilities) (fun i => rfl),
    instCollapse37 (·.capabilities) (fun i => rfl),
    instCollapse36 (·.capabilities) (fun i => rfl),
    instCollapse35 (·.capabilities) (fun i => rfl),
    instCollapse34 (·.capabilities) (fun i => rfl),
    instCollapse33 (·.capabilities) (fun i => rfl),
    instCollapse32 (·.capabilities) (fun i => rfl),
    instCollapse31 (·.capabilities) (fun i => rfl),
    instCollapse30 (·.capabilities) (fun i => rfl),
    instCollapse29 (·.capabilities) (fun i => rfl)]
  unfold instAfter28
  simp only [list_map_ite, List.map_map, Function.comp_def]
  rw [instCollapse27 (fun _ => ([] : List Capability)) (fun i => rfl),
    instCollapse26 (fun _ => ([] : List Capability)) (fun i => rfl),
    instCollapse25 (fun _ => ([] : List Capability)) (fun i => rfl),
    instCollapse24 (fun _ => ([] : List Capability)) (fun i => rfl),
    instCollapse23 (fun _ => ([] : List Capability)) (fun i => rfl),
    instCollapse22 (fun _ => ([] : List Capability)) (fun i => rfl),
    instCollapse21 (fun _ => ([] : List Capability)) (fun i => rfl),
    instCollapse20 (fun _ => ([] : List Capability)) (fun i => rfl),
    instCollapse19 (fun _ => ([] : List Capability)) (fun i => rfl),
    instCollapse18 (fun _ => ([] : List Capability)) (fun i => rfl),
    instCollapse17 (fun _ => ([] : List Capability)) (fun i => rfl),
    instCollapse16 (fun _ => ([] : List Capability)) (fun i => rfl),
    instCollapse15 (fun _ => ([] : List Capability)) (fun i => rfl),
    instCollapse14 (fun _ => ([] : List Capability)) (fun i => rfl),
    instCollapse13 (fun _ => ([] : List Capability)) (fun i => rfl),
    instCollapse12 (fun _ => ([] : List Capability)) (fun i => rfl),
    instCollapse11 (fun _ => ([] : List Capability)) (fun i => rfl),
    instCollapse10 (fun _ => ([] : List Capability)) (fun i => rfl),
    instCollapse09 (fun _ => ([] : List Capability)) (fun i => rfl),
    instCollapse08 (fun _ => ([] : List Capability)) (fun i => rfl),
    instCollapse07 (fun _ => ([] : List Capability)) (fun i => rfl),
    instCollapse06 (fun _ => ([] : List Capability)) (fun i => rfl),
    instCollapse05 (fun _ => ([] : List Capability)) (fun i => rfl),
    instCollapse04 (fun _ => ([] : List Capability)) (fun i => rfl),
    instCollapse03 (fun _ => ([] : List Capability)) (fun i => rfl),
    instCollapse02 (fun _ => ([] : List Capability)) (fun i => rfl),
    instCollapse01 (fun _ => ([] : List Capability)) (fun i => rfl),
    instCollapse27 (·.capabilities) (fun i => rfl),
    instCollapse26 (·.capabilities) (fun i => rfl),
    instCollapse25 (·.capabilities) (fun i => rfl),
    instCollapse24 (·.capabilities) (fun i => rfl),
    instCollapse23 (·.capabilities) (fun i => rfl),
    instCollapse22 (·.capabilities) (fun i => rfl),
    instCollapse21 (·.capabilities) (fun i => rfl),
    instCollapse20 (·.capabilities) (fun i => rfl),
    instCollapse19 (·.capabilities) (fun i => rfl),
    instCollapse18 (·.capabilities) (fun i => rfl),
    instCollapse17 (·.capabilities) (fun i => rfl),
    instCollapse16 (·.capabilities) (fun i => rfl),
    instCollapse15 (·.capabilities) (fun i => rfl),
    instCollapse14 (·.capabilities) (fun i => rfl),
    instCollapse13 (·.capabilities) (fun i => rfl),
    instCollapse12 (·.capabilities) (fun i => rfl),
    instCollapse11 (·.capabilities) (fun i => rfl),
    instCollapse10 (·.capabilities) (fun i => rfl),
    instCollapse09 (·.capabilities) (fun i => rfl),
    instCollapse08 (·.capabilities) (fun i => rfl),
    instCollapse07 (·.capabilities) (fun i => rfl),
    instCollapse06 (·.capabilities) (fun i => rfl),
    instCollapse05 (·.capabilities) (fun i => rfl),
    instCollapse04 (·.capabilities) (fun i => rfl),
    instCollapse03 (·.capabilities) (fun i => rfl),
    instCollapse02 (·.capabilities) (fun i => rfl),
    instCollapse01 (·.capabilities) (fun i => rfl),
    instAfter00_eq]

/-- Installer-level `restricted_capabilities` values after the hoist pass: all reset to the
default when the hoist fired, untouched (positionally) otherwise. -/
theorem optI_restricted_capabilities (m : InstallerManifest) :
    (m.optimizeFields).installers.map (·.restricted_capabilities)
      = (if (allEqualValue (m.installers.map (·.restricted_capabilities))).isSome
         then (m.installers.map (·.restricted_capabilities)).map (fun _ => [])
         else m.installers.map (·.restricted_capabilities)) := by
  rw [optimizeFields_installers]
  rw [instCollapse43 (·.restricted_capabilities) (fun i => rfl),
    instCollapse42 (·.restricted_capabilities) (fun i => rfl),
    instCollapse41 (·.restricted_capabilities) (fun i => rfl),
    instCollapse40 (·.restricted_capabilities) (fun i => rfl),
    instCollapse39 (·.restricted_capabilities) (fun i => rfl),
    instCollapse38 (·.restricted_capabilities) (fun i => rfl),
    instCollapse37 (·.restricted_capabilities) (fun i => rfl),
    instCollapse36 (·.restricted_capabilities) (fun i => rfl),
    instCollapse35 (·.restricted_capabilities) (fun i => rfl),
    instCollapse34 (·.restricted_capabilities) (fun i => rfl),
    instCollapse33 (·.restricted_capabilities) (fun i => rfl),
    instCollapse32 (·.restricted_capabilities) (fun i => rfl),
    instCollapse31 (·.restricted_capabilities) (fun i => rfl),
    instCollapse30 (·.restricted_capabilities) (fun i => rfl)]
  unfold instAfter29
  simp only [list_map_ite, List.map_map, Function.comp_def]
  rw [instCollapse28 (fun _ => ([] : List RestrictedCapability)) (fun i => rfl),
    instCollapse27 (fun _ => ([] : List RestrictedCapability)) (fun i => rfl),
    instCollapse26 (fun _ => ([] : List RestrictedCapability)) (fun i => rfl),
    instCollapse25 (fun _ => ([] : List RestrictedCapability)) (fun i => rfl),
    instCollapse24 (fun _ => ([] : List RestrictedCapability)) (fun i => rfl),
    instCollapse23 (fun _ => ([] : List RestrictedCapability)) (fun i => rfl),
    instCollapse22 (fun _ => ([] : List RestrictedCapability)) (fun i => rfl),
    instCollapse21 (fun _ => ([] : List RestrictedCapability)) (fun i => rfl),
    instCollapse20 (fun _ => ([] : List RestrictedCapability)) (fun i => rfl),
    instCollapse19 (fun _ => ([] : List RestrictedCapability)) (fun i => rfl),
    instCollapse18 (fun _ => ([] : List RestrictedCapability)) (fun i => rfl),
    instCollapse17 (fun _ => ([] : List RestrictedCapability)) (fun i => rfl),
    instCollapse16 (fun _ => ([] : List RestrictedCapability)) (fun i => rfl),
    instCollapse15 (fun _ => ([] : List RestrictedCapability)) (fun i => rfl),
    instCollapse14 (fun _ => ([] : List RestrictedCapability)) (fun i => rfl),
    instCollapse13 (fun _ => ([] : List RestrictedCapability)) (fun i => rfl),
    instCollapse12 (fun _ => ([] : List RestrictedCapability)) (fun i => rfl),
    instCollapse11 (fun _ => ([] : List RestrictedCapability)) (fun i => rfl),
    instCollapse10 (fun _ => ([] : List RestrictedCapability)) (fun i => rfl),
    instCollapse09 (fun _ => ([] : List RestrictedCapability)) (fun i => rfl),
    instCollapse08 (fun _ => ([] : List RestrictedCapability)) (fun i => rfl),
    instCollapse07 (fun _ => ([] : List RestrictedCapability)) (fun i => rfl),
    instCollapse06 (fun _ => ([] : List RestrictedCapability)) (fun i => rfl),
    instCollapse05 (fun _ => ([] : List RestrictedCapability)) (fun i => rfl),
    instCollapse04 (fun _ => ([] : List RestrictedCapability)) (fun i => rfl),
    instCollapse03 (fun _ => ([] : List RestrictedCapability)) (fun i => rfl),
    instCollapse02 (fun _ => ([] : List RestrictedCapability)) (fun i => rfl),
    instCollapse01 (fun _ => ([] : List RestrictedCapability)) (fun i => rfl),
    instCollapse28 (·.restricted_capabilities) (fun i => rfl),
    instCollapse27 (·.restricted_capabilities) (fun i => rfl),
    instCollapse26 (·.restricted_capabilities) (fun i => rfl),
    instCollapse25 (·.restricted_capabilities) (fun i => rfl),
    instCollapse24 (·.restricted_capabilities) (fun i => rfl),
    instCollapse23 (·.restricted_capabilities) (fun i => rfl),
    instCollapse22 (·.restricted_capabilities) (fun i => rfl),
    instCollapse21 (·.restricted_capabilities) (fun i => rfl),
    instCollapse20 (·.restricted_capabilities) (fun i => rfl),
    instCollapse19 (·.restricted_capabilities) (fun i => rfl),
    instCollapse18 (·.restricted_capabilities) (fun i => rfl),
    instCollapse17 (·.restricted_capabilities) (fun i => rfl),
    instCollapse16 (·.restricted_capabilities) (fun i => rfl),
    instCollapse15 (·.restricted_capabilities) (fun i => rfl),
    instCollapse14 (·.restricted_capabilities) (fun i => rfl),
    instCollapse13 (·.restricted_capabilities) (fun i => rfl),
    instCollapse12 (·.restricted_capabilities) (fun i => rfl),
    instCollapse11 (·.restricted_capabilities) (fun i => rfl),
    instCollapse10 (·.restricted_capabilities) (fun i => rfl),
    instCollapse09 (·.restricted_capabilities) (fun i => rfl),
    instCollapse08 (·.restricted_capabilities) (fun i => rfl),
    instCollapse07 (·.restricted_capabilities) (fun i => rfl),
    instCollapse06 (·.restricted_capabilities) (fun i => rfl),
    instCollapse05 (·.restricted_capabilities) (fun i => rfl),
    instCollapse04 (·.restricted_capabilities) (fun i => rfl),
    instCollapse03 (·.restricted_capabilities) (fun i => rfl),
    instCollapse02 (·.restricted_capabilities) (fun i => rfl),
    instCollapse01 (·.restricted_capabilities) (fun i => rfl),
    instAfter00_eq]

/-- Installer-level `markets` values after the hoist pass: all reset to the
default when the hoist fired, untouched (positionally) otherwise. -/
theorem optI_markets (m : InstallerManifest) :
    (m.optimizeFields).installers.map (·.markets)
      = (if (allEqualValue (m.installers.map (·.markets))).isSome
         then (m.installers.map (·.markets)).map (fun _ => none)
         else m.installers.map (·.markets)) := by
  rw [optimizeFields_installers]
  rw [instCollapse43 (·.markets) (fun i => rfl),
    instCollapse42 (·.markets) (fun i => rfl),
    instCollapse41 (·.markets) (fun i => rfl),
    instCollapse40 (·.markets) (fun i => rfl),
    instCollapse39 (·.markets) (fun i => rfl),
    instCollapse38 (·.markets) (fun i => rfl),
    instCollapse37 (·.markets) (fun i => rfl),
    instCollapse36 (·.markets) (fun i => rfl),
    instCollapse35 (·.markets) (fun i => rfl),
    instCollapse34 (·.markets) (fun i => rfl),
    instCollapse33 (·.markets) (fun i => rfl),
    instCollapse32 (·.markets) (fun i => rfl),
    instCollapse31 (·.markets) (fun i => rfl)]
  unfold instAfter30
  simp only [list_map_ite, List.map_map, Function.comp_def]
  rw [instCollapse29 (fun _ => (none : Option Markets)) (fun i => rfl),
    instCollapse28 (fun _ => (none : Option Markets)) (fun i => rfl),
    instCollapse27 (fun _ => (none : Option Markets)) (fun i => rfl),
    instCollapse26 (fun _ => (none : Option Markets)) (fun i => rfl),
    instCollapse25 (fun _ => (none : Option Markets)) (fun i => rfl),
    instCollapse24 (fun _ => (none : Option Markets)) (fun i => rfl),
    instCollapse23 (fun _ => (none : Option Markets)) (fun i => rfl),
    instCollapse22 (fun _ => (none : Option Markets)) (fun i => rfl),
    instCollapse21 (fun _ => (none : Option Markets)) (fun i => rfl),
    instCollapse20 (fun _ => (none : Option Markets)) (fun i => rfl),
    instCollapse19 (fun _ => (none : Option Markets)) (fun i => rfl),
    instCollapse18 (fun _ => (none : Option Markets)) (fun i => rfl),
    instCollapse17 (fun _ => (none : Option Markets)) (fun i => rfl),
    instCollapse16 (fun _ => (none : Option Markets)) (fun i => rfl),
    instCollapse15 (fun _ => (none : Option Markets)) (fun i => rfl),
    instCollapse14 (fun _ => (none : Option Markets)) (fun i => rfl),
    instCollapse13 (fun _ => (none : Option Markets)) (fun i => rfl),
    instCollapse12 (fun _ => (none : Option Markets)) (fun i => rfl),
    instCollapse11 (fun _ => (none : Option Markets)) (fun i => rfl),
    instCollapse10 (fun _ => (none : Option Markets)) (fun i => rfl),
    instCollapse09 (fun _ => (none : Option Markets)) (fun i => rfl),
    instCollapse08 (fun _ => (none : Option Markets)) (fun i => rfl),
    instCollapse07 (fun _ => (none : Option Markets)) (fun i => rfl),
    instCollapse06 (fun _ => (none : Option Markets)) (fun i => rfl),
    instCollapse05 (fun _ => (none : Option Markets)) (fun i => rfl),
    instCollapse04 (fun _ => (none : Option Markets)) (fun i => rfl),
    instCollapse03 (fun _ => (none : Option Markets)) (fun i => rfl),
    instCollapse02 (fun _ => (none : Option Markets)) (fun i => rfl),
    instCollapse01 (fun _ => (none : Option Markets)) (fun i => rfl),
    instCollapse29 (·.markets) (fun i => rfl),
    instCollapse28 (·.markets) (fun i => rfl),
    instCollapse27 (·.markets) (fun i => rfl),
    instCollapse26 (·.markets) (fun i => rfl),
    instCollapse25 (·.markets) (fun i => rfl),
    instCollapse24 (·.markets) (fun i => rfl),
    instCollapse23 (·.markets) (fun i => rfl),
    instCollapse22 (·.markets) (fun i => rfl),
    instCollapse21 (·.markets) (fun i => rfl),
    instCollapse20 (·.markets) (fun i => rfl),
    instCollapse19 (·.markets) (fun i => rfl),
    instCollapse18 (·.markets) (fun i => rfl),
    instCollapse17 (·.markets) (fun i => rfl),
    instCollapse16 (·.markets) (fun i => rfl),
    instCollapse15 (·.markets) (fun i => rfl),
    instCollapse14 (·.markets) (fun i => rfl),
    instCollapse13 (·.markets) (fun i => rfl),
    instCollapse12 (·.markets) (fun i => rfl),
    instCollapse11 (·.markets) (fun i => rfl),
    instCollapse10 (·.markets) (fun i => rfl),
    instCollapse09 (·.markets) (fun i => rfl),
    instCollapse08 (·.markets) (fun i => rfl),
    instCollapse07 (·.markets) (fun i => rfl),
    instCollapse06 (·.markets) (fun i => rfl),
    instCollapse05 (·.markets) (fun i => rfl),
    instCollapse04 (·.markets) (fun i => rfl),
    instCollapse03 (·.markets) (fun i => rfl),
    instCollapse02 (·.markets) (fun i => rfl),
    instCollapse01 (·.markets) (fun i => rfl),
    instAfter00_eq]

/-- Installer-level `aborts_terminal` values after the hoist pass: all reset to the
default when the hoist fired, untouched (positionally) otherwise. -/
theorem optI_aborts_terminal (m : InstallerManifest) :
    (m.optimizeFields).installers.map (·.aborts_terminal)
      = (if (allEqualValue (m.installers.map (·.aborts_terminal))).isSome
         then (m.installers.map (·.aborts_terminal)).map (fun _ => false)
         else m.installers.map (·.aborts_terminal)) := by
  rw [optimizeFields_installers]
  rw [instCollapse43 (·.aborts_terminal) (fun i => rfl),
    instCollapse42 (·.aborts_terminal) (fun i => rfl),
    instCollapse41 (·.aborts_terminal) (fun i => rfl),
    instCollapse40 (·.aborts_terminal) (fun i => rfl),
    instCollapse39 (·.aborts_terminal) (fun i => rfl),
    instCollapse38 (·.aborts_terminal) (fun i => rfl),
    instCollapse37 (·.aborts_terminal) (fun i => rfl),
    instCollapse36 (·.aborts_terminal) (fun i => rfl),
    instCollapse35 (·.aborts_terminal) (fun i => rfl),
    instCollapse34 (·.aborts_terminal) (fun i => rfl),
    instCollapse33 (·.aborts_terminal) (fun i => rfl),
    instCollapse32 (·.aborts_terminal) (fun i => rfl)]
  unfold instAfter31
  simp only [list_map_ite, List.map_map, Function.comp_def]
  rw [instCollapse30 (fun _ => (false : Bool)) (fun i => rfl),
    instCollapse29 (fun _ => (false : Bool)) (fun i => rfl),
    instCollapse28 (fun _ => (false : Bool)) (fun i => rfl),
    instCollapse27 (fun _ => (false : Bool)) (fun i => rfl),
    instCollapse26 (fun _ => (false : Bool)) (fun i => rfl),
    instCollapse25 (fun _ => (false : Bool)) (fun i => rfl),
    instCollapse24 (fun _ => (false : Bool)) (fun i => rfl),
    instCollapse23 (fun _ => (false : Bool)) (fun i => rfl),
    instCollapse22 (fun _ => (false : Bool)) (fun i => rfl),
    instCollapse21 (fun _ => (false : Bool)) (fun i => rfl),
    instCollapse20 (fun _ => (false : Bool)) (fun i => rfl),
    instCollapse19 (fun _ => (false : Bool)) (fun i => rfl),
    instCollapse18 (fun _ => (false : Bool)) (fun i => rfl),
    instCollapse17 (fun _ => (false : Bool)) (fun i => rfl),
    instCollapse16 (fun _ => (false : Bool)) (fun i => rfl),
    instCollapse15 (fun _ => (false : Bool)) (fun i => rfl),
    instCollapse14 (fun _ => (false : Bool)) (fun i => rfl),
    instCollapse13 (fun _ => (false : Bool)) (fun i => rfl),
    instCollapse12 (fun _ => (false : Bool)) (fun i => rfl),
    instCollapse11 (fun _ => (false : Bool)) (fun i => rfl),
    instCollapse10 (fun _ => (false : Bool)) (fun i => rfl),
    instCollapse09 (fun _ => (false : Bool)) (fun i => rfl),
    instCollapse08 (fun _ => (false : Bool)) (fun i => rfl),
    instCollapse07 (fun _ => (false : Bool)) (fun i => rfl),
    instCollapse06 (fun _ => (false : Bool)) (fun i => rfl),
    instCollapse05 (fun _ => (false : Bool)) (fun i => rfl),
    instCollapse04 (fun _ => (false : Bool)) (fun i => rfl),
    instCollapse03 (fun _ => (false : Bool)) (fun i => rfl),
    instCollapse02 (fun _ => (false : Bool)) (fun i => rfl),
    instCollapse01 (fun _ => (false : Bool)) (fun i => rfl),
    instCollapse30 (·.aborts_terminal) (fun i => rfl),
    instCollapse29 (·.aborts_terminal) (fun i => rfl),
    instCollapse28 (·.aborts_terminal) (fun i => rfl),
    instCollapse27 (·.aborts_terminal) (fun i => rfl),
    instCollapse26 (·.aborts_terminal) (fun i => rfl),
    instCollapse25 (·.aborts_terminal) (fun i => rfl),
    instCollapse24 (·.aborts_terminal) (fun i => rfl),
    instCollapse23 (·.aborts_terminal) (fun i => rfl),
    instCollapse22 (·.aborts_terminal) (fun i => rfl),
    instCollapse21 (·.aborts_terminal) (fun i => rfl),
    instCollapse20 (·.aborts_terminal) (fun i => rfl),
    instCollapse19 (·.aborts_terminal) (fun i => rfl),
    instCollapse18 (·.aborts_terminal) (fun i => rfl),
    instCollapse17 (·.aborts_terminal) (fun i => rfl),
    instCollapse16 (·.aborts_terminal) (fun i => rfl),
    instCollapse15 (·.aborts_terminal) (fun i => rfl),
    instCollapse14 (·.aborts_terminal) (fun i => rfl),
    instCollapse13 (·.aborts_terminal) (fun i => rfl),
    instCollapse12 (·.aborts_terminal) (fun i => rfl),
    instCollapse11 (·.aborts_terminal) (fun i => rfl),
    instCollapse10 (·.aborts_terminal) (fun i => rfl),
    instCollapse09 (·.aborts_terminal) (fun i => rfl),
    instCollapse08 (·.aborts_terminal) (fun i => rfl),
    instCollapse07 (·.aborts_terminal) (fun i => rfl),
    instCollapse06 (·.aborts_terminal) (fun i => rfl),
    instCollapse05 (·.aborts_terminal) (fun i => rfl),
    instCollapse04 (·.aborts_terminal) (fun i => rfl),
    instCollapse03 (·.aborts_terminal) (fun i => rfl),
    instCollapse02 (·.aborts_terminal) (fun i => rfl),
    instCollapse01 (·.aborts_terminal) (fun i => rfl),
    instAfter00_eq]

/-- Installer-level `release_date` values after the hoist pass: all reset to the
default when the hoist fired, untouched (positionally) otherwise. -/
theorem optI_release_date (m : InstallerManifest) :
    (m.optimizeFields).installers.map (·.release_date)
      = (if (allEqualValue (m.installers.map (·.release_date))).isSome
         then (m.installers.map (·.release_date)).map (fun _ => none)
         else m.installers.map (·.release_date)) := by
  rw [optimizeFields_installers]
  rw [instCollapse43 (·.release_date) (fun i => rfl),
    instCollapse42 (·.release_date) (fun i => rfl),
    instCollapse41 (·.release_date) (fun i => rfl),
    instCollapse40 (·.release_date) (fun i => rfl),
    instCollapse39 (·.release_date) (fun i => rfl),
    instCollapse38 (·.release_date) (fun i => rfl),
    instCollapse37 (·.release_date) (fun i => rfl),
    instCollapse36 (·.release_date) (fun i => rfl),
    instCollapse35 (·.release_date) (fun i => rfl),
    instCollapse34 (·.release_date) (fun i => rfl),
    instCollapse33 (·.release_date) (fun i => rfl)]
  unfold instAfter32
  simp only [list_map_ite, List.map_map, Function.comp_def]
  rw [instCollapse31 (fun _ => (none : Option NaiveDate)) (fun i => rfl),
    instCollapse30 (fun _ => (none : Option NaiveDate)) (fun i => rfl),
    instCollapse29 (fun _ => (none : Option NaiveDate)) (fun i => rfl),
    instCollapse28 (fun _ => (none : Option NaiveDate)) (fun i => rfl),
    instCollapse27 (fun _ => (none : Option NaiveDate)) (fun i => rfl),
    instCollapse26 (fun _ => (none : Option NaiveDate)) (fun i => rfl),
    instCollapse25 (fun _ => (none : Option NaiveDate)) (fun i => rfl),
    instCollapse24 (fun _ => (none : Option NaiveDate)) (fun i => rfl),
    instCollapse23 (fun _ => (none : Option NaiveDate)) (fun i => rfl),
    instCollapse22 (fun _ => (none : Option NaiveDate)) (fun i => rfl),
    instCollapse21 (fun _ => (none : Option NaiveDate)) (fun i => rfl),
    instCollapse20 (fun _ => (none : Option NaiveDate)) (fun i => rfl),
    instCollapse19 (fun _ => (none : Option NaiveDate)) (fun i => rfl),
    instCollapse18 (fun _ => (none : Option NaiveDate)) (fun i => rfl),
    instCollapse17 (fun _ => (none : Option NaiveDate)) (fun i => rfl),
    instCollapse16 (fun _ => (none : Option NaiveDate)) (fun i => rfl),
    instCollapse15 (fun _ => (none : Option NaiveDate)) (fun i => rfl),
    instCollapse14 (fun _ => (none : Option NaiveDate)) (fun i => rfl),
    instCollapse13 (fun _ => (none : Option NaiveDate)) (fun i => rfl),
    instCollapse12 (fun _ => (none : Option NaiveDate)) (fun i => rfl),
    instCollapse11 (fun _ => (none : Option NaiveDate)) (fun i => rfl),
    instCollapse10 (fun _ => (none : Option NaiveDate)) (fun i => rfl),
    instCollapse09 (fun _ => (none : Option NaiveDate)) (fun i => rfl),
    instCollapse08 (fun _ => (none : Option NaiveDate)) (fun i => rfl),
    instCollapse07 (fun _ => (none : Option NaiveDate)) (fun i => rfl),
    instCollapse06 (fun _ => (none : Option NaiveDate)) (fun i => rfl),
    instCollapse05 (fun _ => (none : Option NaiveDate)) (fun i => rfl),
    instCollapse04 (fun _ => (none : Option NaiveDate)) (fun i => rfl),
    instCollapse03 (fun _ => (none : Option NaiveDate)) (fun i => rfl),
    instCollapse02 (fun _ => (none : Option NaiveDate)) (fun i => rfl),
    instCollapse01 (fun _ => (none : Option NaiveDate)) (fun i => rfl),
    instCollapse31 (·.release_date) (fun i => rfl),
    instCollapse30 (·.release_date) (fun i => rfl),
    instCollapse29 (·.release_date) (fun i => rfl),
    instCollapse28 (·.release_date) (fun i => rfl),
    instCollapse27 (·.release_date) (fun i => rfl),
    instCollapse26 (·.release_date) (fun i => rfl),
    instCollapse25 (·.release_date) (fun i => rfl),
    instCollapse24 (·.release_date) (fun i => rfl),
    instCollapse23 (·.release_date) (fun i => rfl),
    instCollapse22 (·.release_date) (fun i => rfl),
    instCollapse21 (·.release_date) (fun i => rfl),
    instCollapse20 (·.release_date) (fun i => rfl),
    instCollapse19 (·.release_date) (fun i => rfl),
    instCollapse18 (·.release_date) (fun i => rfl),
    instCollapse17 (·.release_date) (fun i => rfl),
    instCollapse16 (·.release_date) (fun i => rfl),
    instCollapse15 (·.release_date) (fun i => rfl),
    instCollapse14 (·.release_date) (fun i => rfl),
    instCollapse13 (·.release_date) (fun i => rfl),
    instCollapse12 (·.release_date) (fun i => rfl),
    instCollapse11 (·.release_date) (fun i => rfl),
    instCollapse10 (·.release_date) (fun i => rfl),
    instCollapse09 (·.release_date) (fun i => rfl),
    instCollapse08 (·.release_date) (fun i => rfl),
    instCollapse07 (·.release_date) (fun i => rfl),
    instCollapse06 (·.release_date) (fun i => rfl),
    instCollapse05 (·.release_date) (fun i => rfl),
    instCollapse04 (·.release_date) (fun i => rfl),
    instCollapse03 (·.release_date) (fun i => rfl),
    instCollapse02 (·.release_date) (fun i => rfl),
    instCollapse01 (·.release_date) (fun i => rfl),
    instAfter00_eq]

/-- Installer-level `install_location_required` values after the hoist pass: all reset to the
default when the hoist fired, untouched (positionally) otherwise. -/
theorem optI_install_location_required (m : InstallerManifest) :
    (m.optimizeFields).installers.map (·.install_location_required)
      = (if (allEqualValue (m.installers.map (·.install_location_required))).isSome
         then (m.installers.map (·.install_location_required)).map (fun _ => false)
         else m.installers.map (·.install_location_required)) := by
  rw [optimizeFields_installers]
  rw [instCollapse43 (·.install_location_required) (fun i => rfl),
    instCollapse42 (·.install_location_required) (fun i => rfl),
    instCollapse41 (·.install_location_required) (fun i => rfl),
    instCollapse40 (·.install_location_required) (fun i => rfl),
    instCollapse39 (·.install_location_required) (fun i => rfl),
    instCollapse38 (·.install_location_required) (fun i => rfl),
    instCollapse37 (·.install_location_required) (fun i => rfl),
    instCollapse36 (·.install_location_required) (fun i => rfl),
    instCollapse35 (·.install_location_required) (fun i => rfl),
    instCollapse34 (·.install_location_required) (fun i => rfl)]
  unfold instAfter33
  simp only [list_map_ite, List.map_map, Function.comp_def]
  rw [instCollapse32 (fun _ => (false : Bool)) (fun i => rfl),
    instCollapse31 (fun _ => (false : Bool)) (fun i => rfl),
    instCollapse30 (fun _ => (false : Bool)) (fun i => rfl),
    instCollapse29 (fun _ => (false : Bool)) (fun i => rfl),
    instCollapse28 (fun _ => (false : Bool)) (fun i => rfl),
    instCollapse27 (fun _ => (false : Bool)) (fun i => rfl),
    instCollapse26 (fun _ => (false : Bool)) (fun i => rfl),
    instCollapse25 (fun _ => (false : Bool)) (fun i => rfl),
    instCollapse24 (fun _ => (false : Bool)) (fun i => rfl),
    instCollapse23 (fun _ => (false : Bool)) (fun i => rfl),
    instCollapse22 (fun _ => (false : Bool)) (fun i => rfl),
    instCollapse21 (fun _ => (false : Bool)) (fun i => rfl),
    instCollapse20 (fun _ => (false : Bool)) (fun i => rfl),
    instCollapse19 (fun _ => (false : Bool)) (fun i => rfl),
    instCollapse18 (fun _ => (false : Bool)) (fun i => rfl),
    instCollapse17 (fun _ => (false : Bool)) (fun i => rfl),
    instCollapse16 (fun _ => (false : Bool)) (fun i => rfl),
    instCollapse15 (fun _ => (false : Bool)) (fun i => rfl),
    instCollapse14 (fun _ => (false : Bool)) (fun i => rfl),
    instCollapse13 (fun _ => (false : Bool)) (fun i => rfl),
    instCollapse12 (fun _ => (false : Bool)) (fun i => rfl),
    instCollapse11 (fun _ => (false : Bool)) (fun i => rfl),
    instCollapse10 (fun _ => (false : Bool)) (fun i => rfl),
    instCollapse09 (fun _ => (false : Bool)) (fun i => rfl),
    instCollapse08 (fun _ => (false : Bool)) (fun i => rfl),
    instCollapse07 (fun _ => (false : Bool)) (fun i => rfl),
    instCollapse06 (fun _ => (false : Bool)) (fun i => rfl),
    instCollapse05 (fun _ => (false : Bool)) (fun i => rfl),
    instCollapse04 (fun _ => (false : Bool)) (fun i => rfl),
    instCollapse03 (fun _ => (false : Bool)) (fun i => rfl),
    instCollapse02 (fun _ => (false : Bool)) (fun i => rfl),
    instCollapse01 (fun _ => (false : Bool)) (fun i => rfl),
    instCollapse32 (·.install_location_required) (fun i => rfl),
    instCollapse31 (·.install_location_required) (fun i => rfl),
    instCollapse30 (·.install_location_required) (fun i => rfl),
    instCollapse29 (·.install_location_required) (fun i => rfl),
    instCollapse28 (·.install_location_required) (fun i => rfl),
    instCollapse27 (·.install_location_required) (fun i => rfl),
    instCollapse26 (·.install_location_required) (fun i => rfl),
    instCollapse25 (·.install_location_required) (fun i => rfl),
    instCollapse24 (·.install_location_required) (fun i => rfl),
    instCollapse23 (·.install_location_required) (fun i => rfl),
    instCollapse22 (·.install_location_required) (fun i => rfl),
    instCollapse21 (·.install_location_required) (fun i => rfl),
    instCollapse20 (·.install_location_required) (fun i => rfl),
    instCollapse19 (·.install_location_required) (fun i => rfl),
    instCollapse18 (·.install_location_required) (fun i => rfl),
    instCollapse17 (·.install_location_required) (fun i => rfl),
    instCollapse16 (·.install_location_required) (fun i => rfl),
    instCollapse15 (·.install_location_required) (fun i => rfl),
    instCollapse14 (·.install_location_required) (fun i => rfl),
    instCollapse13 (·.install_location_required) (fun i => rfl),
    instCollapse12 (·.install_location_required) (fun i => rfl),
    instCollapse11 (·.install_location_required) (fun i => rfl),
    instCollapse10 (·.install_location_required) (fun i => rfl),
    instCollapse09 (·.install_location_required) (fun i => rfl),
    instCollapse08 (·.install_location_required) (fun i => rfl),
    instCollapse07 (·.install_location_required) (fun i => rfl),
    instCollapse06 (·.install_location_required) (fun i => rfl),
    instCollapse05 (·.install_location_required) (fun i => rfl),
    instCollapse04 (·.install_location_required) (fun i => rfl),
    instCollapse03 (·.install_location_required) (fun i => rfl),
    instCollapse02 (·.install_location_required) (fun i => rfl),
    instCollapse01 (·.install_location_required) (fun i => rfl),
    instAfter00_eq]

/-- Installer-level `require_explicit_upgrade` values after the hoist pass: all reset to the
default when the hoist fired, untouched (positionally) otherwise. -/
theorem optI_require_explicit_upgrade (m : InstallerManifest) :
    (m.optimizeFields).installers.map (·.require_explicit_upgrade)
      = (if (allEqualValue (m.installers.map (·.require_explicit_upgrade))).isSome
         then (m.installers.map (·.require_explicit_upgrade)).map (fun _ => false)
         else m.installers.map (·.require_explicit_upgrade)) := by
  rw [optimizeFields_installers]
  rw [instCollapse43 (·.require_explicit_upgrade) (fun i => rfl),
    instCollapse42 (·.require_explicit_upgrade) (fun i => rfl),
    instCollapse41 (·.require_explicit_upgrade) (fun i => rfl),
    instCollapse40 (·.require_explicit_upgrade) (fun i => rfl),
    instCollapse39 (·.require_explicit_upgrade) (fun i => rfl),
    instCollapse38 (·.require_explicit_upgrade) (fun i => rfl),
    instCollapse37 (·.require_explicit_upgrade) (fun i => rfl),
    instCollapse36 (·.require_explicit_upgrade) (fun i => rfl),
    instCollapse35 (·.require_explicit_upgrade) (fun i => rfl)]
  unfold instAfter34
  simp only [list_map_ite, List.map_map, Function.comp_def]
  rw [instCollapse33 (fun _ => (false : Bool)) (fun i => rfl),
    instCollapse32 (fun _ => (false : Bool)) (fun i => rfl),
    instCollapse31 (fun _ => (false : Bool)) (fun i => rfl),
    instCollapse30 (fun _ => (false : Bool)) (fun i => rfl),
    instCollapse29 (fun _ => (false : Bool)) (fun i => rfl),
    instCollapse28 (fun _ => (false : Bool)) (fun i => rfl),
    instCollapse27 (fun _ => (false : Bool)) (fun i => rfl),
    instCollapse26 (fun _ => (false : Bool)) (fun i => rfl),
    instCollapse25 (fun _ => (false : Bool)) (fun i => rfl),
    instCollapse24 (fun _ => (false : Bool)) (fun i => rfl),
    instCollapse23 (fun _ => (false : Bool)) (fun i => rfl),
    instCollapse22 (fun _ => (false : Bool)) (fun i => rfl),
    instCollapse21 (fun _ => (false : Bool)) (fun i => rfl),
    instCollapse20 (fun _ => (false : Bool)) (fun i => rfl),
    instCollapse19 (fun _ => (false : Bool)) (fun i => rfl),
    instCollapse18 (fun _ => (false : Bool)) (fun i => rfl),
    instCollapse17 (fun _ => (false : Bool)) (fun i => rfl),
    instCollapse16 (fun _ => (false : Bool)) (fun i => rfl),
    instCollapse15 (fun _ => (false : Bool)) (fun i => rfl),
    instCollapse14 (fun _ => (false : Bool)) (fun i => rfl),
    instCollapse13 (fun _ => (false : Bool)) (fun i => rfl),
    instCollapse12 (fun _ => (false : Bool)) (fun i => rfl),
    instCollapse11 (fun _ => (false : Bool)) (fun i => rfl),
    instCollapse10 (fun _ => (false : Bool)) (fun i => rfl),
    instCollapse09 (fun _ => (false : Bool)) (fun i => rfl),
    instCollapse08 (fun _ => (false : Bool)) (fun i => rfl),
    instCollapse07 (fun _ => (false : Bool)) (fun i => rfl),
    instCollapse06 (fun _ => (false : Bool)) (fun i => rfl),
    instCollapse05 (fun _ => (false : Bool)) (fun i => rfl),
    instCollapse04 (fun _ => (false : Bool)) (fun i => rfl),
    instCollapse03 (fun _ => (false : Bool)) (fun i => rfl),
    instCollapse02 (fun _ => (false : Bool)) (fun i => rfl),
    instCollapse01 (fun _ => (false : Bool)) (fun i => rfl),
    instCollapse33 (·.require_explicit_upgrade) (fun i => rfl),
    instCollapse32 (·.require_explicit_upgrade) (fun i => rfl),
    instCollapse31 (·.require_explicit_upgrade) (fun i => rfl),
    instCollapse30 (·.require_explicit_upgrade) (fun i => rfl),
    instCollapse29 (·.require_explicit_upgrade) (fun i => rfl),
    instCollapse28 (·.require_explicit_upgrade) (fun i => rfl),
    instCollapse27 (·.require_explicit_upgrade) (fun i => rfl),
    instCollapse26 (·.require_explicit_upgrade) (fun i => rfl),
    instCollapse25 (·.require_explicit_upgrade) (fun i => rfl),
    instCollapse24 (·.require_explicit_upgrade) (fun i => rfl),
    instCollapse23 (·.require_explicit_upgrade) (fun i => rfl),
    instCollapse22 (·.require_explicit_upgrade) (fun i => rfl),
    instCollapse21 (·.require_explicit_upgrade) (fun i => rfl),
    instCollapse20 (·.require_explicit_upgrade) (fun i => rfl),
    instCollapse19 (·.require_explicit_upgrade) (fun i => rfl),
    instCollapse18 (·.require_explicit_upgrade) (fun i => rfl),
    instCollapse17 (·.require_explicit_upgrade) (fun i => rfl),
    instCollapse16 (·.require_explicit_upgrade) (fun i => rfl),
    instCollapse15 (·.require_explicit_upgrade) (fun i => rfl),
    instCollapse14 (·.require_explicit_upgrade) (fun i => rfl),
    instCollapse13 (·.require_explicit_upgrade) (fun i => rfl),
    instCollapse12 (·.require_explicit_upgrade) (fun i => rfl),
    instCollapse11 (·.require_explicit_upgrade) (fun i => rfl),
    instCollapse10 (·.require_explicit_upgrade) (fun i => rfl),
    instCollapse09 (·.require_explicit_upgrade) (fun i => rfl),
    instCollapse08 (·.require_explicit_upgrade) (fun i => rfl),
    instCollapse07 (·.require_explicit_upgrade) (fun i => rfl),
    instCollapse06 (·.require_explicit_upgrade) (fun i => rfl),
    instCollapse05 (·.require_explicit_upgrade) (fun i => rfl),
    instCollapse04 (·.require_explicit_upgrade) (fun i => rfl),
    instCollapse03 (·.require_explicit_upgrade) (fun i => rfl),
    instCollapse02 (·.require_explicit_upgrade) (fun i => rfl),
    instCollapse01 (·.require_explicit_upgrade) (fun i => rfl),
    instAfter00_eq]

/-- Installer-level `display_install_warnings` values after the hoist pass: all reset to the
default when the hoist fired, untouched (positionally) otherwise. -/
theorem optI_display_install_warnings (m : InstallerManifest) :
    (m.optimizeFields).installers.map (·.display_install_warnings)
      = (if (allEqualValue (m.installers.map (·.display_install_warnings))).isSome
         then (m.installers.map (·.display_install_warnings)).map (fun _ => false)
         else m.installers.map (·.display_install_warnings)) := by
  rw [optimizeFields_installers]
  rw [instCollapse43 (·.display_install_warnings) (fun i => rfl),
    instCollapse42 (·.display_install_warnings) (fun i => rfl),
    instCollapse41 (·.display_install_warnings) (fun i => rfl),
    instCollapse40 (·.display_install_warnings) (fun i => rfl),
    instCollapse39 (·.display_install_warnings) (fun i => rfl),
    instCollapse38 (·.display_install_warnings) (fun i => rfl),
    instCollapse37 (·.display_install_warnings) (fun i => rfl),
    instCollapse36 (·.display_install_warnings) (fun i => rfl)]
  unfold instAfter35
  simp only [list_map_ite, List.map_map, Function.comp_def]
  rw [instCollapse34 (fun _ => (false : Bool)) (fun i => rfl),
    instCollapse33 (fun _ => (false : Bool)) (fun i => rfl),
    instCollapse32 (fun _ => (false : Bool)) (fun i => rfl),
    instCollapse31 (fun _ => (false : Bool)) (fun i => rfl),
    instCollapse30 (fun _ => (false : Bool)) (fun i => rfl),
    instCollapse29 (fun _ => (false : Bool)) (fun i => rfl),
    instCollapse28 (fun _ => (false : Bool)) (fun i => rfl),
    instCollapse27 (fun _ => (false : Bool)) (fun i => rfl),
    instCollapse26 (fun _ => (false : Bool)) (fun i => rfl),
    instCollapse25 (fun _ => (false : Bool)) (fun i => rfl),
    instCollapse24 (fun _ => (false : Bool)) (fun i => rfl),
    instCollapse23 (fun _ => (false : Bool)) (fun i => rfl),
    instCollapse22 (fun _ => (false : Bool)) (fun i => rfl),
    instCollapse21 (fun _ => (false : Bool)) (fun i => rfl),
    instCollapse20 (fun _ => (false : Bool)) (fun i => rfl),
    instCollapse19 (fun _ => (false : Bool)) (fun i => rfl),
    instCollapse18 (fun _ => (false : Bool)) (fun i => rfl),
    instCollapse17 (fun _ => (false : Bool)) (fun i => rfl),
    instCollapse16 (fun _ => (false : Bool)) (fun i => rfl),
    instCollapse15 (fun _ => (false : Bool)) (fun i => rfl),
    instCollapse14 (fun _ => (false : Bool)) (fun i => rfl),
    instCollapse13 (fun _ => (false : Bool)) (fun i => rfl),
    instCollapse12 (fun _ => (false : Bool)) (fun i => rfl),
    instCollapse11 (fun _ => (false : Bool)) (fun i => rfl),
    instCollapse10 (fun _ => (false : Bool)) (fun i => rfl),
    instCollapse09 (fun _ => (false : Bool)) (fun i => rfl),
    instCollapse08 (fun _ => (false : Bool)) (fun i => rfl),
    instCollapse07 (fun _ => (false : Bool)) (fun i => rfl),
    instCollapse06 (fun _ => (false : Bool)) (fun i => rfl),
    instCollapse05 (fun _ => (false : Bool)) (fun i => rfl),
    instCollapse04 (fun _ => (false : Bool)) (fun i => rfl),
    instCollapse03 (fun _ => (false : Bool)) (fun i => rfl),
    instCollapse02 (fun _ => (false : Bool)) (fun i => rfl),
    instCollapse01 (fun _ => (false : Bool)) (fun i => rfl),
    instCollapse34 (·.display_install_warnings) (fun i => rfl),
    instCollapse33 (·.display_install_warnings) (fun i => rfl),
    instCollapse32 (·.display_install_warnings) (fun i => rfl),
    instCollapse31 (·.display_install_warnings) (fun i => rfl),
    instCollapse30 (·.display_install_warnings) (fun i => rfl),
    instCollapse29 (·.display_install_warnings) (fun i => rfl),
    instCollapse28 (·.display_install_warnings) (fun i => rfl),
    instCollapse27 (·.display_install_warnings) (fun i => rfl),
    instCollapse26 (·.display_install_warnings) (fun i => rfl),
    instCollapse25 (·.display_install_warnings) (fun i => rfl),
    instCollapse24 (·.display_install_warnings) (fun i => rfl),
    instCollapse23 (·.display_install_warnings) (fun i => rfl),
    instCollapse22 (·.display_install_warnings) (fun i => rfl),
    instCollapse21 (·.display_install_warnings) (fun i => rfl),
    instCollapse20 (·.display_install_warnings) (fun i => rfl),
    instCollapse19 (·.display_install_warnings) (fun i => rfl),
    instCollapse18 (·.display_install_warnings) (fun i => rfl),
    instCollapse17 (·.display_install_warnings) (fun i => rfl),
    instCollapse16 (·.display_install_warnings) (fun i => rfl),
    instCollapse15 (·.display_install_warnings) (fun i => rfl),
    instCollapse14 (·.display_install_warnings) (fun i => rfl),
    instCollapse13 (·.display_install_warnings) (fun i => rfl),
    instCollapse12 (·.display_install_warnings) (fun i => rfl),
    instCollapse11 (·.display_install_warnings) (fun i => rfl),
    instCollapse10 (·.display_install_warnings) (fun i => rfl),
    instCollapse09 (·.display_install_warnings) (fun i => rfl),
    instCollapse08 (·.display_install_warnings) (fun i => rfl),
    instCollapse07 (·.display_install_warnings) (fun i => rfl),
    instCollapse06 (·.display_install_warnings) (fun i => rfl),
    instCollapse05 (·.display_install_warnings) (fun i => rfl),
    instCollapse04 (·.display_install_warnings) (fun i => rfl),
    instCollapse03 (·.display_install_warnings) (fun i => rfl),
    instCollapse02 (·.display_install_warnings) (fun i => rfl),
    instCollapse01 (·.display_install_warnings) (fun i => rfl),
    instAfter00_eq]

/-- Installer-level `unsupported_os_architectures` values after the hoist pass: all reset to the
default when the hoist fired, untouched (positionally) otherwise. -/
theorem optI_unsupported_os_architectures (m : InstallerManifest) :
    (m.optimizeFields).installers.map (·.unsupported_os_architectures)
      = (if (allEqualValue (m.installers.map (·.unsupported_os_architectures))).isSome
         then (m.installers.map (·.unsupported_os_architectures)).map (fun _ => 0)
         else m.installers.map (·.unsupported_os_architectures)) := by
  rw [optimizeFields_installers]
  rw [instCollapse43 (·.unsupported_os_architectures) (fun i => rfl),
    instCollapse42 (·.unsupported_os_architectures) (fun i => rfl),
    instCollapse41 (·.unsupported_os_architectures) (fun i => rfl),
    instCollapse40 (·.unsupported_os_architectures) (fun i => rfl),
    instCollapse39 (·.unsupported_os_architectures) (fun i => rfl),
    instCollapse38 (·.unsupported_os_architectures) (fun i => rfl),
    instCollapse37 (·.unsupported_os_architectures) (fun i => rfl)]
  unfold instAfter36
  simp only [list_map_ite, List.map_map, Function.comp_def]
  rw [instCollapse35 (fun _ => (0 : UnsupportedOSArchitecture)) (fun i => rfl),
    instCollapse34 (fun _ => (0 : UnsupportedOSArchitecture)) (fun i => rfl),
    instCollapse33 (fun _ => (0 : UnsupportedOSArchitecture)) (fun i => rfl),
    instCollapse32 (fun _ => (0 : UnsupportedOSArchitecture)) (fun i => rfl),
    instCollapse31 (fun _ => (0 : UnsupportedOSArchitecture)) (fun i => rfl),
    instCollapse30 (fun _ => (0 : UnsupportedOSArchitecture)) (fun i => rfl),
    instCollapse29 (fun _ => (0 : UnsupportedOSArchitecture)) (fun i => rfl),
    instCollapse28 (fun _ => (0 : UnsupportedOSArchitecture)) (fun i => rfl),
    instCollapse27 (fun _ => (0 : UnsupportedOSArchitecture)) (fun i => rfl),
    instCollapse26 (fun _ => (0 : UnsupportedOSArchitecture)) (fun i => rfl),
    instCollapse25 (fun _ => (0 : UnsupportedOSArchitecture)) (fun i => rfl),
    instCollapse24 (fun _ => (0 : UnsupportedOSArchitecture)) (fun i => rfl),
    instCollapse23 (fun _ => (0 : UnsupportedOSArchitecture)) (fun i => rfl),
    instCollapse22 (fun _ => (0 : UnsupportedOSArchitecture)) (fun i => rfl),
    instCollapse21 (fun _ => (0 : UnsupportedOSArchitecture)) (fun i => rfl),
    instCollapse20 (fun _ => (0 : UnsupportedOSArchitecture)) (fun i => rfl),
    instCollapse19 (fun _ => (0 : UnsupportedOSArchitecture)) (fun i => rfl),
    instCollapse18 (fun _ => (0 : UnsupportedOSArchitecture)) (fun i => rfl),
    instCollapse17 (fun _ => (0 : UnsupportedOSArchitecture)) (fun i => rfl),
    instCollapse16 (fun _ => (0 : UnsupportedOSArchitecture)) (fun i => rfl),
    instCollapse15 (fun _ => (0 : UnsupportedOSArchitecture)) (fun i => rfl),
    instCollapse14 (fun _ => (0 : UnsupportedOSArchitecture)) (fun i => rfl),
    instCollapse13 (fun _ => (0 : UnsupportedOSArchitecture)) (fun i => rfl),
    instCollapse12 (fun _ => (0 : UnsupportedOSArchitecture)) (fun i => rfl),
    instCollapse11 (fun _ => (0 : UnsupportedOSArchitecture)) (fun i => rfl),
    instCollapse10 (fun _ => (0 : UnsupportedOSArchitecture)) (fun i => rfl),
    instCollapse09 (fun _ => (0 : UnsupportedOSArchitecture)) (fun i => rfl),
    instCollapse08 (fun _ => (0 : UnsupportedOSArchitecture)) (fun i => rfl),
    instCollapse07 (fun _ => (0 : UnsupportedOSArchitecture)) (fun i => rfl),
    instCollapse06 (fun _ => (0 : UnsupportedOSArchitecture)) (fun i => rfl),
    instCollapse05 (fun _ => (0 : UnsupportedOSArchitecture)) (fun i => rfl),
    instCollapse04 (fun _ => (0 : UnsupportedOSArchitecture)) (fun i => rfl),
    instCollapse03 (fun _ => (0 : UnsupportedOSArchitecture)) (fun i => rfl),
    instCollapse02 (fun _ => (0 : UnsupportedOSArchitecture)) (fun i => rfl),
    instCollapse01 (fun _ => (0 : UnsupportedOSArchitecture)) (fun i => rfl),
    instCollapse35 (·.unsupported_os_architectures) (fun i => rfl),
    instCollapse34 (·.unsupported_os_architectures) (fun i => rfl),
    instCollapse33 (·.unsupported_os_architectures) (fun i => rfl),
    instCollapse32 (·.unsupported_os_architectures) (fun i => rfl),
    instCollapse31 (·.unsupported_os_architectures) (fun i => rfl),
    instCollapse30 (·.unsupported_os_architectures) (fun i => rfl),
    instCollapse29 (·.unsupported_os_architectures) (fun i => rfl),
    instCollapse28 (·.unsupported_os_architectures) (fun i => rfl),
    instCollapse27 (·.unsupported_os_architectures) (fun i => rfl),
    instCollapse26 (·.unsupported_os_architectures) (fun i => rfl),
    instCollapse25 (·.unsupported_os_architectures) (fun i => rfl),
    instCollapse24 (·.unsupported_os_architectures) (fun i => rfl),
    instCollapse23 (·.unsupported_os_architectures) (fun i => rfl),
    instCollapse22 (·.unsupported_os_architectures) (fun i => rfl),
    instCollapse21 (·.unsupported_os_architectures) (fun i => rfl),
    instCollapse20 (·.unsupported_os_architectures) (fun i => rfl),
    instCollapse19 (·.unsupported_os_architectures) (fun i => rfl),
    instCollapse18 (·.unsupported_os_architectures) (fun i => rfl),
    instCollapse17 (·.unsupported_os_architectures) (fun i => rfl),
    instCollapse16 (·.unsupported_os_architectures) (fun i => rfl),
    instCollapse15 (·.unsupported_os_architectures) (fun i => rfl),
    instCollapse14 (·.unsupported_os_architectures) (fun i => rfl),
    instCollapse13 (·.unsupported_os_architectures) (fun i => rfl),
    instCollapse12 (·.unsupported_os_architectures) (fun i => rfl),
    instCollapse11 (·.unsupported_os_architectures) (fun i => rfl),
    instCollapse10 (·.unsupported_os_architectures) (fun i => rfl),
    instCollapse09 (·.unsupported_os_architectures) (fun i => rfl),
    instCollapse08 (·.unsupported_os_architectures) (fun i => rfl),
    instCollapse07 (·.unsupported_os_architectures) (fun i => rfl),
    instCollapse06 (·.unsupported_os_architectures) (fun i => rfl),
    instCollapse05 (·.unsupported_os_architectures) (fun i => rfl),
    instCollapse04 (·.unsupported_os_architectures) (fun i => rfl),
    instCollapse03 (·.unsupported_os_architectures) (fun i => rfl),
    instCollapse02 (·.unsupported_os_architectures) (fun i => rfl),
    instCollapse01 (·.unsupported_os_architectures) (fun i => rfl),
    instAfter00_eq]

/-- Installer-level `unsupported_arguments` values after the hoist pass: all reset to the
default when the hoist fired, untouched (positionally) otherwise. -/
theorem optI_unsupported_arguments (m : InstallerManifest) :
    (m.optimizeFields).installers.map (·.unsupported_arguments)
      = (if (allEqualValue (m.installers.map (·.unsupported_arguments))).isSome
         then (m.installers.map (·.unsupported_arguments)).map (fun _ => 0)
         else m.installers.map (·.unsupported_arguments)) := by
  rw [optimizeFields_installers]
  rw [instCollapse43 (·.unsupported_arguments) (fun i => rfl),
    instCollapse42 (·.unsupported_arguments) (fun i => rfl),
    instCollapse41 (·.unsupported_arguments) (fun i => rfl),
    instCollapse40 (·.unsupported_arguments) (fun i => rfl),
    instCollapse39 (·.unsupported_arguments) (fun i => rfl),
    instCollapse38 (·.unsupported_arguments) (fun i => rfl)]
  unfold instAfter37
  simp only [list_map_ite, List.map_map, Function.comp_def]
  rw [instCollapse36 (fun _ => (0 : UnsupportedArguments)) (fun i => rfl),
    instCollapse35 (fun _ => (0 : UnsupportedArguments)) (fun i => rfl),
    instCollapse34 (fun _ => (0 : UnsupportedArguments)) (fun i => rfl),
    instCollapse33 (fun _ => (0 : UnsupportedArguments)) (fun i => rfl),
    instCollapse32 (fun _ => (0 : UnsupportedArguments)) (fun i => rfl),
    instCollapse31 (fun _ => (0 : UnsupportedArguments)) (fun i => rfl),
    instCollapse30 (fun _ => (0 : UnsupportedArguments)) (fun i => rfl),
    instCollapse29 (fun _ => (0 : UnsupportedArguments)) (fun i => rfl),
    instCollapse28 (fun _ => (0 : UnsupportedArguments)) (fun i => rfl),
    instCollapse27 (fun _ => (0 : UnsupportedArguments)) (fun i => rfl),
    instCollapse26 (fun _ => (0 : UnsupportedArguments)) (fun i => rfl),
    instCollapse25 (fun _ => (0 : UnsupportedArguments)) (fun i => rfl),
    instCollapse24 (fun _ => (0 : UnsupportedArguments)) (fun i => rfl),
    instCollapse23 (fun _ => (0 : UnsupportedArguments)) (fun i => rfl),
    instCollapse22 (fun _ => (0 : UnsupportedArguments)) (fun i => rfl),
    instCollapse21 (fun _ => (0 : UnsupportedArguments)) (fun i => rfl),
    instCollapse20 (fun _ => (0 : UnsupportedArguments)) (fun i => rfl),
    instCollapse19 (fun _ => (0 : UnsupportedArguments)) (fun i => rfl),
    instCollapse18 (fun _ => (0 : UnsupportedArguments)) (fun i => rfl),
    instCollapse17 (fun _ => (0 : UnsupportedArguments)) (fun i => rfl),
    instCollapse16 (fun _ => (0 : UnsupportedArguments)) (fun i => rfl),
    instCollapse15 (fun _ => (0 : UnsupportedArguments)) (fun i => rfl),
    instCollapse14 (fun _ => (0 : UnsupportedArguments)) (fun i => rfl),
    instCollapse13 (fun _ => (0 : UnsupportedArguments)) (fun i => rfl),
    instCollapse12 (fun _ => (0 : UnsupportedArguments)) (fun i => rfl),
    instCollapse11 (fun _ => (0 : UnsupportedArguments)) (fun i => rfl),
    instCollapse10 (fun _ => (0 : UnsupportedArguments)) (fun i => rfl),
    instCollapse09 (fun _ => (0 : UnsupportedArguments)) (fun i => rfl),
    instCollapse08 (fun _ => (0 : UnsupportedArguments)) (fun i => rfl),
    instCollapse07 (fun _ => (0 : UnsupportedArguments)) (fun i => rfl),
    instCollapse06 (fun _ => (0 : UnsupportedArguments)) (fun i => rfl),
    instCollapse05 (fun _ => (0 : UnsupportedArguments)) (fun i => rfl),
    instCollapse04 (fun _ => (0 : UnsupportedArguments)) (fun i => rfl),
    instCollapse03 (fun _ => (0 : UnsupportedArguments)) (fun i => rfl),
    instCollapse02 (fun _ => (0 : UnsupportedArguments)) (fun i => rfl),
    instCollapse01 (fun _ => (0 : UnsupportedArguments)) (fun i => rfl),
    instCollapse36 (·.unsupported_arguments) (fun i => rfl),
    instCollapse35 (·.unsupported_arguments) (fun i => rfl),
    instCollapse34 (·.unsupported_arguments) (fun i => rfl),
    instCollapse33 (·.unsupported_arguments) (fun i => rfl),
    instCollapse32 (·.unsupported_arguments) (fun i => rfl),
    instCollapse31 (·.unsupported_arguments) (fun i => rfl),
    instCollapse30 (·.unsupported_arguments) (fun i => rfl),
    instCollapse29 (·.unsupported_arguments) (fun i => rfl),
    instCollapse28 (·.unsupported_arguments) (fun i => rfl),
    instCollapse27 (·.unsupported_arguments) (fun i => rfl),
    instCollapse26 (·.unsupported_arguments) (fun i => rfl),
    instCollapse25 (·.unsupported_arguments) (fun i => rfl),
    instCollapse24 (·.unsupported_arguments) (fun i => rfl),
    instCollapse23 (·.unsupported_arguments) (fun i => rfl),
    instCollapse22 (·.unsupported_arguments) (fun i => rfl),
    instCollapse21 (·.unsupported_arguments) (fun i => rfl),
    instCollapse20 (·.unsupported_arguments) (fun i => rfl),
    instCollapse19 (·.unsupported_arguments) (fun i => rfl),
    instCollapse18 (·.unsupported_arguments) (fun i => rfl),
    instCollapse17 (·.unsupported_arguments) (fun i => rfl),
    instCollapse16 (·.unsupported_arguments) (fun i => rfl),
    instCollapse15 (·.unsupported_arguments) (fun i => rfl),
    instCollapse14 (·.unsupported_arguments) (fun i => rfl),
    instCollapse13 (·.unsupported_arguments) (fun i => rfl),
    instCollapse12 (·.unsupported_arguments) (fun i => rfl),
    instCollapse11 (·.unsupported_arguments) (fun i => rfl),
    instCollapse10 (·.unsupported_arguments) (fun i => rfl),
    instCollapse09 (·.unsupported_arguments) (fun i => rfl),
    instCollapse08 (·.unsupported_arguments) (fun i => rfl),
    instCollapse07 (·.unsupported_arguments) (fun i => rfl),
    instCollapse06 (·.unsupported_arguments) (fun i => rfl),
    instCollapse05 (·.unsupported_arguments) (fun i => rfl),
    instCollapse04 (·.unsupported_arguments) (fun i => rfl),
    instCollapse03 (·.unsupported_arguments) (fun i => rfl),
    instCollapse02 (·.unsupported_arguments) (fun i => rfl),
    instCollapse01 (·.unsupported_arguments) (fun i => rfl),
    instAfter00_eq]

/-- Installer-level `apps_and_features_entries` values after the hoist pass: all reset to the
default when the hoist fired, untouched (positionally) otherwise. -/
theorem optI_apps_and_features_entries (m : InstallerManifest) :
    (m.optimizeFields).installers.map (·.apps_and_features_entries)
      = (if (allEqualValue (m.installers.map (·.apps_and_features_entries))).isSome
         then (m.installers.map (·.apps_and_features_entries)).map (fun _ => [])
         else m.installers.map (·.apps_and_features_entries)) := by
  rw [optimizeFields_installers]
  rw [instCollapse43 (·.apps_and_features_entries) (fun i => rfl),
    instCollapse42 (·.apps_and_features_entries) (fun i => rfl),
    instCollapse41 (·.apps_and_features_entries) (fun i => rfl),
    instCollapse40 (·.apps_and_features_entries) (fun i => rfl),
    instCollapse39 (·.apps_and_features_entries) (fun i => rfl)]
  unfold instAfter38
  simp only [list_map_ite, List.map_map, Function.comp_def]
  rw [instCollapse37 (fun _ => ([] : List AppsAndFeaturesEntry)) (fun i => rfl),
    instCollapse36 (fun _ => ([] : List AppsAndFeaturesEntry)) (fun i => rfl),
    instCollapse35 (fun _ => ([] : List AppsAndFeaturesEntry)) (fun i => rfl),
    instCollapse34 (fun _ => ([] : List AppsAndFeaturesEntry)) (fun i => rfl),
    instCollapse33 (fun _ => ([] : List AppsAndFeaturesEntry)) (fun i => rfl),
    instCollapse32 (fun _ => ([] : List AppsAndFeaturesEntry)) (fun i => rfl),
    instCollapse31 (fun _ => ([] : List AppsAndFeaturesEntry)) (fun i => rfl),
    instCollapse30 (fun _ => ([] : List AppsAndFeaturesEntry)) (fun i => rfl),
    instCollapse29 (fun _ => ([] : List AppsAndFeaturesEntry)) (fun i => rfl),
    instCollapse28 (fun _ => ([] : List AppsAndFeaturesEntry)) (fun i => rfl),
    instCollapse27 (fun _ => ([] : List AppsAndFeaturesEntry)) (fun i => rfl),
    instCollapse26 (fun _ => ([] : List AppsAndFeaturesEntry)) (fun i => rfl),
    instCollapse25 (fun _ => ([] : List AppsAndFeaturesEntry)) (fun i => rfl),
    instCollapse24 (fun _ => ([] : List AppsAndFeaturesEntry)) (fun i => rfl),
    instCollapse23 (fun _ => ([] : List AppsAndFeaturesEntry)) (fun i => rfl),
    instCollapse22 (fun _ => ([] : List AppsAndFeaturesEntry)) (fun i => rfl),
    instCollapse21 (fun _ => ([] : List AppsAndFeaturesEntry)) (fun i => rfl),
    instCollapse20 (fun _ => ([] : List AppsAndFeaturesEntry)) (fun i => rfl),
    instCollapse19 (fun _ => ([] : List AppsAndFeaturesEntry)) (fun i => rfl),
    instCollapse18 (fun _ => ([] : List AppsAndFeaturesEntry)) (fun i => rfl),
    instCollapse17 (fun _ => ([] : List AppsAndFeaturesEntry)) (fun i => rfl),
    instCollapse16 (fun _ => ([] : List AppsAndFeaturesEntry)) (fun i => rfl),
    instCollapse15 (fun _ => ([] : List AppsAndFeaturesEntry)) (fun i => rfl),
    instCollapse14 (fun _ => ([] : List AppsAndFeaturesEntry)) (fun i => rfl),
    instCollapse13 (fun _ => ([] : List AppsAndFeaturesEntry)) (fun i => rfl),
    instCollapse12 (fun _ => ([] : List AppsAndFeaturesEntry)) (fun i => rfl),
    instCollapse11 (fun _ => ([] : List AppsAndFeaturesEntry)) (fun i => rfl),
    instCollapse10 (fun _ => ([] : List AppsAndFeaturesEntry)) (fun i => rfl),
    instCollapse09 (fun _ => ([] : List AppsAndFeaturesEntry)) (fun i => rfl),
    instCollapse08 (fun _ => ([] : List AppsAndFeaturesEntry)) (fun i => rfl),
    instCollapse07 (fun _ => ([] : List AppsAndFeaturesEntry)) (fun i => rfl),
    instCollapse06 (fun _ => ([] : List AppsAndFeaturesEntry)) (fun i => rfl),
    instCollapse05 (fun _ => ([] : List AppsAndFeaturesEntry)) (fun i => rfl),
    instCollapse04 (fun _ => ([] : List AppsAndFeaturesEntry)) (fun i => rfl),
    instCollapse03 (fun _ => ([] : List AppsAndFeaturesEntry)) (fun i => rfl),
    instCollapse02 (fun _ => ([] : List AppsAndFeaturesEntry)) (fun i => rfl),
    instCollapse01 (fun _ => ([] : List AppsAndFeaturesEntry)) (fun i => rfl),
    instCollapse37 (·.apps_and_features_entries) (fun i => rfl),
    instCollapse36 (·.apps_and_features_entries) (fun i => rfl),
    instCollapse35 (·.apps_and_features_entries) (fun i => rfl),
    instCollapse34 (·.apps_and_features_entries) (fun i => rfl),
    instCollapse33 (·.apps_and_features_entries) (fun i => rfl),
    instCollapse32 (·.apps_and_features_entries) (fun i => rfl),
    instCollapse31 (·.apps_and_features_entries) (fun i => rfl),
    instCollapse30 (·.apps_and_features_entries) (fun i => rfl),
    instCollapse29 (·.apps_and_features_entries) (fun i => rfl),
    instCollapse28 (·.apps_and_features_entries) (fun i => rfl),
    instCollapse27 (·.apps_and_features_entries) (fun i => rfl),
    instCollapse26 (·.apps_and_features_entries) (fun i => rfl),
    instCollapse25 (·.apps_and_features_entries) (fun i => rfl),
    instCollapse24 (·.apps_and_features_entries) (fun i => rfl),
    instCollapse23 (·.apps_and_features_entries) (fun i => rfl),
    instCollapse22 (·.apps_and_features_entries) (fun i => rfl),
    instCollapse21 (·.apps_and_features_entries) (fun i => rfl),
    instCollapse20 (·.apps_and_features_entries) (fun i => rfl),
    instCollapse19 (·.apps_and_features_entries) (fun i => rfl),
    instCollapse18 (·.apps_and_features_entries) (fun i => rfl),
    instCollapse17 (·.apps_and_features_entries) (fun i => rfl),
    instCollapse16 (·.apps_and_features_entries) (fun i => rfl),
    instCollapse15 (·.apps_and_features_entries) (fun i => rfl),
    instCollapse14 (·.apps_and_features_entries) (fun i => rfl),
    instCollapse13 (·.apps_and_features_entries) (fun i => rfl),
    instCollapse12 (·.apps_and_features_entries) (fun i => rfl),
    instCollapse11 (·.apps_and_features_entries) (fun i => rfl),
    instCollapse10 (·.apps_and_features_entries) (fun i => rfl),
    instCollapse09 (·.apps_and_features_entries) (fun i => rfl),
    instCollapse08 (·.apps_and_features_entries) (fun i => rfl),
    instCollapse07 (·.apps_and_features_entries) (fun i => rfl),
    instCollapse06 (·.apps_and_features_entries) (fun i => rfl),
    instCollapse05 (·.apps_and_features_entries) (fun i => rfl),
    instCollapse04 (·.apps_and_features_entries) (fun i => rfl),
    instCollapse03 (·.apps_and_features_entries) (fun i => rfl),
    instCollapse02 (·.apps_and_features_entries) (fun i => rfl),
    instCollapse01 (·.apps_and_features_entries) (fun i => rfl),
    instAfter00_eq]

/-- Installer-level `elevation_requirement` values after the hoist pass: all reset to the
default when the hoist fired, untouched (positionally) otherwise. -/
theorem optI_elevation_requirement (m : InstallerManifest) :
    (m.optimizeFields).installers.map (·.elevation_requirement)
      = (if (allEqualValue (m.installers.map (·.elevation_requirement))).isSome
         then (m.installers.map (·.elevation_requirement)).map (fun _ => none)
         else m.installers.map (·.elevation_requirement)) := by
  rw [optimizeFields_installers]
  rw [instCollapse43 (·.elevation_requirement) (fun i => rfl),
    instCollapse42 (·.elevation_requirement) (fun i => rfl),
    instCollapse41 (·.elevation_requirement) (fun i => rfl),
    instCollapse40 (·.elevation_requirement) (fun i => rfl)]
  unfold instAfter39
  simp only [list_map_ite, List.map_map, Function.comp_def]
  rw [instCollapse38 (fun _ => (none : Option ElevationRequirement)) (fun i => rfl),
    instCollapse37 (fun _ => (none : Option ElevationRequirement)) (fun i => rfl),
    instCollapse36 (fun _ => (none : Option ElevationRequirement)) (fun i => rfl),
    instCollapse35 (fun _ => (none : Option ElevationRequirement)) (fun i => rfl),
    instCollapse34 (fun _ => (none : Option ElevationRequirement)) (fun i => rfl),
    instCollapse33 (fun _ => (none : Option ElevationRequirement)) (fun i => rfl),
    instCollapse32 (fun _ => (none : Option ElevationRequirement)) (fun i => rfl),
    instCollapse31 (fun _ => (none : Option ElevationRequirement)) (fun i => rfl),
    instCollapse30 (fun _ => (none : Option ElevationRequirement)) (fun i => rfl),
    instCollapse29 (fun _ => (none : Option ElevationRequirement)) (fun i => rfl),
    instCollapse28 (fun _ => (none : Option ElevationRequirement)) (fun i => rfl),
    instCollapse27 (fun _ => (none : Option ElevationRequirement)) (fun i => rfl),
    instCollapse26 (fun _ => (none : Option ElevationRequirement)) (fun i => rfl),
    instCollapse25 (fun _ => (none : Option ElevationRequirement)) (fun i => rfl),
    instCollapse24 (fun _ => (none : Option ElevationRequirement)) (fun i => rfl),
    instCollapse23 (fun _ => (none : Option ElevationRequirement)) (fun i => rfl),
    instCollapse22 (fun _ => (none : Option ElevationRequirement)) (fun i => rfl),
    instCollapse21 (fun _ => (none : Option ElevationRequirement)) (fun i => rfl),
    instCollapse20 (fun _ => (none : Option ElevationRequirement)) (fun i => rfl),
    instCollapse19 (fun _ => (none : Option ElevationRequirement)) (fun i => rfl),
    instCollapse18 (fun _ => (none : Option ElevationRequirement)) (fun i => rfl),
    instCollapse17 (fun _ => (none : Option ElevationRequirement)) (fun i => rfl),
    instCollapse16 (fun _ => (none : Option ElevationRequirement)) (fun i => rfl),
    instCollapse15 (fun _ => (none : Option ElevationRequirement)) (fun i => rfl),
    instCollapse14 (fun _ => (none : Option ElevationRequirement)) (fun i => rfl),
    instCollapse13 (fun _ => (none : Option ElevationRequirement)) (fun i => rfl),
    instCollapse12 (fun _ => (none : Option ElevationRequirement)) (fun i => rfl),
    instCollapse11 (fun _ => (none : Option ElevationRequirement)) (fun i => rfl),
    instCollapse10 (fun _ => (none : Option ElevationRequirement)) (fun i => rfl),
    instCollapse09 (fun _ => (none : Option ElevationRequirement)) (fun i => rfl),
    instCollapse08 (fun _ => (none : Option ElevationRequirement)) (fun i => rfl),
    instCollapse07 (fun _ => (none : Option ElevationRequirement)) (fun i => rfl),
    instCollapse06 (fun _ => (none : Option ElevationRequirement)) (fun i => rfl),
    instCollapse05 (fun _ => (none : Option ElevationRequirement)) (fun i => rfl),
    instCollapse04 (fun _ => (none : Option ElevationRequirement)) (fun i => rfl),
    instCollapse03 (fun _ => (none : Option ElevationRequirement)) (fun i => rfl),
    instCollapse02 (fun _ => (none : Option ElevationRequirement)) (fun i => rfl),
    instCollapse01 (fun _ => (none : Option ElevationRequirement)) (fun i => rfl),
    instCollapse38 (·.elevation_requirement) (fun i => rfl),
    instCollapse37 (·.elevation_requirement) (fun i => rfl),
    instCollapse36 (·.elevation_requirement) (fun i => rfl),
    instCollapse35 (·.elevation_requirement) (fun i => rfl),
    instCollapse34 (·.elevation_requirement) (fun i => rfl),
    instCollapse33 (·.elevation_requirement) (fun i => rfl),
    instCollapse32 (·.elevation_requirement) (fun i => rfl),
    instCollapse31 (·.elevation_requirement) (fun i => rfl),
    instCollapse30 (·.elevation_requirement) (fun i => rfl),
    instCollapse29 (·.elevation_requirement) (fun i => rfl),
    instCollapse28 (·.elevation_requirement) (fun i => rfl),
    instCollapse27 (·.elevation_requirement) (fun i => rfl),
    instCollapse26 (·.elevation_requirement) (fun i => rfl),
    instCollapse25 (·.elevation_requirement) (fun i => rfl),
    instCollapse24 (·.elevation_requirement) (fun i => rfl),
    instCollapse23 (·.elevation_requirement) (fun i => rfl),
    instCollapse22 (·.elevation_requirement) (fun i => rfl),
    instCollapse21 (·.elevation_requirement) (fun i => rfl),
    instCollapse20 (·.elevation_requirement) (fun i => rfl),
    instCollapse19 (·.elevation_requirement) (fun i => rfl),
    instCollapse18 (·.elevation_requirement) (fun i => rfl),
    instCollapse17 (·.elevation_requirement) (fun i => rfl),
    instCollapse16 (·.elevation_requirement) (fun i => rfl),
    instCollapse15 (·.elevation_requirement) (fun i => rfl),
    instCollapse14 (·.elevation_requirement) (fun i => rfl),
    instCollapse13 (·.elevation_requirement) (fun i => rfl),
    instCollapse12 (·.elevation_requirement) (fun i => rfl),
    instCollapse11 (·.elevation_requirement) (fun i => rfl),
    instCollapse10 (·.elevation_requirement) (fun i => rfl),
    instCollapse09 (·.elevation_requirement) (fun i => rfl),
    instCollapse08 (·.elevation_requirement) (fun i => rfl),
    instCollapse07 (·.elevation_requirement) (fun i => rfl),
    instCollapse06 (·.elevation_requirement) (fun i => rfl),
    instCollapse05 (·.elevation_requirement) (fun i => rfl),
    instCollapse04 (·.elevation_requirement) (fun i => rfl),
    instCollapse03 (·.elevation_requirement) (fun i => rfl),
    instCollapse02 (·.elevation_requirement) (fun i => rfl),
    instCollapse01 (·.elevation_requirement) (fun i => rfl),
    instAfter00_eq]

/-- Installer-level `installation_metadata` values after the hoist pass: all reset to the
default when the hoist fired, untouched (positionally) otherwise. -/
theorem optI_installation_metadata (m : InstallerManifest) :
    (m.optimizeFields).installers.map (·.installation_metadata)
      = (if (allEqualValue (m.installers.map (·.installation_metadata))).isSome
         then (m.installers.map (·.installation_metadata)).map (fun _ => (⟨none, []⟩ : InstallationMetadata))
         else m.installers.map (·.installation_metadata)) := by
  rw [optimizeFields_installers]
  rw [instCollapse43 (·.installation_metadata) (fun i => rfl),
    instCollapse42 (·.installation_metadata) (fun i => rfl),
    instCollapse41 (·.installation_metadata) (fun i => rfl)]
  unfold instAfter40
  simp only [list_map_ite, List.map_map, Function.comp_def]
  rw [instCollapse39 (fun _ => ((⟨none, []⟩ : InstallationMetadata) : InstallationMetadata)) (fun i => rfl),
    instCollapse38 (fun _ => ((⟨none, []⟩ : InstallationMetadata) : InstallationMetadata)) (fun i => rfl),
    instCollapse37 (fun _ => ((⟨none, []⟩ : InstallationMetadata) : InstallationMetadata)) (fun i => rfl),
    instCollapse36 (fun _ => ((⟨none, []⟩ : InstallationMetadata) : InstallationMetadata)) (fun i => rfl),
    instCollapse35 (fun _ => ((⟨none, []⟩ : InstallationMetadata) : InstallationMetadata)) (fun i => rfl),
    instCollapse34 (fun _ => ((⟨none, []⟩ : InstallationMetadata) : InstallationMetadata)) (fun i => rfl),
    instCollapse33 (fun _ => ((⟨none, []⟩ : InstallationMetadata) : InstallationMetadata)) (fun i => rfl),
    instCollapse32 (fun _ => ((⟨none, []⟩ : InstallationMetadata) : InstallationMetadata)) (fun i => rfl),
    instCollapse31 (fun _ => ((⟨none, []⟩ : InstallationMetadata) : InstallationMetadata)) (fun i => rfl),
    instCollapse30 (fun _ => ((⟨none, []⟩ : InstallationMetadata) : InstallationMetadata)) (fun i => rfl),
    instCollapse29 (fun _ => ((⟨none, []⟩ : InstallationMetadata) : InstallationMetadata)) (fun i => rfl),
    instCollapse28 (fun _ => ((⟨none, []⟩ : InstallationMetadata) : InstallationMetadata)) (fun i => rfl),
    instCollapse27 (fun _ => ((⟨none, []⟩ : InstallationMetadata) : InstallationMetadata)) (fun i => rfl),
    instCollapse26 (fun _ => ((⟨none, []⟩ : InstallationMetadata) : InstallationMetadata)) (fun i => rfl),
    instCollapse25 (fun _ => ((⟨none, []⟩ : InstallationMetadata) : InstallationMetadata)) (fun i => rfl),
    instCollapse24 (fun _ => ((⟨none, []⟩ : InstallationMetadata) : InstallationMetadata)) (fun i => rfl),
    instCollapse23 (fun _ => ((⟨none, []⟩ : InstallationMetadata) : InstallationMetadata)) (fun i => rfl),
    instCollapse22 (fun _ => ((⟨none, []⟩ : InstallationMetadata) : InstallationMetadata)) (fun i => rfl),
    instCollapse21 (fun _ => ((⟨none, []⟩ : InstallationMetadata) : InstallationMetadata)) (fun i => rfl),
    instCollapse20 (fun _ => ((⟨none, []⟩ : InstallationMetadata) : InstallationMetadata)) (fun i => rfl),
    instCollapse19 (fun _ => ((⟨none, []⟩ : InstallationMetadata) : InstallationMetadata)) (fun i => rfl),
    instCollapse18 (fun _ => ((⟨none, []⟩ : InstallationMetadata) : InstallationMetadata)) (fun i => rfl),
    instCollapse17 (fun _ => ((⟨none, []⟩ : InstallationMetadata) : InstallationMetadata)) (fun i => rfl),
    instCollapse16 (fun _ => ((⟨none, []⟩ : InstallationMetadata) : InstallationMetadata)) (fun i => rfl),
    instCollapse15 (fun _ => ((⟨none, []⟩ : InstallationMetadata) : InstallationMetadata)) (fun i => rfl),
    instCollapse14 (fun _ => ((⟨none, []⟩ : InstallationMetadata) : InstallationMetadata)) (fun i => rfl),
    instCollapse13 (fun _ => ((⟨none, []⟩ : InstallationMetadata) : InstallationMetadata)) (fun i => rfl),
    instCollapse12 (fun _ => ((⟨none, []⟩ : InstallationMetadata) : InstallationMetadata)) (fun i => rfl),
    instCollapse11 (fun _ => ((⟨none, []⟩ : InstallationMetadata) : InstallationMetadata)) (fun i => rfl),
    instCollapse10 (fun _ => ((⟨none, []⟩ : InstallationMetadata) : InstallationMetadata)) (fun i => rfl),
    instCollapse09 (fun _ => ((⟨none, []⟩ : InstallationMetadata) : InstallationMetadata)) (fun i => rfl),
    instCollapse08 (fun _ => ((⟨none, []⟩ : InstallationMetadata) : InstallationMetadata)) (fun i => rfl),
    instCollapse07 (fun _ => ((⟨none, []⟩ : InstallationMetadata) : InstallationMetadata)) (fun i => rfl),
    instCollapse06 (fun _ => ((⟨none, []⟩ : InstallationMetadata) : InstallationMetadata)) (fun i => rfl),
    instCollapse05 (fun _ => ((⟨none, []⟩ : InstallationMetadata) : InstallationMetadata)) (fun i => rfl),
    instCollapse04 (fun _ => ((⟨none, []⟩ : InstallationMetadata) : InstallationMetadata)) (fun i => rfl),
    instCollapse03 (fun _ => ((⟨none, []⟩ : InstallationMetadata) : InstallationMetadata)) (fun i => rfl),
    instCollapse02 (fun _ => ((⟨none, []⟩ : InstallationMetadata) : InstallationMetadata)) (fun i => rfl),
    instCollapse01 (fun _ => ((⟨none, []⟩ : InstallationMetadata) : InstallationMetadata)) (fun i => rfl),
    instCollapse39 (·.installation_metadata) (fun i => rfl),
    instCollapse38 (·.installation_metadata) (fun i => rfl),
    instCollapse37 (·.installation_metadata) (fun i => rfl),
    instCollapse36 (·.installation_metadata) (fun i => rfl),
    instCollapse35 (·.installation_metadata) (fun i => rfl),
    instCollapse34 (·.installation_metadata) (fun i => rfl),
    instCollapse33 (·.installation_metadata) (fun i => rfl),
    instCollapse32 (·.installation_metadata) (fun i => rfl),
    instCollapse31 (·.installation_metadata) (fun i => rfl),
    instCollapse30 (·.installation_metadata) (fun i => rfl),
    instCollapse29 (·.installation_metadata) (fun i => rfl),
    instCollapse28 (·.installation_metadata) (fun i => rfl),
    instCollapse27 (·.installation_metadata) (fun i => rfl),
    instCollapse26 (·.installation_metadata) (fun i => rfl),
    instCollapse25 (·.installation_metadata) (fun i => rfl),
    instCollapse24 (·.installation_metadata) (fun i => rfl),
    instCollapse23 (·.installation_metadata) (fun i => rfl),
    instCollapse22 (·.installation_metadata) (fun i => rfl),
    instCollapse21 (·.installation_metadata) (fun i => rfl),
    instCollapse20 (·.installation_metadata) (fun i => rfl),
    instCollapse19 (·.installation_metadata) (fun i => rfl),
    instCollapse18 (·.installation_metadata) (fun i => rfl),
    instCollapse17 (·.installation_metadata) (fun i => rfl),
    instCollapse16 (·.installation_metadata) (fun i => rfl),
    instCollapse15 (·.installation_metadata) (fun i => rfl),
    instCollapse14 (·.installation_metadata) (fun i => rfl),
    instCollapse13 (·.installation_metadata) (fun i => rfl),
    instCollapse12 (·.installation_metadata) (fun i => rfl),
    instCollapse11 (·.installation_metadata) (fun i => rfl),
    instCollapse10 (·.installation_metadata) (fun i => rfl),
    instCollapse09 (·.installation_metadata) (fun i => rfl),
    instCollapse08 (·.installation_metadata) (fun i => rfl),
    instCollapse07 (·.installation_metadata) (fun i => rfl),
    instCollapse06 (·.installation_metadata) (fun i => rfl),
    instCollapse05 (·.installation_metadata) (fun i => rfl),
    instCollapse04 (·.installation_metadata) (fun i => rfl),
    instCollapse03 (·.installation_metadata) (fun i => rfl),
    instCollapse02 (·.installation_metadata) (fun i => rfl),
    instCollapse01 (·.installation_metadata) (fun i => rfl),
    instAfter00_eq]

/-- Installer-level `download_command_prohibited` values after the hoist pass: all reset to the
default when the hoist fired, untouched (positionally) otherwise. -/
theorem optI_download_command_prohibited (m : InstallerManifest) :
    (m.optimizeFields).installers.map (·.download_command_prohibited)
      = (if (allEqualValue (m.installers.map (·.download_command_prohibited))).isSome
         then (m.installers.map (·.download_command_prohibited)).map (fun _ => false)
         else m.installers.map (·.download_command_prohibited)) := by
  rw [optimizeFields_installers]
  rw [instCollapse43 (·.download_command_prohibited) (fun i => rfl),
    instCollapse42 (·.download_command_prohibited) (fun i => rfl)]
  unfold instAfter41
  simp only [list_map_ite, List.map_map, Function.comp_def]
  rw [instCollapse40 (fun _ => (false : Bool)) (fun i => rfl),
    instCollapse39 (fun _ => (false : Bool)) (fun i => rfl),
    instCollapse38 (fun _ => (false : Bool)) (fun i => rfl),
    instCollapse37 (fun _ => (false : Bool)) (fun i => rfl),
    instCollapse36 (fun _ => (false : Bool)) (fun i => rfl),
    instCollapse35 (fun _ => (false : Bool)) (fun i => rfl),
    instCollapse34 (fun _ => (false : Bool)) (fun i => rfl),
    instCollapse33 (fun _ => (false : Bool)) (fun i => rfl),
    instCollapse32 (fun _ => (false : Bool)) (fun i => rfl),
    instCollapse31 (fun _ => (false : Bool)) (fun i => rfl),
    instCollapse30 (fun _ => (false : Bool)) (fun i => rfl),
    instCollapse29 (fun _ => (false : Bool)) (fun i => rfl),
    instCollapse28 (fun _ => (false : Bool)) (fun i => rfl),
    instCollapse27 (fun _ => (false : Bool)) (fun i => rfl),
    instCollapse26 (fun _ => (false : Bool)) (fun i => rfl),
    instCollapse25 (fun _ => (false : Bool)) (fun i => rfl),
    instCollapse24 (fun _ => (false : Bool)) (fun i => rfl),
    instCollapse23 (fun _ => (false : Bool)) (fun i => rfl),
    instCollapse22 (fun _ => (false : Bool)) (fun i => rfl),
    instCollapse21 (fun _ => (false : Bool)) (fun i => rfl),
    instCollapse20 (fun _ => (false : Bool)) (fun i => rfl),
    instCollapse19 (fun _ => (false : Bool)) (fun i => rfl),
    instCollapse18 (fun _ => (false : Bool)) (fun i => rfl),
    instCollapse17 (fun _ => (false : Bool)) (fun i => rfl),
    instCollapse16 (fun _ => (false : Bool)) (fun i => rfl),
    instCollapse15 (fun _ => (false : Bool)) (fun i => rfl),
    instCollapse14 (fun _ => (false : Bool)) (fun i => rfl),
    instCollapse13 (fun _ => (false : Bool)) (fun i => rfl),
    instCollapse12 (fun _ => (false : Bool)) (fun i => rfl),
    instCollapse11 (fun _ => (false : Bool)) (fun i => rfl),
    instCollapse10 (fun _ => (false : Bool)) (fun i => rfl),
    instCollapse09 (fun _ => (false : Bool)) (fun i => rfl),
    instCollapse08 (fun _ => (false : Bool)) (fun i => rfl),
    instCollapse07 (fun _ => (false : Bool)) (fun i => rfl),
    instCollapse06 (fun _ => (false : Bool)) (fun i => rfl),
    instCollapse05 (fun _ => (false : Bool)) (fun i => rfl),
    instCollapse04 (fun _ => (false : Bool)) (fun i => rfl),
    instCollapse03 (fun _ => (false : Bool)) (fun i => rfl),
    instCollapse02 (fun _ => (false : Bool)) (fun i => rfl),
    instCollapse01 (fun _ => (false : Bool)) (fun i => rfl),
    instCollapse40 (·.download_command_prohibited) (fun i => rfl),
    instCollapse39 (·.download_command_prohibited) (fun i => rfl),
    instCollapse38 (·.download_command_prohibited) (fun i => rfl),
    instCollapse37 (·.download_command_prohibited) (fun i => rfl),
    instCollapse36 (·.download_command_prohibited) (fun i => rfl),
    instCollapse35 (·.download_command_prohibited) (fun i => rfl),
    instCollapse34 (·.download_command_prohibited) (fun i => rfl),
    instCollapse33 (·.download_command_prohibited) (fun i => rfl),
    instCollapse32 (·.download_command_prohibited) (fun i => rfl),
    instCollapse31 (·.download_command_prohibited) (fun i => rfl),
    instCollapse30 (·.download_command_prohibited) (fun i => rfl),
    instCollapse29 (·.download_command_prohibited) (fun i => rfl),
    instCollapse28 (·.download_command_prohibited) (fun i => rfl),
    instCollapse27 (·.download_command_prohibited) (fun i => rfl),
    instCollapse26 (·.download_command_prohibited) (fun i => rfl),
    instCollapse25 (·.download_command_prohibited) (fun i => rfl),
    instCollapse24 (·.download_command_prohibited) (fun i => rfl),
    instCollapse23 (·.download_command_prohibited) (fun i => rfl),
    instCollapse22 (·.download_command_prohibited) (fun i => rfl),
    instCollapse21 (·.download_command_prohibited) (fun i => rfl),
    instCollapse20 (·.download_command_prohibited) (fun i => rfl),
    instCollapse19 (·.download_command_prohibited) (fun i => rfl),
    instCollapse18 (·.download_command_prohibited) (fun i => rfl),
    instCollapse17 (·.download_command_prohibited) (fun i => rfl),
    instCollapse16 (·.download_command_prohibited) (fun i => rfl),
    instCollapse15 (·.download_command_prohibited) (fun i => rfl),
    instCollapse14 (·.download_command_prohibited) (fun i => rfl),
    instCollapse13 (·.download_command_prohibited) (fun i => rfl),
    instCollapse12 (·.download_command_prohibited) (fun i => rfl),
    instCollapse11 (·.download_command_prohibited) (fun i => rfl),
    instCollapse10 (·.download_command_prohibited) (fun i => rfl),
    instCollapse09 (·.download_command_prohibited) (fun i => rfl),
    instCollapse08 (·.download_command_prohibited) (fun i => rfl),
    instCollapse07 (·.download_command_prohibited) (fun i => rfl),
    instCollapse06 (·.download_command_prohibited) (fun i => rfl),
    instCollapse05 (·.download_command_prohibited) (fun i => rfl),
    instCollapse04 (·.download_command_prohibited) (fun i => rfl),
    instCollapse03 (·.download_command_prohibited) (fun i => rfl),
    instCollapse02 (·.download_command_prohibited) (fun i => rfl),
    instCollapse01 (·.download_command_prohibited) (fun i => rfl),
    instAfter00_eq]

/-- Installer-level `repair_behavior` values after the hoist pass: all reset to the
default when the hoist fired, untouched (positionally) otherwise. -/
theorem optI_repair_behavior (m : InstallerManifest) :
    (m.optimizeFields).installers.map (·.repair_behavior)
      = (if (allEqualValue (m.installers.map (·.repair_behavior))).isSome
         then (m.installers.map (·.repair_behavior)).map (fun _ => none)
         else m.installers.map (·.repair_behavior)) := by
  rw [optimizeFields_installers]
  rw [instCollapse43 (·.repair_behavior) (fun i => rfl)]
  unfold instAfter42
  simp only [list_map_ite, List.map_map, Function.comp_def]
  rw [instCollapse41 (fun _ => (none : Option RepairBehavior)) (fun i => rfl),
    instCollapse40 (fun _ => (none : Option RepairBehavior)) (fun i => rfl),
    instCollapse39 (fun _ => (none : Option RepairBehavior)) (fun i => rfl),
    instCollapse38 (fun _ => (none : Option RepairBehavior)) (fun i => rfl),
    instCollapse37 (fun _ => (none : Option RepairBehavior)) (fun i => rfl),
    instCollapse36 (fun _ => (none : Option RepairBehavior)) (fun i => rfl),
    instCollapse35 (fun _ => (none : Option RepairBehavior)) (fun i => rfl),
    instCollapse34 (fun _ => (none : Option RepairBehavior)) (fun i => rfl),
    instCollapse33 (fun _ => (none : Option RepairBehavior)) (fun i => rfl),
    instCollapse32 (fun _ => (none : Option RepairBehavior)) (fun i => rfl),
    instCollapse31 (fun _ => (none : Option RepairBehavior)) (fun i => rfl),
    instCollapse30 (fun _ => (none : Option RepairBehavior)) (fun i => rfl),
    instCollapse29 (fun _ => (none : Option RepairBehavior)) (fun i => rfl),
    instCollapse28 (fun _ => (none : Option RepairBehavior)) (fun i => rfl),
    instCollapse27 (fun _ => (none : Option RepairBehavior)) (fun i => rfl),
    instCollapse26 (fun _ => (none : Option RepairBehavior)) (fun i => rfl),
    instCollapse25 (fun _ => (none : Option RepairBehavior)) (fun i => rfl),
    instCollapse24 (fun _ => (none : Option RepairBehavior)) (fun i => rfl),
    instCollapse23 (fun _ => (none : Option RepairBehavior)) (fun i => rfl),
    instCollapse22 (fun _ => (none : Option RepairBehavior)) (fun i => rfl),
    instCollapse21 (fun _ => (none : Option RepairBehavior)) (fun i => rfl),
    instCollapse20 (fun _ => (none : Option RepairBehavior)) (fun i => rfl),
    instCollapse19 (fun _ => (none : Option RepairBehavior)) (fun i => rfl),
    instCollapse18 (fun _ => (none : Option RepairBehavior)) (fun i => rfl),
    instCollapse17 (fun _ => (none : Option RepairBehavior)) (fun i => rfl),
    instCollapse16 (fun _ => (none : Option RepairBehavior)) (fun i => rfl),
    instCollapse15 (fun _ => (none : Option RepairBehavior)) (fun i => rfl),
    instCollapse14 (fun _ => (none : Option RepairBehavior)) (fun i => rfl),
    instCollapse13 (fun _ => (none : Option RepairBehavior)) (fun i => rfl),
    instCollapse12 (fun _ => (none : Option RepairBehavior)) (fun i => rfl),
    instCollapse11 (fun _ => (none : Option RepairBehavior)) (fun i => rfl),
    instCollapse10 (fun _ => (none : Option RepairBehavior)) (fun i => rfl),
    instCollapse09 (fun _ => (none : Option RepairBehavior)) (fun i => rfl),
    instCollapse08 (fun _ => (none : Option RepairBehavior)) (fun i => rfl),
    instCollapse07 (fun _ => (none : Option RepairBehavior)) (fun i => rfl),
    instCollapse06 (fun _ => (none : Option RepairBehavior)) (fun i => rfl),
    instCollapse05 (fun _ => (none : Option RepairBehavior)) (fun i => rfl),
    instCollapse04 (fun _ => (none : Option RepairBehavior)) (fun i => rfl),
    instCollapse03 (fun _ => (none : Option RepairBehavior)) (fun i => rfl),
    instCollapse02 (fun _ => (none : Option RepairBehavior)) (fun i => rfl),
    instCollapse01 (fun _ => (none : Option RepairBehavior)) (fun i => rfl),
    instCollapse41 (·.repair_behavior) (fun i => rfl),
    instCollapse40 (·.repair_behavior) (fun i => rfl),
    instCollapse39 (·.repair_behavior) (fun i => rfl),
    instCollapse38 (·.repair_behavior) (fun i => rfl),
    instCollapse37 (·.repair_behavior) (fun i => rfl),
    instCollapse36 (·.repair_behavior) (fun i => rfl),
    instCollapse35 (·.repair_behavior) (fun i => rfl),
    instCollapse34 (·.repair_behavior) (fun i => rfl),
    instCollapse33 (·.repair_behavior) (fun i => rfl),
    instCollapse32 (·.repair_behavior) (fun i => rfl),
    instCollapse31 (·.repair_behavior) (fun i => rfl),
    instCollapse30 (·.repair_behavior) (fun i => rfl),
    instCollapse29 (·.repair_behavior) (fun i => rfl),
    instCollapse28 (·.repair_behavior) (fun i => rfl),
    instCollapse27 (·.repair_behavior) (fun i => rfl),
    instCollapse26 (·.repair_behavior) (fun i => rfl),
    instCollapse25 (·.repair_behavior) (fun i => rfl),
    instCollapse24 (·.repair_behavior) (fun i => rfl),
    instCollapse23 (·.repair_behavior) (fun i => rfl),
    instCollapse22 (·.repair_behavior) (fun i => rfl),
    instCollapse21 (·.repair_behavior) (fun i => rfl),
    instCollapse20 (·.repair_behavior) (fun i => rfl),
    instCollapse19 (·.repair_behavior) (fun i => rfl),
    instCollapse18 (·.repair_behavior) (fun i => rfl),
    instCollapse17 (·.repair_behavior) (fun i => rfl),
    instCollapse16 (·.repair_behavior) (fun i => rfl),
    instCollapse15 (·.repair_behavior) (fun i => rfl),
    instCollapse14 (·.repair_behavior) (fun i => rfl),
    instCollapse13 (·.repair_behavior) (fun i => rfl),
    instCollapse12 (·.repair_behavior) (fun i => rfl),
    instCollapse11 (·.repair_behavior) (fun i => rfl),
    instCollapse10 (·.repair_behavior) (fun i => rfl),
    instCollapse09 (·.repair_behavior) (fun i => rfl),
    instCollapse08 (·.repair_behavior) (fun i => rfl),
    instCollapse07 (·.repair_behavior) (fun i => rfl),
    instCollapse06 (·.repair_behavior) (fun i => rfl),
    instCollapse05 (·.repair_behavior) (fun i => rfl),
    instCollapse04 (·.repair_behavior) (fun i => rfl),
    instCollapse03 (·.repair_behavior) (fun i => rfl),
    instCollapse02 (·.repair_behavior) (fun i => rfl),
    instCollapse01 (·.repair_behavior) (fun i => rfl),
    instAfter00_eq]

/-- Installer-level `archive_binaries_depend_on_path` values after the hoist pass: all reset to the
default when the hoist fired, untouched (positionally) otherwise. -/
theorem optI_archive_binaries_depend_on_path (m : InstallerManifest) :
    (m.optimizeFields).installers.map (·.archive_binaries_depend_on_path)
      = (if (allEqualValue (m.installers.map (·.archive_binaries_depend_on_path))).isSome
         then (m.installers.map (·.archive_binaries_depend_on_path)).map (fun _ => false)
         else m.installers.map (·.archive_binaries_depend_on_path)) := by
  rw [optimizeFields_installers]
  unfold instAfter43
  simp only [list_map_ite, List.map_map, Function.comp_def]
  rw [instCollapse42 (fun _ => (false : Bool)) (fun i => rfl),
    instCollapse41 (fun _ => (false : Bool)) (fun i => rfl),
    instCollapse40 (fun _ => (false : Bool)) (fun i => rfl),
    instCollapse39 (fun _ => (false : Bool)) (fun i => rfl),
    instCollapse38 (fun _ => (false : Bool)) (fun i => rfl),
    instCollapse37 (fun _ => (false : Bool)) (fun i => rfl),
    instCollapse36 (fun _ => (false : Bool)) (fun i => rfl),
    instCollapse35 (fun _ => (false : Bool)) (fun i => rfl),
    instCollapse34 (fun _ => (false : Bool)) (fun i => rfl),
    instCollapse33 (fun _ => (false : Bool)) (fun i => rfl),
    instCollapse32 (fun _ => (false : Bool)) (fun i => rfl),
    instCollapse31 (fun _ => (false : Bool)) (fun i => rfl),
    instCollapse30 (fun _ => (false : Bool)) (fun i => rfl),
    instCollapse29 (fun _ => (false : Bool)) (fun i => rfl),
    instCollapse28 (fun _ => (false : Bool)) (fun i => rfl),
    instCollapse27 (fun _ => (false : Bool)) (fun i => rfl),
    instCollapse26 (fun _ => (false : Bool)) (fun i => rfl),
    instCollapse25 (fun _ => (false : Bool)) (fun i => rfl),
    instCollapse24 (fun _ => (false : Bool)) (fun i => rfl),
    instCollapse23 (fun _ => (false : Bool)) (fun i => rfl),
    instCollapse22 (fun _ => (false : Bool)) (fun i => rfl),
    instCollapse21 (fun _ => (false : Bool)) (fun i => rfl),
    instCollapse20 (fun _ => (false : Bool)) (fun i => rfl),
    instCollapse19 (fun _ => (false : Bool)) (fun i => rfl),
    instCollapse18 (fun _ => (false : Bool)) (fun i => rfl),
    instCollapse17 (fun _ => (false : Bool)) (fun i => rfl),
    instCollapse16 (fun _ => (false : Bool)) (fun i => rfl),
    instCollapse15 (fun _ => (false : Bool)) (fun i => rfl),
    instCollapse14 (fun _ => (false : Bool)) (fun i => rfl),
    instCollapse13 (fun _ => (false : Bool)) (fun i => rfl),
    instCollapse12 (fun _ => (false : Bool)) (fun i => rfl),
    instCollapse11 (fun _ => (false : Bool)) (fun i => rfl),
    instCollapse10 (fun _ => (false : Bool)) (fun i => rfl),
    instCollapse09 (fun _ => (false : Bool)) (fun i => rfl),
    instCollapse08 (fun _ => (false : Bool)) (fun i => rfl),
    instCollapse07 (fun _ => (false : Bool)) (fun i => rfl),
    instCollapse06 (fun _ => (false : Bool)) (fun i => rfl),
    instCollapse05 (fun _ => (false : Bool)) (fun i => rfl),
    instCollapse04 (fun _ => (false : Bool)) (fun i => rfl),
    instCollapse03 (fun _ => (false : Bool)) (fun i => rfl),
    instCollapse02 (fun _ => (false : Bool)) (fun i => rfl),
    instCollapse01 (fun _ => (false : Bool)) (fun i => rfl),
    instCollapse42 (·.archive_binaries_depend_on_path) (fun i => rfl),
    instCollapse41 (·.archive_binaries_depend_on_path) (fun i => rfl),
    instCollapse40 (·.archive_binaries_depend_on_path) (fun i => rfl),
    instCollapse39 (·.archive_binaries_depend_on_path) (fun i => rfl),
    instCollapse38 (·.archive_binaries_depend_on_path) (fun i => rfl),
    instCollapse37 (·.archive_binaries_depend_on_path) (fun i => rfl),
    instCollapse36 (·.archive_binaries_depend_on_path) (fun i => rfl),
    instCollapse35 (·.archive_binaries_depend_on_path) (fun i => rfl),
    instCollapse34 (·.archive_binaries_depend_on_path) (fun i => rfl),
    instCollapse33 (·.archive_binaries_depend_on_path) (fun i => rfl),
    instCollapse32 (·.archive_binaries_depend_on_path) (fun i => rfl),
    instCollapse31 (·.archive_binaries_depend_on_path) (fun i => rfl),
    instCollapse30 (·.archive_binaries_depend_on_path) (fun i => rfl),
    instCollapse29 (·.archive_binaries_depend_on_path) (fun i => rfl),
    instCollapse28 (·.archive_binaries_depend_on_path) (fun i => rfl),
    instCollapse27 (·.archive_binaries_depend_on_path) (fun i => rfl),
    instCollapse26 (·.archive_binaries_depend_on_path) (fun i => rfl),
    instCollapse25 (·.archive_binaries_depend_on_path) (fun i => rfl),
    instCollapse24 (·.archive_binaries_depend_on_path) (fun i => rfl),
    instCollapse23 (·.archive_binaries_depend_on_path) (fun i => rfl),
    instCollapse22 (·.archive_binaries_depend_on_path) (fun i => rfl),
    instCollapse21 (·.archive_binaries_depend_on_path) (fun i => rfl),
    instCollapse20 (·.archive_binaries_depend_on_path) (fun i => rfl),
    instCollapse19 (·.archive_binaries_depend_on_path) (fun i => rfl),
    instCollapse18 (·.archive_binaries_depend_on_path) (fun i => rfl),
    instCollapse17 (·.archive_binaries_depend_on_path) (fun i => rfl),
    instCollapse16 (·.archive_binaries_depend_on_path) (fun i => rfl),
    instCollapse15 (·.archive_binaries_depend_on_path) (fun i => rfl),
    instCollapse14 (·.archive_binaries_depend_on_path) (fun i => rfl),
    instCollapse13 (·.archive_binaries_depend_on_path) (fun i => rfl),
    instCollapse12 (·.archive_binaries_depend_on_path) (fun i => rfl),
    instCollapse11 (·.archive_binaries_depend_on_path) (fun i => rfl),
    instCollapse10 (·.archive_binaries_depend_on_path) (fun i => rfl),
    instCollapse09 (·.archive_binaries_depend_on_path) (fun i => rfl),
    instCollapse08 (·.archive_binaries_depend_on_path) (fun i => rfl),
    instCollapse07 (·.archive_binaries_depend_on_path) (fun i => rfl),
    instCollapse06 (·.archive_binaries_depend_on_path) (fun i => rfl),
    instCollapse05 (·.archive_binaries_depend_on_path) (fun i => rfl),
    instCollapse04 (·.archive_binaries_depend_on_path) (fun i => rfl),
    instCollapse03 (·.archive_binaries_depend_on_path) (fun i => rfl),
    instCollapse02 (·.archive_binaries_depend_on_path) (fun i => rfl),
    instCollapse01 (·.archive_binaries_depend_on_path) (fun i => rfl),
    instAfter00_eq]
/-! Normal forms of the 41 merge steps. -/

/-- Normal form of the `locale` replace-if-default step. -/
@[simp] theorem merge_locale_spec (self other : Installer) :
    merge_locale self other =
      { self with locale := if self.locale = none then other.locale else self.locale } := by
  unfold merge_locale
  split <;> rfl

/-- Normal form of the `platform` replace-if-default step. -/
@[simp] theorem merge_platform_spec (self other : Installer) :
    merge_platform self other =
      { self with platform := if self.platform = 0 then other.platform else self.platform } := by
  unfold merge_platform
  split <;> rfl

/-- Normal form of the `minimum_os_version` replace-if-default step. -/
@[simp] theorem merge_minimum_os_version_spec (self other : Installer) :
    merge_minimum_os_version self other =
      { self with minimum_os_version := if self.minimum_os_version = none then other.minimum_os_version else self.minimum_os_version } := by
  unfold merge_minimum_os_version
  split <;> rfl

/-- Normal form of the `type` replace-if-default step. -/
@[simp] theorem merge_type_spec (self other : Installer) :
    merge_type self other =
      { self with type := if self.type = none then other.type else self.type } := by
  unfold merge_type
  split <;> rfl

/-- Normal form of the `nested_installer_type` replace-if-default step. -/
@[simp] theorem merge_nested_installer_type_spec (self other : Installer) :
    merge_nested_installer_type self other =
      { self with nested_installer_type := if self.nested_installer_type = none then other.nested_installer_type else self.nested_installer_type } := by
  unfold merge_nested_installer_type
  split <;> rfl

/-- Normal form of the `nested_installer_files` replace-if-default step. -/
@[simp] theorem merge_nested_installer_files_spec (self other : Installer) :
    merge_nested_installer_files self other =
      { self with nested_installer_files := if self.nested_installer_files = [] then other.nested_installer_files else self.nested_installer_files } := by
  unfold merge_nested_installer_files
  split <;> rfl

/-- Normal form of the `scope` replace-if-default step. -/
@[simp] theorem merge_scope_spec (self other : Installer) :
    merge_scope self other =
      { self with scope := if self.scope = none then other.scope else self.scope } := by
  unfold merge_scope
  split <;> rfl

/-- Normal form of the `install_modes` replace-if-default step. -/
@[simp] theorem merge_install_modes_spec (self other : Installer) :
    merge_install_modes self other =
      { self with install_modes := if self.install_modes = 0 then other.install_modes else self.install_modes } := by
  unfold merge_install_modes
  split <;> rfl

/-- Normal form of the `success_codes` replace-if-default step. -/
@[simp] theorem merge_success_codes_spec (self other : Installer) :
    merge_success_codes self other =
      { self with success_codes := if self.success_codes = [] then other.success_codes else self.success_codes } := by
  unfold merge_success_codes
  split <;> rfl

/-- Normal form of the `expected_return_codes` replace-if-default step. -/
@[simp] theorem merge_expected_return_codes_spec (self other : Installer) :
    merge_expected_return_codes self other =
      { self with expected_return_codes := if self.expected_return_codes = [] then other.expected_return_codes else self.expected_return_codes } := by
  unfold merge_expected_return_codes
  split <;> rfl

/-- Normal form of the `upgrade_behavior` replace-if-default step. -/
@[simp] theorem merge_upgrade_behavior_spec (self other : Installer) :
    merge_upgrade_behavior self other =
      { self with upgrade_behavior := if self.upgrade_behavior = none then other.upgrade_behavior else self.upgrade_behavior } := by
  unfold merge_upgrade_behavior
  split <;> rfl

/-- Normal form of the `commands` replace-if-default step. -/
@[simp] theorem merge_commands_spec (self other : Installer) :
    merge_commands self other =
      { self with commands := if self.commands = [] then other.commands else self.commands } := by
  unfold merge_commands
  split <;> rfl

/-- Normal form of the `protocols` replace-if-default step. -/
@[simp] theorem merge_protocols_spec (self other : Installer) :
    merge_protocols self other =
      { self with protocols := if self.protocols = [] then other.protocols else self.protocols } := by
  unfold merge_protocols
  split <;> rfl

/-- Normal form of the `file_extensions` replace-if-default step. -/
@[simp] theorem merge_file_extensions_spec (self other : Installer) :
    merge_file_extensions self other =
      { self with file_extensions := if self.file_extensions = [] then other.file_extensions else self.file_extensions } := by
  unfold merge_file_extensions
  split <;> rfl

/-- Normal form of the `dependencies` replace-if-default step. -/
@[simp] theorem merge_dependencies_spec (self other : Installer) :
    merge_dependencies self other =
      { self with dependencies := if self.dependencies = (⟨[], [], [], []⟩ : Dependencies) then other.dependencies else self.dependencies } := by
  unfold merge_dependencies
  split <;> rfl

/-- Normal form of the `package_family_name` replace-if-default step. -/
@[simp] theorem merge_package_family_name_spec (self other : Installer) :
    merge_package_family_name self other =
      { self with package_family_name := if self.package_family_name = none then other.package_family_name else self.package_family_name } := by
  unfold merge_package_family_name
  split <;> rfl

/-- Normal form of the `product_code` replace-if-default step. -/
@[simp] theorem merge_product_code_spec (self other : Installer) :
    merge_product_code self other =
      { self with product_code := if self.product_code = none then other.product_code else self.product_code } := by
  unfold merge_product_code
  split <;> rfl

/-- Normal form of the `capabilities` replace-if-default step. -/
@[simp] theorem merge_capabilities_spec (self other : Installer) :
    merge_capabilities self other =
      { self with capabilities := if self.capabilities = [] then other.capabilities else self.capabilities } := by
  unfold merge_capabilities
  split <;> rfl

/-- Normal form of the `restricted_capabilities` replace-if-default step. -/
@[simp] theorem merge_restricted_capabilities_spec (self other : Installer) :
    merge_restricted_capabilities self other =
      { self with restricted_capabilities := if self.restricted_capabilities = [] then other.restricted_capabilities else self.restricted_capabilities } := by
  unfold merge_restricted_capabilities
  split <;> rfl

/-- Normal form of the `markets` replace-if-default step. -/
@[simp] theorem merge_markets_spec (self other : Installer) :
    merge_markets self other =
      { self with markets := if self.markets = none then other.markets else self.markets } := by
  unfold merge_markets
  split <;> rfl

/-- Normal form of the `aborts_terminal` replace-if-default step. -/
@[simp] theorem merge_aborts_terminal_spec (self other : Installer) :
    merge_aborts_terminal self other =
      { self with aborts_terminal := if self.aborts_terminal = false then other.aborts_terminal else self.aborts_terminal } := by
  unfold merge_aborts_terminal
  split <;> rfl

/-- Normal form of the `release_date` replace-if-default step. -/
@[simp] theorem merge_release_date_spec (self other : Installer) :
    merge_release_date self other =
      { self with release_date := if self.release_date = none then other.release_date else self.release_date } := by
  unfold merge_release_date
  split <;> rfl

/-- Normal form of the `install_location_required` replace-if-default step. -/
@[simp] theorem merge_install_location_required_spec (self other : Installer) :
    merge_install_location_required self other =
      { self with install_location_required := if self.install_location_required = false then other.install_location_required else self.install_location_required } := by
  unfold merge_install_location_required
  split <;> rfl

/-- Normal form of the `require_explicit_upgrade` replace-if-default step. -/
@[simp] theorem merge_require_explicit_upgrade_spec (self other : Installer) :
    merge_require_explicit_upgrade self other =
      { self with require_explicit_upgrade := if self.require_explicit_upgrade = false then other.require_explicit_upgrade else self.require_explicit_upgrade } := by
  unfold merge_require_explicit_upgrade
  split <;> rfl

/-- Normal form of the `display_install_warnings` replace-if-default step. -/
@[simp] theorem merge_display_install_warnings_spec (self other : Installer) :
    merge_display_install_warnings self other =
      { self with display_install_warnings := if self.display_install_warnings = false then other.display_install_warnings else self.display_install_warnings } := by
  unfold merge_display_install_warnings
  split <;> rfl

/-- Normal form of the `unsupported_os_architectures` replace-if-default step. -/
@[simp] theorem merge_unsupported_os_architectures_spec (self other : Installer) :
    merge_unsupported_os_architectures self other =
      { self with unsupported_os_architectures := if self.unsupported_os_architectures = 0 then other.unsupported_os_architectures else self.unsupported_os_architectures } := by
  unfold merge_unsupported_os_architectures
  split <;> rfl

/-- Normal form of the `unsupported_arguments` replace-if-default step. -/
@[simp] theorem merge_unsupported_arguments_spec (self other : Installer) :
    merge_unsupported_arguments self other =
      { self with unsupported_arguments := if self.unsupported_arguments = 0 then other.unsupported_arguments else self.unsupported_arguments } := by
  unfold merge_unsupported_arguments
  split <;> rfl

/-- Normal form of the `apps_and_features_entries` replace-if-default step. -/
@[simp] theorem merge_apps_and_features_entries_spec (self other : Installer) :
    merge_apps_and_features_entries self other =
      { self with apps_and_features_entries := if self.apps_and_features_entries = [] then other.apps_and_features_entries else self.apps_and_features_entries } := by
  unfold merge_apps_and_features_entries
  split <;> rfl

/-- Normal form of the `elevation_requirement` replace-if-default step. -/
@[simp] theorem merge_elevation_requirement_spec (self other : Installer) :
    merge_elevation_requirement self other =
      { self with elevation_requirement := if self.elevation_requirement = none then other.elevation_requirement else self.elevation_requirement } := by
  unfold merge_elevation_requirement
  split <;> rfl

/-- Normal form of the `installation_metadata` replace-if-default step. -/
@[simp] theorem merge_installation_metadata_spec (self other : Installer) :
    merge_installation_metadata self other =
      { self with installation_metadata := if self.installation_metadata = (⟨none, []⟩ : InstallationMetadata) then other.installation_metadata else self.installation_metadata } := by
  unfold merge_installation_metadata
  split <;> rfl

/-- Normal form of the `download_command_prohibited` replace-if-default step. -/
@[simp] theorem merge_download_command_prohibited_spec (self other : Installer) :
    merge_download_command_prohibited self other =
      { self with download_command_prohibited := if self.download_command_prohibited = false then other.download_command_prohibited else self.download_command_prohibited } := by
  unfold merge_download_command_prohibited
  split <;> rfl

/-- Normal form of the `repair_behavior` replace-if-default step. -/
@[simp] theorem merge_repair_behavior_spec (self other : Installer) :
    merge_repair_behavior self other =
      { self with repair_behavior := if self.repair_behavior = none then other.repair_behavior else self.repair_behavior } := by
  unfold merge_repair_behavior
  split <;> rfl

/-- Normal form of the `archive_binaries_depend_on_path` replace-if-default step. -/
@[simp] theorem merge_archive_binaries_depend_on_path_spec (self other : Installer) :
    merge_archive_binaries_depend_on_path self other =
      { self with archive_binaries_depend_on_path := if self.archive_binaries_depend_on_path = false then other.archive_binaries_depend_on_path else self.archive_binaries_depend_on_path } := by
  unfold merge_archive_binaries_depend_on_path
  split <;> rfl

/-- Normal form of the `switches.silent` append step. -/
@[simp] theorem merge_switch_silent_spec (self other : Installer) :
    merge_switch_silent self other =
      { self with switches.silent := mergedSwitchValue self.switches.silent other.switches.silent } := by
  cases h1 : self.switches.silent <;> cases h2 : other.switches.silent <;>
    simp only [merge_switch_silent, mergedSwitchValue, h1, h2]
  all_goals rw [← h1]

/-- Normal form of the `switches.silent_with_progress` append step. -/
@[simp] theorem merge_switch_silent_with_progress_spec (self other : Installer) :
    merge_switch_silent_with_progress self other =
      { self with switches.silent_with_progress := mergedSwitchValue self.switches.silent_with_progress other.switches.silent_with_progress } := by
  cases h1 : self.switches.silent_with_progress <;> cases h2 : other.switches.silent_with_progress <;>
    simp only [merge_switch_silent_with_progress, mergedSwitchValue, h1, h2]
  all_goals rw [← h1]

/-- Normal form of the `switches.interactive` append step. -/
@[simp] theorem merge_switch_interactive_spec (self other : Installer) :
    merge_switch_interactive self other =
      { self with switches.interactive := mergedSwitchValue self.switches.interactive other.switches.interactive } := by
  cases h1 : self.switches.interactive <;> cases h2 : other.switches.interactive <;>
    simp only [merge_switch_interactive, mergedSwitchValue, h1, h2]
  all_goals rw [← h1]

/-- Normal form of the `switches.install_location` append step. -/
@[simp] theorem merge_switch_install_location_spec (self other : Installer) :
    merge_switch_install_location self other =
      { self with switches.install_location := mergedSwitchValue self.switches.install_location other.switches.install_location } := by
  cases h1 : self.switches.install_location <;> cases h2 : other.switches.install_location <;>
    simp only [merge_switch_install_location, mergedSwitchValue, h1, h2]
  all_goals rw [← h1]

/-- Normal form of the `switches.log` append step. -/
@[simp] theorem merge_switch_log_spec (self other : Installer) :
    merge_switch_log self other =
      { self with switches.log := mergedSwitchValue self.switches.log other.switches.log } := by
  cases h1 : self.switches.log <;> cases h2 : other.switches.log <;>
    simp only [merge_switch_log, mergedSwitchValue, h1, h2]
  all_goals rw [← h1]

/-- Normal form of the `switches.upgrade` append step. -/
@[simp] theorem merge_switch_upgrade_spec (self other : Installer) :
    merge_switch_upgrade self other =
      { self with switches.upgrade := mergedSwitchValue self.switches.upgrade other.switches.upgrade } := by
  cases h1 : self.switches.upgrade <;> cases h2 : other.switches.upgrade <;>
    simp only [merge_switch_upgrade, mergedSwitchValue, h1, h2]
  all_goals rw [← h1]

/-- Normal form of the `switches.custom` append step. -/
@[simp] theorem merge_switch_custom_spec (self other : Installer) :
    merge_switch_custom self other =
      { self with switches.custom := mergedSwitchValue self.switches.custom other.switches.custom } := by
  cases h1 : self.switches.custom <;> cases h2 : other.switches.custom <;>
    simp only [merge_switch_custom, mergedSwitchValue, h1, h2]
  all_goals rw [← h1]

/-- Normal form of the `switches.repair` append step. -/
@[simp] theorem merge_switch_repair_spec (self other : Installer) :
    merge_switch_repair self other =
      { self with switches.repair := mergedSwitchValue self.switches.repair other.switches.repair } := by
  cases h1 : self.switches.repair <;> cases h2 : other.switches.repair <;>
    simp only [merge_switch_repair, mergedSwitchValue, h1, h2]
  all_goals rw [← h1]

/-- Normal form of the merge chain after step 1. -/
theorem mergeUpTo01_spec (self other : Installer) :
    mergeUpTo01 self other =
      { self with
        locale := if self.locale = none then other.locale else self.locale } := by
  rw [show mergeUpTo01 self other = merge_locale self other from rfl, merge_locale_spec]

/-- Normal form of the merge chain after step 2. -/
theorem mergeUpTo02_spec (self other : Installer) :
    mergeUpTo02 self other =
      { self with
        locale := if self.locale = none then other.locale else self.locale
        platform := if self.platform = 0 then other.platform else self.platform } := by
  rw [show mergeUpTo02 self other = merge_platform (mergeUpTo01 self other) other from rfl,
    mergeUpTo01_spec, merge_platform_spec]

/-- Normal form of the merge chain after step 3. -/
theorem mergeUpTo03_spec (self other : Installer) :
    mergeUpTo03 self other =
      { self with
        locale := if self.locale = none then other.locale else self.locale
        platform := if self.platform = 0 then other.platform else self.platform
        minimum_os_version := if self.minimum_os_version = none then other.minimum_os_version else self.minimum_os_version } := by
  rw [show mergeUpTo03 self other = merge_minimum_os_version (mergeUpTo02 self other) other from rfl,
    mergeUpTo02_spec, merge_minimum_os_version_spec]

/-- Normal form of the merge chain after step 4. -/
theorem mergeUpTo04_spec (self other : Installer) :
    mergeUpTo04 self other =
      { self with
        locale := if self.locale = none then other.locale else self.locale
        platform := if self.platform = 0 then other.platform else self.platform
        minimum_os_version := if self.minimum_os_version = none then other.minimum_os_version else self.minimum_os_version
        type := if self.type = none then other.type else self.type } := by
  rw [show mergeUpTo04 self other = merge_type (mergeUpTo03 self other) other from rfl,
    mergeUpTo03_spec, merge_type_spec]

/-- Normal form of the merge chain after step 5. -/
theorem mergeUpTo05_spec (self other : Installer) :
    mergeUpTo05 self other =
      { self with
        locale := if self.locale = none then other.locale else self.locale
        platform := if self.platform = 0 then other.platform else self.platform
        minimum_os_version := if self.minimum_os_version = none then other.minimum_os_version else self.minimum_os_version
        type := if self.type = none then other.type else self.type
        nested_installer_type := if self.nested_installer_type = none then other.nested_installer_type else self.nested_installer_type } := by
  rw [show mergeUpTo05 self other = merge_nested_installer_type (mergeUpTo04 self other) other from rfl,
    mergeUpTo04_spec, merge_nested_installer_type_spec]

/-- Normal form of the merge chain after step 6. -/
theorem mergeUpTo06_spec (self other : Installer) :
    mergeUpTo06 self other =
      { self with
        locale := if self.locale = none then other.locale else self.locale
        platform := if self.platform = 0 then other.platform else self.platform
        minimum_os_version := if self.minimum_os_version = none then other.minimum_os_version else self.minimum_os_version
        type := if self.type = none then other.type else self.type
        nested_installer_type := if self.nested_installer_type = none then other.nested_installer_type else self.nested_installer_type
        nested_installer_files := if self.nested_installer_files = [] then other.nested_installer_files else self.nested_installer_files } := by
  rw [show mergeUpTo06 self other = merge_nested_installer_files (mergeUpTo05 self other) other from rfl,
    mergeUpTo05_spec, merge_nested_installer_files_spec]

/-- Normal form of the merge chain after step 7. -/
theorem mergeUpTo07_spec (self other : Installer) :
    mergeUpTo07 self other =
      { self with
        locale := if self.locale = none then other.locale else self.locale
        platform := if self.platform = 0 then other.platform else self.platform
        minimum_os_version := if self.minimum_os_version = none then other.minimum_os_version else self.minimum_os_version
        type := if self.type = none then other.type else self.type
        nested_installer_type := if self.nested_installer_type = none then other.nested_installer_type else self.nested_installer_type
        nested_installer_files := if self.nested_installer_files = [] then other.nested_installer_files else self.nested_installer_files
        scope := if self.scope = none then other.scope else self.scope } := by
  rw [show mergeUpTo07 self other = merge_scope (mergeUpTo06 self other) other from rfl,
    mergeUpTo06_spec, merge_scope_spec]

/-- Normal form of the merge chain after step 8. -/
theorem mergeUpTo08_spec (self other : Installer) :
    mergeUpTo08 self other =
      { self with
        locale := if self.locale = none then other.locale else self.locale
        platform := if self.platform = 0 then other.platform else self.platform
        minimum_os_version := if self.minimum_os_version = none then other.minimum_os_version else self.minimum_os_version
        type := if self.type = none then other.type else self.type
        nested_installer_type := if self.nested_installer_type = none then other.nested_installer_type else self.nested_installer_type
        nested_installer_files := if self.nested_installer_files = [] then other.nested_installer_files else self.nested_installer_files
        scope := if self.scope = none then other.scope else self.scope
        install_modes := if self.install_modes = 0 then other.install_modes else self.install_modes } := by
  rw [show mergeUpTo08 self other = merge_install_modes (mergeUpTo07 self other) other from rfl,
    mergeUpTo07_spec, merge_install_modes_spec]

/-- Normal form of the merge chain after step 9. -/
theorem mergeUpTo09_spec (self other : Installer) :
    mergeUpTo09 self other =
      { self with
        locale := if self.locale = none then other.locale else self.locale
        platform := if self.platform = 0 then other.platform else self.platform
        minimum_os_version := if self.minimum_os_version = none then other.minimum_os_version else self.minimum_os_version
        type := if self.type = none then other.type else self.type
        nested_installer_type := if self.nested_installer_type = none then other.nested_installer_type else self.nested_installer_type
        nested_installer_files := if self.nested_installer_files = [] then other.nested_installer_files else self.nested_installer_files
        scope := if self.scope = none then other.scope else self.scope
        install_modes := if self.install_modes = 0 then other.install_modes else self.install_modes
        success_codes := if self.success_codes = [] then other.success_codes else self.success_codes } := by
  rw [show mergeUpTo09 self other = merge_success_codes (mergeUpTo08 self other) other from rfl,
    mergeUpTo08_spec, merge_success_codes_spec]

/-- Normal form of the merge chain after step 10. -/
theorem mergeUpTo10_spec (self other : Installer) :
    mergeUpTo10 self other =
      { self with
        locale := if self.locale = none then other.locale else self.locale
        platform := if self.platform = 0 then other.platform else self.platform
        minimum_os_version := if self.minimum_os_version = none then other.minimum_os_version else self.minimum_os_version
        type := if self.type = none then other.type else self.type
        nested_installer_type := if self.nested_installer_type = none then other.nested_installer_type else self.nested_installer_type
        nested_installer_files := if self.nested_installer_files = [] then other.nested_installer_files else self.nested_installer_files
        scope := if self.scope = none then other.scope else self.scope
        install_modes := if self.install_modes = 0 then other.install_modes else self.install_modes
        success_codes := if self.success_codes = [] then other.success_codes else self.success_codes
        expected_return_codes := if self.expected_return_codes = [] then other.expected_return_codes else self.expected_return_codes } := by
  rw [show mergeUpTo10 self other = merge_expected_return_codes (mergeUpTo09 self other) other from rfl,
    mergeUpTo09_spec, merge_expected_return_codes_spec]

/-- Normal form of the merge chain after step 11. -/
theorem mergeUpTo11_spec (self other : Installer) :
    mergeUpTo11 self other =
      { self with
        locale := if self.locale = none then other.locale else self.locale
        platform := if self.platform = 0 then other.platform else self.platform
        minimum_os_version := if self.minimum_os_version = none then other.minimum_os_version else self.minimum_os_version
        type := if self.type = none then other.type else self.type
        nested_installer_type := if self.nested_installer_type = none then other.nested_installer_type else self.nested_installer_type
        nested_installer_files := if self.nested_installer_files = [] then other.nested_installer_files else self.nested_installer_files
        scope := if self.scope = none then other.scope else self.scope
        install_modes := if self.install_modes = 0 then other.install_modes else self.install_modes
        success_codes := if self.success_codes = [] then other.success_codes else self.success_codes
        expected_return_codes := if self.expected_return_codes = [] then other.expected_return_codes else self.expected_return_codes
        upgrade_behavior := if self.upgrade_behavior = none then other.upgrade_behavior else self.upgrade_behavior } := by
  rw [show mergeUpTo11 self other = merge_upgrade_behavior (mergeUpTo10 self other) other from rfl,
    mergeUpTo10_spec, merge_upgrade_behavior_spec]

/-- Normal form of the merge chain after step 12. -/
theorem mergeUpTo12_spec (self other : Installer) :
    mergeUpTo12 self other =
      { self with
        locale := if self.locale = none then other.locale else self.locale
        platform := if self.platform = 0 then other.platform else self.platform
        minimum_os_version := if self.minimum_os_version = none then other.minimum_os_version else self.minimum_os_version
        type := if self.type = none then other.type else self.type
        nested_installer_type := if self.nested_installer_type = none then other.nested_installer_type else self.nested_installer_type
        nested_installer_files := if self.nested_installer_files = [] then other.nested_installer_files else self.nested_installer_files
        scope := if self.scope = none then other.scope else self.scope
        install_modes := if self.install_modes = 0 then other.install_modes else self.install_modes
        success_codes := if self.success_codes = [] then other.success_codes else self.success_codes
        expected_return_codes := if self.expected_return_codes = [] then other.expected_return_codes else self.expected_return_codes
        upgrade_behavior := if self.upgrade_behavior = none then other.upgrade_behavior else self.upgrade_behavior
        commands := if self.commands = [] then other.commands else self.commands } := by
  rw [show mergeUpTo12 self other = merge_commands (mergeUpTo11 self other) other from rfl,
    mergeUpTo11_spec, merge_commands_spec]

/-- Normal form of the merge chain after step 13. -/
theorem mergeUpTo13_spec (self other : Installer) :
    mergeUpTo13 self other =
      { self with
        locale := if self.locale = none then other.locale else self.locale
        platform := if self.platform = 0 then other.platform else self.platform
        minimum_os_version := if self.minimum_os_version = none then other.minimum_os_version else self.minimum_os_version
        type := if self.type = none then other.type else self.type
        nested_installer_type := if self.nested_installer_type = none then other.nested_installer_type else self.nested_installer_type
        nested_installer_files := if self.nested_installer_files = [] then other.nested_installer_files else self.nested_installer_files
        scope := if self.scope = none then other.scope else self.scope
        install_modes := if self.install_modes = 0 then other.install_modes else self.install_modes
        success_codes := if self.success_codes = [] then other.success_codes else self.success_codes
        expected_return_codes := if self.expected_return_codes = [] then other.expected_return_codes else self.expected_return_codes
        upgrade_behavior := if self.upgrade_behavior = none then other.upgrade_behavior else self.upgrade_behavior
        commands := if self.commands = [] then other.commands else self.commands
        protocols := if self.protocols = [] then other.protocols else self.protocols } := by
  rw [show mergeUpTo13 self other = merge_protocols (mergeUpTo12 self other) other from rfl,
    mergeUpTo12_spec, merge_protocols_spec]

/-- Normal form of the merge chain after step 14. -/
theorem mergeUpTo14_spec (self other : Installer) :
    mergeUpTo14 self other =
      { self with
        locale := if self.locale = none then other.locale else self.locale
        platform := if self.platform = 0 then other.platform else self.platform
        minimum_os_version := if self.minimum_os_version = none then other.minimum_os_version else self.minimum_os_version
        type := if self.type = none then other.type else self.type
        nested_installer_type := if self.nested_installer_type = none then other.nested_installer_type else self.nested_installer_type
        nested_installer_files := if self.nested_installer_files = [] then other.nested_installer_files else self.nested_installer_files
        scope := if self.scope = none then other.scope else self.scope
        install_modes := if self.install_modes = 0 then other.install_modes else self.install_modes
        success_codes := if self.success_codes = [] then other.success_codes else self.success_codes
        expected_return_codes := if self.expected_return_codes = [] then other.expected_return_codes else self.expected_return_codes
        upgrade_behavior := if self.upgrade_behavior = none then other.upgrade_behavior else self.upgrade_behavior
        commands := if self.commands = [] then other.commands else self.commands
        protocols := if self.protocols = [] then other.protocols else self.protocols
        file_extensions := if self.file_extensions = [] then other.file_extensions else self.file_extensions } := by
  rw [show mergeUpTo14 self other = merge_file_extensions (mergeUpTo13 self other) other from rfl,
    mergeUpTo13_spec, merge_file_extensions_spec]

/-- Normal form of the merge chain after step 15. -/
theorem mergeUpTo15_spec (self other : Installer) :
    mergeUpTo15 self other =
      { self with
        locale := if self.locale = none then other.locale else self.locale
        platform := if self.platform = 0 then other.platform else self.platform
        minimum_os_version := if self.minimum_os_version = none then other.minimum_os_version else self.minimum_os_version
        type := if self.type = none then other.type else self.type
        nested_installer_type := if self.nested_installer_type = none then other.nested_installer_type else self.nested_installer_type
        nested_installer_files := if self.nested_installer_files = [] then other.nested_installer_files else self.nested_installer_files
        scope := if self.scope = none then other.scope else self.scope
        install_modes := if self.install_modes = 0 then other.install_modes else self.install_modes
        success_codes := if self.success_codes = [] then other.success_codes else self.success_codes
        expected_return_codes := if self.expected_return_codes = [] then other.expected_return_codes else self.expected_return_codes
        upgrade_behavior := if self.upgrade_behavior = none then other.upgrade_behavior else self.upgrade_behavior
        commands := if self.commands = [] then other.commands else self.commands
        protocols := if self.protocols = [] then other.protocols else self.protocols
        file_extensions := if self.file_extensions = [] then other.file_extensions else self.file_extensions
        dependencies := if self.dependencies = (⟨[], [], [], []⟩ : Dependencies) then other.dependencies else self.dependencies } := by
  rw [show mergeUpTo15 self other = merge_dependencies (mergeUpTo14 self other) other from rfl,
    mergeUpTo14_spec, merge_dependencies_spec]

/-- Normal form of the merge chain after step 16. -/
theorem mergeUpTo16_spec (self other : Installer) :
    mergeUpTo16 self other =
      { self with
        locale := if self.locale = none then other.locale else self.locale
        platform := if self.platform = 0 then other.platform else self.platform
        minimum_os_version := if self.minimum_os_version = none then other.minimum_os_version else self.minimum_os_version
        type := if self.type = none then other.type else self.type
        nested_installer_type := if self.nested_installer_type = none then other.nested_installer_type else self.nested_installer_type
        nested_installer_files := if self.nested_installer_files = [] then other.nested_installer_files else self.nested_installer_files
        scope := if self.scope = none then other.scope else self.scope
        install_modes := if self.install_modes = 0 then other.install_modes else self.install_modes
        success_codes := if self.success_codes = [] then other.success_codes else self.success_codes
        expected_return_codes := if self.expected_return_codes = [] then other.expected_return_codes else self.expected_return_codes
        upgrade_behavior := if self.upgrade_behavior = none then other.upgrade_behavior else self.upgrade_behavior
        commands := if self.commands = [] then other.commands else self.commands
        protocols := if self.protocols = [] then other.protocols else self.protocols
        file_extensions := if self.file_extensions = [] then other.file_extensions else self.file_extensions
        dependencies := if self.dependencies = (⟨[], [], [], []⟩ : Dependencies) then other.dependencies else self.dependencies
        package_family_name := if self.package_family_name = none then other.package_family_name else self.package_family_name } := by
  rw [show mergeUpTo16 self other = merge_package_family_name (mergeUpTo15 self other) other from rfl,
    mergeUpTo15_spec, merge_package_family_name_spec]

/-- Normal form of the merge chain after step 17. -/
theorem mergeUpTo17_spec (self other : Installer) :
    mergeUpTo17 self other =
      { self with
        locale := if self.locale = none then other.locale else self.locale
        platform := if self.platform = 0 then other.platform else self.platform
        minimum_os_version := if self.minimum_os_version = none then other.minimum_os_version else self.minimum_os_version
        type := if self.type = none then other.type else self.type
        nested_installer_type := if self.nested_installer_type = none then other.nested_installer_type else self.nested_installer_type
        nested_installer_files := if self.nested_installer_files = [] then other.nested_installer_files else self.nested_installer_files
        scope := if self.scope = none then other.scope else self.scope
        install_modes := if self.install_modes = 0 then other.install_modes else self.install_modes
        success_codes := if self.success_codes = [] then other.success_codes else self.success_codes
        expected_return_codes := if self.expected_return_codes = [] then other.expected_return_codes else self.expected_return_codes
        upgrade_behavior := if self.upgrade_behavior = none then other.upgrade_behavior else self.upgrade_behavior
        commands := if self.commands = [] then other.commands else self.commands
        protocols := if self.protocols = [] then other.protocols else self.protocols
        file_extensions := if self.file_extensions = [] then other.file_extensions else self.file_extensions
        dependencies := if self.dependencies = (⟨[], [], [], []⟩ : Dependencies) then other.dependencies else self.dependencies
        package_family_name := if self.package_family_name = none then other.package_family_name else self.package_family_name
        product_code := if self.product_code = none then other.product_code else self.product_code } := by
  rw [show mergeUpTo17 self other = merge_product_code (mergeUpTo16 self other) other from rfl,
    mergeUpTo16_spec, merge_product_code_spec]

/-- Normal form of the merge chain after step 18. -/
theorem mergeUpTo18_spec (self other : Installer) :
    mergeUpTo18 self other =
      { self with
        locale := if self.locale = none then other.locale else self.locale
        platform := if self.platform = 0 then other.platform else self.platform
        minimum_os_version := if self.minimum_os_version = none then other.minimum_os_version else self.minimum_os_version
        type := if self.type = none then other.type else self.type
        nested_installer_type := if self.nested_installer_type = none then other.nested_installer_type else self.nested_installer_type
        nested_installer_files := if self.nested_installer_files = [] then other.nested_installer_files else self.nested_installer_files
        scope := if self.scope = none then other.scope else self.scope
        install_modes := if self.install_modes = 0 then other.install_modes else self.install_modes
        success_codes := if self.success_codes = [] then other.success_codes else self.success_codes
        expected_return_codes := if self.expected_return_codes = [] then other.expected_return_codes else self.expected_return_codes
        upgrade_behavior := if self.upgrade_behavior = none then other.upgrade_behavior else self.upgrade_behavior
        commands := if self.commands = [] then other.commands else self.commands
        protocols := if self.protocols = [] then other.protocols else self.protocols
        file_extensions := if self.file_extensions = [] then other.file_extensions else self.file_extensions
        dependencies := if self.dependencies = (⟨[], [], [], []⟩ : Dependencies) then other.dependencies else self.dependencies
        package_family_name := if self.package_family_name = none then other.package_family_name else self.package_family_name
        product_code := if self.product_code = none then other.product_code else self.product_code
        capabilities := if self.capabilities = [] then other.capabilities else self.capabilities } := by
  rw [show mergeUpTo18 self other = merge_capabilities (mergeUpTo17 self other) other from rfl,
    mergeUpTo17_spec, merge_capabilities_spec]

/-- Normal form of the merge chain after step 19. -/
theorem mergeUpTo19_spec (self other : Installer) :
    mergeUpTo19 self other =
      { self with
        locale := if self.locale = none then other.locale else self.locale
        platform := if self.platform = 0 then other.platform else self.platform
        minimum_os_version := if self.minimum_os_version = none then other.minimum_os_version else self.minimum_os_version
        type := if self.type = none then other.type else self.type
        nested_installer_type := if self.nested_installer_type = none then other.nested_installer_type else self.nested_installer_type
        nested_installer_files := if self.nested_installer_files = [] then other.nested_installer_files else self.nested_installer_files
        scope := if self.scope = none then other.scope else self.scope
        install_modes := if self.install_modes = 0 then other.install_modes else self.install_modes
        success_codes := if self.success_codes = [] then other.success_codes else self.success_codes
        expected_return_codes := if self.expected_return_codes = [] then other.expected_return_codes else self.expected_return_codes
        upgrade_behavior := if self.upgrade_behavior = none then other.upgrade_behavior else self.upgrade_behavior
        commands := if self.commands = [] then other.commands else self.commands
        protocols := if self.protocols = [] then other.protocols else self.protocols
        file_extensions := if self.file_extensions = [] then other.file_extensions else self.file_extensions
        dependencies := if self.dependencies = (⟨[], [], [], []⟩ : Dependencies) then other.dependencies else self.dependencies
        package_family_name := if self.package_family_name = none then other.package_family_name else self.package_family_name
        product_code := if self.product_code = none then other.product_code else self.product_code
        capabilities := if self.capabilities = [] then other.capabilities else self.capabilities
        restricted_capabilities := if self.restricted_capabilities = [] then other.restricted_capabilities else self.restricted_capabilities } := by
  rw [show mergeUpTo19 self other = merge_restricted_capabilities (mergeUpTo18 self other) other from rfl,
    mergeUpTo18_spec, merge_restricted_capabilities_spec]

/-- Normal form of the merge chain after step 20. -/
theorem mergeUpTo20_spec (self other : Installer) :
    mergeUpTo20 self other =
      { self with
        locale := if self.locale = none then other.locale else self.locale
        platform := if self.platform = 0 then other.platform else self.platform
        minimum_os_version := if self.minimum_os_version = none then other.minimum_os_version else self.minimum_os_version
        type := if self.type = none then other.type else self.type
        nested_installer_type := if self.nested_installer_type = none then other.nested_installer_type else self.nested_installer_type
        nested_installer_files := if self.nested_installer_files = [] then other.nested_installer_files else self.nested_installer_files
        scope := if self.scope = none then other.scope else self.scope
        install_modes := if self.install_modes = 0 then other.install_modes else self.install_modes
        success_codes := if self.success_codes = [] then other.success_codes else self.success_codes
        expected_return_codes := if self.expected_return_codes = [] then other.expected_return_codes else self.expected_return_codes
        upgrade_behavior := if self.upgrade_behavior = none then other.upgrade_behavior else self.upgrade_behavior
        commands := if self.commands = [] then other.commands else self.commands
        protocols := if self.protocols = [] then other.protocols else self.protocols
        file_extensions := if self.file_extensions = [] then other.file_extensions else self.file_extensions
        dependencies := if self.dependencies = (⟨[], [], [], []⟩ : Dependencies) then other.dependencies else self.dependencies
        package_family_name := if self.package_family_name = none then other.package_family_name else self.package_family_name
        product_code := if self.product_code = none then other.product_code else self.product_code
        capabilities := if self.capabilities = [] then other.capabilities else self.capabilities
        restricted_capabilities := if self.restricted_capabilities = [] then other.restricted_capabilities else self.restricted_capabilities
        markets := if self.markets = none then other.markets else self.markets } := by
  rw [show mergeUpTo20 self other = merge_markets (mergeUpTo19 self other) other from rfl,
    mergeUpTo19_spec, merge_markets_spec]

/-- Normal form of the merge chain after step 21. -/
theorem mergeUpTo21_spec (self other : Installer) :
    mergeUpTo21 self other =
      { self with
        locale := if self.locale = none then other.locale else self.locale
        platform := if self.platform = 0 then other.platform else self.platform
        minimum_os_version := if self.minimum_os_version = none then other.minimum_os_version else self.minimum_os_version
        type := if self.type = none then other.type else self.type
        nested_installer_type := if self.nested_installer_type = none then other.nested_installer_type else self.nested_installer_type
        nested_installer_files := if self.nested_installer_files = [] then other.nested_installer_files else self.nested_installer_files
        scope := if self.scope = none then other.scope else self.scope
        install_modes := if self.install_modes = 0 then other.install_modes else self.install_modes
        success_codes := if self.success_codes = [] then other.success_codes else self.success_codes
        expected_return_codes := if self.expected_return_codes = [] then other.expected_return_codes else self.expected_return_codes
        upgrade_behavior := if self.upgrade_behavior = none then other.upgrade_behavior else self.upgrade_behavior
        commands := if self.commands = [] then other.commands else self.commands
        protocols := if self.protocols = [] then other.protocols else self.protocols
        file_extensions := if self.file_extensions = [] then other.file_extensions else self.file_extensions
        dependencies := if self.dependencies = (⟨[], [], [], []⟩ : Dependencies) then other.dependencies else self.dependencies
        package_family_name := if self.package_family_name = none then other.package_family_name else self.package_family_name
        product_code := if self.product_code = none then other.product_code else self.product_code
        capabilities := if self.capabilities = [] then other.capabilities else self.capabilities
        restricted_capabilities := if self.restricted_capabilities = [] then other.restricted_capabilities else self.restricted_capabilities
        markets := if self.markets = none then other.markets else self.markets
        aborts_terminal := if self.aborts_terminal = false then other.aborts_terminal else self.aborts_terminal } := by
  rw [show mergeUpTo21 self other = merge_aborts_terminal (mergeUpTo20 self other) other from rfl,
    mergeUpTo20_spec, merge_aborts_terminal_spec]

/-- Normal form of the merge chain after step 22. -/
theorem mergeUpTo22_spec (self other : Installer) :
    mergeUpTo22 self other =
      { self with
        locale := if self.locale = none then other.locale else self.locale
        platform := if self.platform = 0 then other.platform else self.platform
        minimum_os_version := if self.minimum_os_version = none then other.minimum_os_version else self.minimum_os_version
        type := if self.type = none then other.type else self.type
        nested_installer_type := if self.nested_installer_type = none then other.nested_installer_type else self.nested_installer_type
        nested_installer_files := if self.nested_installer_files = [] then other.nested_installer_files else self.nested_installer_files
        scope := if self.scope = none then other.scope else self.scope
        install_modes := if self.install_modes = 0 then other.install_modes else self.install_modes
        success_codes := if self.success_codes = [] then other.success_codes else self.success_codes
        expected_return_codes := if self.expected_return_codes = [] then other.expected_return_codes else self.expected_return_codes
        upgrade_behavior := if self.upgrade_behavior = none then other.upgrade_behavior else self.upgrade_behavior
        commands := if self.commands = [] then other.commands else self.commands
        protocols := if self.protocols = [] then other.protocols else self.protocols
        file_extensions := if self.file_extensions = [] then other.file_extensions else self.file_extensions
        dependencies := if self.dependencies = (⟨[], [], [], []⟩ : Dependencies) then other.dependencies else self.dependencies
        package_family_name := if self.package_family_name = none then other.package_family_name else self.package_family_name
        product_code := if self.product_code = none then other.product_code else self.product_code
        capabilities := if self.capabilities = [] then other.capabilities else self.capabilities
        restricted_capabilities := if self.restricted_capabilities = [] then other.restricted_capabilities else self.restricted_capabilities
        markets := if self.markets = none then other.markets else self.markets
        aborts_terminal := if self.aborts_terminal = false then other.aborts_terminal else self.aborts_terminal
        release_date := if self.release_date = none then other.release_date else self.release_date } := by
  rw [show mergeUpTo22 self other = merge_release_date (mergeUpTo21 self other) other from rfl,
    mergeUpTo21_spec, merge_release_date_spec]

/-- Normal form of the merge chain after step 23. -/
theorem mergeUpTo23_spec (self other : Installer) :
    mergeUpTo23 self other =
      { self with
        locale := if self.locale = none then other.locale else self.locale
        platform := if self.platform = 0 then other.platform else self.platform
        minimum_os_version := if self.minimum_os_version = none then other.minimum_os_version else self.minimum_os_version
        type := if self.type = none then other.type else self.type
        nested_installer_type := if self.nested_installer_type = none then other.nested_installer_type else self.nested_installer_type
        nested_installer_files := if self.nested_installer_files = [] then other.nested_installer_files else self.nested_installer_files
        scope := if self.scope = none then other.scope else self.scope
        install_modes := if self.install_modes = 0 then other.install_modes else self.install_modes
        success_codes := if self.success_codes = [] then other.success_codes else self.success_codes
        expected_return_codes := if self.expected_return_codes = [] then other.expected_return_codes else self.expected_return_codes
        upgrade_behavior := if self.upgrade_behavior = none then other.upgrade_behavior else self.upgrade_behavior
        commands := if self.commands = [] then other.commands else self.commands
        protocols := if self.protocols = [] then other.protocols else self.protocols
        file_extensions := if self.file_extensions = [] then other.file_extensions else self.file_extensions
        dependencies := if self.dependencies = (⟨[], [], [], []⟩ : Dependencies) then other.dependencies else self.dependencies
        package_family_name := if self.package_family_name = none then other.package_family_name else self.package_family_name
        product_code := if self.product_code = none then other.product_code else self.product_code
        capabilities := if self.capabilities = [] then other.capabilities else self.capabilities
        restricted_capabilities := if self.restricted_capabilities = [] then other.restricted_capabilities else self.restricted_capabilities
        markets := if self.markets = none then other.markets else self.markets
        aborts_terminal := if self.aborts_terminal = false then other.aborts_terminal else self.aborts_terminal
        release_date := if self.release_date = none then other.release_date else self.release_date
        install_location_required := if self.install_location_required = false then other.install_location_required else self.install_location_required } := by
  rw [show mergeUpTo23 self other = merge_install_location_required (mergeUpTo22 self other) other from rfl,
    mergeUpTo22_spec, merge_install_location_required_spec]

/-- Normal form of the merge chain after step 24. -/
theorem mergeUpTo24_spec (self other : Installer) :
    mergeUpTo24 self other =
      { self with
        locale := if self.locale = none then other.locale else self.locale
        platform := if self.platform = 0 then other.platform else self.platform
        minimum_os_version := if self.minimum_os_version = none then other.minimum_os_version else self.minimum_os_version
        type := if self.type = none then other.type else self.type
        nested_installer_type := if self.nested_installer_type = none then other.nested_installer_type else self.nested_installer_type
        nested_installer_files := if self.nested_installer_files = [] then other.nested_installer_files else self.nested_installer_files
        scope := if self.scope = none then other.scope else self.scope
        install_modes := if self.install_modes = 0 then other.install_modes else self.install_modes
        success_codes := if self.success_codes = [] then other.success_codes else self.success_codes
        expected_return_codes := if self.expected_return_codes = [] then other.expected_return_codes else self.expected_return_codes
        upgrade_behavior := if self.upgrade_behavior = none then other.upgrade_behavior else self.upgrade_behavior
        commands := if self.commands = [] then other.commands else self.commands
        protocols := if self.protocols = [] then other.protocols else self.protocols
        file_extensions := if self.file_extensions = [] then other.file_extensions else self.file_extensions
        dependencies := if self.dependencies = (⟨[], [], [], []⟩ : Dependencies) then other.dependencies else self.dependencies
        package_family_name := if self.package_family_name = none then other.package_family_name else self.package_family_name
        product_code := if self.product_code = none then other.product_code else self.product_code
        capabilities := if self.capabilities = [] then other.capabilities else self.capabilities
        restricted_capabilities := if self.restricted_capabilities = [] then other.restricted_capabilities else self.restricted_capabilities
        markets := if self.markets = none then other.markets else self.markets
        aborts_terminal := if self.aborts_terminal = false then other.aborts_terminal else self.aborts_terminal
        release_date := if self.release_date = none then other.release_date else self.release_date
        install_location_required := if self.install_location_required = false then other.install_location_required else self.install_location_required
        require_explicit_upgrade := if self.require_explicit_upgrade = false then other.require_explicit_upgrade else self.require_explicit_upgrade } := by
  rw [show mergeUpTo24 self other = merge_require_explicit_upgrade (mergeUpTo23 self other) other from rfl,
    mergeUpTo23_spec, merge_require_explicit_upgrade_spec]

/-- Normal form of the merge chain after step 25. -/
theorem mergeUpTo25_spec (self other : Installer) :
    mergeUpTo25 self other =
      { self with
        locale := if self.locale = none then other.locale else self.locale
        platform := if self.platform = 0 then other.platform else self.platform
        minimum_os_version := if self.minimum_os_version = none then other.minimum_os_version else self.minimum_os_version
        type := if self.type = none then other.type else self.type
        nested_installer_type := if self.nested_installer_type = none then other.nested_installer_type else self.nested_installer_type
        nested_installer_files := if self.nested_installer_files = [] then other.nested_installer_files else self.nested_installer_files
        scope := if self.scope = none then other.scope else self.scope
        install_modes := if self.install_modes = 0 then other.install_modes else self.install_modes
        success_codes := if self.success_codes = [] then other.success_codes else self.success_codes
        expected_return_codes := if self.expected_return_codes = [] then other.expected_return_codes else self.expected_return_codes
        upgrade_behavior := if self.upgrade_behavior = none then other.upgrade_behavior else self.upgrade_behavior
        commands := if self.commands = [] then other.commands else self.commands
        protocols := if self.protocols = [] then other.protocols else self.protocols
        file_extensions := if self.file_extensions = [] then other.file_extensions else self.file_extensions
        dependencies := if self.dependencies = (⟨[], [], [], []⟩ : Dependencies) then other.dependencies else self.dependencies
        package_family_name := if self.package_family_name = none then other.package_family_name else self.package_family_name
        product_code := if self.product_code = none then other.product_code else self.product_code
        capabilities := if self.capabilities = [] then other.capabilities else self.capabilities
        restricted_capabilities := if self.restricted_capabilities = [] then other.restricted_capabilities else self.restricted_capabilities
        markets := if self.markets = none then other.markets else self.markets
        aborts_terminal := if self.aborts_terminal = false then other.aborts_terminal else self.aborts_terminal
        release_date := if self.release_date = none then other.release_date else self.release_date
        install_location_required := if self.install_location_required = false then other.install_location_required else self.install_location_required
        require_explicit_upgrade := if self.require_explicit_upgrade = false then other.require_explicit_upgrade else self.require_explicit_upgrade
        display_install_warnings := if self.display_install_warnings = false then other.display_install_warnings else self.display_install_warnings } := by
  rw [show mergeUpTo25 self other = merge_display_install_warnings (mergeUpTo24 self other) other from rfl,
    mergeUpTo24_spec, merge_display_install_warnings_spec]

/-- Normal form of the merge chain after step 26. -/
theorem mergeUpTo26_spec (self other : Installer) :
    mergeUpTo26 self other =
      { self with
        locale := if self.locale = none then other.locale else self.locale
        platform := if self.platform = 0 then other.platform else self.platform
        minimum_os_version := if self.minimum_os_version = none then other.minimum_os_version else self.minimum_os_version
        type := if self.type = none then other.type else self.type
        nested_installer_type := if self.nested_installer_type = none then other.nested_installer_type else self.nested_installer_type
        nested_installer_files := if self.nested_installer_files = [] then other.nested_installer_files else self.nested_installer_files
        scope := if self.scope = none then other.scope else self.scope
        install_modes := if self.install_modes = 0 then other.install_modes else self.install_modes
        success_codes := if self.success_codes = [] then other.success_codes else self.success_codes
        expected_return_codes := if self.expected_return_codes = [] then other.expected_return_codes else self.expected_return_codes
        upgrade_behavior := if self.upgrade_behavior = none then other.upgrade_behavior else self.upgrade_behavior
        commands := if self.commands = [] then other.commands else self.commands
        protocols := if self.protocols = [] then other.protocols else self.protocols
        file_extensions := if self.file_extensions = [] then other.file_extensions else self.file_extensions
        dependencies := if self.dependencies = (⟨[], [], [], []⟩ : Dependencies) then other.dependencies else self.dependencies
        package_family_name := if self.package_family_name = none then other.package_family_name else self.package_family_name
        product_code := if self.product_code = none then other.product_code else self.product_code
        capabilities := if self.capabilities = [] then other.capabilities else self.capabilities
        restricted_capabilities := if self.restricted_capabilities = [] then other.restricted_capabilities else self.restricted_capabilities
        markets := if self.markets = none then other.markets else self.markets
        aborts_terminal := if self.aborts_terminal = false then other.aborts_terminal else self.aborts_terminal
        release_date := if self.release_date = none then other.release_date else self.release_date
        install_location_required := if self.install_location_required = false then other.install_location_required else self.install_location_required
        require_explicit_upgrade := if self.require_explicit_upgrade = false then other.require_explicit_upgrade else self.require_explicit_upgrade
        display_install_warnings := if self.display_install_warnings = false then other.display_install_warnings else self.display_install_warnings
        unsupported_os_architectures := if self.unsupported_os_architectures = 0 then other.unsupported_os_architectures else self.unsupported_os_architectures } := by
  rw [show mergeUpTo26 self other = merge_unsupported_os_architectures (mergeUpTo25 self other) other from rfl,
    mergeUpTo25_spec, merge_unsupported_os_architectures_spec]

/-- Normal form of the merge chain after step 27. -/
theorem mergeUpTo27_spec (self other : Installer) :
    mergeUpTo27 self other =
      { self with
        locale := if self.locale = none then other.locale else self.locale
        platform := if self.platform = 0 then other.platform else self.platform
        minimum_os_version := if self.minimum_os_version = none then other.minimum_os_version else self.minimum_os_version
        type := if self.type = none then other.type else self.type
        nested_installer_type := if self.nested_installer_type = none then other.nested_installer_type else self.nested_installer_type
        nested_installer_files := if self.nested_installer_files = [] then other.nested_installer_files else self.nested_installer_files
        scope := if self.scope = none then other.scope else self.scope
        install_modes := if self.install_modes = 0 then other.install_modes else self.install_modes
        success_codes := if self.success_codes = [] then other.success_codes else self.success_codes
        expected_return_codes := if self.expected_return_codes = [] then other.expected_return_codes else self.expected_return_codes
        upgrade_behavior := if self.upgrade_behavior = none then other.upgrade_behavior else self.upgrade_behavior
        commands := if self.commands = [] then other.commands else self.commands
        protocols := if self.protocols = [] then other.protocols else self.protocols
        file_extensions := if self.file_extensions = [] then other.file_extensions else self.file_extensions
        dependencies := if self.dependencies = (⟨[], [], [], []⟩ : Dependencies) then other.dependencies else self.dependencies
        package_family_name := if self.package_family_name = none then other.package_family_name else self.package_family_name
        product_code := if self.product_code = none then other.product_code else self.product_code
        capabilities := if self.capabilities = [] then other.capabilities else self.capabilities
        restricted_capabilities := if self.restricted_capabilities = [] then other.restricted_capabilities else self.restricted_capabilities
        markets := if self.markets = none then other.markets else self.markets
        aborts_terminal := if self.aborts_terminal = false then other.aborts_terminal else self.aborts_terminal
        release_date := if self.release_date = none then other.release_date else self.release_date
        install_location_required := if self.install_location_required = false then other.install_location_required else self.install_location_required
        require_explicit_upgrade := if self.require_explicit_upgrade = false then other.require_explicit_upgrade else self.require_explicit_upgrade
        display_install_warnings := if self.display_install_warnings = false then other.display_install_warnings else self.display_install_warnings
        unsupported_os_architectures := if self.unsupported_os_architectures = 0 then other.unsupported_os_architectures else self.unsupported_os_architectures
        unsupported_arguments := if self.unsupported_arguments = 0 then other.unsupported_arguments else self.unsupported_arguments } := by
  rw [show mergeUpTo27 self other = merge_unsupported_arguments (mergeUpTo26 self other) other from rfl,
    mergeUpTo26_spec, merge_unsupported_arguments_spec]

/-- Normal form of the merge chain after step 28. -/
theorem mergeUpTo28_spec (self other : Installer) :
    mergeUpTo28 self other =
      { self with
        locale := if self.locale = none then other.locale else self.locale
        platform := if self.platform = 0 then other.platform else self.platform
        minimum_os_version := if self.minimum_os_version = none then other.minimum_os_version else self.minimum_os_version
        type := if self.type = none then other.type else self.type
        nested_installer_type := if self.nested_installer_type = none then other.nested_installer_type else self.nested_installer_type
        nested_installer_files := if self.nested_installer_files = [] then other.nested_installer_files else self.nested_installer_files
        scope := if self.scope = none then other.scope else self.scope
        install_modes := if self.install_modes = 0 then other.install_modes else self.install_modes
        success_codes := if self.success_codes = [] then other.success_codes else self.success_codes
        expected_return_codes := if self.expected_return_codes = [] then other.expected_return_codes else self.expected_return_codes
        upgrade_behavior := if self.upgrade_behavior = none then other.upgrade_behavior else self.upgrade_behavior
        commands := if self.commands = [] then other.commands else self.commands
        protocols := if self.protocols = [] then other.protocols else self.protocols
        file_extensions := if self.file_extensions = [] then other.file_extensions else self.file_extensions
        dependencies := if self.dependencies = (⟨[], [], [], []⟩ : Dependencies) then other.dependencies else self.dependencies
        package_family_name := if self.package_family_name = none then other.package_family_name else self.package_family_name
        product_code := if self.product_code = none then other.product_code else self.product_code
        capabilities := if self.capabilities = [] then other.capabilities else self.capabilities
        restricted_capabilities := if self.restricted_capabilities = [] then other.restricted_capabilities else self.restricted_capabilities
        markets := if self.markets = none then other.markets else self.markets
        aborts_terminal := if self.aborts_terminal = false then other.aborts_terminal else self.aborts_terminal
        release_date := if self.release_date = none then other.release_date else self.release_date
        install_location_required := if self.install_location_required = false then other.install_location_required else self.install_location_required
        require_explicit_upgrade := if self.require_explicit_upgrade = false then other.require_explicit_upgrade else self.require_explicit_upgrade
        display_install_warnings := if self.display_install_warnings = false then other.display_install_warnings else self.display_install_warnings
        unsupported_os_architectures := if self.unsupported_os_architectures = 0 then other.unsupported_os_architectures else self.unsupported_os_architectures
        unsupported_arguments := if self.unsupported_arguments = 0 then other.unsupported_arguments else self.unsupported_arguments
        apps_and_features_entries := if self.apps_and_features_entries = [] then other.apps_and_features_entries else self.apps_and_features_entries } := by
  rw [show mergeUpTo28 self other = merge_apps_and_features_entries (mergeUpTo27 self other) other from rfl,
    mergeUpTo27_spec, merge_apps_and_features_entries_spec]

/-- Normal form of the merge chain after step 29. -/
theorem mergeUpTo29_spec (self other : Installer) :
    mergeUpTo29 self other =
      { self with
        locale := if self.locale = none then other.locale else self.locale
        platform := if self.platform = 0 then other.platform else self.platform
        minimum_os_version := if self.minimum_os_version = none then other.minimum_os_version else self.minimum_os_version
        type := if self.type = none then other.type else self.type
        nested_installer_type := if self.nested_installer_type = none then other.nested_installer_type else self.nested_installer_type
        nested_installer_files := if self.nested_installer_files = [] then other.nested_installer_files else self.nested_installer_files
        scope := if self.scope = none then other.scope else self.scope
        install_modes := if self.install_modes = 0 then other.install_modes else self.install_modes
        success_codes := if self.success_codes = [] then other.success_codes else self.success_codes
        expected_return_codes := if self.expected_return_codes = [] then other.expected_return_codes else self.expected_return_codes
        upgrade_behavior := if self.upgrade_behavior = none then other.upgrade_behavior else self.upgrade_behavior
        commands := if self.commands = [] then other.commands else self.commands
        protocols := if self.protocols = [] then other.protocols else self.protocols
        file_extensions := if self.file_extensions = [] then other.file_extensions else self.file_extensions
        dependencies := if self.dependencies = (⟨[], [], [], []⟩ : Dependencies) then other.dependencies else self.dependencies
        package_family_name := if self.package_family_name = none then other.package_family_name else self.package_family_name
        product_code := if self.product_code = none then other.product_code else self.product_code
        capabilities := if self.capabilities = [] then other.capabilities else self.capabilities
        restricted_capabilities := if self.restricted_capabilities = [] then other.restricted_capabilities else self.restricted_capabilities
        markets := if self.markets = none then other.markets else self.markets
        aborts_terminal := if self.aborts_terminal = false then other.aborts_terminal else self.aborts_terminal
        release_date := if self.release_date = none then other.release_date else self.release_date
        install_location_required := if self.install_location_required = false then other.install_location_required else self.install_location_required
        require_explicit_upgrade := if self.require_explicit_upgrade = false then other.require_explicit_upgrade else self.require_explicit_upgrade
        display_install_warnings := if self.display_install_warnings = false then other.display_install_warnings else self.display_install_warnings
        unsupported_os_architectures := if self.unsupported_os_architectures = 0 then other.unsupported_os_architectures else self.unsupported_os_architectures
        unsupported_arguments := if self.unsupported_arguments = 0 then other.unsupported_arguments else self.unsupported_arguments
        apps_and_features_entries := if self.apps_and_features_entries = [] then other.apps_and_features_entries else self.apps_and_features_entries
        elevation_requirement := if self.elevation_requirement = none then other.elevation_requirement else self.elevation_requirement } := by
  rw [show mergeUpTo29 self other = merge_elevation_requirement (mergeUpTo28 self other) other from rfl,
    mergeUpTo28_spec, merge_elevation_requirement_spec]

/-- Normal form of the merge chain after step 30. -/
theorem mergeUpTo30_spec (self other : Installer) :
    mergeUpTo30 self other =
      { self with
        locale := if self.locale = none then other.locale else self.locale
        platform := if self.platform = 0 then other.platform else self.platform
        minimum_os_version := if self.minimum_os_version = none then other.minimum_os_version else self.minimum_os_version
        type := if self.type = none then other.type else self.type
        nested_installer_type := if self.nested_installer_type = none then other.nested_installer_type else self.nested_installer_type
        nested_installer_files := if self.nested_installer_files = [] then other.nested_installer_files else self.nested_installer_files
        scope := if self.scope = none then other.scope else self.scope
        install_modes := if self.install_modes = 0 then other.install_modes else self.install_modes
        success_codes := if self.success_codes = [] then other.success_codes else self.success_codes
        expected_return_codes := if self.expected_return_codes = [] then other.expected_return_codes else self.expected_return_codes
        upgrade_behavior := if self.upgrade_behavior = none then other.upgrade_behavior else self.upgrade_behavior
        commands := if self.commands = [] then other.commands else self.commands
        protocols := if self.protocols = [] then other.protocols else self.protocols
        file_extensions := if self.file_extensions = [] then other.file_extensions else self.file_extensions
        dependencies := if self.dependencies = (⟨[], [], [], []⟩ : Dependencies) then other.dependencies else self.dependencies
        package_family_name := if self.package_family_name = none then other.package_family_name else self.package_family_name
        product_code := if self.product_code = none then other.product_code else self.product_code
        capabilities := if self.capabilities = [] then other.capabilities else self.capabilities
        restricted_capabilities := if self.restricted_capabilities = [] then other.restricted_capabilities else self.restricted_capabilities
        markets := if self.markets = none then other.markets else self.markets
        aborts_terminal := if self.aborts_terminal = false then other.aborts_terminal else self.aborts_terminal
        release_date := if self.release_date = none then other.release_date else self.release_date
        install_location_required := if self.install_location_required = false then other.install_location_required else self.install_location_required
        require_explicit_upgrade := if self.require_explicit_upgrade = false then other.require_explicit_upgrade else self.require_explicit_upgrade
        display_install_warnings := if self.display_install_warnings = false then other.display_install_warnings else self.display_install_warnings
        unsupported_os_architectures := if self.unsupported_os_architectures = 0 then other.unsupported_os_architectures else self.unsupported_os_architectures
        unsupported_arguments := if self.unsupported_arguments = 0 then other.unsupported_arguments else self.unsupported_arguments
        apps_and_features_entries := if self.apps_and_features_entries = [] then other.apps_and_features_entries else self.apps_and_features_entries
        elevation_requirement := if self.elevation_requirement = none then other.elevation_requirement else self.elevation_requirement
        installation_metadata := if self.installation_metadata = (⟨none, []⟩ : InstallationMetadata) then other.installation_metadata else self.installation_metadata } := by
  rw [show mergeUpTo30 self other = merge_installation_metadata (mergeUpTo29 self other) other from rfl,
    mergeUpTo29_spec, merge_installation_metadata_spec]

/-- Normal form of the merge chain after step 31. -/
theorem mergeUpTo31_spec (self other : Installer) :
    mergeUpTo31 self other =
      { self with
        locale := if self.locale = none then other.locale else self.locale
        platform := if self.platform = 0 then other.platform else self.platform
        minimum_os_version := if self.minimum_os_version = none then other.minimum_os_version else self.minimum_os_version
        type := if self.type = none then other.type else self.type
        nested_installer_type := if self.nested_installer_type = none then other.nested_installer_type else self.nested_installer_type
        nested_installer_files := if self.nested_installer_files = [] then other.nested_installer_files else self.nested_installer_files
        scope := if self.scope = none then other.scope else self.scope
        install_modes := if self.install_modes = 0 then other.install_modes else self.install_modes
        success_codes := if self.success_codes = [] then other.success_codes else self.success_codes
        expected_return_codes := if self.expected_return_codes = [] then other.expected_return_codes else self.expected_return_codes
        upgrade_behavior := if self.upgrade_behavior = none then other.upgrade_behavior else self.upgrade_behavior
        commands := if self.commands = [] then other.commands else self.commands
        protocols := if self.protocols = [] then other.protocols else self.protocols
        file_extensions := if self.file_extensions = [] then other.file_extensions else self.file_extensions
        dependencies := if self.dependencies = (⟨[], [], [], []⟩ : Dependencies) then other.dependencies else self.dependencies
        package_family_name := if self.package_family_name = none then other.package_family_name else self.package_family_name
        product_code := if self.product_code = none then other.product_code else self.product_code
        capabilities := if self.capabilities = [] then other.capabilities else self.capabilities
        restricted_capabilities := if self.restricted_capabilities = [] then other.restricted_capabilities else self.restricted_capabilities
        markets := if self.markets = none then other.markets else self.markets
        aborts_terminal := if self.aborts_terminal = false then other.aborts_terminal else self.aborts_terminal
        release_date := if self.release_date = none then other.release_date else self.release_date
        install_location_required := if self.install_location_required = false then other.install_location_required else self.install_location_required
        require_explicit_upgrade := if self.require_explicit_upgrade = false then other.require_explicit_upgrade else self.require_explicit_upgrade
        display_install_warnings := if self.display_install_warnings = false then other.display_install_warnings else self.display_install_warnings
        unsupported_os_architectures := if self.unsupported_os_architectures = 0 then other.unsupported_os_architectures else self.unsupported_os_architectures
        unsupported_arguments := if self.unsupported_arguments = 0 then other.unsupported_arguments else self.unsupported_arguments
        apps_and_features_entries := if self.apps_and_features_entries = [] then other.apps_and_features_entries else self.apps_and_features_entries
        elevation_requirement := if self.elevation_requirement = none then other.elevation_requirement else self.elevation_requirement
        installation_metadata := if self.installation_metadata = (⟨none, []⟩ : InstallationMetadata) then other.installation_metadata else self.installation_metadata
        download_command_prohibited := if self.download_command_prohibited = false then other.download_command_prohibited else self.download_command_prohibited } := by
  rw [show mergeUpTo31 self other = merge_download_command_prohibited (mergeUpTo30 self other) other from rfl,
    mergeUpTo30_spec, merge_download_command_prohibited_spec]

/-- Normal form of the merge chain after step 32. -/
theorem mergeUpTo32_spec (self other : Installer) :
    mergeUpTo32 self other =
      { self with
        locale := if self.locale = none then other.locale else self.locale
        platform := if self.platform = 0 then other.platform else self.platform
        minimum_os_version := if self.minimum_os_version = none then other.minimum_os_version else self.minimum_os_version
        type := if self.type = none then other.type else self.type
        nested_installer_type := if self.nested_installer_type = none then other.nested_installer_type else self.nested_installer_type
        nested_installer_files := if self.nested_installer_files = [] then other.nested_installer_files else self.nested_installer_files
        scope := if self.scope = none then other.scope else self.scope
        install_modes := if self.install_modes = 0 then other.install_modes else self.install_modes
        success_codes := if self.success_codes = [] then other.success_codes else self.success_codes
        expected_return_codes := if self.expected_return_codes = [] then other.expected_return_codes else self.expected_return_codes
        upgrade_behavior := if self.upgrade_behavior = none then other.upgrade_behavior else self.upgrade_behavior
        commands := if self.commands = [] then other.commands else self.commands
        protocols := if self.protocols = [] then other.protocols else self.protocols
        file_extensions := if self.file_extensions = [] then other.file_extensions else self.file_extensions
        dependencies := if self.dependencies = (⟨[], [], [], []⟩ : Dependencies) then other.dependencies else self.dependencies
        package_family_name := if self.package_family_name = none then other.package_family_name else self.package_family_name
        product_code := if self.product_code = none then other.product_code else self.product_code
        capabilities := if self.capabilities = [] then other.capabilities else self.capabilities
        restricted_capabilities := if self.restricted_capabilities = [] then other.restricted_capabilities else self.restricted_capabilities
        markets := if self.markets = none then other.markets else self.markets
        aborts_terminal := if self.aborts_terminal = false then other.aborts_terminal else self.aborts_terminal
        release_date := if self.release_date = none then other.release_date else self.release_date
        install_location_required := if self.install_location_required = false then other.install_location_required else self.install_location_required
        require_explicit_upgrade := if self.require_explicit_upgrade = false then other.require_explicit_upgrade else self.require_explicit_upgrade
        display_install_warnings := if self.display_install_warnings = false then other.display_install_warnings else self.display_install_warnings
        unsupported_os_architectures := if self.unsupported_os_architectures = 0 then other.unsupported_os_architectures else self.unsupported_os_architectures
        unsupported_arguments := if self.unsupported_arguments = 0 then other.unsupported_arguments else self.unsupported_arguments
        apps_and_features_entries := if self.apps_and_features_entries = [] then other.apps_and_features_entries else self.apps_and_features_entries
        elevation_requirement := if self.elevation_requirement = none then other.elevation_requirement else self.elevation_requirement
        installation_metadata := if self.installation_metadata = (⟨none, []⟩ : InstallationMetadata) then other.installation_metadata else self.installation_metadata
        download_command_prohibited := if self.download_command_prohibited = false then other.download_command_prohibited else self.download_command_prohibited
        repair_behavior := if self.repair_behavior = none then other.repair_behavior else self.repair_behavior } := by
  rw [show mergeUpTo32 self other = merge_repair_behavior (mergeUpTo31 self other) other from rfl,
    mergeUpTo31_spec, merge_repair_behavior_spec]

/-- Normal form of the merge chain after step 33. -/
theorem mergeUpTo33_spec (self other : Installer) :
    mergeUpTo33 self other =
      { self with
        locale := if self.locale = none then other.locale else self.locale
        platform := if self.platform = 0 then other.platform else self.platform
        minimum_os_version := if self.minimum_os_version = none then other.minimum_os_version else self.minimum_os_version
        type := if self.type = none then other.type else self.type
        nested_installer_type := if self.nested_installer_type = none then other.nested_installer_type else self.nested_installer_type
        nested_installer_files := if self.nested_installer_files = [] then other.nested_installer_files else self.nested_installer_files
        scope := if self.scope = none then other.scope else self.scope
        install_modes := if self.install_modes = 0 then other.install_modes else self.install_modes
        success_codes := if self.success_codes = [] then other.success_codes else self.success_codes
        expected_return_codes := if self.expected_return_codes = [] then other.expected_return_codes else self.expected_return_codes
        upgrade_behavior := if self.upgrade_behavior = none then other.upgrade_behavior else self.upgrade_behavior
        commands := if self.commands = [] then other.commands else self.commands
        protocols := if self.protocols = [] then other.protocols else self.protocols
        file_extensions := if self.file_extensions = [] then other.file_extensions else self.file_extensions
        dependencies := if self.dependencies = (⟨[], [], [], []⟩ : Dependencies) then other.dependencies else self.dependencies
        package_family_name := if self.package_family_name = none then other.package_family_name else self.package_family_name
        product_code := if self.product_code = none then other.product_code else self.product_code
        capabilities := if self.capabilities = [] then other.capabilities else self.capabilities
        restricted_capabilities := if self.restricted_capabilities = [] then other.restricted_capabilities else self.restricted_capabilities
        markets := if self.markets = none then other.markets else self.markets
        aborts_terminal := if self.aborts_terminal = false then other.aborts_terminal else self.aborts_terminal
        release_date := if self.release_date = none then other.release_date else self.release_date
        install_location_required := if self.install_location_required = false then other.install_location_required else self.install_location_required
        require_explicit_upgrade := if self.require_explicit_upgrade = false then other.require_explicit_upgrade else self.require_explicit_upgrade
        display_install_warnings := if self.display_install_warnings = false then other.display_install_warnings else self.display_install_warnings
        unsupported_os_architectures := if self.unsupported_os_architectures = 0 then other.unsupported_os_architectures else self.unsupported_os_architectures
        unsupported_arguments := if self.unsupported_arguments = 0 then other.unsupported_arguments else self.unsupported_arguments
        apps_and_features_entries := if self.apps_and_features_entries = [] then other.apps_and_features_entries else self.apps_and_features_entries
        elevation_requirement := if self.elevation_requirement = none then other.elevation_requirement else self.elevation_requirement
        installation_metadata := if self.installation_metadata = (⟨none, []⟩ : InstallationMetadata) then other.installation_metadata else self.installation_metadata
        download_command_prohibited := if self.download_command_prohibited = false then other.download_command_prohibited else self.download_command_prohibited
        repair_behavior := if self.repair_behavior = none then other.repair_behavior else self.repair_behavior
        archive_binaries_depend_on_path := if self.archive_binaries_depend_on_path = false then other.archive_binaries_depend_on_path else self.archive_binaries_depend_on_path } := by
  rw [show mergeUpTo33 self other = merge_archive_binaries_depend_on_path (mergeUpTo32 self other) other from rfl,
    mergeUpTo32_spec, merge_archive_binaries_depend_on_path_spec]

/-- Normal form of the merge chain after step 34. -/
theorem mergeUpTo34_spec (self other : Installer) :
    mergeUpTo34 self other =
      { self with
        locale := if self.locale = none then other.locale else self.locale
        platform := if self.platform = 0 then other.platform else self.platform
        minimum_os_version := if self.minimum_os_version = none then other.minimum_os_version else self.minimum_os_version
        type := if self.type = none then other.type else self.type
        nested_installer_type := if self.nested_installer_type = none then other.nested_installer_type else self.nested_installer_type
        nested_installer_files := if self.nested_installer_files = [] then other.nested_installer_files else self.nested_installer_files
        scope := if self.scope = none then other.scope else self.scope
        install_modes := if self.install_modes = 0 then other.install_modes else self.install_modes
        success_codes := if self.success_codes = [] then other.success_codes else self.success_codes
        expected_return_codes := if self.expected_return_codes = [] then other.expected_return_codes else self.expected_return_codes
        upgrade_behavior := if self.upgrade_behavior = none then other.upgrade_behavior else self.upgrade_behavior
        commands := if self.commands = [] then other.commands else self.commands
        protocols := if self.protocols = [] then other.protocols else self.protocols
        file_extensions := if self.file_extensions = [] then other.file_extensions else self.file_extensions
        dependencies := if self.dependencies = (⟨[], [], [], []⟩ : Dependencies) then other.dependencies else self.dependencies
        package_family_name := if self.package_family_name = none then other.package_family_name else self.package_family_name
        product_code := if self.product_code = none then other.product_code else self.product_code
        capabilities := if self.capabilities = [] then other.capabilities else self.capabilities
        restricted_capabilities := if self.restricted_capabilities = [] then other.restricted_capabilities else self.restricted_capabilities
        markets := if self.markets = none then other.markets else self.markets
        aborts_terminal := if self.aborts_terminal = false then other.aborts_terminal else self.aborts_terminal
        release_date := if self.release_date = none then other.release_date else self.release_date
        install_location_required := if self.install_location_required = false then other.install_location_required else self.install_location_required
        require_explicit_upgrade := if self.require_explicit_upgrade = false then other.require_explicit_upgrade else self.require_explicit_upgrade
        display_install_warnings := if self.display_install_warnings = false then other.display_install_warnings else self.display_install_warnings
        unsupported_os_architectures := if self.unsupported_os_architectures = 0 then other.unsupported_os_architectures else self.unsupported_os_architectures
        unsupported_arguments := if self.unsupported_arguments = 0 then other.unsupported_arguments else self.unsupported_arguments
        apps_and_features_entries := if self.apps_and_features_entries = [] then other.apps_and_features_entries else self.apps_and_features_entries
        elevation_requirement := if self.elevation_requirement = none then other.elevation_requirement else self.elevation_requirement
        installation_metadata := if self.installation_metadata = (⟨none, []⟩ : InstallationMetadata) then other.installation_metadata else self.installation_metadata
        download_command_prohibited := if self.download_command_prohibited = false then other.download_command_prohibited else self.download_command_prohibited
        repair_behavior := if self.repair_behavior = none then other.repair_behavior else self.repair_behavior
        archive_binaries_depend_on_path := if self.archive_binaries_depend_on_path = false then other.archive_binaries_depend_on_path else self.archive_binaries_depend_on_path
        switches.silent := mergedSwitchValue self.switches.silent other.switches.silent } := by
  rw [show mergeUpTo34 self other = merge_switch_silent (mergeUpTo33 self other) other from rfl,
    mergeUpTo33_spec, merge_switch_silent_spec]

/-- Normal form of the merge chain after step 35. -/
theorem mergeUpTo35_spec (self other : Installer) :
    mergeUpTo35 self other =
      { self with
        locale := if self.locale = none then other.locale else self.locale
        platform := if self.platform = 0 then other.platform else self.platform
        minimum_os_version := if self.minimum_os_version = none then other.minimum_os_version else self.minimum_os_version
        type := if self.type = none then other.type else self.type
        nested_installer_type := if self.nested_installer_type = none then other.nested_installer_type else self.nested_installer_type
        nested_installer_files := if self.nested_installer_files = [] then other.nested_installer_files else self.nested_installer_files
        scope := if self.scope = none then other.scope else self.scope
        install_modes := if self.install_modes = 0 then other.install_modes else self.install_modes
        success_codes := if self.success_codes = [] then other.success_codes else self.success_codes
        expected_return_codes := if self.expected_return_codes = [] then other.expected_return_codes else self.expected_return_codes
        upgrade_behavior := if self.upgrade_behavior = none then other.upgrade_behavior else self.upgrade_behavior
        commands := if self.commands = [] then other.commands else self.commands
        protocols := if self.protocols = [] then other.protocols else self.protocols
        file_extensions := if self.file_extensions = [] then other.file_extensions else self.file_extensions
        dependencies := if self.dependencies = (⟨[], [], [], []⟩ : Dependencies) then other.dependencies else self.dependencies
        package_family_name := if self.package_family_name = none then other.package_family_name else self.package_family_name
        product_code := if self.product_code = none then other.product_code else self.product_code
        capabilities := if self.capabilities = [] then other.capabilities else self.capabilities
        restricted_capabilities := if self.restricted_capabilities = [] then other.restricted_capabilities else self.restricted_capabilities
        markets := if self.markets = none then other.markets else self.markets
        aborts_terminal := if self.aborts_terminal = false then other.aborts_terminal else self.aborts_terminal
        release_date := if self.release_date = none then other.release_date else self.release_date
        install_location_required := if self.install_location_required = false then other.install_location_required else self.install_location_required
        require_explicit_upgrade := if self.require_explicit_upgrade = false then other.require_explicit_upgrade else self.require_explicit_upgrade
        display_install_warnings := if self.display_install_warnings = false then other.display_install_warnings else self.display_install_warnings
        unsupported_os_architectures := if self.unsupported_os_architectures = 0 then other.unsupported_os_architectures else self.unsupported_os_architectures
        unsupported_arguments := if self.unsupported_arguments = 0 then other.unsupported_arguments else self.unsupported_arguments
        apps_and_features_entries := if self.apps_and_features_entries = [] then other.apps_and_features_entries else self.apps_and_features_entries
        elevation_requirement := if self.elevation_requirement = none then other.elevation_requirement else self.elevation_requirement
        installation_metadata := if self.installation_metadata = (⟨none, []⟩ : InstallationMetadata) then other.installation_metadata else self.installation_metadata
        download_command_prohibited := if self.download_command_prohibited = false then other.download_command_prohibited else self.download_command_prohibited
        repair_behavior := if self.repair_behavior = none then other.repair_behavior else self.repair_behavior
        archive_binaries_depend_on_path := if self.archive_binaries_depend_on_path = false then other.archive_binaries_depend_on_path else self.archive_binaries_depend_on_path
        switches.silent := mergedSwitchValue self.switches.silent other.switches.silent
        switches.silent_with_progress := mergedSwitchValue self.switches.silent_with_progress other.switches.silent_with_progress } := by
  rw [show mergeUpTo35 self other = merge_switch_silent_with_progress (mergeUpTo34 self other) other from rfl,
    mergeUpTo34_spec, merge_switch_silent_with_progress_spec]

/-- Normal form of the merge chain after step 36. -/
theorem mergeUpTo36_spec (self other : Installer) :
    mergeUpTo36 self other =
      { self with
        locale := if self.locale = none then other.locale else self.locale
        platform := if self.platform = 0 then other.platform else self.platform
        minimum_os_version := if self.minimum_os_version = none then other.minimum_os_version else self.minimum_os_version
        type := if self.type = none then other.type else self.type
        nested_installer_type := if self.nested_installer_type = none then other.nested_installer_type else self.nested_installer_type
        nested_installer_files := if self.nested_installer_files = [] then other.nested_installer_files else self.nested_installer_files
        scope := if self.scope = none then other.scope else self.scope
        install_modes := if self.install_modes = 0 then other.install_modes else self.install_modes
        success_codes := if self.success_codes = [] then other.success_codes else self.success_codes
        expected_return_codes := if self.expected_return_codes = [] then other.expected_return_codes else self.expected_return_codes
        upgrade_behavior := if self.upgrade_behavior = none then other.upgrade_behavior else self.upgrade_behavior
        commands := if self.commands = [] then other.commands else self.commands
        protocols := if self.protocols = [] then other.protocols else self.protocols
        file_extensions := if self.file_extensions = [] then other.file_extensions else self.file_extensions
        dependencies := if self.dependencies = (⟨[], [], [], []⟩ : Dependencies) then other.dependencies else self.dependencies
        package_family_name := if self.package_family_name = none then other.package_family_name else self.package_family_name
        product_code := if self.product_code = none then other.product_code else self.product_code
        capabilities := if self.capabilities = [] then other.capabilities else self.capabilities
        restricted_capabilities := if self.restricted_capabilities = [] then other.restricted_capabilities else self.restricted_capabilities
        markets := if self.markets = none then other.markets else self.markets
        aborts_terminal := if self.aborts_terminal = false then other.aborts_terminal else self.aborts_terminal
        release_date := if self.release_date = none then other.release_date else self.release_date
        install_location_required := if self.install_location_required = false then other.install_location_required else self.install_location_required
        require_explicit_upgrade := if self.require_explicit_upgrade = false then other.require_explicit_upgrade else self.require_explicit_upgrade
        display_install_warnings := if self.display_install_warnings = false then other.display_install_warnings else self.display_install_warnings
        unsupported_os_architectures := if self.unsupported_os_architectures = 0 then other.unsupported_os_architectures else self.unsupported_os_architectures
        unsupported_arguments := if self.unsupported_arguments = 0 then other.unsupported_arguments else self.unsupported_arguments
        apps_and_features_entries := if self.apps_and_features_entries = [] then other.apps_and_features_entries else self.apps_and_features_entries
        elevation_requirement := if self.elevation_requirement = none then other.elevation_requirement else self.elevation_requirement
        installation_metadata := if self.installation_metadata = (⟨none, []⟩ : InstallationMetadata) then other.installation_metadata else self.installation_metadata
        download_command_prohibited := if self.download_command_prohibited = false then other.download_command_prohibited else self.download_command_prohibited
        repair_behavior := if self.repair_behavior = none then other.repair_behavior else self.repair_behavior
        archive_binaries_depend_on_path := if self.archive_binaries_depend_on_path = false then other.archive_binaries_depend_on_path else self.archive_binaries_depend_on_path
        switches.silent := mergedSwitchValue self.switches.silent other.switches.silent
        switches.silent_with_progress := mergedSwitchValue self.switches.silent_with_progress other.switches.silent_with_progress
        switches.interactive := mergedSwitchValue self.switches.interactive other.switches.interactive } := by
  rw [show mergeUpTo36 self other = merge_switch_interactive (mergeUpTo35 self other) other from rfl,
    mergeUpTo35_spec, merge_switch_interactive_spec]

/-- Normal form of the merge chain after step 37. -/
theorem mergeUpTo37_spec (self other : Installer) :
    mergeUpTo37 self other =
      { self with
        locale := if self.locale = none then other.locale else self.locale
        platform := if self.platform = 0 then other.platform else self.platform
        minimum_os_version := if self.minimum_os_version = none then other.minimum_os_version else self.minimum_os_version
        type := if self.type = none then other.type else self.type
        nested_installer_type := if self.nested_installer_type = none then other.nested_installer_type else self.nested_installer_type
        nested_installer_files := if self.nested_installer_files = [] then other.nested_installer_files else self.nested_installer_files
        scope := if self.scope = none then other.scope else self.scope
        install_modes := if self.install_modes = 0 then other.install_modes else self.install_modes
        success_codes := if self.success_codes = [] then other.success_codes else self.success_codes
        expected_return_codes := if self.expected_return_codes = [] then other.expected_return_codes else self.expected_return_codes
        upgrade_behavior := if self.upgrade_behavior = none then other.upgrade_behavior else self.upgrade_behavior
        commands := if self.commands = [] then other.commands else self.commands
        protocols := if self.protocols = [] then other.protocols else self.protocols
        file_extensions := if self.file_extensions = [] then other.file_extensions else self.file_extensions
        dependencies := if self.dependencies = (⟨[], [], [], []⟩ : Dependencies) then other.dependencies else self.dependencies
        package_family_name := if self.package_family_name = none then other.package_family_name else self.package_family_name
        product_code := if self.product_code = none then other.product_code else self.product_code
        capabilities := if self.capabilities = [] then other.capabilities else self.capabilities
        restricted_capabilities := if self.restricted_capabilities = [] then other.restricted_capabilities else self.restricted_capabilities
        markets := if self.markets = none then other.markets else self.markets
        aborts_terminal := if self.aborts_terminal = false then other.aborts_terminal else self.aborts_terminal
        release_date := if self.release_date = none then other.release_date else self.release_date
        install_location_required := if self.install_location_required = false then other.install_location_required else self.install_location_required
        require_explicit_upgrade := if self.require_explicit_upgrade = false then other.require_explicit_upgrade else self.require_explicit_upgrade
        display_install_warnings := if self.display_install_warnings = false then other.display_install_warnings else self.display_install_warnings
        unsupported_os_architectures := if self.unsupported_os_architectures = 0 then other.unsupported_os_architectures else self.unsupported_os_architectures
        unsupported_arguments := if self.unsupported_arguments = 0 then other.unsupported_arguments else self.unsupported_arguments
        apps_and_features_entries := if self.apps_and_features_entries = [] then other.apps_and_features_entries else self.apps_and_features_entries
        elevation_requirement := if self.elevation_requirement = none then other.elevation_requirement else self.elevation_requirement
        installation_metadata := if self.installation_metadata = (⟨none, []⟩ : InstallationMetadata) then other.installation_metadata else self.installation_metadata
        download_command_prohibited := if self.download_command_prohibited = false then other.download_command_prohibited else self.download_command_prohibited
        repair_behavior := if self.repair_behavior = none then other.repair_behavior else self.repair_behavior
        archive_binaries_depend_on_path := if self.archive_binaries_depend_on_path = false then other.archive_binaries_depend_on_path else self.archive_binaries_depend_on_path
        switches.silent := mergedSwitchValue self.switches.silent other.switches.silent
        switches.silent_with_progress := mergedSwitchValue self.switches.silent_with_progress other.switches.silent_with_progress
        switches.interactive := mergedSwitchValue self.switches.interactive other.switches.interactive
        switches.install_location := mergedSwitchValue self.switches.install_location other.switches.install_location } := by
  rw [show mergeUpTo37 self other = merge_switch_install_location (mergeUpTo36 self other) other from rfl,
    mergeUpTo36_spec, merge_switch_install_location_spec]

/-- Normal form of the merge chain after step 38. -/
theorem mergeUpTo38_spec (self other : Installer) :
    mergeUpTo38 self other =
      { self with
        locale := if self.locale = none then other.locale else self.locale
        platform := if self.platform = 0 then other.platform else self.platform
        minimum_os_version := if self.minimum_os_version = none then other.minimum_os_version else self.minimum_os_version
        type := if self.type = none then other.type else self.type
        nested_installer_type := if self.nested_installer_type = none then other.nested_installer_type else self.nested_installer_type
        nested_installer_files := if self.nested_installer_files = [] then other.nested_installer_files else self.nested_installer_files
        scope := if self.scope = none then other.scope else self.scope
        install_modes := if self.install_modes = 0 then other.install_modes else self.install_modes
        success_codes := if self.success_codes = [] then other.success_codes else self.success_codes
        expected_return_codes := if self.expected_return_codes = [] then other.expected_return_codes else self.expected_return_codes
        upgrade_behavior := if self.upgrade_behavior = none then other.upgrade_behavior else self.upgrade_behavior
        commands := if self.commands = [] then other.commands else self.commands
        protocols := if self.protocols = [] then other.protocols else self.protocols
        file_extensions := if self.file_extensions = [] then other.file_extensions else self.file_extensions
        dependencies := if self.dependencies = (⟨[], [], [], []⟩ : Dependencies) then other.dependencies else self.dependencies
        package_family_name := if self.package_family_name = none then other.package_family_name else self.package_family_name
        product_code := if self.product_code = none then other.product_code else self.product_code
        capabilities := if self.capabilities = [] then other.capabilities else self.capabilities
        restricted_capabilities := if self.restricted_capabilities = [] then other.restricted_capabilities else self.restricted_capabilities
        markets := if self.markets = none then other.markets else self.markets
        aborts_terminal := if self.aborts_terminal = false then other.aborts_terminal else self.aborts_terminal
        release_date := if self.release_date = none then other.release_date else self.release_date
        install_location_required := if self.install_location_required = false then other.install_location_required else self.install_location_required
        require_explicit_upgrade := if self.require_explicit_upgrade = false then other.require_explicit_upgrade else self.require_explicit_upgrade
        display_install_warnings := if self.display_install_warnings = false then other.display_install_warnings else self.display_install_warnings
        unsupported_os_architectures := if self.unsupported_os_architectures = 0 then other.unsupported_os_architectures else self.unsupported_os_architectures
        unsupported_arguments := if self.unsupported_arguments = 0 then other.unsupported_arguments else self.unsupported_arguments
        apps_and_features_entries := if self.apps_and_features_entries = [] then other.apps_and_features_entries else self.apps_and_features_entries
        elevation_requirement := if self.elevation_requirement = none then other.elevation_requirement else self.elevation_requirement
        installation_metadata := if self.installation_metadata = (⟨none, []⟩ : InstallationMetadata) then other.installation_metadata else self.installation_metadata
        download_command_prohibited := if self.download_command_prohibited = false then other.download_command_prohibited else self.download_command_prohibited
        repair_behavior := if self.repair_behavior = none then other.repair_behavior else self.repair_behavior
        archive_binaries_depend_on_path := if self.archive_binaries_depend_on_path = false then other.archive_binaries_depend_on_path else self.archive_binaries_depend_on_path
        switches.silent := mergedSwitchValue self.switches.silent other.switches.silent
        switches.silent_with_progress := mergedSwitchValue self.switches.silent_with_progress other.switches.silent_with_progress
        switches.interactive := mergedSwitchValue self.switches.interactive other.switches.interactive
        switches.install_location := mergedSwitchValue self.switches.install_location other.switches.install_location
        switches.log := mergedSwitchValue self.switches.log other.switches.log } := by
  rw [show mergeUpTo38 self other = merge_switch_log (mergeUpTo37 self other) other from rfl,
    mergeUpTo37_spec, merge_switch_log_spec]

/-- Normal form of the merge chain after step 39. -/
theorem mergeUpTo39_spec (self other : Installer) :
    mergeUpTo39 self other =
      { self with
        locale := if self.locale = none then other.locale else self.locale
        platform := if self.platform = 0 then other.platform else self.platform
        minimum_os_version := if self.minimum_os_version = none then other.minimum_os_version else self.minimum_os_version
        type := if self.type = none then other.type else self.type
        nested_installer_type := if self.nested_installer_type = none then other.nested_installer_type else self.nested_installer_type
        nested_installer_files := if self.nested_installer_files = [] then other.nested_installer_files else self.nested_installer_files
        scope := if self.scope = none then other.scope else self.scope
        install_modes := if self.install_modes = 0 then other.install_modes else self.install_modes
        success_codes := if self.success_codes = [] then other.success_codes else self.success_codes
        expected_return_codes := if self.expected_return_codes = [] then other.expected_return_codes else self.expected_return_codes
        upgrade_behavior := if self.upgrade_behavior = none then other.upgrade_behavior else self.upgrade_behavior
        commands := if self.commands = [] then other.commands else self.commands
        protocols := if self.protocols = [] then other.protocols else self.protocols
        file_extensions := if self.file_extensions = [] then other.file_extensions else self.file_extensions
        dependencies := if self.dependencies = (⟨[], [], [], []⟩ : Dependencies) then other.dependencies else self.dependencies
        package_family_name := if self.package_family_name = none then other.package_family_name else self.package_family_name
        product_code := if self.product_code = none then other.product_code else self.product_code
        capabilities := if self.capabilities = [] then other.capabilities else self.capabilities
        restricted_capabilities := if self.restricted_capabilities = [] then other.restricted_capabilities else self.restricted_capabilities
        markets := if self.markets = none then other.markets else self.markets
        aborts_terminal := if self.aborts_terminal = false then other.aborts_terminal else self.aborts_terminal
        release_date := if self.release_date = none then other.release_date else self.release_date
        install_location_required := if self.install_location_required = false then other.install_location_required else self.install_location_required
        require_explicit_upgrade := if self.require_explicit_upgrade = false then other.require_explicit_upgrade else self.require_explicit_upgrade
        display_install_warnings := if self.display_install_warnings = false then other.display_install_warnings else self.display_install_warnings
        unsupported_os_architectures := if self.unsupported_os_architectures = 0 then other.unsupported_os_architectures else self.unsupported_os_architectures
        unsupported_arguments := if self.unsupported_arguments = 0 then other.unsupported_arguments else self.unsupported_arguments
        apps_and_features_entries := if self.apps_and_features_entries = [] then other.apps_and_features_entries else self.apps_and_features_entries
        elevation_requirement := if self.elevation_requirement = none then other.elevation_requirement else self.elevation_requirement
        installation_metadata := if self.installation_metadata = (⟨none, []⟩ : InstallationMetadata) then other.installation_metadata else self.installation_metadata
        download_command_prohibited := if self.download_command_prohibited = false then other.download_command_prohibited else self.download_command_prohibited
        repair_behavior := if self.repair_behavior = none then other.repair_behavior else self.repair_behavior
        archive_binaries_depend_on_path := if self.archive_binaries_depend_on_path = false then other.archive_binaries_depend_on_path else self.archive_binaries_depend_on_path
        switches.silent := mergedSwitchValue self.switches.silent other.switches.silent
        switches.silent_with_progress := mergedSwitchValue self.switches.silent_with_progress other.switches.silent_with_progress
        switches.interactive := mergedSwitchValue self.switches.interactive other.switches.interactive
        switches.install_location := mergedSwitchValue self.switches.install_location other.switches.install_location
        switches.log := mergedSwitchValue self.switches.log other.switches.log
        switches.upgrade := mergedSwitchValue self.switches.upgrade other.switches.upgrade } := by
  rw [show mergeUpTo39 self other = merge_switch_upgrade (mergeUpTo38 self other) other from rfl,
    mergeUpTo38_spec, merge_switch_upgrade_spec]

/-- Normal form of the merge chain after step 40. -/
theorem mergeUpTo40_spec (self other : Installer) :
    mergeUpTo40 self other =
      { self with
        locale := if self.locale = none then other.locale else self.locale
        platform := if self.platform = 0 then other.platform else self.platform
        minimum_os_version := if self.minimum_os_version = none then other.minimum_os_version else self.minimum_os_version
        type := if self.type = none then other.type else self.type
        nested_installer_type := if self.nested_installer_type = none then other.nested_installer_type else self.nested_installer_type
        nested_installer_files := if self.nested_installer_files = [] then other.nested_installer_files else self.nested_installer_files
        scope := if self.scope = none then other.scope else self.scope
        install_modes := if self.install_modes = 0 then other.install_modes else self.install_modes
        success_codes := if self.success_codes = [] then other.success_codes else self.success_codes
        expected_return_codes := if self.expected_return_codes = [] then other.expected_return_codes else self.expected_return_codes
        upgrade_behavior := if self.upgrade_behavior = none then other.upgrade_behavior else self.upgrade_behavior
        commands := if self.commands = [] then other.commands else self.commands
        protocols := if self.protocols = [] then other.protocols else self.protocols
        file_extensions := if self.file_extensions = [] then other.file_extensions else self.file_extensions
        dependencies := if self.dependencies = (⟨[], [], [], []⟩ : Dependencies) then other.dependencies else self.dependencies
        package_family_name := if self.package_family_name = none then other.package_family_name else self.package_family_name
        product_code := if self.product_code = none then other.product_code else self.product_code
        capabilities := if self.capabilities = [] then other.capabilities else self.capabilities
        restricted_capabilities := if self.restricted_capabilities = [] then other.restricted_capabilities else self.restricted_capabilities
        markets := if self.markets = none then other.markets else self.markets
        aborts_terminal := if self.aborts_terminal = false then other.aborts_terminal else self.aborts_terminal
        release_date := if self.release_date = none then other.release_date else self.release_date
        install_location_required := if self.install_location_required = false then other.install_location_required else self.install_location_required
        require_explicit_upgrade := if self.require_explicit_upgrade = false then other.require_explicit_upgrade else self.require_explicit_upgrade
        display_install_warnings := if self.display_install_warnings = false then other.display_install_warnings else self.display_install_warnings
        unsupported_os_architectures := if self.unsupported_os_architectures = 0 then other.unsupported_os_architectures else self.unsupported_os_architectures
        unsupported_arguments := if self.unsupported_arguments = 0 then other.unsupported_arguments else self.unsupported_arguments
        apps_and_features_entries := if self.apps_and_features_entries = [] then other.apps_and_features_entries else self.apps_and_features_entries
        elevation_requirement := if self.elevation_requirement = none then other.elevation_requirement else self.elevation_requirement
        installation_metadata := if self.installation_metadata = (⟨none, []⟩ : InstallationMetadata) then other.installation_metadata else self.installation_metadata
        download_command_prohibited := if self.download_command_prohibited = false then other.download_command_prohibited else self.download_command_prohibited
        repair_behavior := if self.repair_behavior = none then other.repair_behavior else self.repair_behavior
        archive_binaries_depend_on_path := if self.archive_binaries_depend_on_path = false then other.archive_binaries_depend_on_path else self.archive_binaries_depend_on_path
        switches.silent := mergedSwitchValue self.switches.silent other.switches.silent
        switches.silent_with_progress := mergedSwitchValue self.switches.silent_with_progress other.switches.silent_with_progress
        switches.interactive := mergedSwitchValue self.switches.interactive other.switches.interactive
        switches.install_location := mergedSwitchValue self.switches.install_location other.switches.install_location
        switches.log := mergedSwitchValue self.switches.log other.switches.log
        switches.upgrade := mergedSwitchValue self.switches.upgrade other.switches.upgrade
        switches.custom := mergedSwitchValue self.switches.custom other.switches.custom } := by
  rw [show mergeUpTo40 self other = merge_switch_custom (mergeUpTo39 self other) other from rfl,
    mergeUpTo39_spec, merge_switch_custom_spec]

/-- Normal form of the merge chain after step 41. -/
theorem mergeUpTo41_spec (self other : Installer) :
    mergeUpTo41 self other =
      { self with
        locale := if self.locale = none then other.locale else self.locale
        platform := if self.platform = 0 then other.platform else self.platform
        minimum_os_version := if self.minimum_os_version = none then other.minimum_os_version else self.minimum_os_version
        type := if self.type = none then other.type else self.type
        nested_installer_type := if self.nested_installer_type = none then other.nested_installer_type else self.nested_installer_type
        nested_installer_files := if self.nested_installer_files = [] then other.nested_installer_files else self.nested_installer_files
        scope := if self.scope = none then other.scope else self.scope
        install_modes := if self.install_modes = 0 then other.install_modes else self.install_modes
        success_codes := if self.success_codes = [] then other.success_codes else self.success_codes
        expected_return_codes := if self.expected_return_codes = [] then other.expected_return_codes else self.expected_return_codes
        upgrade_behavior := if self.upgrade_behavior = none then other.upgrade_behavior else self.upgrade_behavior
        commands := if self.commands = [] then other.commands else self.commands
        protocols := if self.protocols = [] then other.protocols else self.protocols
        file_extensions := if self.file_extensions = [] then other.file_extensions else self.file_extensions
        dependencies := if self.dependencies = (⟨[], [], [], []⟩ : Dependencies) then other.dependencies else self.dependencies
        package_family_name := if self.package_family_name = none then other.package_family_name else self.package_family_name
        product_code := if self.product_code = none then other.product_code else self.product_code
        capabilities := if self.capabilities = [] then other.capabilities else self.capabilities
        restricted_capabilities := if self.restricted_capabilities = [] then other.restricted_capabilities else self.restricted_capabilities
        markets := if self.markets = none then other.markets else self.markets
        aborts_terminal := if self.aborts_terminal = false then other.aborts_terminal else self.aborts_terminal
        release_date := if self.release_date = none then other.release_date else self.release_date
        install_location_required := if self.install_location_required = false then other.install_location_required else self.install_location_required
        require_explicit_upgrade := if self.require_explicit_upgrade = false then other.require_explicit_upgrade else self.require_explicit_upgrade
        display_install_warnings := if self.display_install_warnings = false then other.display_install_warnings else self.display_install_warnings
        unsupported_os_architectures := if self.unsupported_os_architectures = 0 then other.unsupported_os_architectures else self.unsupported_os_architectures
        unsupported_arguments := if self.unsupported_arguments = 0 then other.unsupported_arguments else self.unsupported_arguments
        apps_and_features_entries := if self.apps_and_features_entries = [] then other.apps_and_features_entries else self.apps_and_features_entries
        elevation_requirement := if self.elevation_requirement = none then other.elevation_requirement else self.elevation_requirement
        installation_metadata := if self.installation_metadata = (⟨none, []⟩ : InstallationMetadata) then other.installation_metadata else self.installation_metadata
        download_command_prohibited := if self.download_command_prohibited = false then other.download_command_prohibited else self.download_command_prohibited
        repair_behavior := if self.repair_behavior = none then other.repair_behavior else self.repair_behavior
        archive_binaries_depend_on_path := if self.archive_binaries_depend_on_path = false then other.archive_binaries_depend_on_path else self.archive_binaries_depend_on_path
        switches.silent := mergedSwitchValue self.switches.silent other.switches.silent
        switches.silent_with_progress := mergedSwitchValue self.switches.silent_with_progress other.switches.silent_with_progress
        switches.interactive := mergedSwitchValue self.switches.interactive other.switches.interactive
        switches.install_location := mergedSwitchValue self.switches.install_location other.switches.install_location
        switches.log := mergedSwitchValue self.switches.log other.switches.log
        switches.upgrade := mergedSwitchValue self.switches.upgrade other.switches.upgrade
        switches.custom := mergedSwitchValue self.switches.custom other.switches.custom
        switches.repair := mergedSwitchValue self.switches.repair other.switches.repair } := by
  rw [show mergeUpTo41 self other = merge_switch_repair (mergeUpTo40 self other) other from rfl,
    mergeUpTo40_spec, merge_switch_repair_spec]

/-- `merge_with` is its final merge-chain prefix. -/
theorem merge_with_eq_chain (self other : Installer) :
    self.merge_with other = mergeUpTo41 self other := rfl

/-! ## Merge-claim support -/

/-- A switch absent on `self` stays absent through `mergedSwitchValue`. -/
theorem mergedSwitchValue_none_left (o : Option InstallerSwitch) :
    mergedSwitchValue none o = none := rfl

/-- The switch-append fold, described by the elements it appends: each element
of the remaining input that the accumulated switch does not yet contain
(ASCII-case-insensitively) is pushed, in order. -/
theorem foldl_mergeStep_eq_appendedTail (osw : List String) :
    ∀ acc : List String,
      osw.foldl
          (fun switch part =>
            if InstallerSwitch.containsCI switch part then switch else switch ++ [part])
          acc
        = acc ++ appendedTail acc osw := by
  induction osw with
  | nil => intro acc; simp [appendedTail]
  | cons part parts ih =>
    intro acc
    simp only [List.foldl_cons, appendedTail]
    cases h : InstallerSwitch.containsCI acc part with
    | true => simp [h, ih acc]
    | false => simp [h, ih (acc ++ [part])]

/-- `InstallerSwitch::merge_append` appends exactly the `appendedTail` of the
other switch. -/
theorem mergeAppend_eq_appendedTail (sw osw : InstallerSwitch) :
    InstallerSwitch.mergeAppend sw osw = sw ++ appendedTail sw osw := by
  unfold InstallerSwitch.mergeAppend
  exact foldl_mergeStep_eq_appendedTail osw sw


/-- C5: for every field in `merge_with`'s enumerated non-switch field list,
the merged installer takes `other`'s value exactly when `self`'s value is the
field type's default, and keeps `self`'s value otherwise. -/
theorem merge_with_fill_if_default (self other : Installer) :
    (self.merge_with other).locale = (if self.locale = none then other.locale else self.locale)
      ∧ (self.merge_with other).platform = (if self.platform = 0 then other.platform else self.platform)
      ∧ (self.merge_with other).minimum_os_version = (if self.minimum_os_version = none then other.minimum_os_version else self.minimum_os_version)
      ∧ (self.merge_with other).type = (if self.type = none then other.type else self.type)
      ∧ (self.merge_with other).nested_installer_type = (if self.nested_installer_type = none then other.nested_installer_type else self.nested_installer_type)
      ∧ (self.merge_with other).nested_installer_files = (if self.nested_installer_files = [] then other.nested_installer_files else self.nested_installer_files)
      ∧ (self.merge_with other).scope = (if self.scope = none then other.scope else self.scope)
      ∧ (self.merge_with other).install_modes = (if self.install_modes = 0 then other.install_modes else self.install_modes)
      ∧ (self.merge_with other).success_codes = (if self.success_codes = [] then other.success_codes else self.success_codes)
      ∧ (self.merge_with other).expected_return_codes = (if self.expected_return_codes = [] then other.expected_return_codes else self.expected_return_codes)
      ∧ (self.merge_with other).upgrade_behavior = (if self.upgrade_behavior = none then other.upgrade_behavior else self.upgrade_behavior)
      ∧ (self.merge_with other).commands = (if self.commands = [] then other.commands else self.commands)
      ∧ (self.merge_with other).protocols = (if self.protocols = [] then other.protocols else self.protocols)
      ∧ (self.merge_with other).file_extensions = (if self.file_extensions = [] then other.file_extensions else self.file_extensions)
      ∧ (self.merge_with other).dependencies = (if self.dependencies = (⟨[], [], [], []⟩ : Dependencies) then other.dependencies else self.dependencies)
      ∧ (self.merge_with other).package_family_name = (if self.package_family_name = none then other.package_family_name else self.package_family_name)
      ∧ (self.merge_with other).product_code = (if self.product_code = none then other.product_code else self.product_code)
      ∧ (self.merge_with other).capabilities = (if self.capabilities = [] then other.capabilities else self.capabilities)
      ∧ (self.merge_with other).restricted_capabilities = (if self.restricted_capabilities = [] then other.restricted_capabilities else self.restricted_capabilities)
      ∧ (self.merge_with other).markets = (if self.markets = none then other.markets else self.markets)
      ∧ (self.merge_with other).aborts_terminal = (if self.aborts_terminal = false then other.aborts_terminal else self.aborts_terminal)
      ∧ (self.merge_with other).release_date = (if self.release_date = none then other.release_date else self.release_date)
      ∧ (self.merge_with other).install_location_required = (if self.install_location_required = false then other.install_location_required else self.install_location_required)
      ∧ (self.merge_with other).require_explicit_upgrade = (if self.require_explicit_upgrade = false then other.require_explicit_upgrade else self.require_explicit_upgrade)
      ∧ (self.merge_with other).display_install_warnings = (if self.display_install_warnings = false then other.display_install_warnings else self.display_install_warnings)
      ∧ (self.merge_with other).unsupported_os_architectures = (if self.unsupported_os_architectures = 0 then other.unsupported_os_architectures else self.unsupported_os_architectures)
      ∧ (self.merge_with other).unsupported_arguments = (if self.unsupported_arguments = 0 then other.unsupported_arguments else self.unsupported_arguments)
      ∧ (self.merge_with other).apps_and_features_entries = (if self.apps_and_features_entries = [] then other.apps_and_features_entries else self.apps_and_features_entries)
      ∧ (self.merge_with other).elevation_requirement = (if self.elevation_requirement = none then other.elevation_requirement else self.elevation_requirement)
      ∧ (self.merge_with other).installation_metadata = (if self.installation_metadata = (⟨none, []⟩ : InstallationMetadata) then other.installation_metadata else self.installation_metadata)
      ∧ (self.merge_with other).download_command_prohibited = (if self.download_command_prohibited = false then other.download_command_prohibited else self.download_command_prohibited)
      ∧ (self.merge_with other).repair_behavior = (if self.repair_behavior = none then other.repair_behavior else self.repair_behavior)
      ∧ (self.merge_with other).archive_binaries_depend_on_path = (if self.archive_binaries_depend_on_path = false then other.archive_binaries_depend_on_path else self.archive_binaries_depend_on_path) := by
  rw [merge_with_eq_chain, mergeUpTo41_spec]
  exact ⟨rfl, rfl, rfl, rfl, rfl, rfl, rfl, rfl, rfl, rfl, rfl, rfl, rfl, rfl, rfl, rfl, rfl, rfl, rfl, rfl, rfl, rfl, rfl, rfl, rfl, rfl, rfl, rfl, rfl, rfl, rfl, rfl, rfl⟩


/-- C6 counterexample: with `self`'s silent switch `"/S"` and `other`'s
`"/a", "/A"`, the merged switch is `"/S", "/a"` - the claim's description
(append every element of `other` not already in `self`'s original switch)
would also append `"/A"`, since membership is checked against the growing
switch, not against `self`'s original value. -/
theorem merge_switch_append_cex :
    (mergeCexSelf.merge_with mergeCexOther).switches.silent = some ["/S", "/a"]
      ∧ (["/a", "/A"].filter
            (fun part => !InstallerSwitch.containsCI ["/S"] part)) = ["/a", "/A"]
      ∧ some (["/S"] ++ ["/a", "/A"]) ≠ some ["/S", "/a"] := by
  decide


/-- C6 (amended): for each switch field, when both sides are present the
merged switch is `self`'s elements followed by those elements of `other`'s
switch not yet contained, ASCII-case-insensitively, in the switch accumulated
so far (`self`'s elements plus the ones already appended), in `other`'s
order. -/
theorem merge_switch_append_amended (self other : Installer) :
    (∀ sw osw, self.switches.silent = some sw → other.switches.silent = some osw →
          (self.merge_with other).switches.silent = some (sw ++ appendedTail sw osw))
      ∧ (∀ sw osw, self.switches.silent_with_progress = some sw → other.switches.silent_with_progress = some osw →
          (self.merge_with other).switches.silent_with_progress = some (sw ++ appendedTail sw osw))
      ∧ (∀ sw osw, self.switches.interactive = some sw → other.switches.interactive = some osw →
          (self.merge_with other).switches.interactive = some (sw ++ appendedTail sw osw))
      ∧ (∀ sw osw, self.switches.install_location = some sw → other.switches.install_location = some osw →
          (self.merge_with other).switches.install_location = some (sw ++ appendedTail sw osw))
      ∧ (∀ sw osw, self.switches.log = some sw → other.switches.log = some osw →
          (self.merge_with other).switches.log = some (sw ++ appendedTail sw osw))
      ∧ (∀ sw osw, self.switches.upgrade = some sw → other.switches.upgrade = some osw →
          (self.merge_with other).switches.upgrade = some (sw ++ appendedTail sw osw))
      ∧ (∀ sw osw, self.switches.custom = some sw → other.switches.custom = some osw →
          (self.merge_with other).switches.custom = some (sw ++ appendedTail sw osw))
      ∧ (∀ sw osw, self.switches.repair = some sw → other.switches.repair = some osw →
          (self.merge_with other).switches.repair = some (sw ++ appendedTail sw osw)) := by
  rw [merge_with_eq_chain, mergeUpTo41_spec]
  refine ⟨?_, ?_, ?_, ?_, ?_, ?_, ?_, ?_⟩
  · intro sw osw h1 h2
    show mergedSwitchValue self.switches.silent other.switches.silent = some (sw ++ appendedTail sw osw)
    rw [h1, h2]
    show some (InstallerSwitch.mergeAppend sw osw) = some (sw ++ appendedTail sw osw)
    rw [mergeAppend_eq_appendedTail]
  · intro sw osw h1 h2
    show mergedSwitchValue self.switches.silent_with_progress other.switches.silent_with_progress = some (sw ++ appendedTail sw osw)
    rw [h1, h2]
    show some (InstallerSwitch.mergeAppend sw osw) = some (sw ++ appendedTail sw osw)
    rw [mergeAppend_eq_appendedTail]
  · intro sw osw h1 h2
    show mergedSwitchValue self.switches.interactive other.switches.interactive = some (sw ++ appendedTail sw osw)
    rw [h1, h2]
    show some (InstallerSwitch.mergeAppend sw osw) = some (sw ++ appendedTail sw osw)
    rw [mergeAppend_eq_appendedTail]
  · intro sw osw h1 h2
    show mergedSwitchValue self.switches.install_location other.switches.install_location = some (sw ++ appendedTail sw osw)
    rw [h1, h2]
    show some (InstallerSwitch.mergeAppend sw osw) = some (sw ++ appendedTail sw osw)
    rw [mergeAppend_eq_appendedTail]
  · intro sw osw h1 h2
    show mergedSwitchValue self.switches.log other.switches.log = some (sw ++ appendedTail sw osw)
    rw [h1, h2]
    show some (InstallerSwitch.mergeAppend sw osw) = some (sw ++ appendedTail sw osw)
    rw [mergeAppend_eq_appendedTail]
  · intro sw osw h1 h2
    show mergedSwitchValue self.switches.upgrade other.switches.upgrade = some (sw ++ appendedTail sw osw)
    rw [h1, h2]
    show some (InstallerSwitch.mergeAppend sw osw) = some (sw ++ appendedTail sw osw)
    rw [mergeAppend_eq_appendedTail]
  · intro sw osw h1 h2
    show mergedSwitchValue self.switches.custom other.switches.custom = some (sw ++ appendedTail sw osw)
    rw [h1, h2]
    show some (InstallerSwitch.mergeAppend sw osw) = some (sw ++ appendedTail sw osw)
    rw [mergeAppend_eq_appendedTail]
  · intro sw osw h1 h2
    show mergedSwitchValue self.switches.repair other.switches.repair = some (sw ++ appendedTail sw osw)
    rw [h1, h2]
    show some (InstallerSwitch.mergeAppend sw osw) = some (sw ++ appendedTail sw osw)
    rw [mergeAppend_eq_appendedTail]


/-- C10: a switch that is `None` on `self` is `None` on the merged installer,
whatever `other` holds: the append rule fires only when both sides are
present, and no fill-if-default rule covers the switches. -/
theorem merge_switch_none_preserved (self other : Installer) :
    (self.switches.silent = none → (self.merge_with other).switches.silent = none)
      ∧ (self.switches.silent_with_progress = none → (self.merge_with other).switches.silent_with_progress = none)
      ∧ (self.switches.interactive = none → (self.merge_with other).switches.interactive = none)
      ∧ (self.switches.install_location = none → (self.merge_with other).switches.install_location = none)
      ∧ (self.switches.log = none → (self.merge_with other).switches.log = none)
      ∧ (self.switches.upgrade = none → (self.merge_with other).switches.upgrade = none)
      ∧ (self.switches.custom = none → (self.merge_with other).switches.custom = none)
      ∧ (self.switches.repair = none → (self.merge_with other).switches.repair = none) := by
  rw [merge_with_eq_chain, mergeUpTo41_spec]
  refine ⟨?_, ?_, ?_, ?_, ?_, ?_, ?_, ?_⟩
  · intro h
    show mergedSwitchValue self.switches.silent other.switches.silent = none
    rw [h]
    exact mergedSwitchValue_none_left other.switches.silent
  · intro h
    show mergedSwitchValue self.switches.silent_with_progress other.switches.silent_with_progress = none
    rw [h]
    exact mergedSwitchValue_none_left other.switches.silent_with_progress
  · intro h
    show mergedSwitchValue self.switches.interactive other.switches.interactive = none
    rw [h]
    exact mergedSwitchValue_none_left other.switches.interactive
  · intro h
    show mergedSwitchValue self.switches.install_location other.switches.install_location = none
    rw [h]
    exact mergedSwitchValue_none_left other.switches.install_location
  · intro h
    show mergedSwitchValue self.switches.log other.switches.log = none
    rw [h]
    exact mergedSwitchValue_none_left other.switches.log
  · intro h
    show mergedSwitchValue self.switches.upgrade other.switches.upgrade = none
    rw [h]
    exact mergedSwitchValue_none_left other.switches.upgrade
  · intro h
    show mergedSwitchValue self.switches.custom other.switches.custom = none
    rw [h]
    exact mergedSwitchValue_none_left other.switches.custom
  · intro h
    show mergedSwitchValue self.switches.repair other.switches.repair = none
    rw [h]
    exact mergedSwitchValue_none_left other.switches.repair


/-! ## Optimize-claim theorems -/

/-- C1 counterexample: on a manifest with one installer carrying locale
`en-US`, the first `optimize` hoists the locale to the manifest, but a second
`optimize` sees the common installer value `none`, hoists that, and so resets
the manifest-level locale - `optimize` is not idempotent. -/
theorem optimize_not_idempotent_cex :
    (hoistedLocaleManifest.optimize).locale = some "en-US"
      ∧ ((hoistedLocaleManifest.optimize).optimize).locale = none
      ∧ (hoistedLocaleManifest.optimize).optimize ≠ hoistedLocaleManifest.optimize := by
  decide


/-- C1 (amended): `optimize` is not idempotent; a second run hoists the now
uniform installer values and thereby resets every manifest-level optimized
field to its type default, whatever the first run hoisted there. -/
theorem optimize_twice_resets_manifest_fields (m : InstallerManifest) :
    ((m.optimize).optimize).locale = none
      ∧ ((m.optimize).optimize).platform = 0
      ∧ ((m.optimize).optimize).minimum_os_version = none
      ∧ ((m.optimize).optimize).type = none
      ∧ ((m.optimize).optimize).nested_installer_type = none
      ∧ ((m.optimize).optimize).nested_installer_files = []
      ∧ ((m.optimize).optimize).scope = none
      ∧ ((m.optimize).optimize).install_modes = 0
      ∧ ((m.optimize).optimize).switches.silent = none
      ∧ ((m.optimize).optimize).switches.silent_with_progress = none
      ∧ ((m.optimize).optimize).switches.interactive = none
      ∧ ((m.optimize).optimize).switches.install_location = none
      ∧ ((m.optimize).optimize).switches.log = none
      ∧ ((m.optimize).optimize).switches.upgrade = none
      ∧ ((m.optimize).optimize).switches.repair = none
      ∧ ((m.optimize).optimize).success_codes = []
      ∧ ((m.optimize).optimize).expected_return_codes = []
      ∧ ((m.optimize).optimize).upgrade_behavior = none
      ∧ ((m.optimize).optimize).commands = []
      ∧ ((m.optimize).optimize).protocols = []
      ∧ ((m.optimize).optimize).file_extensions = []
      ∧ ((m.optimize).optimize).dependencies.windows_features = []
      ∧ ((m.optimize).optimize).dependencies.windows_libraries = []
      ∧ ((m.optimize).optimize).dependencies.package = []
      ∧ ((m.optimize).optimize).dependencies.external = []
      ∧ ((m.optimize).optimize).package_family_name = none
      ∧ ((m.optimize).optimize).product_code = none
      ∧ ((m.optimize).optimize).capabilities = []
      ∧ ((m.optimize).optimize).restricted_capabilities = []
      ∧ ((m.optimize).optimize).markets = none
      ∧ ((m.optimize).optimize).aborts_terminal = false
      ∧ ((m.optimize).optimize).release_date = none
      ∧ ((m.optimize).optimize).install_location_required = false
      ∧ ((m.optimize).optimize).require_explicit_upgrade = false
      ∧ ((m.optimize).optimize).display_install_warnings = false
      ∧ ((m.optimize).optimize).unsupported_os_architectures = 0
      ∧ ((m.optimize).optimize).unsupported_arguments = 0
      ∧ ((m.optimize).optimize).apps_and_features_entries = []
      ∧ ((m.optimize).optimize).elevation_requirement = none
      ∧ ((m.optimize).optimize).installation_metadata = (⟨none, []⟩ : InstallationMetadata)
      ∧ ((m.optimize).optimize).download_command_prohibited = false
      ∧ ((m.optimize).optimize).repair_behavior = none
      ∧ ((m.optimize).optimize).archive_binaries_depend_on_path = false := by
  refine ⟨?_, ?_, ?_, ?_, ?_, ?_, ?_, ?_, ?_, ?_, ?_, ?_, ?_, ?_, ?_, ?_, ?_, ?_, ?_, ?_, ?_, ?_, ?_, ?_, ?_, ?_, ?_, ?_, ?_, ?_, ?_, ?_, ?_, ?_, ?_, ?_, ?_, ?_, ?_, ?_, ?_, ?_, ?_⟩
  · rw [optM_locale]
    exact second_run_getD_default none (m.installers.map (·.locale)) _ _ (optI_locale m)
      (map_mem_iff_of_iff (fun a => mem_optimize_installers m a) (·.locale))
  · rw [optM_platform]
    exact second_run_getD_default 0 (m.installers.map (·.platform)) _ _ (optI_platform m)
      (map_mem_iff_of_iff (fun a => mem_optimize_installers m a) (·.platform))
  · rw [optM_minimum_os_version]
    exact second_run_getD_default none (m.installers.map (·.minimum_os_version)) _ _ (optI_minimum_os_version m)
      (map_mem_iff_of_iff (fun a => mem_optimize_installers m a) (·.minimum_os_version))
  · rw [optM_type]
    exact second_run_getD_default none (m.installers.map (·.type)) _ _ (optI_type m)
      (map_mem_iff_of_iff (fun a => mem_optimize_installers m a) (·.type))
  · rw [optM_nested_installer_type]
    exact second_run_getD_default none (m.installers.map (·.nested_installer_type)) _ _ (optI_nested_installer_type m)
      (map_mem_iff_of_iff (fun a => mem_optimize_installers m a) (·.nested_installer_type))
  · rw [optM_nested_installer_files]
    exact second_run_getD_default [] (m.installers.map (·.nested_installer_files)) _ _ (optI_nested_installer_files m)
      (map_mem_iff_of_iff (fun a => mem_optimize_installers m a) (·.nested_installer_files))
  · rw [optM_scope]
    exact second_run_getD_default none (m.installers.map (·.scope)) _ _ (optI_scope m)
      (map_mem_iff_of_iff (fun a => mem_optimize_installers m a) (·.scope))
  · rw [optM_install_modes]
    exact second_run_getD_default 0 (m.installers.map (·.install_modes)) _ _ (optI_install_modes m)
      (map_mem_iff_of_iff (fun a => mem_optimize_installers m a) (·.install_modes))
  · rw [optM_switches_silent]
    exact second_run_getD_default none (m.installers.map (·.switches.silent)) _ _ (optI_switches_silent m)
      (map_mem_iff_of_iff (fun a => mem_optimize_installers m a) (·.switches.silent))
  · rw [optM_switches_silent_with_progress]
    exact second_run_getD_default none (m.installers.map (·.switches.silent_with_progress)) _ _ (optI_switches_silent_with_progress m)
      (map_mem_iff_of_iff (fun a => mem_optimize_installers m a) (·.switches.silent_with_progress))
  · rw [optM_switches_interactive]
    exact second_run_getD_default none (m.installers.map (·.switches.interactive)) _ _ (optI_switches_interactive m)
      (map_mem_iff_of_iff (fun a => mem_optimize_installers m a) (·.switches.interactive))
  · rw [optM_switches_install_location]
    exact second_run_getD_default none (m.installers.map (·.switches.install_location)) _ _ (optI_switches_install_location m)
      (map_mem_iff_of_iff (fun a => mem_optimize_installers m a) (·.switches.install_location))
  · rw [optM_switches_log]
    exact second_run_getD_default none (m.installers.map (·.switches.log)) _ _ (optI_switches_log m)
      (map_mem_iff_of_iff (fun a => mem_optimize_installers m a) (·.switches.log))
  · rw [optM_switches_upgrade]
    exact second_run_getD_default none (m.installers.map (·.switches.upgrade)) _ _ (optI_switches_upgrade m)
      (map_mem_iff_of_iff (fun a => mem_optimize_installers m a) (·.switches.upgrade))
  · rw [optM_switches_repair]
    exact second_run_getD_default none (m.installers.map (·.switches.repair)) _ _ (optI_switches_repair m)
      (map_mem_iff_of_iff (fun a => mem_optimize_installers m a) (·.switches.repair))
  · rw [optM_success_codes]
    exact second_run_getD_default [] (m.installers.map (·.success_codes)) _ _ (optI_success_codes m)
      (map_mem_iff_of_iff (fun a => mem_optimize_installers m a) (·.success_codes))
  · rw [optM_expected_return_codes]
    exact second_run_getD_default [] (m.installers.map (·.expected_return_codes)) _ _ (optI_expected_return_codes m)
      (map_mem_iff_of_iff (fun a => mem_optimize_installers m a) (·.expected_return_codes))
  · rw [optM_upgrade_behavior]
    exact second_run_getD_default none (m.installers.map (·.upgrade_behavior)) _ _ (optI_upgrade_behavior m)
      (map_mem_iff_of_iff (fun a => mem_optimize_installers m a) (·.upgrade_behavior))
  · rw [optM_commands]
    exact second_run_getD_default [] (m.installers.map (·.commands)) _ _ (optI_commands m)
      (map_mem_iff_of_iff (fun a => mem_optimize_installers m a) (·.commands))
  · rw [optM_protocols]
    exact second_run_getD_default [] (m.installers.map (·.protocols)) _ _ (optI_protocols m)
      (map_mem_iff_of_iff (fun a => mem_optimize_installers m a) (·.protocols))
  · rw [optM_file_extensions]
    exact second_run_getD_default [] (m.installers.map (·.file_extensions)) _ _ (optI_file_extensions m)
      (map_mem_iff_of_iff (fun a => mem_optimize_installers m a) (·.file_extensions))
  · rw [optM_dependencies_windows_features]
    exact second_run_getD_default [] (m.installers.map (·.dependencies.windows_features)) _ _ (optI_dependencies_windows_features m)
      (map_mem_iff_of_iff (fun a => mem_optimize_installers m a) (·.dependencies.windows_features))
  · rw [optM_dependencies_windows_libraries]
    exact second_run_getD_default [] (m.installers.map (·.dependencies.windows_libraries)) _ _ (optI_dependencies_windows_libraries m)
      (map_mem_iff_of_iff (fun a => mem_optimize_installers m a) (·.dependencies.windows_libraries))
  · rw [optM_dependencies_package]
    exact second_run_getD_default [] (m.installers.map (·.dependencies.package)) _ _ (optI_dependencies_package m)
      (map_mem_iff_of_iff (fun a => mem_optimize_installers m a) (·.dependencies.package))
  · rw [optM_dependencies_external]
    exact second_run_getD_default [] (m.installers.map (·.dependencies.external)) _ _ (optI_dependencies_external m)
      (map_mem_iff_of_iff (fun a => mem_optimize_installers m a) (·.dependencies.external))
  · rw [optM_package_family_name]
    exact second_run_getD_default none (m.installers.map (·.package_family_name)) _ _ (optI_package_family_name m)
      (map_mem_iff_of_iff (fun a => mem_optimize_installers m a) (·.package_family_name))
  · rw [optM_product_code]
    exact second_run_getD_default none (m.installers.map (·.product_code)) _ _ (optI_product_code m)
      (map_mem_iff_of_iff (fun a => mem_optimize_installers m a) (·.product_code))
  · rw [optM_capabilities]
    exact second_run_getD_default [] (m.installers.map (·.capabilities)) _ _ (optI_capabilities m)
      (map_mem_iff_of_iff (fun a => mem_optimize_installers m a) (·.capabilities))
  · rw [optM_restricted_capabilities]
    exact second_run_getD_default [] (m.installers.map (·.restricted_capabilities)) _ _ (optI_restricted_capabilities m)
      (map_mem_iff_of_iff (fun a => mem_optimize_installers m a) (·.restricted_capabilities))
  · rw [optM_markets]
    exact second_run_getD_default none (m.installers.map (·.markets)) _ _ (optI_markets m)
      (map_mem_iff_of_iff (fun a => mem_optimize_installers m a) (·.markets))
  · rw [optM_aborts_terminal]
    exact second_run_getD_default false (m.installers.map (·.aborts_terminal)) _ _ (optI_aborts_terminal m)
      (map_mem_iff_of_iff (fun a => mem_optimize_installers m a) (·.aborts_terminal))
  · rw [optM_release_date]
    exact second_run_getD_default none (m.installers.map (·.release_date)) _ _ (optI_release_date m)
      (map_mem_iff_of_iff (fun a => mem_optimize_installers m a) (·.release_date))
  · rw [optM_install_location_required]
    exact second_run_getD_default false (m.installers.map (·.install_location_required)) _ _ (optI_install_location_required m)
      (map_mem_iff_of_iff (fun a => mem_optimize_installers m a) (·.install_location_required))
  · rw [optM_require_explicit_upgrade]
    exact second_run_getD_default false (m.installers.map (·.require_explicit_upgrade)) _ _ (optI_require_explicit_upgrade m)
      (map_mem_iff_of_iff (fun a => mem_optimize_installers m a) (·.require_explicit_upgrade))
  · rw [optM_display_install_warnings]
    exact second_run_getD_default false (m.installers.map (·.display_install_warnings)) _ _ (optI_display_install_warnings m)
      (map_mem_iff_of_iff (fun a => mem_optimize_installers m a) (·.display_install_warnings))
  · rw [optM_unsupported_os_architectures]
    exact second_run_getD_default 0 (m.installers.map (·.unsupported_os_architectures)) _ _ (optI_unsupported_os_architectures m)
      (map_mem_iff_of_iff (fun a => mem_optimize_installers m a) (·.unsupported_os_architectures))
  · rw [optM_unsupported_arguments]
    exact second_run_getD_default 0 (m.installers.map (·.unsupported_arguments)) _ _ (optI_unsupported_arguments m)
      (map_mem_iff_of_iff (fun a => mem_optimize_installers m a) (·.unsupported_arguments))
  · rw [optM_apps_and_features_entries]
    exact second_run_getD_default [] (m.installers.map (·.apps_and_features_entries)) _ _ (optI_apps_and_features_entries m)
      (map_mem_iff_of_iff (fun a => mem_optimize_installers m a) (·.apps_and_features_entries))
  · rw [optM_elevation_requirement]
    exact second_run_getD_default none (m.installers.map (·.elevation_requirement)) _ _ (optI_elevation_requirement m)
      (map_mem_iff_of_iff (fun a => mem_optimize_installers m a) (·.elevation_requirement))
  · rw [optM_installation_metadata]
    exact second_run_getD_default (⟨none, []⟩ : InstallationMetadata) (m.installers.map (·.installation_metadata)) _ _ (optI_installation_metadata m)
      (map_mem_iff_of_iff (fun a => mem_optimize_installers m a) (·.installation_metadata))
  · rw [optM_download_command_prohibited]
    exact second_run_getD_default false (m.installers.map (·.download_command_prohibited)) _ _ (optI_download_command_prohibited m)
      (map_mem_iff_of_iff (fun a => mem_optimize_installers m a) (·.download_command_prohibited))
  · rw [optM_repair_behavior]
    exact second_run_getD_default none (m.installers.map (·.repair_behavior)) _ _ (optI_repair_behavior m)
      (map_mem_iff_of_iff (fun a => mem_optimize_installers m a) (·.repair_behavior))
  · rw [optM_archive_binaries_depend_on_path]
    exact second_run_getD_default false (m.installers.map (·.archive_binaries_depend_on_path)) _ _ (optI_archive_binaries_depend_on_path m)
      (map_mem_iff_of_iff (fun a => mem_optimize_installers m a) (·.archive_binaries_depend_on_path))


/-- C3: the per-field hoist-or-reset invariant of `optimize`, for every
optimized field: if all installers share an equal value (non-empty list), the
manifest-level field holds it and every surviving installer copy is the type
default; otherwise the manifest-level field is the default and the hoist pass
leaves the installers' values unchanged (the final list then only reorders
and deduplicates them). -/
theorem optimize_field_hoist_spec (m : InstallerManifest) :
    OptimizedFieldSpec none (m.installers.map (·.locale)) ((m.optimize).locale)
          (((m.optimize).installers).map (·.locale)) (((m.optimizeFields).installers).map (·.locale))
      ∧ OptimizedFieldSpec 0 (m.installers.map (·.platform)) ((m.optimize).platform)
          (((m.optimize).installers).map (·.platform)) (((m.optimizeFields).installers).map (·.platform))
      ∧ OptimizedFieldSpec none (m.installers.map (·.minimum_os_version)) ((m.optimize).minimum_os_version)
          (((m.optimize).installers).map (·.minimum_os_version)) (((m.optimizeFields).installers).map (·.minimum_os_version))
      ∧ OptimizedFieldSpec none (m.installers.map (·.type)) ((m.optimize).type)
          (((m.optimize).installers).map (·.type)) (((m.optimizeFields).installers).map (·.type))
      ∧ OptimizedFieldSpec none (m.installers.map (·.nested_installer_type)) ((m.optimize).nested_installer_type)
          (((m.optimize).installers).map (·.nested_installer_type)) (((m.optimizeFields).installers).map (·.nested_installer_type))
      ∧ OptimizedFieldSpec [] (m.installers.map (·.nested_installer_files)) ((m.optimize).nested_installer_files)
          (((m.optimize).installers).map (·.nested_installer_files)) (((m.optimizeFields).installers).map (·.nested_installer_files))
      ∧ OptimizedFieldSpec none (m.installers.map (·.scope)) ((m.optimize).scope)
          (((m.optimize).installers).map (·.scope)) (((m.optimizeFields).installers).map (·.scope))
      ∧ OptimizedFieldSpec 0 (m.installers.map (·.install_modes)) ((m.optimize).install_modes)
          (((m.optimize).installers).map (·.install_modes)) (((m.optimizeFields).installers).map (·.install_modes))
      ∧ OptimizedFieldSpec none (m.installers.map (·.switches.silent)) ((m.optimize).switches.silent)
          (((m.optimize).installers).map (·.switches.silent)) (((m.optimizeFields).installers).map (·.switches.silent))
      ∧ OptimizedFieldSpec none (m.installers.map (·.switches.silent_with_progress)) ((m.optimize).switches.silent_with_progress)
          (((m.optimize).installers).map (·.switches.silent_with_progress)) (((m.optimizeFields).installers).map (·.switches.silent_with_progress))
      ∧ OptimizedFieldSpec none (m.installers.map (·.switches.interactive)) ((m.optimize).switches.interactive)
          (((m.optimize).installers).map (·.switches.interactive)) (((m.optimizeFields).installers).map (·.switches.interactive))
      ∧ OptimizedFieldSpec none (m.installers.map (·.switches.install_location)) ((m.optimize).switches.install_location)
          (((m.optimize).installers).map (·.switches.install_location)) (((m.optimizeFields).installers).map (·.switches.install_location))
      ∧ OptimizedFieldSpec none (m.installers.map (·.switches.log)) ((m.optimize).switches.log)
          (((m.optimize).installers).map (·.switches.log)) (((m.optimizeFields).installers).map (·.switches.log))
      ∧ OptimizedFieldSpec none (m.installers.map (·.switches.upgrade)) ((m.optimize).switches.upgrade)
          (((m.optimize).installers).map (·.switches.upgrade)) (((m.optimizeFields).installers).map (·.switches.upgrade))
      ∧ OptimizedFieldSpec none (m.installers.map (·.switches.repair)) ((m.optimize).switches.repair)
          (((m.optimize).installers).map (·.switches.repair)) (((m.optimizeFields).installers).map (·.switches.repair))
      ∧ OptimizedFieldSpec [] (m.installers.map (·.success_codes)) ((m.optimize).success_codes)
          (((m.optimize).installers).map (·.success_codes)) (((m.optimizeFields).installers).map (·.success_codes))
      ∧ OptimizedFieldSpec [] (m.installers.map (·.expected_return_codes)) ((m.optimize).expected_return_codes)
          (((m.optimize).installers).map (·.expected_return_codes)) (((m.optimizeFields).installers).map (·.expected_return_codes))
      ∧ OptimizedFieldSpec none (m.installers.map (·.upgrade_behavior)) ((m.optimize).upgrade_behavior)
          (((m.optimize).installers).map (·.upgrade_behavior)) (((m.optimizeFields).installers).map (·.upgrade_behavior))
      ∧ OptimizedFieldSpec [] (m.installers.map (·.commands)) ((m.optimize).commands)
          (((m.optimize).installers).map (·.commands)) (((m.optimizeFields).installers).map (·.commands))
      ∧ OptimizedFieldSpec [] (m.installers.map (·.protocols)) ((m.optimize).protocols)
          (((m.optimize).installers).map (·.protocols)) (((m.optimizeFields).installers).map (·.protocols))
      ∧ OptimizedFieldSpec [] (m.installers.map (·.file_extensions)) ((m.optimize).file_extensions)
          (((m.optimize).installers).map (·.file_extensions)) (((m.optimizeFields).installers).map (·.file_extensions))
      ∧ OptimizedFieldSpec [] (m.installers.map (·.dependencies.windows_features)) ((m.optimize).dependencies.windows_features)
          (((m.optimize).installers).map (·.dependencies.windows_features)) (((m.optimizeFields).installers).map (·.dependencies.windows_features))
      ∧ OptimizedFieldSpec [] (m.installers.map (·.dependencies.windows_libraries)) ((m.optimize).dependencies.windows_libraries)
          (((m.optimize).installers).map (·.dependencies.windows_libraries)) (((m.optimizeFields).installers).map (·.dependencies.windows_libraries))
      ∧ OptimizedFieldSpec [] (m.installers.map (·.dependencies.package)) ((m.optimize).dependencies.package)
          (((m.optimize).installers).map (·.dependencies.package)) (((m.optimizeFields).installers).map (·.dependencies.package))
      ∧ OptimizedFieldSpec [] (m.installers.map (·.dependencies.external)) ((m.optimize).dependencies.external)
          (((m.optimize).installers).map (·.dependencies.external)) (((m.optimizeFields).installers).map (·.dependencies.external))
      ∧ OptimizedFieldSpec none (m.installers.map (·.package_family_name)) ((m.optimize).package_family_name)
          (((m.optimize).installers).map (·.package_family_name)) (((m.optimizeFields).installers).map (·.package_family_name))
      ∧ OptimizedFieldSpec none (m.installers.map (·.product_code)) ((m.optimize).product_code)
          (((m.optimize).installers).map (·.product_code)) (((m.optimizeFields).installers).map (·.product_code))
      ∧ OptimizedFieldSpec [] (m.installers.map (·.capabilities)) ((m.optimize).capabilities)
          (((m.optimize).installers).map (·.capabilities)) (((m.optimizeFields).installers).map (·.capabilities))
      ∧ OptimizedFieldSpec [] (m.installers.map (·.restricted_capabilities)) ((m.optimize).restricted_capabilities)
          (((m.optimize).installers).map (·.restricted_capabilities)) (((m.optimizeFields).installers).map (·.restricted_capabilities))
      ∧ OptimizedFieldSpec none (m.installers.map (·.markets)) ((m.optimize).markets)
          (((m.optimize).installers).map (·.markets)) (((m.optimizeFields).installers).map (·.markets))
      ∧ OptimizedFieldSpec false (m.installers.map (·.aborts_terminal)) ((m.optimize).aborts_terminal)
          (((m.optimize).installers).map (·.aborts_terminal)) (((m.optimizeFields).installers).map (·.aborts_terminal))
      ∧ OptimizedFieldSpec none (m.installers.map (·.release_date)) ((m.optimize).release_date)
          (((m.optimize).installers).map (·.release_date)) (((m.optimizeFields).installers).map (·.release_date))
      ∧ OptimizedFieldSpec false (m.installers.map (·.install_location_required)) ((m.optimize).install_location_required)
          (((m.optimize).installers).map (·.install_location_required)) (((m.optimizeFields).installers).map (·.install_location_required))
      ∧ OptimizedFieldSpec false (m.installers.map (·.require_explicit_upgrade)) ((m.optimize).require_explicit_upgrade)
          (((m.optimize).installers).map (·.require_explicit_upgrade)) (((m.optimizeFields).installers).map (·.require_explicit_upgrade))
      ∧ OptimizedFieldSpec false (m.installers.map (·.display_install_warnings)) ((m.optimize).display_install_warnings)
          (((m.optimize).installers).map (·.display_install_warnings)) (((m.optimizeFields).installers).map (·.display_install_warnings))
      ∧ OptimizedFieldSpec 0 (m.installers.map (·.unsupported_os_architectures)) ((m.optimize).unsupported_os_architectures)
          (((m.optimize).installers).map (·.unsupported_os_architectures)) (((m.optimizeFields).installers).map (·.unsupported_os_architectures))
      ∧ OptimizedFieldSpec 0 (m.installers.map (·.unsupported_arguments)) ((m.optimize).unsupported_arguments)
          (((m.optimize).installers).map (·.unsupported_arguments)) (((m.optimizeFields).installers).map (·.unsupported_arguments))
      ∧ OptimizedFieldSpec [] (m.installers.map (·.apps_and_features_entries)) ((m.optimize).apps_and_features_entries)
          (((m.optimize).installers).map (·.apps_and_features_entries)) (((m.optimizeFields).installers).map (·.apps_and_features_entries))
      ∧ OptimizedFieldSpec none (m.installers.map (·.elevation_requirement)) ((m.optimize).elevation_requirement)
          (((m.optimize).installers).map (·.elevation_requirement)) (((m.optimizeFields).installers).map (·.elevation_requirement))
      ∧ OptimizedFieldSpec (⟨none, []⟩ : InstallationMetadata) (m.installers.map (·.installation_metadata)) ((m.optimize).installation_metadata)
          (((m.optimize).installers).map (·.installation_metadata)) (((m.optimizeFields).installers).map (·.installation_metadata))
      ∧ OptimizedFieldSpec false (m.installers.map (·.download_command_prohibited)) ((m.optimize).download_command_prohibited)
          (((m.optimize).installers).map (·.download_command_prohibited)) (((m.optimizeFields).installers).map (·.download_command_prohibited))
      ∧ OptimizedFieldSpec none (m.installers.map (·.repair_behavior)) ((m.optimize).repair_behavior)
          (((m.optimize).installers).map (·.repair_behavior)) (((m.optimizeFields).installers).map (·.repair_behavior))
      ∧ OptimizedFieldSpec false (m.installers.map (·.archive_binaries_depend_on_path)) ((m.optimize).archive_binaries_depend_on_path)
          (((m.optimize).installers).map (·.archive_binaries_depend_on_path)) (((m.optimizeFields).installers).map (·.archive_binaries_depend_on_path)) := by
  refine ⟨?_, ?_, ?_, ?_, ?_, ?_, ?_, ?_, ?_, ?_, ?_, ?_, ?_, ?_, ?_, ?_, ?_, ?_, ?_, ?_, ?_, ?_, ?_, ?_, ?_, ?_, ?_, ?_, ?_, ?_, ?_, ?_, ?_, ?_, ?_, ?_, ?_, ?_, ?_, ?_, ?_, ?_, ?_⟩
  · exact optimizedFieldSpec_intro none _ _ _ _ (optM_locale m) (optI_locale m)
      (fun x hx => (map_mem_iff_of_iff (fun a => mem_optimize_installers m a) (·.locale) x).mp hx)
  · exact optimizedFieldSpec_intro 0 _ _ _ _ (optM_platform m) (optI_platform m)
      (fun x hx => (map_mem_iff_of_iff (fun a => mem_optimize_installers m a) (·.platform) x).mp hx)
  · exact optimizedFieldSpec_intro none _ _ _ _ (optM_minimum_os_version m) (optI_minimum_os_version m)
      (fun x hx => (map_mem_iff_of_iff (fun a => mem_optimize_installers m a) (·.minimum_os_version) x).mp hx)
  · exact optimizedFieldSpec_intro none _ _ _ _ (optM_type m) (optI_type m)
      (fun x hx => (map_mem_iff_of_iff (fun a => mem_optimize_installers m a) (·.type) x).mp hx)
  · exact optimizedFieldSpec_intro none _ _ _ _ (optM_nested_installer_type m) (optI_nested_installer_type m)
      (fun x hx => (map_mem_iff_of_iff (fun a => mem_optimize_installers m a) (·.nested_installer_type) x).mp hx)
  · exact optimizedFieldSpec_intro [] _ _ _ _ (optM_nested_installer_files m) (optI_nested_installer_files m)
      (fun x hx => (map_mem_iff_of_iff (fun a => mem_optimize_installers m a) (·.nested_installer_files) x).mp hx)
  · exact optimizedFieldSpec_intro none _ _ _ _ (optM_scope m) (optI_scope m)
      (fun x hx => (map_mem_iff_of_iff (fun a => mem_optimize_installers m a) (·.scope) x).mp hx)
  · exact optimizedFieldSpec_intro 0 _ _ _ _ (optM_install_modes m) (optI_install_modes m)
      (fun x hx => (map_mem_iff_of_iff (fun a => mem_optimize_installers m a) (·.install_modes) x).mp hx)
  · exact optimizedFieldSpec_intro none _ _ _ _ (optM_switches_silent m) (optI_switches_silent m)
      (fun x hx => (map_mem_iff_of_iff (fun a => mem_optimize_installers m a) (·.switches.silent) x).mp hx)
  · exact optimizedFieldSpec_intro none _ _ _ _ (optM_switches_silent_with_progress m) (optI_switches_silent_with_progress m)
      (fun x hx => (map_mem_iff_of_iff (fun a => mem_optimize_installers m a) (·.switches.silent_with_progress) x).mp hx)
  · exact optimizedFieldSpec_intro none _ _ _ _ (optM_switches_interactive m) (optI_switches_interactive m)
      (fun x hx => (map_mem_iff_of_iff (fun a => mem_optimize_installers m a) (·.switches.interactive) x).mp hx)
  · exact optimizedFieldSpec_intro none _ _ _ _ (optM_switches_install_location m) (optI_switches_install_location m)
      (fun x hx => (map_mem_iff_of_iff (fun a => mem_optimize_installers m a) (·.switches.install_location) x).mp hx)
  · exact optimizedFieldSpec_intro none _ _ _ _ (optM_switches_log m) (optI_switches_log m)
      (fun x hx => (map_mem_iff_of_iff (fun a => mem_optimize_installers m a) (·.switches.log) x).mp hx)
  · exact optimizedFieldSpec_intro none _ _ _ _ (optM_switches_upgrade m) (optI_switches_upgrade m)
      (fun x hx => (map_mem_iff_of_iff (fun a => mem_optimize_installers m a) (·.switches.upgrade) x).mp hx)
  · exact optimizedFieldSpec_intro none _ _ _ _ (optM_switches_repair m) (optI_switches_repair m)
      (fun x hx => (map_mem_iff_of_iff (fun a => mem_optimize_installers m a) (·.switches.repair) x).mp hx)
  · exact optimizedFieldSpec_intro [] _ _ _ _ (optM_success_codes m) (optI_success_codes m)
      (fun x hx => (map_mem_iff_of_iff (fun a => mem_optimize_installers m a) (·.success_codes) x).mp hx)
  · exact optimizedFieldSpec_intro [] _ _ _ _ (optM_expected_return_codes m) (optI_expected_return_codes m)
      (fun x hx => (map_mem_iff_of_iff (fun a => mem_optimize_installers m a) (·.expected_return_codes) x).mp hx)
  · exact optimizedFieldSpec_intro none _ _ _ _ (optM_upgrade_behavior m) (optI_upgrade_behavior m)
      (fun x hx => (map_mem_iff_of_iff (fun a => mem_optimize_installers m a) (·.upgrade_behavior) x).mp hx)
  · exact optimizedFieldSpec_intro [] _ _ _ _ (optM_commands m) (optI_commands m)
      (fun x hx => (map_mem_iff_of_iff (fun a => mem_optimize_installers m a) (·.commands) x).mp hx)
  · exact optimizedFieldSpec_intro [] _ _ _ _ (optM_protocols m) (optI_protocols m)
      (fun x hx => (map_mem_iff_of_iff (fun a => mem_optimize_installers m a) (·.protocols) x).mp hx)
  · exact optimizedFieldSpec_intro [] _ _ _ _ (optM_file_extensions m) (optI_file_extensions m)
      (fun x hx => (map_mem_iff_of_iff (fun a => mem_optimize_installers m a) (·.file_extensions) x).mp hx)
  · exact optimizedFieldSpec_intro [] _ _ _ _ (optM_dependencies_windows_features m) (optI_dependencies_windows_features m)
      (fun x hx => (map_mem_iff_of_iff (fun a => mem_optimize_installers m a) (·.dependencies.windows_features) x).mp hx)
  · exact optimizedFieldSpec_intro [] _ _ _ _ (optM_dependencies_windows_libraries m) (optI_dependencies_windows_libraries m)
      (fun x hx => (map_mem_iff_of_iff (fun a => mem_optimize_installers m a) (·.dependencies.windows_libraries) x).mp hx)
  · exact optimizedFieldSpec_intro [] _ _ _ _ (optM_dependencies_package m) (optI_dependencies_package m)
      (fun x hx => (map_mem_iff_of_iff (fun a => mem_optimize_installers m a) (·.dependencies.package) x).mp hx)
  · exact optimizedFieldSpec_intro [] _ _ _ _ (optM_dependencies_external m) (optI_dependencies_external m)
      (fun x hx => (map_mem_iff_of_iff (fun a => mem_optimize_installers m a) (·.dependencies.external) x).mp hx)
  · exact optimizedFieldSpec_intro none _ _ _ _ (optM_package_family_name m) (optI_package_family_name m)
      (fun x hx => (map_mem_iff_of_iff (fun a => mem_optimize_installers m a) (·.package_family_name) x).mp hx)
  · exact optimizedFieldSpec_intro none _ _ _ _ (optM_product_code m) (optI_product_code m)
      (fun x hx => (map_mem_iff_of_iff (fun a => mem_optimize_installers m a) (·.product_code) x).mp hx)
  · exact optimizedFieldSpec_intro [] _ _ _ _ (optM_capabilities m) (optI_capabilities m)
      (fun x hx => (map_mem_iff_of_iff (fun a => mem_optimize_installers m a) (·.capabilities) x).mp hx)
  · exact optimizedFieldSpec_intro [] _ _ _ _ (optM_restricted_capabilities m) (optI_restricted_capabilities m)
      (fun x hx => (map_mem_iff_of_iff (fun a => mem_optimize_installers m a) (·.restricted_capabilities) x).mp hx)
  · exact optimizedFieldSpec_intro none _ _ _ _ (optM_markets m) (optI_markets m)
      (fun x hx => (map_mem_iff_of_iff (fun a => mem_optimize_installers m a) (·.markets) x).mp hx)
  · exact optimizedFieldSpec_intro false _ _ _ _ (optM_aborts_terminal m) (optI_aborts_terminal m)
      (fun x hx => (map_mem_iff_of_iff (fun a => mem_optimize_installers m a) (·.aborts_terminal) x).mp hx)
  · exact optimizedFieldSpec_intro none _ _ _ _ (optM_release_date m) (optI_release_date m)
      (fun x hx => (map_mem_iff_of_iff (fun a => mem_optimize_installers m a) (·.release_date) x).mp hx)
  · exact optimizedFieldSpec_intro false _ _ _ _ (optM_install_location_required m) (optI_install_location_required m)
      (fun x hx => (map_mem_iff_of_iff (fun a => mem_optimize_installers m a) (·.install_location_required) x).mp hx)
  · exact optimizedFieldSpec_intro false _ _ _ _ (optM_require_explicit_upgrade m) (optI_require_explicit_upgrade m)
      (fun x hx => (map_mem_iff_of_iff (fun a => mem_optimize_installers m a) (·.require_explicit_upgrade) x).mp hx)
  · exact optimizedFieldSpec_intro false _ _ _ _ (optM_display_install_warnings m) (optI_display_install_warnings m)
      (fun x hx => (map_mem_iff_of_iff (fun a => mem_optimize_installers m a) (·.display_install_warnings) x).mp hx)
  · exact optimizedFieldSpec_intro 0 _ _ _ _ (optM_unsupported_os_architectures m) (optI_unsupported_os_architectures m)
      (fun x hx => (map_mem_iff_of_iff (fun a => mem_optimize_installers m a) (·.unsupported_os_architectures) x).mp hx)
  · exact optimizedFieldSpec_intro 0 _ _ _ _ (optM_unsupported_arguments m) (optI_unsupported_arguments m)
      (fun x hx => (map_mem_iff_of_iff (fun a => mem_optimize_installers m a) (·.unsupported_arguments) x).mp hx)
  · exact optimizedFieldSpec_intro [] _ _ _ _ (optM_apps_and_features_entries m) (optI_apps_and_features_entries m)
      (fun x hx => (map_mem_iff_of_iff (fun a => mem_optimize_installers m a) (·.apps_and_features_entries) x).mp hx)
  · exact optimizedFieldSpec_intro none _ _ _ _ (optM_elevation_requirement m) (optI_elevation_requirement m)
      (fun x hx => (map_mem_iff_of_iff (fun a => mem_optimize_installers m a) (·.elevation_requirement) x).mp hx)
  · exact optimizedFieldSpec_intro (⟨none, []⟩ : InstallationMetadata) _ _ _ _ (optM_installation_metadata m) (optI_installation_metadata m)
      (fun x hx => (map_mem_iff_of_iff (fun a => mem_optimize_installers m a) (·.installation_metadata) x).mp hx)
  · exact optimizedFieldSpec_intro false _ _ _ _ (optM_download_command_prohibited m) (optI_download_command_prohibited m)
      (fun x hx => (map_mem_iff_of_iff (fun a => mem_optimize_installers m a) (·.download_command_prohibited) x).mp hx)
  · exact optimizedFieldSpec_intro none _ _ _ _ (optM_repair_behavior m) (optI_repair_behavior m)
      (fun x hx => (map_mem_iff_of_iff (fun a => mem_optimize_installers m a) (·.repair_behavior) x).mp hx)
  · exact optimizedFieldSpec_intro false _ _ _ _ (optM_archive_binaries_depend_on_path m) (optI_archive_binaries_depend_on_path m)
      (fun x hx => (map_mem_iff_of_iff (fun a => mem_optimize_installers m a) (·.archive_binaries_depend_on_path) x).mp hx)


/-- C9: a manifest without installers has every manifest-level optimized
field reset to its type default by `optimize` - the empty list is never
all-equal, so no hoist fires and every field takes the reset branch. -/
theorem optimize_empty_installers_resets (m : InstallerManifest)
    (h : m.installers = []) :
    (m.optimize).locale = none
        ∧ (m.optimize).platform = 0
        ∧ (m.optimize).minimum_os_version = none
        ∧ (m.optimize).type = none
        ∧ (m.optimize).nested_installer_type = none
        ∧ (m.optimize).nested_installer_files = []
        ∧ (m.optimize).scope = none
        ∧ (m.optimize).install_modes = 0
        ∧ (m.optimize).switches.silent = none
        ∧ (m.optimize).switches.silent_with_progress = none
        ∧ (m.optimize).switches.interactive = none
        ∧ (m.optimize).switches.install_location = none
        ∧ (m.optimize).switches.log = none
        ∧ (m.optimize).switches.upgrade = none
        ∧ (m.optimize).switches.repair = none
        ∧ (m.optimize).success_codes = []
        ∧ (m.optimize).expected_return_codes = []
        ∧ (m.optimize).upgrade_behavior = none
        ∧ (m.optimize).commands = []
        ∧ (m.optimize).protocols = []
        ∧ (m.optimize).file_extensions = []
        ∧ (m.optimize).dependencies.windows_features = []
        ∧ (m.optimize).dependencies.windows_libraries = []
        ∧ (m.optimize).dependencies.package = []
        ∧ (m.optimize).dependencies.external = []
        ∧ (m.optimize).package_family_name = none
        ∧ (m.optimize).product_code = none
        ∧ (m.optimize).capabilities = []
        ∧ (m.optimize).restricted_capabilities = []
        ∧ (m.optimize).markets = none
        ∧ (m.optimize).aborts_terminal = false
        ∧ (m.optimize).release_date = none
        ∧ (m.optimize).install_location_required = false
        ∧ (m.optimize).require_explicit_upgrade = false
        ∧ (m.optimize).display_install_warnings = false
        ∧ (m.optimize).unsupported_os_architectures = 0
        ∧ (m.optimize).unsupported_arguments = 0
        ∧ (m.optimize).apps_and_features_entries = []
        ∧ (m.optimize).elevation_requirement = none
        ∧ (m.optimize).installation_metadata = (⟨none, []⟩ : InstallationMetadata)
        ∧ (m.optimize).download_command_prohibited = false
        ∧ (m.optimize).repair_behavior = none
        ∧ (m.optimize).archive_binaries_depend_on_path = false
        ∧ (m.optimize).installers = [] := by
  refine ⟨?_, ?_, ?_, ?_, ?_, ?_, ?_, ?_, ?_, ?_, ?_, ?_, ?_, ?_, ?_, ?_, ?_, ?_, ?_, ?_, ?_, ?_, ?_, ?_, ?_, ?_, ?_, ?_, ?_, ?_, ?_, ?_, ?_, ?_, ?_, ?_, ?_, ?_, ?_, ?_, ?_, ?_, ?_, ?_⟩
  · rw [optM_locale, h]
    rfl
  · rw [optM_platform, h]
    rfl
  · rw [optM_minimum_os_version, h]
    rfl
  · rw [optM_type, h]
    rfl
  · rw [optM_nested_installer_type, h]
    rfl
  · rw [optM_nested_installer_files, h]
    rfl
  · rw [optM_scope, h]
    rfl
  · rw [optM_install_modes, h]
    rfl
  · rw [optM_switches_silent, h]
    rfl
  · rw [optM_switches_silent_with_progress, h]
    rfl
  · rw [optM_switches_interactive, h]
    rfl
  · rw [optM_switches_install_location, h]
    rfl
  · rw [optM_switches_log, h]
    rfl
  · rw [optM_switches_upgrade, h]
    rfl
  · rw [optM_switches_repair, h]
    rfl
  · rw [optM_success_codes, h]
    rfl
  · rw [optM_expected_return_codes, h]
    rfl
  · rw [optM_upgrade_behavior, h]
    rfl
  · rw [optM_commands, h]
    rfl
  · rw [optM_protocols, h]
    rfl
  · rw [optM_file_extensions, h]
    rfl
  · rw [optM_dependencies_windows_features, h]
    rfl
  · rw [optM_dependencies_windows_libraries, h]
    rfl
  · rw [optM_dependencies_package, h]
    rfl
  · rw [optM_dependencies_external, h]
    rfl
  · rw [optM_package_family_name, h]
    rfl
  · rw [optM_product_code, h]
    rfl
  · rw [optM_capabilities, h]
    rfl
  · rw [optM_restricted_capabilities, h]
    rfl
  · rw [optM_markets, h]
    rfl
  · rw [optM_aborts_terminal, h]
    rfl
  · rw [optM_release_date, h]
    rfl
  · rw [optM_install_location_required, h]
    rfl
  · rw [optM_require_explicit_upgrade, h]
    rfl
  · rw [optM_display_install_warnings, h]
    rfl
  · rw [optM_unsupported_os_architectures, h]
    rfl
  · rw [optM_unsupported_arguments, h]
    rfl
  · rw [optM_apps_and_features_entries, h]
    rfl
  · rw [optM_elevation_requirement, h]
    rfl
  · rw [optM_installation_metadata, h]
    rfl
  · rw [optM_download_command_prohibited, h]
    rfl
  · rw [optM_repair_behavior, h]
    rfl
  · rw [optM_archive_binaries_depend_on_path, h]
    rfl
  · have h0 : (m.optimizeFields).installers.map (·.locale) = [] := by
      rw [optI_locale m, h]
      simp
    have h1 : (m.optimizeFields).installers = [] := List.map_eq_nil_iff.mp h0
    rw [optimize_spec, h1]
    rfl


/-- Witness for C9: the concrete manifest `emptyInstallersManifest` has no
installers, and `optimize` resets all of its manifest-level optimized
fields. -/
theorem optimize_empty_installers_witness :
    emptyInstallersManifest.installers = []
      ∧ ((emptyInstallersManifest.optimize).locale = none
        ∧ (emptyInstallersManifest.optimize).platform = 0
        ∧ (emptyInstallersManifest.optimize).minimum_os_version = none
        ∧ (emptyInstallersManifest.optimize).type = none
        ∧ (emptyInstallersManifest.optimize).nested_installer_type = none
        ∧ (emptyInstallersManifest.optimize).nested_installer_files = []
        ∧ (emptyInstallersManifest.optimize).scope = none
        ∧ (emptyInstallersManifest.optimize).install_modes = 0
        ∧ (emptyInstallersManifest.optimize).switches.silent = none
        ∧ (emptyInstallersManifest.optimize).switches.silent_with_progress = none
        ∧ (emptyInstallersManifest.optimize).switches.interactive = none
        ∧ (emptyInstallersManifest.optimize).switches.install_location = none
        ∧ (emptyInstallersManifest.optimize).switches.log = none
        ∧ (emptyInstallersManifest.optimize).switches.upgrade = none
        ∧ (emptyInstallersManifest.optimize).switches.repair = none
        ∧ (emptyInstallersManifest.optimize).success_codes = []
        ∧ (emptyInstallersManifest.optimize).expected_return_codes = []
        ∧ (emptyInstallersManifest.optimize).upgrade_behavior = none
        ∧ (emptyInstallersManifest.optimize).commands = []
        ∧ (emptyInstallersManifest.optimize).protocols = []
        ∧ (emptyInstallersManifest.optimize).file_extensions = []
        ∧ (emptyInstallersManifest.optimize).dependencies.windows_features = []
        ∧ (emptyInstallersManifest.optimize).dependencies.windows_libraries = []
        ∧ (emptyInstallersManifest.optimize).dependencies.package = []
        ∧ (emptyInstallersManifest.optimize).dependencies.external = []
        ∧ (emptyInstallersManifest.optimize).package_family_name = none
        ∧ (emptyInstallersManifest.optimize).product_code = none
        ∧ (emptyInstallersManifest.optimize).capabilities = []
        ∧ (emptyInstallersManifest.optimize).restricted_capabilities = []
        ∧ (emptyInstallersManifest.optimize).markets = none
        ∧ (emptyInstallersManifest.optimize).aborts_terminal = false
        ∧ (emptyInstallersManifest.optimize).release_date = none
        ∧ (emptyInstallersManifest.optimize).install_location_required = false
        ∧ (emptyInstallersManifest.optimize).require_explicit_upgrade = false
        ∧ (emptyInstallersManifest.optimize).display_install_warnings = false
        ∧ (emptyInstallersManifest.optimize).unsupported_os_architectures = 0
        ∧ (emptyInstallersManifest.optimize).unsupported_arguments = 0
        ∧ (emptyInstallersManifest.optimize).apps_and_features_entries = []
        ∧ (emptyInstallersManifest.optimize).elevation_requirement = none
        ∧ (emptyInstallersManifest.optimize).installation_metadata = (⟨none, []⟩ : InstallationMetadata)
        ∧ (emptyInstallersManifest.optimize).download_command_prohibited = false
        ∧ (emptyInstallersManifest.optimize).repair_behavior = none
        ∧ (emptyInstallersManifest.optimize).archive_binaries_depend_on_path = false
        ∧ (emptyInstallersManifest.optimize).installers = []) :=
  ⟨rfl, optimize_empty_installers_resets emptyInstallersManifest rfl⟩


/-! ## `closest`-claim theorems -/

/-- C2 counterexample: against `3.3.3`, the candidates `1.1.1` and `5.5.5`
tie on length score and numerical difference; the candidate whose differing
part is less (`1.1.1`) gets total order `Greater` and the greater candidate
(`5.5.5`) gets `Less`, so `closest` prefers the greater candidate - the
claim has the preference backwards. -/
theorem closest_tiebreak_prefers_greater_cex :
    ((Version.new "3.3.3").distanceKey (Version.new "1.1.1")).length_score
        = ((Version.new "3.3.3").distanceKey (Version.new "5.5.5")).length_score
      ∧ ((Version.new "3.3.3").distanceKey (Version.new "1.1.1")).numerical_difference
        = ((Version.new "3.3.3").distanceKey (Version.new "5.5.5")).numerical_difference
      ∧ ((Version.new "3.3.3").distanceKey (Version.new "1.1.1")).total_order = .gt
      ∧ ((Version.new "3.3.3").distanceKey (Version.new "5.5.5")).total_order = .lt
      ∧ (Version.new "3.3.3").closest [Version.new "1.1.1", Version.new "5.5.5"]
          = some (Version.new "5.5.5")
      ∧ (Version.new "3.3.3").closest [Version.new "5.5.5", Version.new "1.1.1"]
          = some (Version.new "5.5.5") := by
  decide

/-- C2 (amended): among candidates tying on length score and numerical
difference, the third key component prefers the candidate whose differing
part is greater than `self`'s part (total order `Less`, since the key
compares `self`'s part against the candidate's) over one whose part is less
(total order `Greater`), in either presentation order. -/
theorem closest_tiebreak_total_order_amended (s a b : Version)
    (hL : (s.distanceKey a).length_score = (s.distanceKey b).length_score)
    (hN : (s.distanceKey a).numerical_difference
        = (s.distanceKey b).numerical_difference)
    (hA : (s.distanceKey a).total_order = .lt)
    (hB : (s.distanceKey b).total_order = .gt) :
    s.closest [a, b] = some a ∧ s.closest [b, a] = some a := by
  have key_ab : DistanceKey.keyCompare (s.distanceKey a) (s.distanceKey b) = .lt := by
    unfold DistanceKey.keyCompare
    rw [hL, hN, hA, hB]
    simp [natCompare_self, ordRank, natCompare]
  have key_ba : DistanceKey.keyCompare (s.distanceKey b) (s.distanceKey a) = .gt := by
    unfold DistanceKey.keyCompare
    rw [hL, hN, hA, hB]
    simp [natCompare_self, ordRank, natCompare]
  constructor
  · simp only [Version.closest, Version.minByKey, List.foldl]
    simp [key_ba]
  · simp only [Version.closest, Version.minByKey, List.foldl]
    simp [key_ab]

/-- Witness for C2 (amended), on the counterexample versions: `5.5.5` (part
greater than self's, total order `Less`) is preferred over `1.1.1`. -/
theorem closest_tiebreak_total_order_witness :
    ((Version.new "3.3.3").distanceKey (Version.new "5.5.5")).length_score
        = ((Version.new "3.3.3").distanceKey (Version.new "1.1.1")).length_score
      ∧ ((Version.new "3.3.3").distanceKey (Version.new "5.5.5")).numerical_difference
        = ((Version.new "3.3.3").distanceKey (Version.new "1.1.1")).numerical_difference
      ∧ ((Version.new "3.3.3").distanceKey (Version.new "5.5.5")).total_order = .lt
      ∧ ((Version.new "3.3.3").distanceKey (Version.new "1.1.1")).total_order = .gt
      ∧ ((Version.new "3.3.3").closest [Version.new "5.5.5", Version.new "1.1.1"]
            = some (Version.new "5.5.5")
          ∧ (Version.new "3.3.3").closest [Version.new "1.1.1", Version.new "5.5.5"]
            = some (Version.new "5.5.5")) :=
  ⟨by decide, by decide, by decide, by decide,
    closest_tiebreak_total_order_amended (Version.new "3.3.3")
      (Version.new "5.5.5") (Version.new "1.1.1")
      (by decide) (by decide) (by decide) (by decide)⟩

/-- C8: the five seed scenarios of `Version::closest` from the spec. -/
theorem closest_seed_scenarios :
    (Version.new "1.2.3").closest
        (["1.0.0", "0.9.0", "1.5.6.3", "1.3.2"].map Version.new)
      = some (Version.new "1.3.2")
      ∧ (Version.new "5.5.5").closest (["5.5.50", "5.5.0", "5.5.10"].map Version.new)
        = some (Version.new "5.5.10")
      ∧ (Version.new "3.0.0").closest
          (["3.0.0-beta", "3.0.0-alpha.1", "3.0.0-rc.1"].map Version.new)
        = some (Version.new "3.0.0-rc.1")
      ∧ (Version.new "0.0.2").closest (["0.0.1", "0.0.3", "0.2.0"].map Version.new)
        = some (Version.new "0.0.3")
      ∧ (Version.new "999.999.999").closest
          (["999.999.998", "1000.0.0"].map Version.new)
        = some (Version.new "999.999.998") := by
  decide

/-! ## `PackageVersion`-claim support -/

/-- A string has no bytes exactly when it has no characters. -/
theorem string_isEmpty_iff_data (s : String) : s.isEmpty = true ↔ s.data = [] := by
  simp [String.isEmpty_iff, String.ext_iff]

/-- The character count of the empty tail. -/
theorem countValidChars_nil (n : Nat) : PackageVersion.countValidChars n [] = .ok n := rfl

/-- One step of the validating character count. -/
theorem countValidChars_cons (n : Nat) (c : Char) (cs : List Char) :
    PackageVersion.countValidChars n (c :: cs) =
      if (DISALLOWED_CHARACTERS.contains c || isControlChar c) = true
      then .error (PackageVersionError.invalidCharacter c)
      else PackageVersion.countValidChars (n + 1) cs := by
  by_cases h : (DISALLOWED_CHARACTERS.contains c || isControlChar c) = true
  · rw [if_pos h]
    simp only [PackageVersion.countValidChars, List.foldlM]
    rw [if_pos h]
    rfl
  · rw [if_neg h]
    simp only [PackageVersion.countValidChars, List.foldlM]
    rw [if_neg h]
    rfl

/-- With no disallowed or control character, the count succeeds and adds the
number of characters. -/
theorem countValidChars_ok_of_all_good (cs : List Char) :
    ∀ n, (∀ c ∈ cs, (DISALLOWED_CHARACTERS.contains c || isControlChar c) = false) →
      PackageVersion.countValidChars n cs = .ok (n + cs.length) := by
  induction cs with
  | nil => intro n _; rfl
  | cons c cs ih =>
    intro n h
    rw [countValidChars_cons,
      if_neg (Bool.eq_false_iff.mp (h c (List.mem_cons_self c cs))),
      ih (n + 1) (fun x hx => h x (List.mem_cons_of_mem c hx))]
    have e : n + 1 + cs.length = n + (c :: cs).length := by
      rw [List.length_cons]; omega
    rw [e]

/-- A failing count fails with `InvalidCharacter` at a disallowed or control
character of the input. -/
theorem countValidChars_error_inv (cs : List Char) :
    ∀ n e, PackageVersion.countValidChars n cs = .error e →
      ∃ c, e = PackageVersionError.invalidCharacter c ∧ c ∈ cs
        ∧ (DISALLOWED_CHARACTERS.contains c || isControlChar c) = true := by
  induction cs with
  | nil => intro n e h; exact Except.noConfusion h
  | cons c cs ih =>
    intro n e h
    rw [countValidChars_cons] at h
    by_cases hc : (DISALLOWED_CHARACTERS.contains c || isControlChar c) = true
    · rw [if_pos hc] at h
      injection h with h2
      exact ⟨c, h2.symm, List.mem_cons_self c cs, hc⟩
    · rw [if_neg hc] at h
      rcases ih (n + 1) e h with ⟨c', he, hm, hb⟩
      exact ⟨c', he, List.mem_cons_of_mem c hm, hb⟩

/-- A succeeding count means every character was allowed, and counts them all. -/
theorem countValidChars_ok_inv (cs : List Char) :
    ∀ n k, PackageVersion.countValidChars n cs = .ok k →
      (∀ c ∈ cs, (DISALLOWED_CHARACTERS.contains c || isControlChar c) = false)
        ∧ k = n + cs.length := by
  induction cs with
  | nil =>
    intro n k h
    injection h with h2
    refine ⟨fun c hc => absurd hc (List.not_mem_nil c), ?_⟩
    rw [List.length_nil]
    omega
  | cons c cs ih =>
    intro n k h
    rw [countValidChars_cons] at h
    by_cases hc : (DISALLOWED_CHARACTERS.contains c || isControlChar c) = true
    · rw [if_pos hc] at h
      exact Except.noConfusion h
    · rw [if_neg hc] at h
      rcases ih (n + 1) k h with ⟨hall, hk⟩
      refine ⟨?_, ?_⟩
      · intro x hx
        rcases List.mem_cons.mp hx with rfl | hx'
        · exact Bool.eq_false_iff.mpr hc
        · exact hall x hx'
      · rw [hk, List.length_cons]
        omega

/-- C7: the full behaviour of `PackageVersion::new` - `Empty` exactly on the
empty string; `InvalidCharacter` exactly when a disallowed or control
character occurs (and the reported character is such a character of the
input); `TooLong` exactly when all characters are allowed but more than 128
of them occur; otherwise the result wraps `Version::new` of the input. -/
theorem package_version_new_spec (s : String) :
    (PackageVersion.new s = Except.error PackageVersionError.empty ↔ s.data = [])
      ∧ ((∃ c, PackageVersion.new s = Except.error (PackageVersionError.invalidCharacter c)
            ∧ c ∈ s.data ∧ (DISALLOWED_CHARACTERS.contains c || isControlChar c) = true)
          ↔ ∃ c ∈ s.data, (DISALLOWED_CHARACTERS.contains c || isControlChar c) = true)
      ∧ (PackageVersion.new s = Except.error PackageVersionError.tooLong
          ↔ s.data ≠ []
            ∧ (∀ c ∈ s.data, (DISALLOWED_CHARACTERS.contains c || isControlChar c) = false)
            ∧ s.data.length > PackageVersion.MAX_CHAR_LENGTH)
      ∧ (PackageVersion.new s = Except.ok ⟨Version.new s⟩
          ↔ s.data ≠ []
            ∧ (∀ c ∈ s.data, (DISALLOWED_CHARACTERS.contains c || isControlChar c) = false)
            ∧ s.data.length ≤ PackageVersion.MAX_CHAR_LENGTH) := by
  by_cases hemp : s.data = []
  · have hs : s = "" := by
      cases s with
      | mk d => simp only at hemp; rw [hemp]
    subst hs
    have hval : PackageVersion.new "" = Except.error PackageVersionError.empty := rfl
    refine ⟨?_, ?_, ?_, ?_⟩
    · rw [hval]; simp
    · rw [hval]
      constructor
      · rintro ⟨c, hc', -, -⟩; exact absurd hc' (by simp)
      · rintro ⟨c, hcm, -⟩; exact absurd hcm (List.not_mem_nil c)
    · rw [hval]
      constructor
      · intro hcontra; exact absurd hcontra (by simp)
      · rintro ⟨hne, -, -⟩; exact absurd rfl hne
    · rw [hval]
      constructor
      · intro hcontra; exact Except.noConfusion hcontra
      · rintro ⟨hne, -, -⟩; exact absurd rfl hne
  · have hE : s.isEmpty = false := by
      cases hh : s.isEmpty
      · rfl
      · exact absurd ((string_isEmpty_iff_data s).mp hh) hemp
    cases hres : PackageVersion.countValidChars 0 s.data with
    | error e =>
      rcases countValidChars_error_inv s.data 0 e hres with ⟨c, rfl, hcm, hcb⟩
      have hval : PackageVersion.new s
          = Except.error (PackageVersionError.invalidCharacter c) := by
        simp only [PackageVersion.new, hE, Bool.false_eq_true, if_false, hres]
      refine ⟨?_, ?_, ?_, ?_⟩
      · rw [hval]; simp [hemp]
      · rw [hval]
        constructor
        · intro _; exact ⟨c, hcm, hcb⟩
        · intro _; exact ⟨c, rfl, hcm, hcb⟩
      · rw [hval]
        constructor
        · intro hcontra; exact absurd hcontra (by simp)
        · rintro ⟨-, hall, -⟩
          rw [hall c hcm] at hcb
          exact Bool.noConfusion hcb
      · rw [hval]
        constructor
        · intro hcontra; exact Except.noConfusion hcontra
        · rintro ⟨-, hall, -⟩
          rw [hall c hcm] at hcb
          exact Bool.noConfusion hcb
    | ok k =>
      rcases countValidChars_ok_inv s.data 0 k hres with ⟨hall, hk⟩
      by_cases hlen : k > PackageVersion.MAX_CHAR_LENGTH
      · have hval : PackageVersion.new s = Except.error PackageVersionError.tooLong := by
          simp only [PackageVersion.new, hE, Bool.false_eq_true, if_false, hres]
          rw [if_pos hlen]
        refine ⟨?_, ?_, ?_, ?_⟩
        · rw [hval]; simp [hemp]
        · rw [hval]
          constructor
          · rintro ⟨c', hc', -, -⟩; exact absurd hc' (by simp)
          · rintro ⟨c', hcm', hcb'⟩
            rw [hall c' hcm'] at hcb'
            exact Bool.noConfusion hcb'
        · rw [hval]
          constructor
          · intro _; exact ⟨hemp, hall, by omega⟩
          · intro _; rfl
        · rw [hval]
          constructor
          · intro hcontra; exact Except.noConfusion hcontra
          · rintro ⟨-, -, hle⟩
            exfalso
            omega
      · have hval : PackageVersion.new s = Except.ok ⟨Version.new s⟩ := by
          simp only [PackageVersion.new, hE, Bool.false_eq_true, if_false, hres]
          rw [if_neg hlen]
        refine ⟨?_, ?_, ?_, ?_⟩
        · rw [hval]; simp [hemp]
        · rw [hval]
          constructor
          · rintro ⟨c', hc', -, -⟩; exact Except.noConfusion hc'
          · rintro ⟨c', hcm', hcb'⟩
            rw [hall c' hcm'] at hcb'
            exact Bool.noConfusion hcb'
        · rw [hval]
          constructor
          · intro hcontra; exact Except.noConfusion hcontra
          · rintro ⟨-, -, hgt⟩
            exfalso
            omega
        · rw [hval]
          constructor
          · intro _; exact ⟨hemp, hall, by omega⟩
          · intro _; rfl

/-! ## `Version`-order claim support -/

/-- An `Ordering.then` chain is `Equal` iff both links are. -/
theorem then_eq_eq_iff (o p : Ordering) : o.then p = .eq ↔ o = .eq ∧ p = .eq := by
  cases o <;> simp [Ordering.then]

/-- `natCompare` is `Equal` exactly on equal numbers. -/
theorem natCompare_eq_iff (a b : Nat) : natCompare a b = .eq ↔ a = b := by
  unfold natCompare
  by_cases h1 : a < b
  · rw [if_pos h1]
    simp
    omega
  · rw [if_neg h1]
    by_cases h2 : a = b
    · rw [if_pos h2]
      simp [h2]
    · rw [if_neg h2]
      simp [h2]

/-- Characters with the same scalar value are the same character. -/
theorem charToNat_inj (a b : Char) (h : a.toNat = b.toNat) : a = b :=
  Char.ext (UInt32.ext h)

/-- `listCharCompare` is `Equal` exactly on equal character lists. -/
theorem listCharCompare_eq_iff (xs : List Char) :
    ∀ ys, listCharCompare xs ys = .eq ↔ xs = ys := by
  induction xs with
  | nil =>
    intro ys
    cases ys <;> simp [listCharCompare]
  | cons a as ih =>
    intro ys
    cases ys with
    | nil => simp [listCharCompare]
    | cons b bs =>
      rw [show listCharCompare (a :: as) (b :: bs)
          = (natCompare a.toNat b.toNat).then (listCharCompare as bs) from rfl,
        then_eq_eq_iff, natCompare_eq_iff, ih bs]
      constructor
      · rintro ⟨h1, h2⟩
        rw [charToNat_inj a b h1, h2]
      · intro h
        injection h with h1 h2
        exact ⟨by rw [h1], by rw [h2]⟩

/-- `strCompare` is `Equal` exactly on equal strings. -/
theorem strCompare_eq_iff (s t : String) : strCompare s t = .eq ↔ s = t := by
  rw [show strCompare s t = listCharCompare s.data t.data from rfl,
    listCharCompare_eq_iff, String.ext_iff]

/-- The supplement comparison is `Equal` exactly on equal supplements. -/
theorem suppCompare_eq_iff (s t : String) :
    VersionPart.suppCompare s t = .eq ↔ s = t := by
  unfold VersionPart.suppCompare
  by_cases hs : s = ""
  · rw [if_pos hs]
    by_cases ht : t = ""
    · rw [if_pos ht]
      simp [hs, ht]
    · rw [if_neg ht]
      simp [hs, Ne.symm ht]
  · rw [if_neg hs]
    by_cases ht : t = ""
    · rw [if_pos ht]
      simp [hs, ht]
    · rw [if_neg ht]
      exact strCompare_eq_iff s t

/-- `VersionPart` comparison is `Equal` exactly on equal parts. -/
theorem partCmp_eq_iff (a b : VersionPart) : VersionPart.cmp a b = .eq ↔ a = b := by
  rw [show VersionPart.cmp a b
      = (natCompare a.number b.number).then
          (VersionPart.suppCompare a.supplement b.supplement) from rfl,
    then_eq_eq_iff, natCompare_eq_iff, suppCompare_eq_iff]
  constructor
  · rintro ⟨h1, h2⟩
    cases a
    cases b
    simp only at h1 h2
    rw [h1, h2]
  · rintro rfl
    exact ⟨rfl, rfl⟩

/-- The left-only comparison tail is `Equal` iff every remaining part is the
default part. -/
theorem cmpLeftOnly_eq_iff (ps : List VersionPart) :
    Version.cmpLeftOnly ps = .eq ↔ ∀ p ∈ ps, p = VersionPart.DEFAULT := by
  induction ps with
  | nil => simp [Version.cmpLeftOnly]
  | cons p ps ih =>
    rw [show Version.cmpLeftOnly (p :: ps)
        = (VersionPart.cmp p VersionPart.DEFAULT).then (Version.cmpLeftOnly ps) from rfl,
      then_eq_eq_iff, partCmp_eq_iff, ih]
    simp

/-- The right-only comparison tail is `Equal` iff every remaining part is the
default part. -/
theorem cmpRightOnly_eq_iff (qs : List VersionPart) :
    Version.cmpRightOnly qs = .eq ↔ ∀ q ∈ qs, q = VersionPart.DEFAULT := by
  induction qs with
  | nil => simp [Version.cmpRightOnly]
  | cons q qs ih =>
    rw [show Version.cmpRightOnly (q :: qs)
        = (VersionPart.cmp VersionPart.DEFAULT q).then (Version.cmpRightOnly qs) from rfl,
      then_eq_eq_iff, partCmp_eq_iff, ih]
    constructor
    · rintro ⟨h1, h2⟩
      intro x hx
      rcases List.mem_cons.mp hx with rfl | hx'
      · exact h1.symm
      · exact h2 x hx'
    · intro h
      exact ⟨(h q (List.mem_cons_self q qs)).symm,
        fun x hx => h x (List.mem_cons_of_mem q hx)⟩

/-- The head surviving a `dropWhile` does not satisfy the predicate. -/
theorem dropWhile_head_not {α : Type} (p : α → Bool) :
    ∀ (l : List α) (x : α), (l.dropWhile p).head? = some x → p x = false := by
  intro l
  induction l with
  | nil => intro x h; exact Option.noConfusion h
  | cons a l ih =>
    intro x h
    rw [List.dropWhile_cons] at h
    by_cases ha : p a = true
    · rw [if_pos ha] at h
      exact ih x h
    · rw [if_neg ha] at h
      injection h with h2
      rw [← h2]
      exact Bool.eq_false_iff.mpr ha

/-- The last part surviving the droppable-suffix truncation is not droppable. -/
theorem trunc_getLast (l : List VersionPart) :
    ∀ x, ((l.reverse.dropWhile VersionPart.is_droppable).reverse).getLast? = some x →
      VersionPart.is_droppable x = false := by
  intro x h
  rw [List.getLast?_reverse] at h
  exact dropWhile_head_not VersionPart.is_droppable _ x h

/-- The parts of a parsed `Version` never end in a droppable part. -/
theorem newParts_last (s : String) :
    ∀ x, (Version.new s).parts.getLast? = some x →
      VersionPart.is_droppable x = false := by
  simp only [Version.new]
  exact fun x h => trunc_getLast _ x h

/-- A list whose last element is not droppable but whose elements are all the
(droppable) default part is empty. -/
theorem trunc_nil_of_all_default (qs : List VersionPart)
    (hlast : ∀ x, qs.getLast? = some x → VersionPart.is_droppable x = false)
    (hall : ∀ q ∈ qs, q = VersionPart.DEFAULT) : qs = [] := by
  by_contra hne
  have h1 : qs.getLast? = some (qs.getLast hne) := List.getLast?_eq_getLast qs hne
  have h2 := hlast _ h1
  have h3 := hall _ (List.getLast_mem hne)
  rw [h3] at h2
  exact Bool.noConfusion h2

/-- On part lists that do not end in droppable parts (as `Version::new`
produces), the padded comparison is `Equal` exactly on equal lists. -/
theorem cmpPartsPadded_eq_iff (ps : List VersionPart) :
    ∀ qs, (∀ x, ps.getLast? = some x → VersionPart.is_droppable x = false) →
      (∀ x, qs.getLast? = some x → VersionPart.is_droppable x = false) →
      (Version.cmpPartsPadded ps qs = .eq ↔ ps = qs) := by
  induction ps with
  | nil =>
    intro qs hp hq
    cases qs with
    | nil =>
      constructor
      · intro _
        rfl
      · intro _
        rfl
    | cons q qs' =>
      constructor
      · intro h
        have h' : Version.cmpRightOnly (q :: qs') = .eq := h
        have hall := (cmpRightOnly_eq_iff (q :: qs')).mp h'
        exact (trunc_nil_of_all_default (q :: qs') hq hall).symm
      · intro h
        exact absurd h.symm (List.cons_ne_nil q qs')
  | cons p ps ih =>
    intro qs hp hq
    cases qs with
    | nil =>
      constructor
      · intro h
        have hall : ∀ x ∈ p :: ps, x = VersionPart.DEFAULT :=
          (cmpLeftOnly_eq_iff (p :: ps)).mp h
        exact trunc_nil_of_all_default (p :: ps) hp hall
      · intro h
        exact absurd h (List.cons_ne_nil p ps)
    | cons q qs' =>
      have hp' : ∀ x, ps.getLast? = some x → VersionPart.is_droppable x = false := by
        intro x hx
        cases ps with
        | nil => exact absurd hx (by simp)
        | cons a l => exact hp x (by rw [List.getLast?_cons_cons]; exact hx)
      have hq' : ∀ x, qs'.getLast? = some x → VersionPart.is_droppable x = false := by
        intro x hx
        cases qs' with
        | nil => exact absurd hx (by simp)
        | cons a l => exact hq x (by rw [List.getLast?_cons_cons]; exact hx)
      rw [show Version.cmpPartsPadded (p :: ps) (q :: qs')
          = (VersionPart.cmp p q).then (Version.cmpPartsPadded ps qs') from rfl,
        then_eq_eq_iff, partCmp_eq_iff, ih qs' hp' hq']
      constructor
      · rintro ⟨h1, h2⟩
        rw [h1, h2]
      · intro h
        injection h with h1 h2
        exact ⟨h1, h2⟩

/-- Case-insensitively equal strings have the same number of characters. -/
theorem eqIgnoreAsciiCase_length {a b : String} (h : eqIgnoreAsciiCase a b = true) :
    a.data.length = b.data.length := by
  unfold eqIgnoreAsciiCase at h
  have h1 : a.data.map asciiLowerChar = b.data.map asciiLowerChar := eq_of_beq h
  have h2 : (a.data.map asciiLowerChar).length = (b.data.map asciiLowerChar).length := by
    rw [h1]
  simpa using h2

/-- The `latest` sentinel is never also the `unknown` sentinel. -/
theorem latest_not_unknown (v : Version) :
    v.is_latest = true → v.is_unknown = false := by
  intro hl
  cases hu : v.is_unknown
  · rfl
  · exfalso
    have h1 := eqIgnoreAsciiCase_length hl
    have h2 := eqIgnoreAsciiCase_length hu
    rw [h1] at h2
    exact absurd h2 (by decide)

/-- C4 counterexample: `Version::new("latest")` and `Version::new("latest.0")`
have equal part lists, so `PartialEq` calls them equal, but only the former is
the `latest` sentinel, so `Ord::cmp` calls the former strictly greater -
`a == b` and `a > b` hold at once, refuting the claimed trichotomy. -/
theorem version_eq_cmp_inconsistent_cex :
    Version.beq (Version.new "latest") (Version.new "latest.0") = true
      ∧ Version.cmp (Version.new "latest") (Version.new "latest.0") = .gt := by
  decide

/-- C4 (amended): `cmp` always agrees with `partial_cmp`, and equality agrees
with `cmp` - so exactly one of `a<b`, `a==b`, `a>b` holds - for every pair of
parsed versions except the degenerate sentinel pairs: versions with equal part
lists of which exactly one is a `latest` (or `unknown`) sentinel. -/
theorem version_total_order_amended (s t : String)
    (h : ¬((Version.new s).parts = (Version.new t).parts
          ∧ ((Version.new s).is_latest ≠ (Version.new t).is_latest
              ∨ (Version.new s).is_unknown ≠ (Version.new t).is_unknown))) :
    ((Version.new s).beq (Version.new t) = true
        ↔ (Version.new s).cmp (Version.new t) = .eq)
      ∧ (Version.new s).partialCmp (Version.new t)
          = some ((Version.new s).cmp (Version.new t)) := by
  refine ⟨?_, rfl⟩
  have hpa := newParts_last s
  have hpb := newParts_last t
  cases hl1 : (Version.new s).is_latest <;> cases hl2 : (Version.new t).is_latest
  case false.false =>
    cases hu1 : (Version.new s).is_unknown <;> cases hu2 : (Version.new t).is_unknown
    case false.false =>
      simp only [Version.beq, Version.cmp, hl1, hl2, hu1, hu2, Bool.false_and,
        Bool.false_or]
      rw [beq_iff_eq]
      exact (cmpPartsPadded_eq_iff (Version.new s).parts (Version.new t).parts hpa hpb).symm
    case false.true =>
      have hne : (Version.new s).parts ≠ (Version.new t).parts :=
        fun hp => h ⟨hp, Or.inr (by rw [hu1, hu2]; simp)⟩
      simp [Version.beq, Version.cmp, hl1, hl2, hu1, hu2, hne]
    case true.false =>
      have hne : (Version.new s).parts ≠ (Version.new t).parts :=
        fun hp => h ⟨hp, Or.inr (by rw [hu1, hu2]; simp)⟩
      simp [Version.beq, Version.cmp, hl1, hl2, hu1, hu2, hne]
    case true.true =>
      simp [Version.beq, Version.cmp, hl1, hl2, hu1, hu2]
  case false.true =>
    have hu2 : (Version.new t).is_unknown = false := latest_not_unknown _ hl2
    have hne : (Version.new s).parts ≠ (Version.new t).parts :=
      fun hp => h ⟨hp, Or.inl (by rw [hl1, hl2]; simp)⟩
    simp [Version.beq, Version.cmp, hl1, hl2, hu2, hne]
  case true.false =>
    have hu1 : (Version.new s).is_unknown = false := latest_not_unknown _ hl1
    have hne : (Version.new s).parts ≠ (Version.new t).parts :=
      fun hp => h ⟨hp, Or.inl (by rw [hl1, hl2]; simp)⟩
    simp [Version.beq, Version.cmp, hl1, hl2, hu1, hne]
  case true.true =>
    simp [Version.beq, Version.cmp, hl1, hl2]

/-- Witness for C4 (amended): the versions `1.2.3` and `1.2.4` are not a
degenerate sentinel pair, they are unequal, and `cmp` orders them. -/
theorem version_total_order_witness :
    (¬((Version.new "1.2.3").parts = (Version.new "1.2.4").parts
        ∧ ((Version.new "1.2.3").is_latest ≠ (Version.new "1.2.4").is_latest
            ∨ (Version.new "1.2.3").is_unknown ≠ (Version.new "1.2.4").is_unknown)))
      ∧ (((Version.new "1.2.3").beq (Version.new "1.2.4") = true
            ↔ (Version.new "1.2.3").cmp (Version.new "1.2.4") = .eq)
          ∧ (Version.new "1.2.3").partialCmp (Version.new "1.2.4")
              = some ((Version.new "1.2.3").cmp (Version.new "1.2.4"))) :=
  ⟨by decide, version_total_order_amended "1.2.3" "1.2.4" (by decide)⟩

end Winget
